import Mathlib

/-!
Shallow embedding of the elaris NES emulator core (Rust) into Lean 4.

Conventions used throughout:
* Machine integers (`u8`, `u16`, `u32`, `usize`) are modelled as `Nat`; wrapping
  arithmetic is made explicit with `% 256` / `% 65536` (`u8`, `u16` below) at the
  places where the Rust types force a wrap.  Signed `i16` (the PPU scanline) is `Int`.
* Rust byte arrays (`[u8; N]`) and `Vec<u8>` are modelled as functions `Nat → Nat`
  (plus an explicit length where the source consults `.len()`), with pointwise update.
* `&mut self` methods become state-passing functions returning the new state
  (together with the read value where the Rust method returns one).
* The APU's floating-point resampler (`sample_phase: f64`, the `f32` mixer output
  buffer) is modelled with exact rationals `ℚ`; no claim in this development depends
  on the sampled values, only on the integer channel/frame-counter state, which the
  rational model advances through exactly the same control flow.
* `panic!` (the unimplemented-opcode arm of `execute_opcode`) is modelled by `Option`.
-/

set_option maxRecDepth 16384
set_option maxHeartbeats 2000000

namespace Elaris

/-- Truncation to 8 bits: the value of a Rust `u8` produced by a wrapping operation. -/
def u8 (n : Nat) : Nat := n % 256

/-- Truncation to 16 bits: the value of a Rust `u16` produced by a wrapping operation. -/
def u16 (n : Nat) : Nat := n % 65536

/-- Pointwise update of a byte-array-as-function (`arr[i] = v`). -/
def setFn (f : Nat → Nat) (i v : Nat) : Nat → Nat :=
  fun j => if j = i then v else f j

/-- Rust `Vec<u8>`: contents as a function plus the length the source consults. -/
structure ByteVec where
  len : Nat
  data : Nat → Nat

/-- Indexing `v[i]` (the source never indexes out of bounds on the paths we model). -/
def ByteVec.get (v : ByteVec) (i : Nat) : Nat := v.data i

/-- Rust `v.get(i).unwrap_or(&0)` — 0 when out of bounds. -/
def ByteVec.getOr0 (v : ByteVec) (i : Nat) : Nat :=
  if i < v.len then v.data i else 0

/-- Nametable mirroring mode (src/cartridge/mapper/mod.rs). -/
inductive Mirroring where
  | Horizontal
  | Vertical
  | OneScreenLower
  | OneScreenUpper
deriving DecidableEq, Repr

/-! ## Mapper 0 (NROM), src/cartridge/mapper/mapper0.rs -/

/-- NROM state: PRG ROM, CHR ROM/RAM, fixed mirroring. -/
structure Mapper0 where
  prg_rom : ByteVec
  chr_rom : ByteVec
  mirroring : Mirroring

/-- Mapper0::read. -/
def Mapper0.read (m : Mapper0) (addr : Nat) : Nat :=
  if 0x8000 ≤ addr ∧ addr ≤ 0xFFFF then
    let a := addr - 0x8000
    let a := if m.prg_rom.len = 16 * 1024 then a % (16 * 1024) else a
    m.prg_rom.get a
  else if addr ≤ 0x1FFF then
    m.chr_rom.get addr
  else 0

/-- Mapper0::write: CHR RAM writes only (when the CHR buffer is the 8 KiB RAM size). -/
def Mapper0.write (m : Mapper0) (addr data : Nat) : Mapper0 :=
  if addr ≤ 0x1FFF then
    if m.chr_rom.len = 8 * 1024 then
      { m with chr_rom := { m.chr_rom with data := setFn m.chr_rom.data addr data } }
    else m
  else m

/-! ## Mapper 1 (MMC1), src/cartridge/mapper/mapper1.rs -/

/-- MMC1 state: 5-bit shift register, shift count, control byte, PRG bank select. -/
structure Mapper1 where
  prg_rom : ByteVec
  shift_reg : Nat
  shift_count : Nat
  control : Nat
  prg_bank : Nat

/-- Mapper1::new: control defaults to $0C (PRG mode 3). -/
def Mapper1.new (prg_rom : ByteVec) : Mapper1 :=
  { prg_rom := prg_rom, shift_reg := 0, shift_count := 0, control := 0x0C, prg_bank := 0 }

/-- Mapper1::prg_bank_mode: control bits 2–3. -/
def Mapper1.prg_bank_mode (m : Mapper1) : Nat := (m.control >>> 2) &&& 0b11

/-- Mapper1::prg_bank_count. -/
def Mapper1.prg_bank_count (m : Mapper1) : Nat := m.prg_rom.len / 0x4000

/-- Mapper1::read (PRG banking; CHR omitted in the source). -/
def Mapper1.read (m : Mapper1) (addr : Nat) : Nat :=
  if 0x8000 ≤ addr ∧ addr ≤ 0xFFFF then
    let bank_mode := m.prg_bank_mode
    let bank_count := m.prg_bank_count
    if bank_mode = 0 ∨ bank_mode = 1 then
      let bank := m.prg_bank &&& 0xFE    -- `prg_bank & !1` on u8
      let offset := addr - 0x8000
      m.prg_rom.get (bank * 0x4000 * 2 + offset)
    else if bank_mode = 2 then
      if addr < 0xC000 then m.prg_rom.get (addr - 0x8000)
      else m.prg_rom.get (m.prg_bank * 0x4000 + (addr - 0xC000))
    else if bank_mode = 3 then
      if addr < 0xC000 then m.prg_rom.get (m.prg_bank * 0x4000 + (addr - 0x8000))
      else m.prg_rom.get ((bank_count - 1) * 0x4000 + (addr - 0xC000))
    else 0
  else 0

/-- Mapper1::write: bit 7 set resets the shift register and ORs control with $0C;
otherwise bit 0 is shifted in (LSB first) and after five writes the value is latched
to the register selected by the fifth write's address (control or PRG bank only —
the CHR0/CHR1 arms are absent in the source). -/
def Mapper1.write (m : Mapper1) (addr data : Nat) : Mapper1 :=
  if data &&& 0x80 ≠ 0 then
    { m with shift_reg := 0, shift_count := 0, control := m.control ||| 0x0C }
  else
    let m := { m with shift_reg := (m.shift_reg >>> 1) ||| ((data &&& 1) <<< 4),
                      shift_count := m.shift_count + 1 }
    if m.shift_count < 5 then m
    else
      let m :=
        if 0x8000 ≤ addr ∧ addr ≤ 0x9FFF then { m with control := m.shift_reg &&& 0x1F }
        else if 0xE000 ≤ addr ∧ addr ≤ 0xFFFF then { m with prg_bank := m.shift_reg &&& 0x0F }
        else m
      { m with shift_reg := 0, shift_count := 0 }

/-- Mapper1::mirroring from control bits 0–1. -/
def Mapper1.mirroring (m : Mapper1) : Mirroring :=
  match m.control &&& 0b11 with
  | 0 => Mirroring.OneScreenLower
  | 1 => Mirroring.OneScreenUpper
  | 2 => Mirroring.Vertical
  | _ => Mirroring.Horizontal

/-! ## Mapper 4 (MMC3), src/cartridge/mapper/mapper4.rs -/

/-- MMC3 state: bank registers, mirroring, PRG RAM, IRQ counter/latch/enable. -/
structure Mapper4 where
  prg_rom : ByteVec
  chr_rom : ByteVec
  prg_ram : ByteVec
  bank_select : Nat
  regs : Nat → Nat
  mirroring : Mirroring
  prg_ram_enable : Bool
  prg_ram_write_protect : Bool
  irq_latch : Nat
  irq_counter : Nat
  irq_reload_pending : Bool
  irq_enabled : Bool
  irq_pending : Bool
  last_chr_a12 : Bool

/-- Mapper4::prg_bank_count. -/
def Mapper4.prg_bank_count (m : Mapper4) : Nat := m.prg_rom.len / 0x2000

/-- Mapper4::chr_bank_count_1k. -/
def Mapper4.chr_bank_count_1k (m : Mapper4) : Nat := m.chr_rom.len / 0x400

/-- Mapper4::chr_bank_count_2k. -/
def Mapper4.chr_bank_count_2k (m : Mapper4) : Nat := m.chr_rom.len / 0x800

/-- Mapper4::clock_irq: reload from latch when counter is 0 or reload pending, else
decrement; assert pending IRQ when the counter is 0 and IRQs are enabled. -/
def Mapper4.clock_irq (m : Mapper4) : Mapper4 :=
  let m :=
    if m.irq_counter = 0 ∨ m.irq_reload_pending then
      { m with irq_counter := m.irq_latch, irq_reload_pending := false }
    else
      { m with irq_counter := m.irq_counter - 1 }
  if m.irq_counter = 0 ∧ m.irq_enabled then { m with irq_pending := true } else m

/-- Mapper4::chr_2k_bank. -/
def Mapper4.chr_2k_bank (m : Mapper4) (reg : Nat) : Nat :=
  (m.regs reg &&& 0xFE) % (max m.chr_bank_count_2k 1)

/-- Mapper4::chr_1k_bank. -/
def Mapper4.chr_1k_bank (m : Mapper4) (reg : Nat) : Nat :=
  m.regs reg % (max m.chr_bank_count_1k 1)

/-- Mapper4::read_chr: CHR layout of two 2 KiB + four 1 KiB banks, halves swapped by
the A12-invert bit of bank_select. -/
def Mapper4.read_chr (m : Mapper4) (addr : Nat) : Nat :=
  let chr_invert := (m.bank_select &&& 0x80) ≠ 0
  if m.chr_bank_count_1k = 0 then 0
  else if ¬chr_invert then
    if addr ≤ 0x07FF then m.chr_rom.get (m.chr_2k_bank 0 * 0x800 + (addr &&& 0x7FF))
    else if addr ≤ 0x0FFF then m.chr_rom.get (m.chr_2k_bank 1 * 0x800 + (addr &&& 0x7FF))
    else if addr ≤ 0x13FF then m.chr_rom.get (m.chr_1k_bank 2 * 0x400 + (addr &&& 0x3FF))
    else if addr ≤ 0x17FF then m.chr_rom.get (m.chr_1k_bank 3 * 0x400 + (addr &&& 0x3FF))
    else if addr ≤ 0x1BFF then m.chr_rom.get (m.chr_1k_bank 4 * 0x400 + (addr &&& 0x3FF))
    else if addr ≤ 0x1FFF then m.chr_rom.get (m.chr_1k_bank 5 * 0x400 + (addr &&& 0x3FF))
    else 0
  else
    if addr ≤ 0x03FF then m.chr_rom.get (m.chr_1k_bank 2 * 0x400 + (addr &&& 0x3FF))
    else if addr ≤ 0x07FF then m.chr_rom.get (m.chr_1k_bank 3 * 0x400 + (addr &&& 0x3FF))
    else if addr ≤ 0x0BFF then m.chr_rom.get (m.chr_1k_bank 4 * 0x400 + (addr &&& 0x3FF))
    else if addr ≤ 0x0FFF then m.chr_rom.get (m.chr_1k_bank 5 * 0x400 + (addr &&& 0x3FF))
    else if addr ≤ 0x17FF then m.chr_rom.get (m.chr_2k_bank 0 * 0x800 + (addr - 0x1000))
    else if addr ≤ 0x1FFF then m.chr_rom.get (m.chr_2k_bank 1 * 0x800 + (addr - 0x1800))
    else 0

/-- Mapper4::read: CHR, PRG RAM window at $6000–$7FFF, banked PRG at $8000–$FFFF. -/
def Mapper4.read (m : Mapper4) (addr : Nat) : Nat :=
  if addr ≤ 0x1FFF then m.read_chr addr
  else if 0x6000 ≤ addr ∧ addr ≤ 0x7FFF then m.prg_ram.getOr0 (addr - 0x6000)
  else if 0x8000 ≤ addr ∧ addr ≤ 0xFFFF then
    let prg_mode := (m.bank_select &&& 0x40) ≠ 0
    let bank_count := max m.prg_bank_count 1
    let last := bank_count - 1
    let second_last := last - 1     -- `saturating_sub(1)` on Nat
    let r6 := (m.regs 6 &&& 0x3F) % bank_count
    let r7 := (m.regs 7 &&& 0x3F) % bank_count
    let bank_8000 := if ¬prg_mode then r6 else second_last
    let bank_a000 := r7
    let bank_c000 := if ¬prg_mode then second_last else r6
    let bank_e000 := last
    let segment := (addr - 0x8000) >>> 13
    let offset_8k := addr &&& 0x1FFF
    let bank :=
      if segment = 0 then bank_8000
      else if segment = 1 then bank_a000
      else if segment = 2 then bank_c000
      else if segment = 3 then bank_e000
      else last
    m.prg_rom.getOr0 (bank * 0x2000 + offset_8k)
  else 0

/-- Mapper4::write: register file, mirroring, PRG RAM, IRQ registers. -/
def Mapper4.write (m : Mapper4) (addr data : Nat) : Mapper4 :=
  if addr ≤ 0x1FFF then m
  else if 0x6000 ≤ addr ∧ addr ≤ 0x7FFF then
    let i := addr - 0x6000
    if i < m.prg_ram.len then
      { m with prg_ram := { m.prg_ram with data := setFn m.prg_ram.data i data } }
    else m
  else if 0x8000 ≤ addr ∧ addr ≤ 0x9FFF then
    if addr &&& 1 = 0 then { m with bank_select := data }
    else { m with regs := setFn m.regs (m.bank_select &&& 7) data }
  else if 0xA000 ≤ addr ∧ addr ≤ 0xBFFF then
    if addr &&& 1 = 0 then
      { m with mirroring := if data &&& 1 ≠ 0 then Mirroring.Vertical else Mirroring.Horizontal }
    else
      { m with prg_ram_enable := data &&& 0x80 ≠ 0, prg_ram_write_protect := data &&& 0x40 ≠ 0 }
  else if 0xC000 ≤ addr ∧ addr ≤ 0xDFFF then
    if addr &&& 1 = 0 then { m with irq_latch := data }
    else { m with irq_reload_pending := true, irq_counter := 0 }
  else if 0xE000 ≤ addr ∧ addr ≤ 0xFFFF then
    if addr &&& 1 = 0 then { m with irq_enabled := false, irq_pending := false }
    else { m with irq_enabled := true }
  else m

/-- Mapper4::on_chr_access: clock the IRQ counter on a CHR A12 rising edge. -/
def Mapper4.on_chr_access (m : Mapper4) (addr : Nat) : Mapper4 :=
  let a12 := (addr &&& 0x1000) ≠ 0
  let m := if ¬m.last_chr_a12 ∧ a12 then m.clock_irq else m
  { m with last_chr_a12 := a12 }

/-- Mapper4::poll_irq: report and clear the pending IRQ. -/
def Mapper4.poll_irq (m : Mapper4) : Bool × Mapper4 :=
  (m.irq_pending, { m with irq_pending := false })

/-! ## Cartridge, src/cartridge/cartridge.rs

The `Box<dyn Mapper>` is a closed sum over the three mapper variants the loader can
produce.  `on_chr_access` and `poll_irq` are called by the cartridge but declared on
the trait only for Mapper4 in the source tree; for the other variants they are the
evident no-ops (no IRQ, no CHR access side effect). -/

/-- Cartridge: the mapper variant it owns. -/
inductive Cart where
  | m0 (m : Mapper0)
  | m1 (m : Mapper1)
  | m4 (m : Mapper4)

/-- Cartridge::read — dispatch to the mapper. -/
def Cart.read (c : Cart) (addr : Nat) : Nat :=
  match c with
  | .m0 m => m.read addr
  | .m1 m => m.read addr
  | .m4 m => m.read addr

/-- Cartridge::write — dispatch to the mapper. -/
def Cart.write (c : Cart) (addr data : Nat) : Cart :=
  match c with
  | .m0 m => .m0 (m.write addr data)
  | .m1 m => .m1 (m.write addr data)
  | .m4 m => .m4 (m.write addr data)

/-- mapper.mirroring() — dispatch to the mapper. -/
def Cart.mirroring (c : Cart) : Mirroring :=
  match c with
  | .m0 m => m.mirroring
  | .m1 m => m.mirroring
  | .m4 m => m.mirroring

/-- Cartridge::on_chr_access — only MMC3 reacts (A12 IRQ clocking). -/
def Cart.on_chr_access (c : Cart) (addr : Nat) : Cart :=
  match c with
  | .m0 m => .m0 m
  | .m1 m => .m1 m
  | .m4 m => .m4 (m.on_chr_access addr)

/-- Cartridge::poll_irq — only MMC3 can have a pending IRQ. -/
def Cart.poll_irq (c : Cart) : Bool × Cart :=
  match c with
  | .m0 m => (false, .m0 m)
  | .m1 m => (false, .m1 m)
  | .m4 m => let p := m.poll_irq; (p.1, .m4 p.2)

/-! ## Controller, src/controller.rs -/

/-- NES controller on port 1 ($4016): button state and 4021 shift register. -/
structure Controller where
  state : Nat
  shift : Nat

/-- Controller::read: return `(shift & 1) | 0x40` and shift right. -/
def Controller.read (c : Controller) : Nat × Controller :=
  let bit := c.shift &&& 1
  (bit ||| 0x40, { c with shift := c.shift >>> 1 })

/-- Controller::write: bit 0 set loads the shift register from the button state. -/
def Controller.write (c : Controller) (data : Nat) : Controller :=
  if data &&& 1 ≠ 0 then { c with shift := c.state } else c

/-! ## PPU, src/ppu/ppu.rs -/

/-- NES 2C02 64-color RGB palette, 0xRRGGBB, as in the source table. -/
def NES_PALETTE_RGB : List Nat :=
  [0x545454, 0x001E74, 0x081090, 0x300088, 0x440064, 0x5C0030, 0x540400, 0x3C1800, 0x202A00,
   0x083A00, 0x004000, 0x003C00, 0x00302C, 0x000000, 0x000000, 0x000000, 0x989698, 0x084CC4,
   0x3032EC, 0x5C1EE4, 0x8814B0, 0xA01464, 0x982220, 0x783C00, 0x545A00, 0x287200, 0x087C00,
   0x007628, 0x006678, 0x000000, 0x000000, 0x000000, 0xECEEEC, 0x3C7EEC, 0x5C5CEC, 0x8844EC,
   0xB02CEC, 0xE028B0, 0xD83C50, 0xC45400, 0xAC7000, 0x808800, 0x409C30, 0x20A458, 0x209A88,
   0x404040, 0x000000, 0x000000, 0xECEEEC, 0xA8BCEC, 0xBCACEC, 0xD4A0EC, 0xEC94EC, 0xEC90D4,
   0xEC9CB4, 0xE4B090, 0xDCC878, 0xD4DC78, 0xB8EC98, 0xA8ECBC, 0xA0E4E4, 0xA0A0A0, 0x000000,
   0x000000]

/-- Palette table lookup (all source indexes are pre-masked with `& 0x3F`). -/
def nesPaletteRgb (i : Nat) : Nat := NES_PALETTE_RGB.getD i 0

/-- PPU state (src/ppu/ppu.rs `struct PPU`): timing counters, flags, registers,
nametable/palette/OAM memories and the framebuffer. -/
structure PPU where
  cycle : Nat
  scanline : Int
  nmi : Bool
  vblank : Bool
  frame_ready : Bool
  ctrl : Nat
  mask : Nat
  addr : Nat
  addr_latch : Bool
  scroll_x : Nat
  scroll_y : Nat
  scroll_latch : Bool
  nametable : Nat → Nat
  palette : Nat → Nat
  oam : Nat → Nat
  oam_addr : Nat
  sprite_0_hit : Bool
  sprite_overflow : Bool
  framebuffer : Nat → Nat

/-- PPU::new — initial state (pre-render scanline −1, cycle 0). -/
def PPU.new : PPU :=
  { cycle := 0, scanline := -1, nmi := false, vblank := false, frame_ready := false,
    ctrl := 0, mask := 0, addr := 0, addr_latch := false, scroll_x := 0, scroll_y := 0,
    scroll_latch := false, nametable := fun _ => 0, palette := fun _ => 0, oam := fun _ => 0,
    oam_addr := 0, sprite_0_hit := false, sprite_overflow := false, framebuffer := fun _ => 0 }

/-- PPU::apply_emphasis — dim channels not emphasized by PPUMASK bits 5–7. -/
def PPU.apply_emphasis (p : PPU) (rgb : Nat) : Nat :=
  let m := p.mask
  let r := (rgb >>> 16) &&& 0xFF
  let g := (rgb >>> 8) &&& 0xFF
  let b := rgb &&& 0xFF
  let r := if m &&& 0x20 = 0 then r * 2 / 3 else r
  let g := if m &&& 0x40 = 0 then g * 2 / 3 else g
  let b := if m &&& 0x80 = 0 then b * 2 / 3 else b
  (r <<< 16) ||| (g <<< 8) ||| b

/-- PPU::apply_display_mask — grayscale (PPUMASK bit 0) then emphasis. -/
def PPU.apply_display_mask (p : PPU) (rgb : Nat) : Nat :=
  let r := (rgb >>> 16) &&& 0xFF
  let g := (rgb >>> 8) &&& 0xFF
  let b := rgb &&& 0xFF
  let rgb :=
    if p.mask &&& 0x01 ≠ 0 then
      let gray := (r + g + b) / 3
      (gray <<< 16) ||| (gray <<< 8) ||| gray
    else rgb
  p.apply_emphasis rgb

/-- PPU::palette_index — $3F00–$3F1F (mod 32); indexes 16/20/24/28 collapse to 0. -/
def PPU.palette_index (addr : Nat) : Nat :=
  let i := addr &&& 0x1F
  if i = 16 ∨ i = 20 ∨ i = 24 ∨ i = 28 then 0 else i

/-- PPU::map_nametable_addr — nametable VRAM address to 2 KiB index via mirroring. -/
def PPU.map_nametable_addr (addr : Nat) (mirroring : Mirroring) : Nat :=
  let addr := (addr - 0x2000) &&& 0xFFF
  let table := addr / 0x400
  let offset := addr &&& 0x3FF
  match mirroring with
  | .Vertical => if table = 0 ∨ table = 2 then offset else offset + 0x400
  | .Horizontal => if table = 0 ∨ table = 1 then offset else offset + 0x400
  | .OneScreenLower => offset
  | .OneScreenUpper => offset + 0x400

/-- Sprite slot selected during sprite evaluation (local struct in render_scanline). -/
structure SpriteSlot where
  oam_index : Nat
  y_offset : Nat
  y : Nat
  tile : Nat
  attr : Nat
  x : Nat

/-- PPU::render_scanline — render one visible scanline into the framebuffer:
background pass (with scroll/nametable/attribute/pattern fetches, notifying the
mapper of each CHR access), then sprite evaluation (first 8 in range; overflow flag),
then sprite drawing back-to-front with sprite-0-hit detection.  Returns the updated
PPU and cartridge. -/
def PPU.render_scanline (p : PPU) (cart : Cart) (scanline : Nat) : PPU × Cart :=
  let fine_x := p.scroll_x &&& 7
  let fine_y := p.scroll_y &&& 7
  let coarse_x := p.scroll_x >>> 3
  let coarse_y := p.scroll_y >>> 3
  let nametable_base := p.ctrl &&& 3
  let bg_pattern_base := if p.ctrl &&& 0x10 ≠ 0 then 0x1000 else 0x0000
  let mirroring := cart.mirroring
  let y := scanline
  let show_bg := p.mask &&& 0x08 ≠ 0
  let show_sprites := p.mask &&& 0x10 ≠ 0
  let show_bg_left := p.mask &&& 0x02 ≠ 0
  let show_sprites_left := p.mask &&& 0x04 ≠ 0
  let backdrop_idx := p.palette 0 &&& 0x3F
  let backdrop_rgb := nesPaletteRgb backdrop_idx
  -- Background pass over x = 0..255, threading (bg_pixel, cart, framebuffer).
  let bg :=
    (List.range 256).foldl
      (fun (st : (Nat → Nat) × Cart × (Nat → Nat)) x =>
        let (bg_pixel, cart, fb) := st
        let total_x := (x + fine_x + coarse_x * 8) % 512
        let total_y := (y + fine_y + coarse_y * 8) % 480
        let tile_x := total_x / 8
        let tile_y := total_y / 8
        let nt_x := tile_x / 32
        let nt_y := tile_y / 30
        let base_nt_x := nametable_base &&& 1
        let base_nt_y := (nametable_base >>> 1) &&& 1
        let logical_nt := (base_nt_x ^^^ nt_x) + ((base_nt_y ^^^ nt_y) <<< 1)
        let nt_phys :=
          match mirroring with
          | .Vertical => logical_nt &&& 1
          | .Horizontal => logical_nt >>> 1
          | .OneScreenLower => 0
          | .OneScreenUpper => 1
        let tile_x_in_nt := tile_x % 32
        let tile_y_in_nt := tile_y % 30
        let nt_index := nt_phys * 0x400 + tile_y_in_nt * 32 + tile_x_in_nt
        let tile_id := p.nametable nt_index
        let attr_index := nt_phys * 0x400 + 0x3C0 + (tile_y_in_nt / 4) * 8 + (tile_x_in_nt / 4)
        let attr_byte := p.nametable attr_index
        let shift := ((tile_y_in_nt &&& 2) <<< 1) ||| (tile_x_in_nt &&& 2)
        let palette_bank := (attr_byte >>> shift) &&& 3
        let px_in_tile := total_x % 8
        let py_in_tile := total_y % 8
        let tile_addr := bg_pattern_base + tile_id * 16
        let cart := cart.on_chr_access (tile_addr + py_in_tile)
        let row_lo := cart.read (tile_addr + py_in_tile)
        let cart := cart.on_chr_access (tile_addr + py_in_tile + 8)
        let row_hi := cart.read (tile_addr + py_in_tile + 8)
        let bit := 7 - px_in_tile % 8
        let low := (row_lo >>> bit) &&& 1
        let high := (row_hi >>> bit) &&& 1
        let pixel_value := (high <<< 1) ||| low
        let bg_pixel := setFn bg_pixel x pixel_value
        let rgb :=
          if show_bg ∧ (x ≥ 8 ∨ show_bg_left) ∧ pixel_value ≠ 0 then
            let palette_idx := 0x3F00 + palette_bank * 4 + pixel_value
            let color_idx := p.palette (PPU.palette_index palette_idx)
            nesPaletteRgb (color_idx &&& 0x3F)
          else backdrop_rgb
        let fb := setFn fb (y * 256 + x) (p.apply_display_mask rgb)
        (bg_pixel, cart, fb))
      (fun _ => 0, cart, p.framebuffer)
  let bg_pixel := bg.1
  let cart := bg.2.1
  let fb := bg.2.2
  -- Sprite evaluation: first 8 in-range sprites (lower OAM index first); overflow beyond.
  let sprite_height := if p.ctrl &&& 0x20 ≠ 0 then 16 else 8
  let sprite_pattern_base := if p.ctrl &&& 0x08 ≠ 0 then 0x1000 else 0x0000
  let ev :=
    (List.range 64).foldl
      (fun (st : List SpriteSlot × Bool) i =>
        let (slots, overflow) := st
        let base := i * 4
        let oam_y := p.oam base
        let oam_tile := p.oam (base + 1)
        let oam_attr := p.oam (base + 2)
        let oam_x := p.oam (base + 3)
        let y_lo := oam_y
        let y_hi := y_lo + sprite_height
        if scanline ≥ y_lo ∧ scanline < y_hi then
          if slots.length < 8 then
            (slots ++ [{ oam_index := i, y_offset := scanline - y_lo, y := oam_y,
                         tile := oam_tile, attr := oam_attr, x := oam_x }], overflow)
          else (slots, true)
        else (slots, overflow))
      ([], p.sprite_overflow)
  let slots := ev.1
  let sprite_overflow := ev.2
  -- Draw sprites back-to-front (highest OAM index first), threading (cart, fb, sprite_0_hit).
  let dr :=
    slots.reverse.foldl
      (fun (st : Cart × (Nat → Nat) × Bool) slot =>
        let (cart, fb, s0) := st
        let flip_v := slot.attr &&& 0x80 ≠ 0
        let flip_h := slot.attr &&& 0x40 ≠ 0
        let behind_bg := slot.attr &&& 0x20 ≠ 0
        let palette_bank := slot.attr &&& 3
        let palette_base := 0x3F10 + palette_bank * 4
        let row_in_sprite := if flip_v then (sprite_height - 1) - slot.y_offset else slot.y_offset
        let tile_addr_row :=
          if sprite_height = 8 then (sprite_pattern_base + slot.tile * 16, row_in_sprite)
          else
            let table := (slot.tile &&& 1) * 0x1000
            let tile_8 := slot.tile &&& 0xFE
            let tile_row := if row_in_sprite < 8 then (tile_8, row_in_sprite)
                            else (tile_8 + 1, row_in_sprite - 8)
            (table + tile_row.1 * 16, tile_row.2)
        let tile_addr := tile_addr_row.1
        let row_in_tile := tile_addr_row.2
        let cart := cart.on_chr_access (tile_addr + row_in_tile)
        let row_lo := cart.read (tile_addr + row_in_tile)
        let cart := cart.on_chr_access (tile_addr + row_in_tile + 8)
        let row_hi := cart.read (tile_addr + row_in_tile + 8)
        if ¬show_sprites then (cart, fb, s0)
        else
          (List.range 8).foldl
            (fun (st : Cart × (Nat → Nat) × Bool) px =>
              let (cart, fb, s0) := st
              let col := if flip_h then 7 - px else px
              let bit := 7 - col
              let low := (row_lo >>> bit) &&& 1
              let high := (row_hi >>> bit) &&& 1
              let pixel_value := (high <<< 1) ||| low
              let screen_x := slot.x + px
              if screen_x ≥ 256 then (cart, fb, s0)
              else if screen_x < 8 ∧ ¬show_sprites_left then (cart, fb, s0)
              else
                let idx := y * 256 + screen_x
                let bg_val := bg_pixel screen_x
                if pixel_value = 0 then (cart, fb, s0)
                else
                  let s0 := if slot.oam_index = 0 ∧ bg_val ≠ 0 then true else s0
                  if behind_bg ∧ bg_val ≠ 0 then (cart, fb, s0)
                  else
                    let palette_idx := palette_base + pixel_value
                    let color_idx := p.palette (PPU.palette_index palette_idx)
                    let rgb := nesPaletteRgb (color_idx &&& 0x3F)
                    (cart, setFn fb idx (p.apply_display_mask rgb), s0))
            (cart, fb, s0))
      (cart, fb, p.sprite_0_hit)
  ({ p with framebuffer := dr.2.1, sprite_0_hit := dr.2.2, sprite_overflow := sprite_overflow },
   dr.1)

/-- PPU::tick — advance one dot; set vblank/NMI at scanline 241 dot 1, clear vblank at
pre-render dot 1, and report a just-completed visible scanline at dot 341. -/
def PPU.tick (p : PPU) : PPU × Option Nat :=
  let p := { p with cycle := p.cycle + 1 }
  let p : PPU :=
    if p.scanline = 241 ∧ p.cycle = 1 then
      let p := { p with vblank := true, frame_ready := true }
      if p.ctrl &&& 0x80 ≠ 0 then { p with nmi := true } else p
    else p
  let p : PPU := if p.scanline = -1 ∧ p.cycle = 1 then { p with vblank := false } else p
  if p.cycle = 341 then
    let completed : Option Nat :=
      if 0 ≤ p.scanline ∧ p.scanline < 240 then some p.scanline.toNat else none
    let p : PPU := { p with cycle := 0, scanline := p.scanline + 1 }
    let p : PPU := if p.scanline = 261 then { p with scanline := -1 } else p
    (p, completed)
  else (p, none)

/-- PPU::read_status — PPUSTATUS byte from vblank/sprite-0/overflow; clears vblank,
the pending NMI line, both sprite flags, and the two write latches. -/
def PPU.read_status (p : PPU) : Nat × PPU :=
  let status := 0
  let status := if p.vblank then status ||| 0x80 else status
  let status := if p.sprite_0_hit then status ||| 0x40 else status
  let status := if p.sprite_overflow then status ||| 0x20 else status
  (status,
   { p with vblank := false, nmi := false, sprite_0_hit := false,
            sprite_overflow := false, addr_latch := false, scroll_latch := false })

/-- PPU::write_oam_addr ($2003). -/
def PPU.write_oam_addr (p : PPU) (data : Nat) : PPU := { p with oam_addr := data }

/-- PPU::read_oam_data ($2004) — OAM byte at OAMADDR, no increment. -/
def PPU.read_oam_data (p : PPU) : Nat := p.oam p.oam_addr

/-- PPU::write_oam_data ($2004) — write OAM and increment OAMADDR (u8 wrap). -/
def PPU.write_oam_data (p : PPU) (data : Nat) : PPU :=
  { p with oam := setFn p.oam p.oam_addr data, oam_addr := u8 (p.oam_addr + 1) }

/-- PPU::oam_dma ($4014) — copy 256 bytes from RAM page `page` into OAM, in one go. -/
def PPU.oam_dma (p : PPU) (ram : Nat → Nat) (page : Nat) : PPU :=
  let start := u16 (page <<< 8) % 2048
  let oam := (List.range 256).foldl (fun oam i => setFn oam i (ram ((start + i) % 2048))) p.oam
  { p with oam := oam }

/-- PPU::write_ctrl ($2000). -/
def PPU.write_ctrl (p : PPU) (data : Nat) : PPU := { p with ctrl := data }

/-- PPU::write_mask ($2001). -/
def PPU.write_mask (p : PPU) (data : Nat) : PPU := { p with mask := data }

/-- PPU::write_addr ($2006) — two-write latch, high byte then low byte. -/
def PPU.write_addr (p : PPU) (data : Nat) : PPU :=
  if ¬p.addr_latch then { p with addr := u16 (data <<< 8), addr_latch := true }
  else { p with addr := p.addr ||| data, addr_latch := false }

/-- PPU::read_data ($2007) — return the byte at the current VRAM address directly
(CHR, mirrored nametable, or palette), then increment the address by 1 or 32. -/
def PPU.read_data (p : PPU) (cart : Cart) : Nat × PPU × Cart :=
  let addr := p.addr &&& 0x3FFF
  let dc : Nat × Cart :=
    if addr ≤ 0x1FFF then
      let cart := cart.on_chr_access addr
      (cart.read addr, cart)
    else if addr ≤ 0x2FFF then
      (p.nametable (PPU.map_nametable_addr addr cart.mirroring), cart)
    else if addr ≤ 0x3EFF then
      (p.nametable (PPU.map_nametable_addr (addr - 0x1000) cart.mirroring), cart)
    else if addr ≤ 0x3FFF then
      (p.palette (PPU.palette_index addr), cart)
    else (0, cart)
  let inc := if p.ctrl &&& 0x04 ≠ 0 then 32 else 1
  (dc.1, { p with addr := u16 (p.addr + inc) }, dc.2)

/-- PPU::write_data ($2007) — write CHR RAM / nametable / palette at the current VRAM
address, then increment the address by 1 or 32. -/
def PPU.write_data (p : PPU) (cart : Cart) (data : Nat) : PPU × Cart :=
  let addr := p.addr &&& 0x3FFF
  let pc : PPU × Cart :=
    if addr ≤ 0x1FFF then (p, cart.write addr data)
    else if addr ≤ 0x2FFF then
      ({ p with nametable := setFn p.nametable (PPU.map_nametable_addr addr cart.mirroring) data },
       cart)
    else if addr ≤ 0x3EFF then
      ({ p with nametable :=
           setFn p.nametable (PPU.map_nametable_addr (addr - 0x1000) cart.mirroring) data },
       cart)
    else if addr ≤ 0x3FFF then
      ({ p with palette := setFn p.palette (PPU.palette_index addr) (data &&& 0x3F) }, cart)
    else (p, cart)
  let p := pc.1
  let inc := if p.ctrl &&& 0x04 ≠ 0 then 32 else 1
  ({ p with addr := u16 (p.addr + inc) }, pc.2)

/-- PPU::write_scroll ($2005) — two-write latch, X then Y. -/
def PPU.write_scroll (p : PPU) (data : Nat) : PPU :=
  if ¬p.scroll_latch then { p with scroll_x := data, scroll_latch := true }
  else { p with scroll_y := data, scroll_latch := false }

/-! ## APU, src/apu/apu.rs

The `f64`/`f32` resampling state (`sample_phase`, the mixer output buffer) is carried
with exact rationals; everything else is the source's integer/boolean state. -/

/-- NTSC CPU clock over 44.1 kHz: one sample every this many CPU cycles. -/
def CYCLES_PER_SAMPLE : ℚ := 1789773 / 44100

/-- Length counter lookup table ($4003 and friends, 5-bit index). -/
def LENGTH_TABLE : List Nat :=
  [10, 254, 20, 2, 40, 4, 80, 6, 160, 8, 60, 10, 14, 12, 26, 14, 12, 16, 24, 18, 48, 20, 96, 22,
   192, 24, 72, 26, 16, 28, 32, 30]

/-- Noise channel period table (NTSC), 4-bit index. -/
def NOISE_PERIOD_TABLE : List Nat :=
  [4, 8, 16, 32, 64, 96, 128, 160, 202, 254, 380, 508, 762, 1016, 2034, 4068]

/-- Pulse duty waveforms: 4 duties × 8 sequencer steps. -/
def PULSE_DUTY : List (List Nat) :=
  [[0, 0, 0, 0, 0, 0, 0, 1],
   [0, 0, 0, 0, 0, 0, 1, 1],
   [0, 0, 0, 0, 1, 1, 1, 1],
   [1, 1, 1, 1, 1, 1, 0, 0]]

/-- Triangle channel 32-step waveform. -/
def TRIANGLE_SEQUENCE : List Nat :=
  [15, 14, 13, 12, 11, 10, 9, 8, 7, 6, 5, 4, 3, 2, 1, 0, 0, 1, 2, 3, 4, 5, 6, 7, 8, 9, 10, 11,
   12, 13, 14, 15]

/-- DMC rate table (NTSC): CPU cycles per output bit. -/
def DMC_RATE_TABLE : List Nat :=
  [428, 380, 340, 320, 286, 254, 226, 214, 190, 160, 142, 128, 106, 84, 72, 54]

/-- 4-step frame counter reset period (CPU cycles). -/
def FRAME_4STEP_RESET : Nat := 29830

/-- 5-step frame counter reset period (CPU cycles). -/
def FRAME_5STEP_RESET : Nat := 37282

/-- Pulse channel state ($4000–$4003 / $4004–$4007). -/
structure Pulse where
  enabled : Bool
  duty : Nat
  length_halt : Bool
  constant_volume : Bool
  volume : Nat
  sweep_enable : Bool
  sweep_period : Nat
  sweep_negate : Bool
  sweep_shift : Nat
  timer_period : Nat
  timer : Nat
  sequencer_step : Nat
  length_counter : Nat
  envelope_start : Bool
  envelope_divider : Nat
  envelope_decay : Nat
  sweep_divider : Nat
  sweep_reload : Bool
deriving DecidableEq

/-- Pulse::default — all fields zero / false. -/
def Pulse.default : Pulse :=
  { enabled := false, duty := 0, length_halt := false, constant_volume := false, volume := 0,
    sweep_enable := false, sweep_period := 0, sweep_negate := false, sweep_shift := 0,
    timer_period := 0, timer := 0, sequencer_step := 0, length_counter := 0,
    envelope_start := false, envelope_divider := 0, envelope_decay := 0, sweep_divider := 0,
    sweep_reload := false }

/-- Pulse::write_4000 — duty, length halt, constant volume, volume/envelope period. -/
def Pulse.write_4000 (p : Pulse) (data : Nat) : Pulse :=
  { p with duty := (data >>> 6) &&& 3, length_halt := data &&& 0x20 ≠ 0,
           constant_volume := data &&& 0x10 ≠ 0, volume := data &&& 0x0F,
           envelope_start := true }

/-- Pulse::write_4001 — sweep enable, period, negate, shift. -/
def Pulse.write_4001 (p : Pulse) (data : Nat) : Pulse :=
  { p with sweep_enable := data &&& 0x80 ≠ 0, sweep_period := (data >>> 4) &&& 7,
           sweep_negate := data &&& 0x08 ≠ 0, sweep_shift := data &&& 7,
           sweep_reload := true }

/-- Pulse::write_4002 — timer low 8 bits. -/
def Pulse.write_4002 (p : Pulse) (data : Nat) : Pulse :=
  { p with timer_period := (p.timer_period &&& 0x0700) ||| data }

/-- Pulse::write_4003 — length counter load (when enabled), timer high 3 bits;
restarts envelope and sequencer. -/
def Pulse.write_4003 (p : Pulse) (data : Nat) : Pulse :=
  let p : Pulse := { p with timer_period := (p.timer_period &&& 0x00FF) ||| ((data &&& 7) <<< 8) }
  let p : Pulse :=
    if p.enabled then { p with length_counter := LENGTH_TABLE.getD ((data >>> 3) &&& 0x1F) 0 }
    else p
  { p with envelope_start := true, sequencer_step := 0 }

/-- Pulse::clock_length. -/
def Pulse.clock_length (p : Pulse) : Pulse :=
  if ¬p.length_halt ∧ p.length_counter > 0 then
    { p with length_counter := p.length_counter - 1 }
  else p

/-- Pulse::clock_envelope. -/
def Pulse.clock_envelope (p : Pulse) : Pulse :=
  if p.envelope_start then
    { p with envelope_decay := 15, envelope_divider := p.volume, envelope_start := false }
  else if p.envelope_divider > 0 then
    { p with envelope_divider := p.envelope_divider - 1 }
  else
    let p : Pulse := { p with envelope_divider := p.volume }
    if p.envelope_decay > 0 then { p with envelope_decay := p.envelope_decay - 1 }
    else if p.length_halt then { p with envelope_decay := 15 }
    else p

/-- Pulse::clock_sweep — returns the (discarded by callers) silence flag. -/
def Pulse.clock_sweep (p : Pulse) : Pulse × Bool :=
  let divider_was_zero := p.sweep_divider = 0
  let p : Pulse :=
    if p.sweep_divider = 0 ∨ p.sweep_reload then
      { p with sweep_divider := p.sweep_period, sweep_reload := false }
    else
      { p with sweep_divider := p.sweep_divider - 1 }
  if divider_was_zero ∧ p.sweep_enable ∧ p.sweep_shift > 0 then
    let delta := p.timer_period >>> p.sweep_shift
    let p : Pulse :=
      if p.sweep_negate then { p with timer_period := p.timer_period - delta }
      else { p with timer_period := min (p.timer_period + delta) 65535 }
    (p, p.timer_period > 0x7FF)
  else (p, false)

/-- Pulse::output — pre-mixer 4-bit volume (0 when silenced). -/
def Pulse.output (p : Pulse) (sweep_silence : Bool) : Nat :=
  if ¬p.enabled ∨ p.length_counter = 0 ∨ sweep_silence ∨ p.timer_period < 8 ∨
      (PULSE_DUTY.getD p.duty []).getD p.sequencer_step 0 = 0 then 0
  else if p.constant_volume then p.volume else p.envelope_decay

/-- Pulse::tick_apu_cycle — count the 11-bit timer down; on underflow reload it and
step the duty sequencer (downwards mod 8). -/
def Pulse.tick_apu_cycle (p : Pulse) : Pulse :=
  if p.timer > 0 then { p with timer := p.timer - 1 }
  else
    { p with timer := p.timer_period,
             sequencer_step := u8 (p.sequencer_step + 255) &&& 7 }

/-- Triangle channel state ($4008–$400B). -/
structure Triangle where
  enabled : Bool
  length_halt : Bool
  linear_load : Nat
  timer_period : Nat
  timer : Nat
  length_counter : Nat
  linear_counter : Nat
  linear_reload : Bool
  sequencer_step : Nat
deriving DecidableEq

/-- Triangle::default. -/
def Triangle.default : Triangle :=
  { enabled := false, length_halt := false, linear_load := 0, timer_period := 0, timer := 0,
    length_counter := 0, linear_counter := 0, linear_reload := false, sequencer_step := 0 }

/-- Triangle::write_4008 — length halt, linear counter load. -/
def Triangle.write_4008 (t : Triangle) (data : Nat) : Triangle :=
  { t with length_halt := data &&& 0x80 ≠ 0, linear_load := data &&& 0x7F }

/-- Triangle::write_400a — timer low 8 bits. -/
def Triangle.write_400a (t : Triangle) (data : Nat) : Triangle :=
  { t with timer_period := (t.timer_period &&& 0xFF00) ||| data }

/-- Triangle::write_400b — length load (when enabled), timer high 3 bits, linear reload. -/
def Triangle.write_400b (t : Triangle) (data : Nat) : Triangle :=
  let t : Triangle := { t with timer_period := (t.timer_period &&& 0x00FF) ||| ((data &&& 7) <<< 8) }
  let t : Triangle :=
    if t.enabled then { t with length_counter := LENGTH_TABLE.getD ((data >>> 3) &&& 0x1F) 0 }
    else t
  { t with linear_reload := true }

/-- Triangle::clock_length. -/
def Triangle.clock_length (t : Triangle) : Triangle :=
  if ¬t.length_halt ∧ t.length_counter > 0 then
    { t with length_counter := t.length_counter - 1 }
  else t

/-- Triangle::clock_linear. -/
def Triangle.clock_linear (t : Triangle) : Triangle :=
  let t : Triangle :=
    if t.linear_reload then { t with linear_counter := t.linear_load }
    else if t.linear_counter > 0 then { t with linear_counter := t.linear_counter - 1 }
    else t
  if ¬t.length_halt then { t with linear_reload := false } else t

/-- Triangle::output. -/
def Triangle.output (t : Triangle) : Nat :=
  if ¬t.enabled ∨ t.length_counter = 0 ∨ t.linear_counter = 0 ∨ t.timer_period < 2 then 0
  else TRIANGLE_SEQUENCE.getD t.sequencer_step 0

/-- Triangle::tick_cpu_cycle. -/
def Triangle.tick_cpu_cycle (t : Triangle) : Triangle :=
  if t.timer > 0 then { t with timer := t.timer - 1 }
  else
    let t : Triangle := { t with timer := t.timer_period }
    if t.length_counter > 0 ∧ t.linear_counter > 0 then
      { t with sequencer_step := (t.sequencer_step + 1) &&& 31 }
    else t

/-- Noise channel state ($400C–$400F). -/
structure Noise where
  enabled : Bool
  length_halt : Bool
  constant_volume : Bool
  volume : Nat
  mode : Bool
  period_index : Nat
  length_counter : Nat
  envelope_start : Bool
  envelope_divider : Nat
  envelope_decay : Nat
  timer : Nat
  shift : Nat
deriving DecidableEq

/-- Noise::default (the APU constructor overrides `shift` with 1). -/
def Noise.default : Noise :=
  { enabled := false, length_halt := false, constant_volume := false, volume := 0, mode := false,
    period_index := 0, length_counter := 0, envelope_start := false, envelope_divider := 0,
    envelope_decay := 0, timer := 0, shift := 0 }

/-- Noise::write_400c. -/
def Noise.write_400c (n : Noise) (data : Nat) : Noise :=
  { n with length_halt := data &&& 0x20 ≠ 0, constant_volume := data &&& 0x10 ≠ 0,
           volume := data &&& 0x0F, envelope_start := true }

/-- Noise::write_400e — LFSR mode and period index. -/
def Noise.write_400e (n : Noise) (data : Nat) : Noise :=
  { n with mode := data &&& 0x80 ≠ 0, period_index := data &&& 0x0F }

/-- Noise::write_400f — length load (when enabled); restarts envelope. -/
def Noise.write_400f (n : Noise) (data : Nat) : Noise :=
  let n : Noise :=
    if n.enabled then { n with length_counter := LENGTH_TABLE.getD ((data >>> 3) &&& 0x1F) 0 }
    else n
  { n with envelope_start := true }

/-- Noise::clock_length. -/
def Noise.clock_length (n : Noise) : Noise :=
  if ¬n.length_halt ∧ n.length_counter > 0 then
    { n with length_counter := n.length_counter - 1 }
  else n

/-- Noise::clock_envelope. -/
def Noise.clock_envelope (n : Noise) : Noise :=
  if n.envelope_start then
    { n with envelope_decay := 15, envelope_divider := n.volume, envelope_start := false }
  else if n.envelope_divider > 0 then
    { n with envelope_divider := n.envelope_divider - 1 }
  else
    let n : Noise := { n with envelope_divider := n.volume }
    if n.envelope_decay > 0 then { n with envelope_decay := n.envelope_decay - 1 }
    else if n.length_halt then { n with envelope_decay := 15 }
    else n

/-- Noise::output. -/
def Noise.output (n : Noise) : Nat :=
  if ¬n.enabled ∨ n.length_counter = 0 ∨ n.shift &&& 1 ≠ 0 then 0
  else if n.constant_volume then n.volume else n.envelope_decay

/-- Noise::tick_cpu_cycle — LFSR step when the timer underflows. -/
def Noise.tick_cpu_cycle (n : Noise) : Noise :=
  if n.timer > 0 then { n with timer := n.timer - 1 }
  else
    let period := NOISE_PERIOD_TABLE.getD n.period_index 0
    let n : Noise := { n with timer := period }
    let feedback :=
      if n.mode then (n.shift &&& 1) ^^^ ((n.shift >>> 6) &&& 1)
      else (n.shift &&& 1) ^^^ ((n.shift >>> 1) &&& 1)
    { n with shift := (n.shift >>> 1) ||| (feedback <<< 14) }

/-- DMC channel state ($4010–$4013). -/
structure Dmc where
  irq_enable : Bool
  loop_flag : Bool
  rate_index : Nat
  rate_timer : Nat
  output_level : Nat
  start_address : Nat
  sample_length : Nat
  current_address : Nat
  bytes_remaining : Nat
  sample_buffer : Option Nat
  shift_register : Nat
  bits_remaining : Nat
  silence : Bool
  enabled : Bool
  fetch_pending : Bool
  fetch_address : Nat
deriving DecidableEq

/-- Dmc::default — power-on: silent, nothing buffered. -/
def Dmc.default : Dmc :=
  { irq_enable := false, loop_flag := false, rate_index := 0, rate_timer := 0, output_level := 0,
    start_address := 0, sample_length := 0, current_address := 0, bytes_remaining := 0,
    sample_buffer := none, shift_register := 0, bits_remaining := 0, silence := true,
    enabled := false, fetch_pending := false, fetch_address := 0 }

/-- Dmc::write_4010 — IRQ enable, loop, rate index; clearing IRQ enable clears the
DMC IRQ flag in the shared status byte. -/
def Dmc.write_4010 (d : Dmc) (data status : Nat) : Dmc × Nat :=
  let irq_enable := data &&& 0x80 ≠ 0
  let status := if ¬irq_enable then status &&& 0x7F else status
  ({ d with irq_enable := irq_enable, loop_flag := data &&& 0x40 ≠ 0,
            rate_index := data &&& 0x0F }, status)

/-- Dmc::write_4011 — direct load of the 7-bit output level. -/
def Dmc.write_4011 (d : Dmc) (data : Nat) : Dmc :=
  { d with output_level := data &&& 0x7F }

/-- Dmc::write_4012 — sample start address $C000 + value×64. -/
def Dmc.write_4012 (d : Dmc) (data : Nat) : Dmc :=
  { d with start_address := 0xC000 + data * 64 }

/-- Dmc::write_4013 — sample length value×16 + 1. -/
def Dmc.write_4013 (d : Dmc) (data : Nat) : Dmc :=
  { d with sample_length := data * 16 + 1 }

/-- Dmc::set_enabled ($4015 bit 4) — restart the sample when enabling with nothing left. -/
def Dmc.set_enabled (d : Dmc) (enabled : Bool) : Dmc :=
  if ¬enabled then { d with enabled := false, fetch_pending := false }
  else
    let d : Dmc := { d with enabled := true }
    if d.bytes_remaining = 0 then
      let d : Dmc := { d with current_address := d.start_address,
                              bytes_remaining := d.sample_length }
      let d : Dmc :=
        { d with fetch_pending := d.sample_buffer.isNone ∧ d.bytes_remaining > 0 }
      if d.fetch_pending then { d with fetch_address := d.current_address } else d
    else d

/-- Dmc::feed_byte — store the fetched byte, advance the address ($FFFF→$8000 wrap),
decrement bytes remaining, loop or raise the DMC IRQ at the end. -/
def Dmc.feed_byte (d : Dmc) (byte status : Nat) : Dmc × Nat :=
  let d : Dmc := { d with fetch_pending := false, sample_buffer := some byte,
                          current_address := u16 (d.current_address + 1) }
  let d : Dmc := if d.current_address = 0 then { d with current_address := 0x8000 } else d
  let d : Dmc :=
    if d.bytes_remaining > 0 then { d with bytes_remaining := d.bytes_remaining - 1 } else d
  if d.bytes_remaining = 0 then
    if d.loop_flag then
      ({ d with current_address := d.start_address, bytes_remaining := d.sample_length }, status)
    else if d.irq_enable then (d, status ||| 0x80)
    else (d, status)
  else (d, status)

/-- Dmc::tick — one CPU cycle: rate timer countdown, output one delta bit, refill the
shift register from the sample buffer every 8 bits, request a fetch when empty. -/
def Dmc.tick (d : Dmc) : Dmc :=
  if ¬d.enabled then d
  else if d.rate_timer > 0 then { d with rate_timer := d.rate_timer - 1 }
  else
    let period := DMC_RATE_TABLE.getD d.rate_index 0
    let d : Dmc := { d with rate_timer := period - 1 }
    let d : Dmc :=
      if ¬d.silence then
        let bit := d.shift_register &&& 1
        if bit ≠ 0 then
          if d.output_level ≤ 125 then { d with output_level := d.output_level + 2 } else d
        else if d.output_level ≥ 2 then { d with output_level := d.output_level - 2 }
        else d
      else d
    let d : Dmc := { d with shift_register := d.shift_register >>> 1 }
    let d : Dmc :=
      if d.bits_remaining > 0 then { d with bits_remaining := d.bits_remaining - 1 } else d
    if d.bits_remaining = 0 then
      let d : Dmc := { d with bits_remaining := 8 }
      let taken := d.sample_buffer
      let d : Dmc := { d with sample_buffer := none }
      let d : Dmc :=
        match taken with
        | some byte => { d with shift_register := byte, silence := false }
        | none => { d with silence := true }
      if d.sample_buffer.isNone ∧ d.bytes_remaining > 0 then
        { d with fetch_pending := true, fetch_address := d.current_address }
      else d
    else d

/-- Dmc::output — 0 when silent, else the 7-bit level. -/
def Dmc.output (d : Dmc) : Nat := if d.silence then 0 else d.output_level

/-- Dmc::has_bytes_remaining. -/
def Dmc.has_bytes_remaining (d : Dmc) : Bool :=
  d.bytes_remaining > 0 ∨ d.sample_buffer.isSome

/-- pulse_table — non-linear pulse mixer curve (rational model of the f32 formula). -/
def pulse_table (n : Nat) : ℚ :=
  if n = 0 then 0 else (9552 / 100) / (8128 / (n : ℚ) + 100)

/-- tnd_table — non-linear triangle/noise/DMC mixer curve (rational model). -/
def tnd_table (n : Nat) : ℚ :=
  if n = 0 then 0 else (16367 / 100) / (24329 / (n : ℚ) + 100)

/-- APU state: five channels, frame counter, shared status byte, resampler. -/
structure APU where
  pulse1 : Pulse
  pulse2 : Pulse
  triangle : Triangle
  noise : Noise
  dmc : Dmc
  status : Nat
  frame_irq_inhibit : Bool
  frame_4step : Bool
  frame_cycle : Nat
  sample_phase : ℚ
  sample_buffer : List ℚ

/-- APU::new — defaults, noise LFSR seeded with 1, 4-step mode. -/
def APU.new : APU :=
  { pulse1 := Pulse.default, pulse2 := Pulse.default, triangle := Triangle.default,
    noise := { Noise.default with shift := 1 }, dmc := Dmc.default, status := 0,
    frame_irq_inhibit := false, frame_4step := true, frame_cycle := 0,
    sample_phase := 0, sample_buffer := [] }

/-- APU::clock_quarter_frame — envelopes and the triangle linear counter. -/
def APU.clock_quarter_frame (a : APU) : APU :=
  { a with pulse1 := a.pulse1.clock_envelope, pulse2 := a.pulse2.clock_envelope,
           noise := a.noise.clock_envelope, triangle := a.triangle.clock_linear }

/-- APU::clock_half_frame — length counters and sweep units. -/
def APU.clock_half_frame (a : APU) : APU :=
  let a : APU := { a with pulse1 := a.pulse1.clock_length, pulse2 := a.pulse2.clock_length,
                          triangle := a.triangle.clock_length, noise := a.noise.clock_length }
  { a with pulse1 := (a.pulse1.clock_sweep).1, pulse2 := (a.pulse2.clock_sweep).1 }

/-- APU::write — channel registers, $4015 enable, $4017 frame counter. -/
def APU.write (a : APU) (addr data : Nat) : APU :=
  if addr = 0x4000 then { a with pulse1 := a.pulse1.write_4000 data }
  else if addr = 0x4001 then { a with pulse1 := a.pulse1.write_4001 data }
  else if addr = 0x4002 then { a with pulse1 := a.pulse1.write_4002 data }
  else if addr = 0x4003 then { a with pulse1 := a.pulse1.write_4003 data }
  else if addr = 0x4004 then { a with pulse2 := a.pulse2.write_4000 data }
  else if addr = 0x4005 then { a with pulse2 := a.pulse2.write_4001 data }
  else if addr = 0x4006 then { a with pulse2 := a.pulse2.write_4002 data }
  else if addr = 0x4007 then { a with pulse2 := a.pulse2.write_4003 data }
  else if addr = 0x4008 then { a with triangle := a.triangle.write_4008 data }
  else if addr = 0x400A then { a with triangle := a.triangle.write_400a data }
  else if addr = 0x400B then { a with triangle := a.triangle.write_400b data }
  else if addr = 0x400C then { a with noise := a.noise.write_400c data }
  else if addr = 0x400E then { a with noise := a.noise.write_400e data }
  else if addr = 0x400F then { a with noise := a.noise.write_400f data }
  else if addr = 0x4010 then
    let q := a.dmc.write_4010 data a.status
    { a with dmc := q.1, status := q.2 }
  else if addr = 0x4011 then { a with dmc := a.dmc.write_4011 data }
  else if addr = 0x4012 then { a with dmc := a.dmc.write_4012 data }
  else if addr = 0x4013 then { a with dmc := a.dmc.write_4013 data }
  else if addr = 0x4015 then
    let a : APU := { a with pulse1 := { a.pulse1 with enabled := data &&& 1 ≠ 0 },
                            pulse2 := { a.pulse2 with enabled := data &&& 2 ≠ 0 },
                            triangle := { a.triangle with enabled := data &&& 4 ≠ 0 },
                            noise := { a.noise with enabled := data &&& 8 ≠ 0 } }
    let a : APU :=
      if ¬a.pulse1.enabled then { a with pulse1 := { a.pulse1 with length_counter := 0 } } else a
    let a : APU :=
      if ¬a.pulse2.enabled then { a with pulse2 := { a.pulse2 with length_counter := 0 } } else a
    let a : APU :=
      if ¬a.triangle.enabled then
        { a with triangle := { a.triangle with length_counter := 0 } }
      else a
    let a : APU :=
      if ¬a.noise.enabled then { a with noise := { a.noise with length_counter := 0 } } else a
    { a with dmc := a.dmc.set_enabled (data &&& 0x10 ≠ 0) }
  else if addr = 0x4017 then
    let a : APU := { a with frame_4step := data &&& 0x80 = 0,
                            frame_irq_inhibit := data &&& 0x40 ≠ 0, frame_cycle := 0 }
    let a : APU := if a.frame_irq_inhibit then { a with status := a.status &&& 0xBF } else a
    if ¬a.frame_4step then (a.clock_quarter_frame).clock_half_frame else a
  else a

/-- APU::read_status ($4015) — length-counter and DMC-active bits plus the frame/DMC
IRQ flags; reading clears both IRQ flags (bits 6 and 7). -/
def APU.read_status (a : APU) : Nat × APU :=
  let r := a.status &&& 0xC0
  let r := if a.pulse1.length_counter > 0 then r ||| 0x01 else r
  let r := if a.pulse2.length_counter > 0 then r ||| 0x02 else r
  let r := if a.triangle.length_counter > 0 then r ||| 0x04 else r
  let r := if a.noise.length_counter > 0 then r ||| 0x08 else r
  let r := if a.dmc.has_bytes_remaining then r ||| 0x10 else r
  (r, { a with status := a.status &&& 0x3F })

/-- APU::dmc_wants_fetch — address the DMC wants read from PRG, when pending. -/
def APU.dmc_wants_fetch (a : APU) : Option Nat :=
  if a.dmc.fetch_pending then some a.dmc.fetch_address else none

/-- APU::dmc_feed_byte. -/
def APU.dmc_feed_byte (a : APU) (byte : Nat) : APU :=
  let q := a.dmc.feed_byte byte a.status
  { a with dmc := q.1, status := q.2 }

/-- APU::mix — non-linear mixer (rational model of the f32 computation). -/
def APU.mix (a : APU) : ℚ :=
  let sweep_silence1 := a.pulse1.timer_period > 0x7FF
  let sweep_silence2 := a.pulse2.timer_period > 0x7FF
  let p1 := a.pulse1.output sweep_silence1
  let p2 := a.pulse2.output sweep_silence2
  let pulse_sum := p1 + p2
  let tri := a.triangle.output
  let noi := a.noise.output
  let dmc := a.dmc.output
  let tnd := 3 * tri + 2 * noi + dmc
  let pulse_out := pulse_table (min pulse_sum 31)
  let tnd_out := tnd_table (min tnd 203)
  let out := pulse_out + tnd_out
  min (out / 255) 1

/-- Frame-counter step of the APU per-cycle loop body: the `match frame_cycle` block
(quarter/half frame clocks, frame IRQ) and the period reset, for the post-increment
cycle count.  Factored out of APU::tick verbatim. -/
def APU.frame_seq (a : APU) : APU :=
  if a.frame_4step then
    let a : APU :=
      if a.frame_cycle = 7457 then a.clock_quarter_frame
      else if a.frame_cycle = 14913 then (a.clock_quarter_frame).clock_half_frame
      else if a.frame_cycle = 22371 then a.clock_quarter_frame
      else if a.frame_cycle = 29829 then
        let a : APU := a.clock_half_frame
        if ¬a.frame_irq_inhibit then { a with status := a.status ||| 0x40 } else a
      else a
    if a.frame_cycle ≥ FRAME_4STEP_RESET then { a with frame_cycle := 0 } else a
  else
    let a : APU :=
      if a.frame_cycle = 7457 then a.clock_quarter_frame
      else if a.frame_cycle = 14913 then (a.clock_quarter_frame).clock_half_frame
      else if a.frame_cycle = 22371 then a.clock_quarter_frame
      else if a.frame_cycle = 29829 then a
      else if a.frame_cycle = 37281 then (a.clock_quarter_frame).clock_half_frame
      else a
    if a.frame_cycle ≥ FRAME_5STEP_RESET then { a with frame_cycle := 0 } else a

/-- Channel-timer and resampler step of the APU per-cycle loop body: pulse timers on
APU half cycles, triangle/noise/DMC every cycle, then the 44.1 kHz sample
accumulator.  Factored out of APU::tick verbatim; `apu_half_cycle` is computed by the
caller before the frame counter may reset. -/
def APU.channel_sample_step (a : APU) (apu_half_cycle : Bool) : APU :=
  let a : APU :=
    if apu_half_cycle then
      { a with pulse1 := a.pulse1.tick_apu_cycle, pulse2 := a.pulse2.tick_apu_cycle }
    else a
  let a : APU := { a with triangle := a.triangle.tick_cpu_cycle }
  let a : APU := { a with noise := a.noise.tick_cpu_cycle }
  let a : APU := { a with dmc := a.dmc.tick }
  let a : APU := { a with sample_phase := a.sample_phase + 1 }
  if a.sample_phase ≥ CYCLES_PER_SAMPLE then
    { a with sample_phase := a.sample_phase - CYCLES_PER_SAMPLE,
             sample_buffer := a.sample_buffer ++ [a.mix] }
  else a

/-- One iteration of the APU::tick loop body (one CPU cycle). -/
def APU.tick_one (a : APU) : APU :=
  let a : APU := { a with frame_cycle := a.frame_cycle + 1 }
  let apu_half_cycle := a.frame_cycle % 2 = 0
  let a : APU := a.frame_seq
  a.channel_sample_step apu_half_cycle

/-- APU::tick — advance the APU by `cycles` CPU cycles. -/
def APU.tick (a : APU) (cycles : Nat) : APU :=
  (List.range cycles).foldl (fun a _ => a.tick_one) a

/-! ## Bus, src/bus.rs -/

/-- NesBus: 2 KiB internal RAM, cartridge, PPU, APU, controller port 1. -/
structure NesBus where
  ram : Nat → Nat
  cart : Cart
  ppu : PPU
  apu : APU
  controller : Controller

/-- NesBus::new with the given cartridge. -/
def NesBus.new (cart : Cart) : NesBus :=
  { ram := fun _ => 0, cart := cart, ppu := PPU.new, apu := APU.new,
    controller := { state := 0, shift := 0 } }

/-- Bus::read for NesBus — CPU memory map decode; open bus reads return $40. -/
def NesBus.read (s : NesBus) (addr : Nat) : Nat × NesBus :=
  if addr ≤ 0x1FFF then (s.ram (addr &&& 0x07FF), s)
  else if addr ≤ 0x3FFF then
    let r := addr &&& 0x2007
    if r = 0x2002 then
      let q := s.ppu.read_status
      (q.1, { s with ppu := q.2 })
    else if r = 0x2004 then (s.ppu.read_oam_data, s)
    else if r = 0x2007 then
      let q := s.ppu.read_data s.cart
      (q.1, { s with ppu := q.2.1, cart := q.2.2 })
    else (0x40, s)
  else if (0x4000 ≤ addr ∧ addr ≤ 0x4014) ∨ (0x4017 ≤ addr ∧ addr ≤ 0x401F) then (0x40, s)
  else if addr = 0x4015 then
    let q := s.apu.read_status
    (q.1, { s with apu := q.2 })
  else if addr = 0x4016 then
    let q := s.controller.read
    (q.1, { s with controller := q.2 })
  else if addr ≤ 0x7FFF then (0x40, s)
  else (s.cart.read addr, s)

/-- Bus::write for NesBus — CPU memory map decode, including $4014 OAM DMA. -/
def NesBus.write (s : NesBus) (addr data : Nat) : NesBus :=
  if addr ≤ 0x1FFF then { s with ram := setFn s.ram (addr &&& 0x07FF) data }
  else if addr ≤ 0x3FFF then
    let r := addr &&& 0x2007
    if r = 0x2000 then { s with ppu := s.ppu.write_ctrl data }
    else if r = 0x2001 then { s with ppu := s.ppu.write_mask data }
    else if r = 0x2003 then { s with ppu := s.ppu.write_oam_addr data }
    else if r = 0x2004 then { s with ppu := s.ppu.write_oam_data data }
    else if r = 0x2005 then { s with ppu := s.ppu.write_scroll data }
    else if r = 0x2006 then { s with ppu := s.ppu.write_addr data }
    else if r = 0x2007 then
      let q := s.ppu.write_data s.cart data
      { s with ppu := q.1, cart := q.2 }
    else s
  else if 0x4000 ≤ addr ∧ addr ≤ 0x4013 then { s with apu := s.apu.write addr data }
  else if addr = 0x4014 then { s with ppu := s.ppu.oam_dma s.ram data }
  else if addr = 0x4015 then { s with apu := s.apu.write 0x4015 data }
  else if addr = 0x4017 then { s with apu := s.apu.write 0x4017 data }
  else if addr = 0x4016 then { s with controller := s.controller.write data }
  else if addr ≤ 0x7FFF then s
  else { s with cart := s.cart.write addr data }

/-- One iteration of the PPU loop inside Bus::tick: one PPU dot, rendering a visible
scanline when it has just completed. -/
def NesBus.ppu_dot (s : NesBus) : NesBus :=
  let q := s.ppu.tick
  match q.2 with
  | some scanline =>
    let r := PPU.render_scanline q.1 s.cart scanline
    { s with ppu := r.1, cart := r.2 }
  | none => { s with ppu := q.1 }

/-- Bus::tick for NesBus — advance APU by `cycles` and PPU by `cycles * 3` dots. -/
def NesBus.tick (s : NesBus) (cycles : Nat) : NesBus :=
  let s : NesBus := { s with apu := s.apu.tick cycles }
  (List.range (cycles * 3)).foldl (fun s _ => s.ppu_dot) s

/-- Bus::poll_nmi for NesBus — report the PPU NMI line and clear it. -/
def NesBus.poll_nmi (s : NesBus) : Bool × NesBus :=
  if s.ppu.nmi then (true, { s with ppu := { s.ppu with nmi := false } })
  else (false, s)

/-! ## CPU, src/cpu/cpu.rs

The Rust CPU is generic over a `Bus` trait; `BusIf σ` is that trait as a record of
state-passing operations over a bus-state type `σ`, and `NesBusIf` below is its one
implementation.  The status flags are those of src/cpu/flags.rs. -/

/-- FLAG_CARRY. -/
def FLAG_CARRY : Nat := 1
/-- FLAG_ZERO. -/
def FLAG_ZERO : Nat := 2
/-- FLAG_INTERRUPT_DISABLE. -/
def FLAG_INTERRUPT_DISABLE : Nat := 4
/-- FLAG_DECIMAL. -/
def FLAG_DECIMAL : Nat := 8
/-- FLAG_BREAK. -/
def FLAG_BREAK : Nat := 16
/-- FLAG_UNUSED. -/
def FLAG_UNUSED : Nat := 32
/-- FLAG_OVERFLOW. -/
def FLAG_OVERFLOW : Nat := 64
/-- FLAG_NEGATIVE. -/
def FLAG_NEGATIVE : Nat := 128

/-- The `Bus` trait (src/bus.rs): read/write/tick/poll_nmi over bus state `σ`. -/
structure BusIf (σ : Type) where
  read : σ → Nat → Nat × σ
  write : σ → Nat → Nat → σ
  tick : σ → Nat → σ
  poll_nmi : σ → Bool × σ

/-- The `Bus` implementation for NesBus. -/
def NesBusIf : BusIf NesBus :=
  { read := NesBus.read, write := NesBus.write, tick := NesBus.tick,
    poll_nmi := NesBus.poll_nmi }

/-- CPU register file and the bus it owns (src/cpu/cpu.rs `struct CPU<B>`). -/
structure CPU (σ : Type) where
  a : Nat
  x : Nat
  y : Nat
  sp : Nat
  pc : Nat
  status : Nat
  cycles : Nat
  bus : σ
  halted : Bool

namespace CPU

variable {σ : Type}

/-- CPU::fetch_byte — read at PC, increment PC (u16 wrap). -/
def fetch_byte (B : BusIf σ) (c : CPU σ) : Nat × CPU σ :=
  let q := B.read c.bus c.pc
  (q.1, { c with bus := q.2, pc := u16 (c.pc + 1) })

/-- CPU::fetch_word — two fetches, little endian. -/
def fetch_word (B : BusIf σ) (c : CPU σ) : Nat × CPU σ :=
  let lo := fetch_byte B c
  let hi := fetch_byte B lo.2
  ((hi.1 <<< 8) ||| lo.1, hi.2)

/-- Read through the bus, threading the CPU state (`self.bus.read(addr)`). -/
def bus_read (B : BusIf σ) (c : CPU σ) (addr : Nat) : Nat × CPU σ :=
  let q := B.read c.bus addr
  (q.1, { c with bus := q.2 })

/-- Write through the bus, threading the CPU state (`self.bus.write(addr, v)`). -/
def bus_write (B : BusIf σ) (c : CPU σ) (addr v : Nat) : CPU σ :=
  { c with bus := B.write c.bus addr v }

/-- CPU::push — write at $0100|SP and decrement SP (u8 wrap). -/
def push (B : BusIf σ) (c : CPU σ) (value : Nat) : CPU σ :=
  let addr := 0x0100 ||| c.sp
  let c := bus_write B c addr value
  { c with sp := u8 (c.sp + 255) }

/-- CPU::pop — increment SP (u8 wrap) and read at $0100|SP. -/
def pop (B : BusIf σ) (c : CPU σ) : Nat × CPU σ :=
  let c : CPU σ := { c with sp := u8 (c.sp + 1) }
  let addr := 0x0100 ||| c.sp
  bus_read B c addr

/-- CPU::update_zero_and_negative_flags. -/
def update_zero_and_negative_flags (c : CPU σ) (value : Nat) : CPU σ :=
  let c : CPU σ :=
    if value = 0 then { c with status := c.status ||| FLAG_ZERO }
    else { c with status := c.status &&& (255 - FLAG_ZERO) }
  if value &&& 0x80 ≠ 0 then { c with status := c.status ||| FLAG_NEGATIVE }
  else { c with status := c.status &&& (255 - FLAG_NEGATIVE) }

/-- CPU::jam — halt; the cycle counter is left unchanged. -/
def jam (c : CPU σ) : CPU σ := { c with halted := true }

/-- CPU::branch — relative branch: +1 cycle when taken, +1 more on page cross,
always +2 base cycles. -/
def branch (B : BusIf σ) (c : CPU σ) (condition : Bool) : CPU σ :=
  let f := fetch_byte B c
  let offset := f.1
  let c := f.2
  let c : CPU σ :=
    if condition then
      let old_pc := c.pc
      -- `offset as i8 as u16`: two's-complement sign extension of the fetched byte.
      let ext := if offset < 0x80 then offset else 0xFF00 ||| offset
      let c : CPU σ := { c with pc := u16 (c.pc + ext), cycles := c.cycles + 1 }
      if old_pc &&& 0xFF00 ≠ c.pc &&& 0xFF00 then { c with cycles := c.cycles + 1 } else c
    else c
  { c with cycles := c.cycles + 2 }

/-- CPU::irq — service a maskable interrupt: when I is clear, push PC and P (B clear,
U set), set I, load PC from $FFFE/$FFFF, add 7 cycles; when I is set, do nothing.
Defined in the source but never invoked by step. -/
def irq (B : BusIf σ) (c : CPU σ) : CPU σ :=
  if c.status &&& FLAG_INTERRUPT_DISABLE ≠ 0 then c
  else
    let c := push B c (c.pc >>> 8)
    let c := push B c (c.pc &&& 0xFF)
    let status := (c.status &&& (255 - FLAG_BREAK)) ||| FLAG_UNUSED
    let c := push B c status
    let c : CPU σ := { c with status := c.status ||| FLAG_INTERRUPT_DISABLE }
    let lo := bus_read B c 0xFFFE
    let c := lo.2
    let hi := bus_read B c 0xFFFF
    let c := hi.2
    { c with pc := (hi.1 <<< 8) ||| lo.1, cycles := c.cycles + 7 }

/-- CPU::nmi — push PC and P (B clear, U set), set I, load PC from $FFFA/$FFFB, 7 cycles. -/
def nmi (B : BusIf σ) (c : CPU σ) : CPU σ :=
  let c := push B c (c.pc >>> 8)
  let c := push B c (c.pc &&& 0xFF)
  let status := (c.status &&& (255 - FLAG_BREAK)) ||| FLAG_UNUSED
  let c := push B c status
  let c : CPU σ := { c with status := c.status ||| FLAG_INTERRUPT_DISABLE }
  let lo := bus_read B c 0xFFFA
  let c := lo.2
  let hi := bus_read B c 0xFFFB
  let c := hi.2
  { c with pc := (hi.1 <<< 8) ||| lo.1, cycles := c.cycles + 7 }

/-- CPU::reset — load PC from the reset vector, SP=$FD, P = I|U, 7 cycles. -/
def reset (B : BusIf σ) (c : CPU σ) : CPU σ :=
  let lo := bus_read B c 0xFFFC
  let c := lo.2
  let hi := bus_read B c 0xFFFD
  let c := hi.2
  { c with pc := (hi.1 <<< 8) ||| lo.1, sp := 0xFD,
           status := FLAG_INTERRUPT_DISABLE ||| FLAG_UNUSED,
           a := 0, x := 0, y := 0, halted := false, cycles := 7 }

/-! ### Shared addressing / arithmetic blocks

The Rust handlers repeat a handful of inline blocks verbatim (indirect-X/Y pointer
resolution, the page-cross cycle penalty, the ADC/SBC/CMP/shift flag computations).
They are factored here once, exactly as written in the source bodies. -/

/-- Indirect,X resolution: zero-page operand plus X (zero-page wrap), 16-bit target
read from page 0 at ptr and ptr+1 (wrapped). -/
def ind_x_addr (B : BusIf σ) (c : CPU σ) : Nat × CPU σ :=
  let f := fetch_byte B c
  let zp := f.1
  let c := f.2
  let ptr := u8 (zp + c.x)
  let lo := bus_read B c ptr
  let hi := bus_read B lo.2 (u8 (ptr + 1))
  ((hi.1 <<< 8) ||| lo.1, hi.2)

/-- Indirect,Y resolution: 16-bit base read from page 0 at the zero-page operand and
operand+1 (wrapped), plus Y with u16 wrap.  Returns (base, final address). -/
def ind_y_addr (B : BusIf σ) (c : CPU σ) : (Nat × Nat) × CPU σ :=
  let f := fetch_byte B c
  let zp := f.1
  let c := f.2
  let lo := bus_read B c zp
  let hi := bus_read B lo.2 (u8 (zp + 1))
  let base := (hi.1 <<< 8) ||| lo.1
  ((base, u16 (base + c.y)), hi.2)

/-- The `if (base & 0xFF00) != (final_addr & 0xFF00) { self.cycles += 1 }` penalty. -/
def page_cross_extra (c : CPU σ) (base final_addr : Nat) : CPU σ :=
  if base &&& 0xFF00 ≠ final_addr &&& 0xFF00 then { c with cycles := c.cycles + 1 } else c

/-- The ADC block: carry in, 8-bit sum with carry-out, signed-overflow flag
`(!(a ^ value) & (a ^ result)) & 0x80`, result into A, Z/N update. -/
def adc_core (c : CPU σ) (value : Nat) : CPU σ :=
  let carry_in := if c.status &&& FLAG_CARRY ≠ 0 then 1 else 0
  let sum := c.a + value + carry_in
  let result := u8 sum
  let c : CPU σ :=
    if sum > 0xFF then { c with status := c.status ||| FLAG_CARRY }
    else { c with status := c.status &&& (255 - FLAG_CARRY) }
  let c : CPU σ :=
    if (((c.a ^^^ value) ^^^ 0xFF) &&& (c.a ^^^ result)) &&& 0x80 ≠ 0 then
      { c with status := c.status ||| FLAG_OVERFLOW }
    else { c with status := c.status &&& (255 - FLAG_OVERFLOW) }
  let c : CPU σ := { c with a := result }
  update_zero_and_negative_flags c c.a

/-- The SBC block: operand inverted (`value ^ 0xFF`), then the ADC sum with the
overflow formula `(a ^ result) & (result ^ value) & 0x80`. -/
def sbc_core (c : CPU σ) (value : Nat) : CPU σ :=
  let carry_in := if c.status &&& FLAG_CARRY ≠ 0 then 1 else 0
  let value := value ^^^ 0xFF
  let sum := c.a + value + carry_in
  let result := u8 sum
  let c : CPU σ :=
    if sum > 0xFF then { c with status := c.status ||| FLAG_CARRY }
    else { c with status := c.status &&& (255 - FLAG_CARRY) }
  let c : CPU σ :=
    if (c.a ^^^ result) &&& (result ^^^ value) &&& 0x80 ≠ 0 then
      { c with status := c.status ||| FLAG_OVERFLOW }
    else { c with status := c.status &&& (255 - FLAG_OVERFLOW) }
  let c : CPU σ := { c with a := result }
  update_zero_and_negative_flags c c.a

/-- The CMP/CPX/CPY block: wrapping subtraction, C when reg ≥ operand, Z/N from the
difference. -/
def cmp_core (c : CPU σ) (reg value : Nat) : CPU σ :=
  let result := u8 (reg + 256 - value)
  let c : CPU σ :=
    if reg ≥ value then { c with status := c.status ||| FLAG_CARRY }
    else { c with status := c.status &&& (255 - FLAG_CARRY) }
  update_zero_and_negative_flags c result

/-- The LSR block: carry from bit 0, logical shift right. -/
def lsr_core (c : CPU σ) (value : Nat) : Nat × CPU σ :=
  let c : CPU σ :=
    if value &&& 0x01 ≠ 0 then { c with status := c.status ||| FLAG_CARRY }
    else { c with status := c.status &&& (255 - FLAG_CARRY) }
  (value >>> 1, c)

/-- The ASL block: carry from bit 7, shift left with u8 truncation. -/
def asl_core (c : CPU σ) (value : Nat) : Nat × CPU σ :=
  let c : CPU σ :=
    if value &&& 0x80 ≠ 0 then { c with status := c.status ||| FLAG_CARRY }
    else { c with status := c.status &&& (255 - FLAG_CARRY) }
  (u8 (value <<< 1), c)

/-- The ROL block: rotate left through carry (u8 truncation). -/
def rol_core (c : CPU σ) (value : Nat) : Nat × CPU σ :=
  let old_carry := if c.status &&& FLAG_CARRY ≠ 0 then 1 else 0
  let c : CPU σ :=
    if value &&& 0x80 ≠ 0 then { c with status := c.status ||| FLAG_CARRY }
    else { c with status := c.status &&& (255 - FLAG_CARRY) }
  (u8 ((value <<< 1) ||| old_carry), c)

/-- The ROR block: rotate right through carry. -/
def ror_core (c : CPU σ) (value : Nat) : Nat × CPU σ :=
  let old_carry := if c.status &&& FLAG_CARRY ≠ 0 then 1 else 0
  let c : CPU σ :=
    if value &&& 0x01 ≠ 0 then { c with status := c.status ||| FLAG_CARRY }
    else { c with status := c.status &&& (255 - FLAG_CARRY) }
  ((value >>> 1) ||| (old_carry <<< 7), c)

/-- The BIT block: Z from `a & value`, N from operand bit 7, V from operand bit 6. -/
def bit_core (c : CPU σ) (value : Nat) : CPU σ :=
  let c : CPU σ :=
    if c.a &&& value = 0 then { c with status := c.status ||| FLAG_ZERO }
    else { c with status := c.status &&& (255 - FLAG_ZERO) }
  let c : CPU σ :=
    if value &&& 0x80 ≠ 0 then { c with status := c.status ||| FLAG_NEGATIVE }
    else { c with status := c.status &&& (255 - FLAG_NEGATIVE) }
  if value &&& 0x40 ≠ 0 then { c with status := c.status ||| FLAG_OVERFLOW }
  else { c with status := c.status &&& (255 - FLAG_OVERFLOW) }

/-! ### Instruction handlers (one per source `fn`) -/

/-- CPU::lda_immediate. -/
def lda_immediate (B : BusIf σ) (c : CPU σ) : CPU σ :=
  let f := fetch_byte B c
  let c : CPU σ := { f.2 with a := f.1 }
  let c := update_zero_and_negative_flags c c.a
  { c with cycles := c.cycles + 2 }

/-- CPU::lda_zero_page. -/
def lda_zero_page (B : BusIf σ) (c : CPU σ) : CPU σ :=
  let f := fetch_byte B c
  let r := bus_read B f.2 f.1
  let c : CPU σ := { r.2 with a := r.1 }
  let c := update_zero_and_negative_flags c c.a
  { c with cycles := c.cycles + 3 }

/-- CPU::lda_zeropage_x. -/
def lda_zeropage_x (B : BusIf σ) (c : CPU σ) : CPU σ :=
  let f := fetch_byte B c
  let r := bus_read B f.2 (u8 (f.1 + f.2.x))
  let c : CPU σ := { r.2 with a := r.1 }
  let c := update_zero_and_negative_flags c c.a
  { c with cycles := c.cycles + 4 }

/-- CPU::lda_absolute. -/
def lda_absolute (B : BusIf σ) (c : CPU σ) : CPU σ :=
  let w := fetch_word B c
  let r := bus_read B w.2 w.1
  let c : CPU σ := { r.2 with a := r.1 }
  let c := update_zero_and_negative_flags c c.a
  { c with cycles := c.cycles + 4 }

/-- CPU::lda_absolute_x. -/
def lda_absolute_x (B : BusIf σ) (c : CPU σ) : CPU σ :=
  let w := fetch_word B c
  let base := w.1
  let final_addr := u16 (base + w.2.x)
  let r := bus_read B w.2 final_addr
  let c : CPU σ := { r.2 with a := r.1 }
  let c := update_zero_and_negative_flags c c.a
  let c : CPU σ := { c with cycles := c.cycles + 4 }
  page_cross_extra c base final_addr

/-- CPU::lda_absolute_y. -/
def lda_absolute_y (B : BusIf σ) (c : CPU σ) : CPU σ :=
  let w := fetch_word B c
  let base := w.1
  let final_addr := u16 (base + w.2.y)
  let r := bus_read B w.2 final_addr
  let c : CPU σ := { r.2 with a := r.1 }
  let c := update_zero_and_negative_flags c c.a
  let c : CPU σ := { c with cycles := c.cycles + 4 }
  page_cross_extra c base final_addr

/-- CPU::lda_indirect_x. -/
def lda_indirect_x (B : BusIf σ) (c : CPU σ) : CPU σ :=
  let q := ind_x_addr B c
  let r := bus_read B q.2 q.1
  let c : CPU σ := { r.2 with a := r.1 }
  let c := update_zero_and_negative_flags c c.a
  { c with cycles := c.cycles + 6 }

/-- CPU::lda_indirect_y. -/
def lda_indirect_y (B : BusIf σ) (c : CPU σ) : CPU σ :=
  let q := ind_y_addr B c
  let r := bus_read B q.2 q.1.2
  let c : CPU σ := { r.2 with a := r.1 }
  let c := update_zero_and_negative_flags c c.a
  let c : CPU σ := { c with cycles := c.cycles + 5 }
  page_cross_extra c q.1.1 q.1.2

/-- CPU::ldx_immediate. -/
def ldx_immediate (B : BusIf σ) (c : CPU σ) : CPU σ :=
  let f := fetch_byte B c
  let c : CPU σ := { f.2 with x := f.1 }
  let c := update_zero_and_negative_flags c c.x
  { c with cycles := c.cycles + 2 }

/-- CPU::ldx_absolute. -/
def ldx_absolute (B : BusIf σ) (c : CPU σ) : CPU σ :=
  let w := fetch_word B c
  let r := bus_read B w.2 w.1
  let c : CPU σ := { r.2 with x := r.1 }
  let c := update_zero_and_negative_flags c c.x
  { c with cycles := c.cycles + 4 }

/-- CPU::ldx_absolute_y. -/
def ldx_absolute_y (B : BusIf σ) (c : CPU σ) : CPU σ :=
  let w := fetch_word B c
  let base := w.1
  let final_addr := u16 (base + w.2.y)
  let r := bus_read B w.2 final_addr
  let c : CPU σ := { r.2 with x := r.1 }
  let c := update_zero_and_negative_flags c c.x
  let c : CPU σ := { c with cycles := c.cycles + 4 }
  page_cross_extra c base final_addr

/-- CPU::ldx_zeropage. -/
def ldx_zeropage (B : BusIf σ) (c : CPU σ) : CPU σ :=
  let f := fetch_byte B c
  let r := bus_read B f.2 f.1
  let c : CPU σ := { r.2 with x := r.1 }
  let c := update_zero_and_negative_flags c c.x
  { c with cycles := c.cycles + 3 }

/-- CPU::ldx_zeropage_y. -/
def ldx_zeropage_y (B : BusIf σ) (c : CPU σ) : CPU σ :=
  let f := fetch_byte B c
  let r := bus_read B f.2 (u8 (f.1 + f.2.y))
  let c : CPU σ := { r.2 with x := r.1 }
  let c := update_zero_and_negative_flags c c.x
  { c with cycles := c.cycles + 4 }

/-- CPU::ldy_immediate. -/
def ldy_immediate (B : BusIf σ) (c : CPU σ) : CPU σ :=
  let f := fetch_byte B c
  let c : CPU σ := { f.2 with y := f.1 }
  let c := update_zero_and_negative_flags c c.y
  { c with cycles := c.cycles + 2 }

/-- CPU::ldy_absolute. -/
def ldy_absolute (B : BusIf σ) (c : CPU σ) : CPU σ :=
  let w := fetch_word B c
  let r := bus_read B w.2 w.1
  let c : CPU σ := { r.2 with y := r.1 }
  let c := update_zero_and_negative_flags c c.y
  { c with cycles := c.cycles + 4 }

/-- CPU::ldy_absolute_x. -/
def ldy_absolute_x (B : BusIf σ) (c : CPU σ) : CPU σ :=
  let w := fetch_word B c
  let base := w.1
  let final_addr := u16 (base + w.2.x)
  let r := bus_read B w.2 final_addr
  let c : CPU σ := { r.2 with y := r.1 }
  let c := update_zero_and_negative_flags c c.y
  let c : CPU σ := { c with cycles := c.cycles + 4 }
  page_cross_extra c base final_addr

/-- CPU::ldy_zeropage. -/
def ldy_zeropage (B : BusIf σ) (c : CPU σ) : CPU σ :=
  let f := fetch_byte B c
  let r := bus_read B f.2 f.1
  let c : CPU σ := { r.2 with y := r.1 }
  let c := update_zero_and_negative_flags c c.y
  { c with cycles := c.cycles + 3 }

/-- CPU::ldy_zeropage_x. -/
def ldy_zeropage_x (B : BusIf σ) (c : CPU σ) : CPU σ :=
  let f := fetch_byte B c
  let r := bus_read B f.2 (u8 (f.1 + f.2.x))
  let c : CPU σ := { r.2 with y := r.1 }
  let c := update_zero_and_negative_flags c c.y
  { c with cycles := c.cycles + 4 }

/-- CPU::lax_absolute. -/
def lax_absolute (B : BusIf σ) (c : CPU σ) : CPU σ :=
  let w := fetch_word B c
  let r := bus_read B w.2 w.1
  let c : CPU σ := { r.2 with a := r.1, x := r.1 }
  let c := update_zero_and_negative_flags c r.1
  { c with cycles := c.cycles + 4 }

/-- CPU::lax_absolute_y. -/
def lax_absolute_y (B : BusIf σ) (c : CPU σ) : CPU σ :=
  let w := fetch_word B c
  let base := w.1
  let final_addr := u16 (base + w.2.y)
  let r := bus_read B w.2 final_addr
  let c : CPU σ := { r.2 with a := r.1, x := r.1 }
  let c := update_zero_and_negative_flags c r.1
  let c : CPU σ := { c with cycles := c.cycles + 4 }
  page_cross_extra c base final_addr

/-- CPU::lax_zeropage. -/
def lax_zeropage (B : BusIf σ) (c : CPU σ) : CPU σ :=
  let f := fetch_byte B c
  let r := bus_read B f.2 f.1
  let c : CPU σ := { r.2 with a := r.1, x := r.1 }
  let c := update_zero_and_negative_flags c r.1
  { c with cycles := c.cycles + 3 }

/-- CPU::lax_zeropage_y. -/
def lax_zeropage_y (B : BusIf σ) (c : CPU σ) : CPU σ :=
  let f := fetch_byte B c
  let r := bus_read B f.2 (u8 (f.1 + f.2.y))
  let c : CPU σ := { r.2 with a := r.1, x := r.1 }
  let c := update_zero_and_negative_flags c r.1
  { c with cycles := c.cycles + 4 }

/-- CPU::lax_indirect_x. -/
def lax_indirect_x (B : BusIf σ) (c : CPU σ) : CPU σ :=
  let q := ind_x_addr B c
  let r := bus_read B q.2 q.1
  let c : CPU σ := { r.2 with a := r.1, x := r.1 }
  let c := update_zero_and_negative_flags c r.1
  { c with cycles := c.cycles + 6 }

/-- CPU::lax_indirect_y. -/
def lax_indirect_y (B : BusIf σ) (c : CPU σ) : CPU σ :=
  let q := ind_y_addr B c
  let r := bus_read B q.2 q.1.2
  let c : CPU σ := { r.2 with a := r.1, x := r.1 }
  let c := update_zero_and_negative_flags c r.1
  let c : CPU σ := { c with cycles := c.cycles + 5 }
  page_cross_extra c q.1.1 q.1.2

/-- CPU::tax. -/
def tax (c : CPU σ) : CPU σ :=
  let c : CPU σ := { c with x := c.a }
  let c := update_zero_and_negative_flags c c.x
  { c with cycles := c.cycles + 2 }

/-- CPU::tay. -/
def tay (c : CPU σ) : CPU σ :=
  let c : CPU σ := { c with y := c.a }
  let c := update_zero_and_negative_flags c c.y
  { c with cycles := c.cycles + 2 }

/-- CPU::tsx. -/
def tsx (c : CPU σ) : CPU σ :=
  let c : CPU σ := { c with x := c.sp }
  let c := update_zero_and_negative_flags c c.x
  { c with cycles := c.cycles + 2 }

/-- CPU::txs — no flags. -/
def txs (c : CPU σ) : CPU σ :=
  { c with sp := c.x, cycles := c.cycles + 2 }

/-- CPU::tya. -/
def tya (c : CPU σ) : CPU σ :=
  let c : CPU σ := { c with a := c.y }
  let c := update_zero_and_negative_flags c c.a
  { c with cycles := c.cycles + 2 }

/-- CPU::txa. -/
def txa (c : CPU σ) : CPU σ :=
  let c : CPU σ := { c with a := c.x }
  let c := update_zero_and_negative_flags c c.a
  { c with cycles := c.cycles + 2 }

/-- CPU::sta_zero_page. -/
def sta_zero_page (B : BusIf σ) (c : CPU σ) : CPU σ :=
  let f := fetch_byte B c
  let c := bus_write B f.2 f.1 f.2.a
  { c with cycles := c.cycles + 3 }

/-- CPU::sta_zeropage_x. -/
def sta_zeropage_x (B : BusIf σ) (c : CPU σ) : CPU σ :=
  let f := fetch_byte B c
  let c := bus_write B f.2 (u8 (f.1 + f.2.x)) f.2.a
  { c with cycles := c.cycles + 4 }

/-- CPU::sta_absolute. -/
def sta_absolute (B : BusIf σ) (c : CPU σ) : CPU σ :=
  let w := fetch_word B c
  let c := bus_write B w.2 w.1 w.2.a
  { c with cycles := c.cycles + 4 }

/-- CPU::sta_absolute_x — always 5 cycles. -/
def sta_absolute_x (B : BusIf σ) (c : CPU σ) : CPU σ :=
  let w := fetch_word B c
  let c := bus_write B w.2 (u16 (w.1 + w.2.x)) w.2.a
  { c with cycles := c.cycles + 5 }

/-- CPU::sta_absolute_y — always 5 cycles. -/
def sta_absolute_y (B : BusIf σ) (c : CPU σ) : CPU σ :=
  let w := fetch_word B c
  let c := bus_write B w.2 (u16 (w.1 + w.2.y)) w.2.a
  { c with cycles := c.cycles + 5 }

/-- CPU::sta_indirect_x. -/
def sta_indirect_x (B : BusIf σ) (c : CPU σ) : CPU σ :=
  let q := ind_x_addr B c
  let c := bus_write B q.2 q.1 q.2.a
  { c with cycles := c.cycles + 6 }

/-- CPU::sta_indirect_y — always 6 cycles. -/
def sta_indirect_y (B : BusIf σ) (c : CPU σ) : CPU σ :=
  let q := ind_y_addr B c
  let c := bus_write B q.2 q.1.2 q.2.a
  { c with cycles := c.cycles + 6 }

/-- CPU::stx_zero_page. -/
def stx_zero_page (B : BusIf σ) (c : CPU σ) : CPU σ :=
  let f := fetch_byte B c
  let c := bus_write B f.2 f.1 f.2.x
  { c with cycles := c.cycles + 3 }

/-- CPU::stx_zeropage_y. -/
def stx_zeropage_y (B : BusIf σ) (c : CPU σ) : CPU σ :=
  let f := fetch_byte B c
  let c := bus_write B f.2 (u8 (f.1 + f.2.y)) f.2.x
  { c with cycles := c.cycles + 4 }

/-- CPU::stx_absolute. -/
def stx_absolute (B : BusIf σ) (c : CPU σ) : CPU σ :=
  let w := fetch_word B c
  let c := bus_write B w.2 w.1 w.2.x
  { c with cycles := c.cycles + 4 }

/-- CPU::sty_zeropage. -/
def sty_zeropage (B : BusIf σ) (c : CPU σ) : CPU σ :=
  let f := fetch_byte B c
  let c := bus_write B f.2 f.1 f.2.y
  { c with cycles := c.cycles + 3 }

/-- CPU::sty_zeropage_x. -/
def sty_zeropage_x (B : BusIf σ) (c : CPU σ) : CPU σ :=
  let f := fetch_byte B c
  let c := bus_write B f.2 (u8 (f.1 + f.2.x)) f.2.y
  { c with cycles := c.cycles + 4 }

/-- CPU::sty_absolute. -/
def sty_absolute (B : BusIf σ) (c : CPU σ) : CPU σ :=
  let w := fetch_word B c
  let c := bus_write B w.2 w.1 w.2.y
  { c with cycles := c.cycles + 4 }

/-- CPU::sax_absolute — store A AND X. -/
def sax_absolute (B : BusIf σ) (c : CPU σ) : CPU σ :=
  let w := fetch_word B c
  let c := bus_write B w.2 w.1 (w.2.a &&& w.2.x)
  { c with cycles := c.cycles + 4 }

/-- CPU::sax_zeropage. -/
def sax_zeropage (B : BusIf σ) (c : CPU σ) : CPU σ :=
  let f := fetch_byte B c
  let c := bus_write B f.2 f.1 (f.2.a &&& f.2.x)
  { c with cycles := c.cycles + 3 }

/-- CPU::sax_zeropage_y. -/
def sax_zeropage_y (B : BusIf σ) (c : CPU σ) : CPU σ :=
  let f := fetch_byte B c
  let c := bus_write B f.2 (u8 (f.1 + f.2.y)) (f.2.a &&& f.2.x)
  { c with cycles := c.cycles + 4 }

/-- CPU::sax_indirect_x. -/
def sax_indirect_x (B : BusIf σ) (c : CPU σ) : CPU σ :=
  let q := ind_x_addr B c
  let c := bus_write B q.2 q.1 (q.2.a &&& q.2.x)
  { c with cycles := c.cycles + 6 }

/-- CPU::and_immediate. -/
def and_immediate (B : BusIf σ) (c : CPU σ) : CPU σ :=
  let f := fetch_byte B c
  let c : CPU σ := { f.2 with a := f.2.a &&& f.1 }
  let c := update_zero_and_negative_flags c c.a
  { c with cycles := c.cycles + 2 }

/-- CPU::and_zeropage. -/
def and_zeropage (B : BusIf σ) (c : CPU σ) : CPU σ :=
  let f := fetch_byte B c
  let r := bus_read B f.2 f.1
  let c : CPU σ := { r.2 with a := r.2.a &&& r.1 }
  let c := update_zero_and_negative_flags c c.a
  { c with cycles := c.cycles + 3 }

/-- CPU::and_zeropage_x. -/
def and_zeropage_x (B : BusIf σ) (c : CPU σ) : CPU σ :=
  let f := fetch_byte B c
  let r := bus_read B f.2 (u8 (f.1 + f.2.x))
  let c : CPU σ := { r.2 with a := r.2.a &&& r.1 }
  let c := update_zero_and_negative_flags c c.a
  { c with cycles := c.cycles + 4 }

/-- CPU::and_absolute. -/
def and_absolute (B : BusIf σ) (c : CPU σ) : CPU σ :=
  let w := fetch_word B c
  let r := bus_read B w.2 w.1
  let c : CPU σ := { r.2 with a := r.2.a &&& r.1 }
  let c := update_zero_and_negative_flags c c.a
  { c with cycles := c.cycles + 4 }

/-- CPU::and_absolute_x. -/
def and_absolute_x (B : BusIf σ) (c : CPU σ) : CPU σ :=
  let w := fetch_word B c
  let base := w.1
  let final_addr := u16 (base + w.2.x)
  let r := bus_read B w.2 final_addr
  let c : CPU σ := { r.2 with a := r.2.a &&& r.1 }
  let c := update_zero_and_negative_flags c c.a
  let c : CPU σ := { c with cycles := c.cycles + 4 }
  page_cross_extra c base final_addr

/-- CPU::and_absolute_y. -/
def and_absolute_y (B : BusIf σ) (c : CPU σ) : CPU σ :=
  let w := fetch_word B c
  let base := w.1
  let final_addr := u16 (base + w.2.y)
  let r := bus_read B w.2 final_addr
  let c : CPU σ := { r.2 with a := r.2.a &&& r.1 }
  let c := update_zero_and_negative_flags c c.a
  let c : CPU σ := { c with cycles := c.cycles + 4 }
  page_cross_extra c base final_addr

/-- CPU::and_indirect_x. -/
def and_indirect_x (B : BusIf σ) (c : CPU σ) : CPU σ :=
  let q := ind_x_addr B c
  let r := bus_read B q.2 q.1
  let c : CPU σ := { r.2 with a := r.2.a &&& r.1 }
  let c := update_zero_and_negative_flags c c.a
  { c with cycles := c.cycles + 6 }

/-- CPU::and_indirect_y. -/
def and_indirect_y (B : BusIf σ) (c : CPU σ) : CPU σ :=
  let q := ind_y_addr B c
  let r := bus_read B q.2 q.1.2
  let c : CPU σ := { r.2 with a := r.2.a &&& r.1 }
  let c := update_zero_and_negative_flags c c.a
  let c : CPU σ := { c with cycles := c.cycles + 5 }
  page_cross_extra c q.1.1 q.1.2

/-- CPU::ora_immediate. -/
def ora_immediate (B : BusIf σ) (c : CPU σ) : CPU σ :=
  let f := fetch_byte B c
  let c : CPU σ := { f.2 with a := f.2.a ||| f.1 }
  let c := update_zero_and_negative_flags c c.a
  { c with cycles := c.cycles + 2 }

/-- CPU::ora_absolute. -/
def ora_absolute (B : BusIf σ) (c : CPU σ) : CPU σ :=
  let w := fetch_word B c
  let r := bus_read B w.2 w.1
  let c : CPU σ := { r.2 with a := r.2.a ||| r.1 }
  let c := update_zero_and_negative_flags c c.a
  { c with cycles := c.cycles + 4 }

/-- CPU::ora_absolute_x. -/
def ora_absolute_x (B : BusIf σ) (c : CPU σ) : CPU σ :=
  let w := fetch_word B c
  let base := w.1
  let final_addr := u16 (base + w.2.x)
  let r := bus_read B w.2 final_addr
  let c : CPU σ := { r.2 with a := r.2.a ||| r.1 }
  let c := update_zero_and_negative_flags c c.a
  let c : CPU σ := { c with cycles := c.cycles + 4 }
  page_cross_extra c base final_addr

/-- CPU::ora_absolute_y. -/
def ora_absolute_y (B : BusIf σ) (c : CPU σ) : CPU σ :=
  let w := fetch_word B c
  let base := w.1
  let final_addr := u16 (base + w.2.y)
  let r := bus_read B w.2 final_addr
  let c : CPU σ := { r.2 with a := r.2.a ||| r.1 }
  let c := update_zero_and_negative_flags c c.a
  let c : CPU σ := { c with cycles := c.cycles + 4 }
  page_cross_extra c base final_addr

/-- CPU::ora_indirect_x. -/
def ora_indirect_x (B : BusIf σ) (c : CPU σ) : CPU σ :=
  let q := ind_x_addr B c
  let r := bus_read B q.2 q.1
  let c : CPU σ := { r.2 with a := r.2.a ||| r.1 }
  let c := update_zero_and_negative_flags c c.a
  { c with cycles := c.cycles + 6 }

/-- CPU::ora_indirect_y. -/
def ora_indirect_y (B : BusIf σ) (c : CPU σ) : CPU σ :=
  let q := ind_y_addr B c
  let r := bus_read B q.2 q.1.2
  let c : CPU σ := { r.2 with a := r.2.a ||| r.1 }
  let c := update_zero_and_negative_flags c c.a
  let c : CPU σ := { c with cycles := c.cycles + 5 }
  page_cross_extra c q.1.1 q.1.2

/-- CPU::ora_zeropage. -/
def ora_zeropage (B : BusIf σ) (c : CPU σ) : CPU σ :=
  let f := fetch_byte B c
  let r := bus_read B f.2 f.1
  let c : CPU σ := { r.2 with a := r.2.a ||| r.1 }
  let c := update_zero_and_negative_flags c c.a
  { c with cycles := c.cycles + 3 }

/-- CPU::ora_zeropage_x. -/
def ora_zeropage_x (B : BusIf σ) (c : CPU σ) : CPU σ :=
  let f := fetch_byte B c
  let r := bus_read B f.2 (u8 (f.1 + f.2.x))
  let c : CPU σ := { r.2 with a := r.2.a ||| r.1 }
  let c := update_zero_and_negative_flags c c.a
  { c with cycles := c.cycles + 4 }

/-- CPU::eor_immediate. -/
def eor_immediate (B : BusIf σ) (c : CPU σ) : CPU σ :=
  let f := fetch_byte B c
  let c : CPU σ := { f.2 with a := f.2.a ^^^ f.1 }
  let c := update_zero_and_negative_flags c c.a
  { c with cycles := c.cycles + 2 }

/-- CPU::eor_zeropage. -/
def eor_zeropage (B : BusIf σ) (c : CPU σ) : CPU σ :=
  let f := fetch_byte B c
  let r := bus_read B f.2 f.1
  let c : CPU σ := { r.2 with a := r.2.a ^^^ r.1 }
  let c := update_zero_and_negative_flags c c.a
  { c with cycles := c.cycles + 3 }

/-- CPU::eor_zeropage_x. -/
def eor_zeropage_x (B : BusIf σ) (c : CPU σ) : CPU σ :=
  let f := fetch_byte B c
  let r := bus_read B f.2 (u8 (f.1 + f.2.x))
  let c : CPU σ := { r.2 with a := r.2.a ^^^ r.1 }
  let c := update_zero_and_negative_flags c c.a
  { c with cycles := c.cycles + 4 }

/-- CPU::eor_absolute. -/
def eor_absolute (B : BusIf σ) (c : CPU σ) : CPU σ :=
  let w := fetch_word B c
  let r := bus_read B w.2 w.1
  let c : CPU σ := { r.2 with a := r.2.a ^^^ r.1 }
  let c := update_zero_and_negative_flags c c.a
  { c with cycles := c.cycles + 4 }

/-- CPU::eor_absolute_x. -/
def eor_absolute_x (B : BusIf σ) (c : CPU σ) : CPU σ :=
  let w := fetch_word B c
  let base := w.1
  let final_addr := u16 (base + w.2.x)
  let r := bus_read B w.2 final_addr
  let c : CPU σ := { r.2 with a := r.2.a ^^^ r.1 }
  let c := update_zero_and_negative_flags c c.a
  let c : CPU σ := { c with cycles := c.cycles + 4 }
  page_cross_extra c base final_addr

/-- CPU::eor_absolute_y. -/
def eor_absolute_y (B : BusIf σ) (c : CPU σ) : CPU σ :=
  let w := fetch_word B c
  let base := w.1
  let final_addr := u16 (base + w.2.y)
  let r := bus_read B w.2 final_addr
  let c : CPU σ := { r.2 with a := r.2.a ^^^ r.1 }
  let c := update_zero_and_negative_flags c c.a
  let c : CPU σ := { c with cycles := c.cycles + 4 }
  page_cross_extra c base final_addr

/-- CPU::eor_indirect_x. -/
def eor_indirect_x (B : BusIf σ) (c : CPU σ) : CPU σ :=
  let q := ind_x_addr B c
  let r := bus_read B q.2 q.1
  let c : CPU σ := { r.2 with a := r.2.a ^^^ r.1 }
  let c := update_zero_and_negative_flags c c.a
  { c with cycles := c.cycles + 6 }

/-- CPU::eor_indirect_y. -/
def eor_indirect_y (B : BusIf σ) (c : CPU σ) : CPU σ :=
  let q := ind_y_addr B c
  let r := bus_read B q.2 q.1.2
  let c : CPU σ := { r.2 with a := r.2.a ^^^ r.1 }
  let c := update_zero_and_negative_flags c c.a
  let c : CPU σ := { c with cycles := c.cycles + 5 }
  page_cross_extra c q.1.1 q.1.2

/-- CPU::adc_immediate. -/
def adc_immediate (B : BusIf σ) (c : CPU σ) : CPU σ :=
  let f := fetch_byte B c
  let c := adc_core f.2 f.1
  { c with cycles := c.cycles + 2 }

/-- CPU::adc_absolute. -/
def adc_absolute (B : BusIf σ) (c : CPU σ) : CPU σ :=
  let w := fetch_word B c
  let r := bus_read B w.2 w.1
  let c := adc_core r.2 r.1
  { c with cycles := c.cycles + 4 }

/-- CPU::adc_absolute_x. -/
def adc_absolute_x (B : BusIf σ) (c : CPU σ) : CPU σ :=
  let w := fetch_word B c
  let base := w.1
  let final_addr := u16 (base + w.2.x)
  let r := bus_read B w.2 final_addr
  let c := adc_core r.2 r.1
  let c : CPU σ := { c with cycles := c.cycles + 4 }
  page_cross_extra c base final_addr

/-- CPU::adc_absolute_y. -/
def adc_absolute_y (B : BusIf σ) (c : CPU σ) : CPU σ :=
  let w := fetch_word B c
  let base := w.1
  let final_addr := u16 (base + w.2.y)
  let r := bus_read B w.2 final_addr
  let c := adc_core r.2 r.1
  let c : CPU σ := { c with cycles := c.cycles + 4 }
  page_cross_extra c base final_addr

/-- CPU::adc_zeropage. -/
def adc_zeropage (B : BusIf σ) (c : CPU σ) : CPU σ :=
  let f := fetch_byte B c
  let r := bus_read B f.2 f.1
  let c := adc_core r.2 r.1
  { c with cycles := c.cycles + 3 }

/-- CPU::adc_zeropage_x. -/
def adc_zeropage_x (B : BusIf σ) (c : CPU σ) : CPU σ :=
  let f := fetch_byte B c
  let r := bus_read B f.2 (u8 (f.1 + f.2.x))
  let c := adc_core r.2 r.1
  { c with cycles := c.cycles + 4 }

/-- CPU::adc_indirect_x. -/
def adc_indirect_x (B : BusIf σ) (c : CPU σ) : CPU σ :=
  let q := ind_x_addr B c
  let r := bus_read B q.2 q.1
  let c := adc_core r.2 r.1
  { c with cycles := c.cycles + 6 }

/-- CPU::adc_indirect_y. -/
def adc_indirect_y (B : BusIf σ) (c : CPU σ) : CPU σ :=
  let q := ind_y_addr B c
  let r := bus_read B q.2 q.1.2
  let c := adc_core r.2 r.1
  let c : CPU σ := { c with cycles := c.cycles + 5 }
  page_cross_extra c q.1.1 q.1.2

/-- CPU::sbc_immediate. -/
def sbc_immediate (B : BusIf σ) (c : CPU σ) : CPU σ :=
  let f := fetch_byte B c
  let c := sbc_core f.2 f.1
  { c with cycles := c.cycles + 2 }

/-- CPU::sbc_absolute. -/
def sbc_absolute (B : BusIf σ) (c : CPU σ) : CPU σ :=
  let w := fetch_word B c
  let r := bus_read B w.2 w.1
  let c := sbc_core r.2 r.1
  { c with cycles := c.cycles + 4 }

/-- CPU::sbc_absolute_x. -/
def sbc_absolute_x (B : BusIf σ) (c : CPU σ) : CPU σ :=
  let w := fetch_word B c
  let base := w.1
  let final_addr := u16 (base + w.2.x)
  let r := bus_read B w.2 final_addr
  let c := sbc_core r.2 r.1
  let c : CPU σ := { c with cycles := c.cycles + 4 }
  page_cross_extra c base final_addr

/-- CPU::sbc_absolute_y. -/
def sbc_absolute_y (B : BusIf σ) (c : CPU σ) : CPU σ :=
  let w := fetch_word B c
  let base := w.1
  let final_addr := u16 (base + w.2.y)
  let r := bus_read B w.2 final_addr
  let c := sbc_core r.2 r.1
  let c : CPU σ := { c with cycles := c.cycles + 4 }
  page_cross_extra c base final_addr

/-- CPU::sbc_zeropage. -/
def sbc_zeropage (B : BusIf σ) (c : CPU σ) : CPU σ :=
  let f := fetch_byte B c
  let r := bus_read B f.2 f.1
  let c := sbc_core r.2 r.1
  { c with cycles := c.cycles + 3 }

/-- CPU::sbc_zeropage_x. -/
def sbc_zeropage_x (B : BusIf σ) (c : CPU σ) : CPU σ :=
  let f := fetch_byte B c
  let r := bus_read B f.2 (u8 (f.1 + f.2.x))
  let c := sbc_core r.2 r.1
  { c with cycles := c.cycles + 4 }

/-- CPU::sbc_indirect_x. -/
def sbc_indirect_x (B : BusIf σ) (c : CPU σ) : CPU σ :=
  let q := ind_x_addr B c
  let r := bus_read B q.2 q.1
  let c := sbc_core r.2 r.1
  { c with cycles := c.cycles + 6 }

/-- CPU::sbc_indirect_y. -/
def sbc_indirect_y (B : BusIf σ) (c : CPU σ) : CPU σ :=
  let q := ind_y_addr B c
  let r := bus_read B q.2 q.1.2
  let c := sbc_core r.2 r.1
  let c : CPU σ := { c with cycles := c.cycles + 5 }
  page_cross_extra c q.1.1 q.1.2

/-- CPU::jmp_absolute. -/
def jmp_absolute (B : BusIf σ) (c : CPU σ) : CPU σ :=
  let w := fetch_word B c
  { w.2 with pc := w.1, cycles := w.2.cycles + 3 }

/-- CPU::jmp_indirect — with the $xxFF page-boundary bug on the high pointer byte. -/
def jmp_indirect (B : BusIf σ) (c : CPU σ) : CPU σ :=
  let w := fetch_word B c
  let addr := w.1
  let lo := bus_read B w.2 addr
  let hi_addr := (addr &&& 0xFF00) ||| ((addr + 1) &&& 0x00FF)
  let hi := bus_read B lo.2 hi_addr
  { hi.2 with pc := (hi.1 <<< 8) ||| lo.1, cycles := hi.2.cycles + 5 }

/-- CPU::inx. -/
def inx (c : CPU σ) : CPU σ :=
  let c : CPU σ := { c with x := u8 (c.x + 1) }
  let c := update_zero_and_negative_flags c c.x
  { c with cycles := c.cycles + 2 }

/-- CPU::inc_zeropage. -/
def inc_zeropage (B : BusIf σ) (c : CPU σ) : CPU σ :=
  let f := fetch_byte B c
  let r := bus_read B f.2 f.1
  let value := u8 (r.1 + 1)
  let c := bus_write B r.2 f.1 value
  let c := update_zero_and_negative_flags c value
  { c with cycles := c.cycles + 5 }

/-- CPU::inc_zeropage_x. -/
def inc_zeropage_x (B : BusIf σ) (c : CPU σ) : CPU σ :=
  let f := fetch_byte B c
  let addr := u8 (f.1 + f.2.x)
  let r := bus_read B f.2 addr
  let value := u8 (r.1 + 1)
  let c := bus_write B r.2 addr value
  let c := update_zero_and_negative_flags c value
  { c with cycles := c.cycles + 6 }

/-- CPU::inc_absolute. -/
def inc_absolute (B : BusIf σ) (c : CPU σ) : CPU σ :=
  let w := fetch_word B c
  let r := bus_read B w.2 w.1
  let value := u8 (r.1 + 1)
  let c := bus_write B r.2 w.1 value
  let c := update_zero_and_negative_flags c value
  { c with cycles := c.cycles + 6 }

/-- CPU::inc_absolute_x — always 7 cycles. -/
def inc_absolute_x (B : BusIf σ) (c : CPU σ) : CPU σ :=
  let w := fetch_word B c
  let addr := u16 (w.1 + w.2.x)
  let r := bus_read B w.2 addr
  let value := u8 (r.1 + 1)
  let c := bus_write B r.2 addr value
  let c := update_zero_and_negative_flags c value
  { c with cycles := c.cycles + 7 }

/-- CPU::iny. -/
def iny (c : CPU σ) : CPU σ :=
  let c : CPU σ := { c with y := u8 (c.y + 1) }
  let c := update_zero_and_negative_flags c c.y
  { c with cycles := c.cycles + 2 }

/-- CPU::isc_absolute — INC then SBC. -/
def isc_absolute (B : BusIf σ) (c : CPU σ) : CPU σ :=
  let w := fetch_word B c
  let r := bus_read B w.2 w.1
  let value := u8 (r.1 + 1)
  let c := bus_write B r.2 w.1 value
  let c := sbc_core c value
  { c with cycles := c.cycles + 6 }

/-- CPU::isc_absolute_x — always 7 cycles. -/
def isc_absolute_x (B : BusIf σ) (c : CPU σ) : CPU σ :=
  let w := fetch_word B c
  let addr := u16 (w.1 + w.2.x)
  let r := bus_read B w.2 addr
  let value := u8 (r.1 + 1)
  let c := bus_write B r.2 addr value
  let c := sbc_core c value
  { c with cycles := c.cycles + 7 }

/-- CPU::isc_absolute_y — always 7 cycles. -/
def isc_absolute_y (B : BusIf σ) (c : CPU σ) : CPU σ :=
  let w := fetch_word B c
  let addr := u16 (w.1 + w.2.y)
  let r := bus_read B w.2 addr
  let value := u8 (r.1 + 1)
  let c := bus_write B r.2 addr value
  let c := sbc_core c value
  { c with cycles := c.cycles + 7 }

/-- CPU::isc_zeropage. -/
def isc_zeropage (B : BusIf σ) (c : CPU σ) : CPU σ :=
  let f := fetch_byte B c
  let r := bus_read B f.2 f.1
  let value := u8 (r.1 + 1)
  let c := bus_write B r.2 f.1 value
  let c := sbc_core c value
  { c with cycles := c.cycles + 5 }

/-- CPU::isc_zeropage_x. -/
def isc_zeropage_x (B : BusIf σ) (c : CPU σ) : CPU σ :=
  let f := fetch_byte B c
  let addr := u8 (f.1 + f.2.x)
  let r := bus_read B f.2 addr
  let value := u8 (r.1 + 1)
  let c := bus_write B r.2 addr value
  let c := sbc_core c value
  { c with cycles := c.cycles + 6 }

/-- CPU::isc_indirect_x. -/
def isc_indirect_x (B : BusIf σ) (c : CPU σ) : CPU σ :=
  let q := ind_x_addr B c
  let r := bus_read B q.2 q.1
  let value := u8 (r.1 + 1)
  let c := bus_write B r.2 q.1 value
  let c := sbc_core c value
  { c with cycles := c.cycles + 8 }

/-- CPU::isc_indirect_y — always 8 cycles. -/
def isc_indirect_y (B : BusIf σ) (c : CPU σ) : CPU σ :=
  let q := ind_y_addr B c
  let r := bus_read B q.2 q.1.2
  let value := u8 (r.1 + 1)
  let c := bus_write B r.2 q.1.2 value
  let c := sbc_core c value
  { c with cycles := c.cycles + 8 }

/-- CPU::dex. -/
def dex (c : CPU σ) : CPU σ :=
  let c : CPU σ := { c with x := u8 (c.x + 255) }
  let c := update_zero_and_negative_flags c c.x
  { c with cycles := c.cycles + 2 }

/-- CPU::dey. -/
def dey (c : CPU σ) : CPU σ :=
  let c : CPU σ := { c with y := u8 (c.y + 255) }
  let c := update_zero_and_negative_flags c c.y
  { c with cycles := c.cycles + 2 }

/-- CPU::dec_absolute. -/
def dec_absolute (B : BusIf σ) (c : CPU σ) : CPU σ :=
  let w := fetch_word B c
  let r := bus_read B w.2 w.1
  let value := u8 (r.1 + 255)
  let c := bus_write B r.2 w.1 value
  let c := update_zero_and_negative_flags c value
  { c with cycles := c.cycles + 6 }

/-- CPU::dec_absolute_x — always 7 cycles. -/
def dec_absolute_x (B : BusIf σ) (c : CPU σ) : CPU σ :=
  let w := fetch_word B c
  let addr := u16 (w.1 + w.2.x)
  let r := bus_read B w.2 addr
  let value := u8 (r.1 + 255)
  let c := bus_write B r.2 addr value
  let c := update_zero_and_negative_flags c value
  { c with cycles := c.cycles + 7 }

/-- CPU::dec_zeropage. -/
def dec_zeropage (B : BusIf σ) (c : CPU σ) : CPU σ :=
  let f := fetch_byte B c
  let r := bus_read B f.2 f.1
  let value := u8 (r.1 + 255)
  let c := bus_write B r.2 f.1 value
  let c := update_zero_and_negative_flags c value
  { c with cycles := c.cycles + 5 }

/-- CPU::dec_zeropage_x. -/
def dec_zeropage_x (B : BusIf σ) (c : CPU σ) : CPU σ :=
  let f := fetch_byte B c
  let addr := u8 (f.1 + f.2.x)
  let r := bus_read B f.2 addr
  let value := u8 (r.1 + 255)
  let c := bus_write B r.2 addr value
  let c := update_zero_and_negative_flags c value
  { c with cycles := c.cycles + 6 }

/-- CPU::beq. -/
def beq (B : BusIf σ) (c : CPU σ) : CPU σ := branch B c (c.status &&& FLAG_ZERO ≠ 0)

/-- CPU::bne. -/
def bne (B : BusIf σ) (c : CPU σ) : CPU σ := branch B c (¬(c.status &&& FLAG_ZERO ≠ 0))

/-- CPU::bcs. -/
def bcs (B : BusIf σ) (c : CPU σ) : CPU σ := branch B c (c.status &&& FLAG_CARRY ≠ 0)

/-- CPU::bcc. -/
def bcc (B : BusIf σ) (c : CPU σ) : CPU σ := branch B c (c.status &&& FLAG_CARRY = 0)

/-- CPU::bvs. -/
def bvs (B : BusIf σ) (c : CPU σ) : CPU σ := branch B c (c.status &&& FLAG_OVERFLOW ≠ 0)

/-- CPU::bvc. -/
def bvc (B : BusIf σ) (c : CPU σ) : CPU σ := branch B c (c.status &&& FLAG_OVERFLOW = 0)

/-- CPU::bpl. -/
def bpl (B : BusIf σ) (c : CPU σ) : CPU σ := branch B c (c.status &&& FLAG_NEGATIVE = 0)

/-- CPU::bmi. -/
def bmi (B : BusIf σ) (c : CPU σ) : CPU σ := branch B c (c.status &&& FLAG_NEGATIVE ≠ 0)

/-- CPU::cmp_immediate. -/
def cmp_immediate (B : BusIf σ) (c : CPU σ) : CPU σ :=
  let f := fetch_byte B c
  let c := cmp_core f.2 f.2.a f.1
  { c with cycles := c.cycles + 2 }

/-- CPU::cmp_absolute. -/
def cmp_absolute (B : BusIf σ) (c : CPU σ) : CPU σ :=
  let w := fetch_word B c
  let r := bus_read B w.2 w.1
  let c := cmp_core r.2 r.2.a r.1
  { c with cycles := c.cycles + 4 }

/-- CPU::cmp_absolute_x. -/
def cmp_absolute_x (B : BusIf σ) (c : CPU σ) : CPU σ :=
  let w := fetch_word B c
  let base := w.1
  let final_addr := u16 (base + w.2.x)
  let r := bus_read B w.2 final_addr
  let c := cmp_core r.2 r.2.a r.1
  let c : CPU σ := { c with cycles := c.cycles + 4 }
  page_cross_extra c base final_addr

/-- CPU::cmp_absolute_y. -/
def cmp_absolute_y (B : BusIf σ) (c : CPU σ) : CPU σ :=
  let w := fetch_word B c
  let base := w.1
  let final_addr := u16 (base + w.2.y)
  let r := bus_read B w.2 final_addr
  let c := cmp_core r.2 r.2.a r.1
  let c : CPU σ := { c with cycles := c.cycles + 4 }
  page_cross_extra c base final_addr

/-- CPU::cmp_zeropage. -/
def cmp_zeropage (B : BusIf σ) (c : CPU σ) : CPU σ :=
  let f := fetch_byte B c
  let r := bus_read B f.2 f.1
  let c := cmp_core r.2 r.2.a r.1
  { c with cycles := c.cycles + 3 }

/-- CPU::cmp_zeropage_x. -/
def cmp_zeropage_x (B : BusIf σ) (c : CPU σ) : CPU σ :=
  let f := fetch_byte B c
  let r := bus_read B f.2 (u8 (f.1 + f.2.x))
  let c := cmp_core r.2 r.2.a r.1
  { c with cycles := c.cycles + 4 }

/-- CPU::cmp_indirect_x. -/
def cmp_indirect_x (B : BusIf σ) (c : CPU σ) : CPU σ :=
  let q := ind_x_addr B c
  let r := bus_read B q.2 q.1
  let c := cmp_core r.2 r.2.a r.1
  { c with cycles := c.cycles + 6 }

/-- CPU::cmp_indirect_y. -/
def cmp_indirect_y (B : BusIf σ) (c : CPU σ) : CPU σ :=
  let q := ind_y_addr B c
  let r := bus_read B q.2 q.1.2
  let c := cmp_core r.2 r.2.a r.1
  let c : CPU σ := { c with cycles := c.cycles + 5 }
  page_cross_extra c q.1.1 q.1.2

/-- CPU::dcp_absolute — DEC then CMP. -/
def dcp_absolute (B : BusIf σ) (c : CPU σ) : CPU σ :=
  let w := fetch_word B c
  let r := bus_read B w.2 w.1
  let value := u8 (r.1 + 255)
  let c := bus_write B r.2 w.1 value
  let c := cmp_core c c.a value
  { c with cycles := c.cycles + 6 }

/-- CPU::dcp_absolute_x — always 7 cycles. -/
def dcp_absolute_x (B : BusIf σ) (c : CPU σ) : CPU σ :=
  let w := fetch_word B c
  let addr := u16 (w.1 + w.2.x)
  let r := bus_read B w.2 addr
  let value := u8 (r.1 + 255)
  let c := bus_write B r.2 addr value
  let c := cmp_core c c.a value
  { c with cycles := c.cycles + 7 }

/-- CPU::dcp_absolute_y — always 7 cycles. -/
def dcp_absolute_y (B : BusIf σ) (c : CPU σ) : CPU σ :=
  let w := fetch_word B c
  let addr := u16 (w.1 + w.2.y)
  let r := bus_read B w.2 addr
  let value := u8 (r.1 + 255)
  let c := bus_write B r.2 addr value
  let c := cmp_core c c.a value
  { c with cycles := c.cycles + 7 }

/-- CPU::dcp_zeropage. -/
def dcp_zeropage (B : BusIf σ) (c : CPU σ) : CPU σ :=
  let f := fetch_byte B c
  let r := bus_read B f.2 f.1
  let value := u8 (r.1 + 255)
  let c := bus_write B r.2 f.1 value
  let c := cmp_core c c.a value
  { c with cycles := c.cycles + 5 }

/-- CPU::dcp_zeropage_x. -/
def dcp_zeropage_x (B : BusIf σ) (c : CPU σ) : CPU σ :=
  let f := fetch_byte B c
  let addr := u8 (f.1 + f.2.x)
  let r := bus_read B f.2 addr
  let value := u8 (r.1 + 255)
  let c := bus_write B r.2 addr value
  let c := cmp_core c c.a value
  { c with cycles := c.cycles + 6 }

/-- CPU::dcp_indirect_x. -/
def dcp_indirect_x (B : BusIf σ) (c : CPU σ) : CPU σ :=
  let q := ind_x_addr B c
  let r := bus_read B q.2 q.1
  let value := u8 (r.1 + 255)
  let c := bus_write B r.2 q.1 value
  let c := cmp_core c c.a value
  { c with cycles := c.cycles + 8 }

/-- CPU::dcp_indirect_y — always 8 cycles. -/
def dcp_indirect_y (B : BusIf σ) (c : CPU σ) : CPU σ :=
  let q := ind_y_addr B c
  let r := bus_read B q.2 q.1.2
  let value := u8 (r.1 + 255)
  let c := bus_write B r.2 q.1.2 value
  let c := cmp_core c c.a value
  { c with cycles := c.cycles + 8 }

/-- CPU::cpy_immediate. -/
def cpy_immediate (B : BusIf σ) (c : CPU σ) : CPU σ :=
  let f := fetch_byte B c
  let c := cmp_core f.2 f.2.y f.1
  { c with cycles := c.cycles + 2 }

/-- CPU::cpy_absolute. -/
def cpy_absolute (B : BusIf σ) (c : CPU σ) : CPU σ :=
  let w := fetch_word B c
  let r := bus_read B w.2 w.1
  let c := cmp_core r.2 r.2.y r.1
  { c with cycles := c.cycles + 4 }

/-- CPU::cpy_zeropage. -/
def cpy_zeropage (B : BusIf σ) (c : CPU σ) : CPU σ :=
  let f := fetch_byte B c
  let r := bus_read B f.2 f.1
  let c := cmp_core r.2 r.2.y r.1
  { c with cycles := c.cycles + 3 }

/-- CPU::cpx_immediate. -/
def cpx_immediate (B : BusIf σ) (c : CPU σ) : CPU σ :=
  let f := fetch_byte B c
  let c := cmp_core f.2 f.2.x f.1
  { c with cycles := c.cycles + 2 }

/-- CPU::cpx_absolute. -/
def cpx_absolute (B : BusIf σ) (c : CPU σ) : CPU σ :=
  let w := fetch_word B c
  let r := bus_read B w.2 w.1
  let c := cmp_core r.2 r.2.x r.1
  { c with cycles := c.cycles + 4 }

/-- CPU::cpx_zeropage. -/
def cpx_zeropage (B : BusIf σ) (c : CPU σ) : CPU σ :=
  let f := fetch_byte B c
  let r := bus_read B f.2 f.1
  let c := cmp_core r.2 r.2.x r.1
  { c with cycles := c.cycles + 3 }

/-- CPU::jsr — push PC−1 (high then low), jump. -/
def jsr (B : BusIf σ) (c : CPU σ) : CPU σ :=
  let w := fetch_word B c
  let c := w.2
  let return_addr := u16 (c.pc + 65535)
  let c := push B c (return_addr >>> 8)
  let c := push B c (return_addr &&& 0xFF)
  { c with pc := w.1, cycles := c.cycles + 6 }

/-- CPU::rti — pop P (B cleared, U forced), then PCL, PCH. -/
def rti (B : BusIf σ) (c : CPU σ) : CPU σ :=
  let st := pop B c
  let c : CPU σ := { st.2 with status := (st.1 &&& (255 - FLAG_BREAK)) ||| FLAG_UNUSED }
  let lo := pop B c
  let hi := pop B lo.2
  { hi.2 with pc := (hi.1 <<< 8) ||| lo.1, cycles := hi.2.cycles + 6 }

/-- CPU::rts — pop PCL, PCH, jump to popped address + 1. -/
def rts (B : BusIf σ) (c : CPU σ) : CPU σ :=
  let lo := pop B c
  let hi := pop B lo.2
  { hi.2 with pc := u16 (((hi.1 <<< 8) ||| lo.1) + 1), cycles := hi.2.cycles + 6 }

/-- CPU::pha. -/
def pha (B : BusIf σ) (c : CPU σ) : CPU σ :=
  let c := push B c c.a
  { c with cycles := c.cycles + 3 }

/-- CPU::php — pushed copy has B and U set. -/
def php (B : BusIf σ) (c : CPU σ) : CPU σ :=
  let c := push B c (c.status ||| FLAG_BREAK ||| FLAG_UNUSED)
  { c with cycles := c.cycles + 3 }

/-- CPU::plp — popped P with B cleared and U forced. -/
def plp (B : BusIf σ) (c : CPU σ) : CPU σ :=
  let v := pop B c
  { v.2 with status := (v.1 &&& (255 - FLAG_BREAK)) ||| FLAG_UNUSED,
             cycles := v.2.cycles + 4 }

/-- CPU::pla. -/
def pla (B : BusIf σ) (c : CPU σ) : CPU σ :=
  let v := pop B c
  let c : CPU σ := { v.2 with a := v.1 }
  let c := update_zero_and_negative_flags c c.a
  { c with cycles := c.cycles + 4 }

/-- CPU::nop (official $EA). -/
def nop (c : CPU σ) : CPU σ := { c with cycles := c.cycles + 2 }

/-- CPU::nop_zeropage — dummy read. -/
def nop_zeropage (B : BusIf σ) (c : CPU σ) : CPU σ :=
  let f := fetch_byte B c
  let r := bus_read B f.2 f.1
  { r.2 with cycles := r.2.cycles + 3 }

/-- CPU::nop_zeropage_x — dummy read. -/
def nop_zeropage_x (B : BusIf σ) (c : CPU σ) : CPU σ :=
  let f := fetch_byte B c
  let r := bus_read B f.2 (u8 (f.1 + f.2.x))
  { r.2 with cycles := r.2.cycles + 4 }

/-- CPU::nop_absolute — dummy read. -/
def nop_absolute (B : BusIf σ) (c : CPU σ) : CPU σ :=
  let w := fetch_word B c
  let r := bus_read B w.2 w.1
  { r.2 with cycles := r.2.cycles + 4 }

/-- CPU::nop_absolute_x — dummy read with page-cross penalty. -/
def nop_absolute_x (B : BusIf σ) (c : CPU σ) : CPU σ :=
  let w := fetch_word B c
  let base := w.1
  let final_addr := u16 (base + w.2.x)
  let r := bus_read B w.2 final_addr
  let c : CPU σ := { r.2 with cycles := r.2.cycles + 4 }
  page_cross_extra c base final_addr

/-- CPU::nop_immediate — dummy operand fetch. -/
def nop_immediate (B : BusIf σ) (c : CPU σ) : CPU σ :=
  let f := fetch_byte B c
  { f.2 with cycles := f.2.cycles + 2 }

/-- CPU::nop_implied. -/
def nop_implied (c : CPU σ) : CPU σ := { c with cycles := c.cycles + 2 }

/-- CPU::sed. -/
def sed (c : CPU σ) : CPU σ :=
  { c with status := c.status ||| FLAG_DECIMAL, cycles := c.cycles + 2 }

/-- CPU::sec. -/
def sec (c : CPU σ) : CPU σ :=
  { c with status := c.status ||| FLAG_CARRY, cycles := c.cycles + 2 }

/-- CPU::sei. -/
def sei (c : CPU σ) : CPU σ :=
  { c with status := c.status ||| FLAG_INTERRUPT_DISABLE, cycles := c.cycles + 2 }

/-- CPU::cli. -/
def cli (c : CPU σ) : CPU σ :=
  { c with status := c.status &&& (255 - FLAG_INTERRUPT_DISABLE), cycles := c.cycles + 2 }

/-- CPU::clc. -/
def clc (c : CPU σ) : CPU σ :=
  { c with status := c.status &&& (255 - FLAG_CARRY), cycles := c.cycles + 2 }

/-- CPU::cld. -/
def cld (c : CPU σ) : CPU σ :=
  { c with status := c.status &&& (255 - FLAG_DECIMAL), cycles := c.cycles + 2 }

/-- CPU::clv. -/
def clv (c : CPU σ) : CPU σ :=
  { c with status := c.status &&& (255 - FLAG_OVERFLOW), cycles := c.cycles + 2 }

/-- CPU::lsr_accumulator. -/
def lsr_accumulator (c : CPU σ) : CPU σ :=
  let v := lsr_core c c.a
  let c : CPU σ := { v.2 with a := v.1 }
  let c := update_zero_and_negative_flags c c.a
  { c with cycles := c.cycles + 2 }

/-- CPU::lsr_zeropage. -/
def lsr_zeropage (B : BusIf σ) (c : CPU σ) : CPU σ :=
  let f := fetch_byte B c
  let r := bus_read B f.2 f.1
  let v := lsr_core r.2 r.1
  let c := bus_write B v.2 f.1 v.1
  let c := update_zero_and_negative_flags c v.1
  { c with cycles := c.cycles + 5 }

/-- CPU::lsr_zeropage_x. -/
def lsr_zeropage_x (B : BusIf σ) (c : CPU σ) : CPU σ :=
  let f := fetch_byte B c
  let addr := u8 (f.1 + f.2.x)
  let r := bus_read B f.2 addr
  let v := lsr_core r.2 r.1
  let c := bus_write B v.2 addr v.1
  let c := update_zero_and_negative_flags c v.1
  { c with cycles := c.cycles + 6 }

/-- CPU::lsr_absolute. -/
def lsr_absolute (B : BusIf σ) (c : CPU σ) : CPU σ :=
  let w := fetch_word B c
  let r := bus_read B w.2 w.1
  let v := lsr_core r.2 r.1
  let c := bus_write B v.2 w.1 v.1
  let c := update_zero_and_negative_flags c v.1
  { c with cycles := c.cycles + 6 }

/-- CPU::lsr_absolute_x — always 7 cycles. -/
def lsr_absolute_x (B : BusIf σ) (c : CPU σ) : CPU σ :=
  let w := fetch_word B c
  let addr := u16 (w.1 + w.2.x)
  let r := bus_read B w.2 addr
  let v := lsr_core r.2 r.1
  let c := bus_write B v.2 addr v.1
  let c := update_zero_and_negative_flags c v.1
  { c with cycles := c.cycles + 7 }

/-- CPU::sre_absolute — LSR then EOR. -/
def sre_absolute (B : BusIf σ) (c : CPU σ) : CPU σ :=
  let w := fetch_word B c
  let r := bus_read B w.2 w.1
  let v := lsr_core r.2 r.1
  let c := bus_write B v.2 w.1 v.1
  let c : CPU σ := { c with a := c.a ^^^ v.1 }
  let c := update_zero_and_negative_flags c c.a
  { c with cycles := c.cycles + 6 }

/-- CPU::sre_absolute_x — always 7 cycles. -/
def sre_absolute_x (B : BusIf σ) (c : CPU σ) : CPU σ :=
  let w := fetch_word B c
  let addr := u16 (w.1 + w.2.x)
  let r := bus_read B w.2 addr
  let v := lsr_core r.2 r.1
  let c := bus_write B v.2 addr v.1
  let c : CPU σ := { c with a := c.a ^^^ v.1 }
  let c := update_zero_and_negative_flags c c.a
  { c with cycles := c.cycles + 7 }

/-- CPU::sre_absolute_y — always 7 cycles. -/
def sre_absolute_y (B : BusIf σ) (c : CPU σ) : CPU σ :=
  let w := fetch_word B c
  let addr := u16 (w.1 + w.2.y)
  let r := bus_read B w.2 addr
  let v := lsr_core r.2 r.1
  let c := bus_write B v.2 addr v.1
  let c : CPU σ := { c with a := c.a ^^^ v.1 }
  let c := update_zero_and_negative_flags c c.a
  { c with cycles := c.cycles + 7 }

/-- CPU::sre_zeropage. -/
def sre_zeropage (B : BusIf σ) (c : CPU σ) : CPU σ :=
  let f := fetch_byte B c
  let r := bus_read B f.2 f.1
  let v := lsr_core r.2 r.1
  let c := bus_write B v.2 f.1 v.1
  let c : CPU σ := { c with a := c.a ^^^ v.1 }
  let c := update_zero_and_negative_flags c c.a
  { c with cycles := c.cycles + 5 }

/-- CPU::sre_zeropage_x. -/
def sre_zeropage_x (B : BusIf σ) (c : CPU σ) : CPU σ :=
  let f := fetch_byte B c
  let addr := u8 (f.1 + f.2.x)
  let r := bus_read B f.2 addr
  let v := lsr_core r.2 r.1
  let c := bus_write B v.2 addr v.1
  let c : CPU σ := { c with a := c.a ^^^ v.1 }
  let c := update_zero_and_negative_flags c c.a
  { c with cycles := c.cycles + 6 }

/-- CPU::sre_indirect_x. -/
def sre_indirect_x (B : BusIf σ) (c : CPU σ) : CPU σ :=
  let q := ind_x_addr B c
  let r := bus_read B q.2 q.1
  let v := lsr_core r.2 r.1
  let c := bus_write B v.2 q.1 v.1
  let c : CPU σ := { c with a := c.a ^^^ v.1 }
  let c := update_zero_and_negative_flags c c.a
  { c with cycles := c.cycles + 8 }

/-- CPU::sre_indirect_y — always 8 cycles. -/
def sre_indirect_y (B : BusIf σ) (c : CPU σ) : CPU σ :=
  let q := ind_y_addr B c
  let r := bus_read B q.2 q.1.2
  let v := lsr_core r.2 r.1
  let c := bus_write B v.2 q.1.2 v.1
  let c : CPU σ := { c with a := c.a ^^^ v.1 }
  let c := update_zero_and_negative_flags c c.a
  { c with cycles := c.cycles + 8 }

/-- CPU::asl_accumulator. -/
def asl_accumulator (c : CPU σ) : CPU σ :=
  let v := asl_core c c.a
  let c : CPU σ := { v.2 with a := v.1 }
  let c := update_zero_and_negative_flags c c.a
  { c with cycles := c.cycles + 2 }

/-- CPU::asl_absolute. -/
def asl_absolute (B : BusIf σ) (c : CPU σ) : CPU σ :=
  let w := fetch_word B c
  let r := bus_read B w.2 w.1
  let v := asl_core r.2 r.1
  let c := bus_write B v.2 w.1 v.1
  let c := update_zero_and_negative_flags c v.1
  { c with cycles := c.cycles + 6 }

/-- CPU::asl_absolute_x — always 7 cycles. -/
def asl_absolute_x (B : BusIf σ) (c : CPU σ) : CPU σ :=
  let w := fetch_word B c
  let addr := u16 (w.1 + w.2.x)
  let r := bus_read B w.2 addr
  let v := asl_core r.2 r.1
  let c := bus_write B v.2 addr v.1
  let c := update_zero_and_negative_flags c v.1
  { c with cycles := c.cycles + 7 }

/-- CPU::asl_zeropage. -/
def asl_zeropage (B : BusIf σ) (c : CPU σ) : CPU σ :=
  let f := fetch_byte B c
  let r := bus_read B f.2 f.1
  let v := asl_core r.2 r.1
  let c := bus_write B v.2 f.1 v.1
  let c := update_zero_and_negative_flags c v.1
  { c with cycles := c.cycles + 5 }

/-- CPU::asl_zeropage_x. -/
def asl_zeropage_x (B : BusIf σ) (c : CPU σ) : CPU σ :=
  let f := fetch_byte B c
  let addr := u8 (f.1 + f.2.x)
  let r := bus_read B f.2 addr
  let v := asl_core r.2 r.1
  let c := bus_write B v.2 addr v.1
  let c := update_zero_and_negative_flags c v.1
  { c with cycles := c.cycles + 6 }

/-- CPU::slo_absolute — ASL then ORA. -/
def slo_absolute (B : BusIf σ) (c : CPU σ) : CPU σ :=
  let w := fetch_word B c
  let r := bus_read B w.2 w.1
  let v := asl_core r.2 r.1
  let c := bus_write B v.2 w.1 v.1
  let c : CPU σ := { c with a := c.a ||| v.1 }
  let c := update_zero_and_negative_flags c c.a
  { c with cycles := c.cycles + 6 }

/-- CPU::slo_absolute_x — always 7 cycles. -/
def slo_absolute_x (B : BusIf σ) (c : CPU σ) : CPU σ :=
  let w := fetch_word B c
  let addr := u16 (w.1 + w.2.x)
  let r := bus_read B w.2 addr
  let v := asl_core r.2 r.1
  let c := bus_write B v.2 addr v.1
  let c : CPU σ := { c with a := c.a ||| v.1 }
  let c := update_zero_and_negative_flags c c.a
  { c with cycles := c.cycles + 7 }

/-- CPU::slo_absolute_y — always 7 cycles. -/
def slo_absolute_y (B : BusIf σ) (c : CPU σ) : CPU σ :=
  let w := fetch_word B c
  let addr := u16 (w.1 + w.2.y)
  let r := bus_read B w.2 addr
  let v := asl_core r.2 r.1
  let c := bus_write B v.2 addr v.1
  let c : CPU σ := { c with a := c.a ||| v.1 }
  let c := update_zero_and_negative_flags c c.a
  { c with cycles := c.cycles + 7 }

/-- CPU::slo_zeropage. -/
def slo_zeropage (B : BusIf σ) (c : CPU σ) : CPU σ :=
  let f := fetch_byte B c
  let r := bus_read B f.2 f.1
  let v := asl_core r.2 r.1
  let c := bus_write B v.2 f.1 v.1
  let c : CPU σ := { c with a := c.a ||| v.1 }
  let c := update_zero_and_negative_flags c c.a
  { c with cycles := c.cycles + 5 }

/-- CPU::slo_zeropage_x. -/
def slo_zeropage_x (B : BusIf σ) (c : CPU σ) : CPU σ :=
  let f := fetch_byte B c
  let addr := u8 (f.1 + f.2.x)
  let r := bus_read B f.2 addr
  let v := asl_core r.2 r.1
  let c := bus_write B v.2 addr v.1
  let c : CPU σ := { c with a := c.a ||| v.1 }
  let c := update_zero_and_negative_flags c c.a
  { c with cycles := c.cycles + 6 }

/-- CPU::slo_indirect_x. -/
def slo_indirect_x (B : BusIf σ) (c : CPU σ) : CPU σ :=
  let q := ind_x_addr B c
  let r := bus_read B q.2 q.1
  let v := asl_core r.2 r.1
  let c := bus_write B v.2 q.1 v.1
  let c : CPU σ := { c with a := c.a ||| v.1 }
  let c := update_zero_and_negative_flags c c.a
  { c with cycles := c.cycles + 8 }

/-- CPU::slo_indirect_y — always 8 cycles. -/
def slo_indirect_y (B : BusIf σ) (c : CPU σ) : CPU σ :=
  let q := ind_y_addr B c
  let r := bus_read B q.2 q.1.2
  let v := asl_core r.2 r.1
  let c := bus_write B v.2 q.1.2 v.1
  let c : CPU σ := { c with a := c.a ||| v.1 }
  let c := update_zero_and_negative_flags c c.a
  { c with cycles := c.cycles + 8 }

/-- CPU::rla_absolute — ROL then AND. -/
def rla_absolute (B : BusIf σ) (c : CPU σ) : CPU σ :=
  let w := fetch_word B c
  let r := bus_read B w.2 w.1
  let v := rol_core r.2 r.1
  let c := bus_write B v.2 w.1 v.1
  let c : CPU σ := { c with a := c.a &&& v.1 }
  let c := update_zero_and_negative_flags c c.a
  { c with cycles := c.cycles + 6 }

/-- CPU::rla_absolute_x — always 7 cycles. -/
def rla_absolute_x (B : BusIf σ) (c : CPU σ) : CPU σ :=
  let w := fetch_word B c
  let addr := u16 (w.1 + w.2.x)
  let r := bus_read B w.2 addr
  let v := rol_core r.2 r.1
  let c := bus_write B v.2 addr v.1
  let c : CPU σ := { c with a := c.a &&& v.1 }
  let c := update_zero_and_negative_flags c c.a
  { c with cycles := c.cycles + 7 }

/-- CPU::rla_absolute_y — always 7 cycles. -/
def rla_absolute_y (B : BusIf σ) (c : CPU σ) : CPU σ :=
  let w := fetch_word B c
  let addr := u16 (w.1 + w.2.y)
  let r := bus_read B w.2 addr
  let v := rol_core r.2 r.1
  let c := bus_write B v.2 addr v.1
  let c : CPU σ := { c with a := c.a &&& v.1 }
  let c := update_zero_and_negative_flags c c.a
  { c with cycles := c.cycles + 7 }

/-- CPU::rla_zeropage. -/
def rla_zeropage (B : BusIf σ) (c : CPU σ) : CPU σ :=
  let f := fetch_byte B c
  let r := bus_read B f.2 f.1
  let v := rol_core r.2 r.1
  let c := bus_write B v.2 f.1 v.1
  let c : CPU σ := { c with a := c.a &&& v.1 }
  let c := update_zero_and_negative_flags c c.a
  { c with cycles := c.cycles + 5 }

/-- CPU::rla_zeropage_x. -/
def rla_zeropage_x (B : BusIf σ) (c : CPU σ) : CPU σ :=
  let f := fetch_byte B c
  let addr := u8 (f.1 + f.2.x)
  let r := bus_read B f.2 addr
  let v := rol_core r.2 r.1
  let c := bus_write B v.2 addr v.1
  let c : CPU σ := { c with a := c.a &&& v.1 }
  let c := update_zero_and_negative_flags c c.a
  { c with cycles := c.cycles + 6 }

/-- CPU::rla_indirect_x. -/
def rla_indirect_x (B : BusIf σ) (c : CPU σ) : CPU σ :=
  let q := ind_x_addr B c
  let r := bus_read B q.2 q.1
  let v := rol_core r.2 r.1
  let c := bus_write B v.2 q.1 v.1
  let c : CPU σ := { c with a := c.a &&& v.1 }
  let c := update_zero_and_negative_flags c c.a
  { c with cycles := c.cycles + 8 }

/-- CPU::rla_indirect_y — always 8 cycles. -/
def rla_indirect_y (B : BusIf σ) (c : CPU σ) : CPU σ :=
  let q := ind_y_addr B c
  let r := bus_read B q.2 q.1.2
  let v := rol_core r.2 r.1
  let c := bus_write B v.2 q.1.2 v.1
  let c : CPU σ := { c with a := c.a &&& v.1 }
  let c := update_zero_and_negative_flags c c.a
  { c with cycles := c.cycles + 8 }

/-- CPU::ror_accumulator. -/
def ror_accumulator (c : CPU σ) : CPU σ :=
  let v := ror_core c c.a
  let c : CPU σ := { v.2 with a := v.1 }
  let c := update_zero_and_negative_flags c c.a
  { c with cycles := c.cycles + 2 }

/-- CPU::ror_absolute. -/
def ror_absolute (B : BusIf σ) (c : CPU σ) : CPU σ :=
  let w := fetch_word B c
  let r := bus_read B w.2 w.1
  let v := ror_core r.2 r.1
  let c := bus_write B v.2 w.1 v.1
  let c := update_zero_and_negative_flags c v.1
  { c with cycles := c.cycles + 6 }

/-- CPU::ror_absolute_x — always 7 cycles. -/
def ror_absolute_x (B : BusIf σ) (c : CPU σ) : CPU σ :=
  let w := fetch_word B c
  let addr := u16 (w.1 + w.2.x)
  let r := bus_read B w.2 addr
  let v := ror_core r.2 r.1
  let c := bus_write B v.2 addr v.1
  let c := update_zero_and_negative_flags c v.1
  { c with cycles := c.cycles + 7 }

/-- CPU::ror_zeropage. -/
def ror_zeropage (B : BusIf σ) (c : CPU σ) : CPU σ :=
  let f := fetch_byte B c
  let r := bus_read B f.2 f.1
  let v := ror_core r.2 r.1
  let c := bus_write B v.2 f.1 v.1
  let c := update_zero_and_negative_flags c v.1
  { c with cycles := c.cycles + 5 }

/-- CPU::ror_zeropage_x. -/
def ror_zeropage_x (B : BusIf σ) (c : CPU σ) : CPU σ :=
  let f := fetch_byte B c
  let addr := u8 (f.1 + f.2.x)
  let r := bus_read B f.2 addr
  let v := ror_core r.2 r.1
  let c := bus_write B v.2 addr v.1
  let c := update_zero_and_negative_flags c v.1
  { c with cycles := c.cycles + 6 }

/-- The RRA rotate step: carry in as $80, carry out from bit 0. -/
def rra_core (c : CPU σ) (value : Nat) : Nat × CPU σ :=
  let carry_in := if c.status &&& FLAG_CARRY ≠ 0 then 0x80 else 0
  let c : CPU σ :=
    if value &&& 0x01 ≠ 0 then { c with status := c.status ||| FLAG_CARRY }
    else { c with status := c.status &&& (255 - FLAG_CARRY) }
  ((value >>> 1) ||| carry_in, c)

/-- CPU::rra_absolute — ROR then ADC. -/
def rra_absolute (B : BusIf σ) (c : CPU σ) : CPU σ :=
  let w := fetch_word B c
  let r := bus_read B w.2 w.1
  let v := rra_core r.2 r.1
  let c := bus_write B v.2 w.1 v.1
  let c := adc_core c v.1
  { c with cycles := c.cycles + 6 }

/-- CPU::rra_absolute_x — always 7 cycles. -/
def rra_absolute_x (B : BusIf σ) (c : CPU σ) : CPU σ :=
  let w := fetch_word B c
  let addr := u16 (w.1 + w.2.x)
  let r := bus_read B w.2 addr
  let v := rra_core r.2 r.1
  let c := bus_write B v.2 addr v.1
  let c := adc_core c v.1
  { c with cycles := c.cycles + 7 }

/-- CPU::rra_absolute_y — always 7 cycles. -/
def rra_absolute_y (B : BusIf σ) (c : CPU σ) : CPU σ :=
  let w := fetch_word B c
  let addr := u16 (w.1 + w.2.y)
  let r := bus_read B w.2 addr
  let v := rra_core r.2 r.1
  let c := bus_write B v.2 addr v.1
  let c := adc_core c v.1
  { c with cycles := c.cycles + 7 }

/-- CPU::rra_zeropage. -/
def rra_zeropage (B : BusIf σ) (c : CPU σ) : CPU σ :=
  let f := fetch_byte B c
  let r := bus_read B f.2 f.1
  let v := rra_core r.2 r.1
  let c := bus_write B v.2 f.1 v.1
  let c := adc_core c v.1
  { c with cycles := c.cycles + 5 }

/-- CPU::rra_zeropage_x. -/
def rra_zeropage_x (B : BusIf σ) (c : CPU σ) : CPU σ :=
  let f := fetch_byte B c
  let addr := u8 (f.1 + f.2.x)
  let r := bus_read B f.2 addr
  let v := rra_core r.2 r.1
  let c := bus_write B v.2 addr v.1
  let c := adc_core c v.1
  { c with cycles := c.cycles + 6 }

/-- CPU::rra_indirect_x. -/
def rra_indirect_x (B : BusIf σ) (c : CPU σ) : CPU σ :=
  let q := ind_x_addr B c
  let r := bus_read B q.2 q.1
  let v := rra_core r.2 r.1
  let c := bus_write B v.2 q.1 v.1
  let c := adc_core c v.1
  { c with cycles := c.cycles + 8 }

/-- CPU::rra_indirect_y — always 8 cycles. -/
def rra_indirect_y (B : BusIf σ) (c : CPU σ) : CPU σ :=
  let q := ind_y_addr B c
  let r := bus_read B q.2 q.1.2
  let v := rra_core r.2 r.1
  let c := bus_write B v.2 q.1.2 v.1
  let c := adc_core c v.1
  { c with cycles := c.cycles + 8 }

/-- CPU::rol_accumulator. -/
def rol_accumulator (c : CPU σ) : CPU σ :=
  let v := rol_core c c.a
  let c : CPU σ := { v.2 with a := v.1 }
  let c := update_zero_and_negative_flags c c.a
  { c with cycles := c.cycles + 2 }

/-- CPU::rol_absolute. -/
def rol_absolute (B : BusIf σ) (c : CPU σ) : CPU σ :=
  let w := fetch_word B c
  let r := bus_read B w.2 w.1
  let v := rol_core r.2 r.1
  let c := bus_write B v.2 w.1 v.1
  let c := update_zero_and_negative_flags c v.1
  { c with cycles := c.cycles + 6 }

/-- CPU::rol_absolute_x — always 7 cycles. -/
def rol_absolute_x (B : BusIf σ) (c : CPU σ) : CPU σ :=
  let w := fetch_word B c
  let addr := u16 (w.1 + w.2.x)
  let r := bus_read B w.2 addr
  let v := rol_core r.2 r.1
  let c := bus_write B v.2 addr v.1
  let c := update_zero_and_negative_flags c v.1
  { c with cycles := c.cycles + 7 }

/-- CPU::rol_zeropage. -/
def rol_zeropage (B : BusIf σ) (c : CPU σ) : CPU σ :=
  let f := fetch_byte B c
  let r := bus_read B f.2 f.1
  let v := rol_core r.2 r.1
  let c := bus_write B v.2 f.1 v.1
  let c := update_zero_and_negative_flags c v.1
  { c with cycles := c.cycles + 5 }

/-- CPU::rol_zeropage_x. -/
def rol_zeropage_x (B : BusIf σ) (c : CPU σ) : CPU σ :=
  let f := fetch_byte B c
  let addr := u8 (f.1 + f.2.x)
  let r := bus_read B f.2 addr
  let v := rol_core r.2 r.1
  let c := bus_write B v.2 addr v.1
  let c := update_zero_and_negative_flags c v.1
  { c with cycles := c.cycles + 6 }

/-- CPU::brk — skip the padding byte, push PC and P with B=1 U=1, set I, load the
IRQ vector, 7 cycles. -/
def brk (B : BusIf σ) (c : CPU σ) : CPU σ :=
  let c : CPU σ := { c with pc := u16 (c.pc + 1) }
  let c := push B c (c.pc >>> 8)
  let c := push B c (c.pc &&& 0xFF)
  let c := push B c (c.status ||| FLAG_BREAK ||| FLAG_UNUSED)
  let c : CPU σ := { c with status := c.status ||| FLAG_INTERRUPT_DISABLE }
  let lo := bus_read B c 0xFFFE
  let hi := bus_read B lo.2 0xFFFF
  { hi.2 with pc := (hi.1 <<< 8) ||| lo.1, cycles := hi.2.cycles + 7 }

/-- CPU::bit_zeropage. -/
def bit_zeropage (B : BusIf σ) (c : CPU σ) : CPU σ :=
  let f := fetch_byte B c
  let r := bus_read B f.2 f.1
  let c := bit_core r.2 r.1
  { c with cycles := c.cycles + 3 }

/-- CPU::bit_absolute. -/
def bit_absolute (B : BusIf σ) (c : CPU σ) : CPU σ :=
  let w := fetch_word B c
  let r := bus_read B w.2 w.1
  let c := bit_core r.2 r.1
  { c with cycles := c.cycles + 4 }

/-- CPU::execute_opcode — dispatch table from the source; `none` models the
`panic!` default arm for unimplemented opcodes.  The source's 243-arm `match` is
written as a chain of opcode equality tests, one test per match arm in the same
order with the same pattern grouping, to keep the kernel-checked term small. -/
def execute_opcode (B : BusIf σ) (opcode : Nat) (c : CPU σ) : Option (CPU σ) :=
  if opcode = 0x02 ∨ opcode = 0x12 ∨ opcode = 0x22 ∨ opcode = 0x32 ∨ opcode = 0x42 ∨ opcode = 0x52 ∨ opcode = 0x62 ∨ opcode = 0x72 ∨ opcode = 0x92 ∨ opcode = 0xB2 ∨ opcode = 0xD2 ∨ opcode = 0xF2 then some (jam c) else
  if opcode = 0xEA then some (nop c) else
  if opcode = 0x04 ∨ opcode = 0x44 ∨ opcode = 0x64 then some (nop_zeropage B c) else
  if opcode = 0x14 ∨ opcode = 0x34 ∨ opcode = 0x54 ∨ opcode = 0x74 ∨ opcode = 0xD4 ∨ opcode = 0xF4 then some (nop_zeropage_x B c) else
  if opcode = 0x1A ∨ opcode = 0x3A ∨ opcode = 0x5A ∨ opcode = 0x7A ∨ opcode = 0xDA ∨ opcode = 0xFA then some (nop_implied c) else
  if opcode = 0x0C then some (nop_absolute B c) else
  if opcode = 0x1C ∨ opcode = 0x3C ∨ opcode = 0x5C ∨ opcode = 0x7C ∨ opcode = 0xDC ∨ opcode = 0xFC then some (nop_absolute_x B c) else
  if opcode = 0x80 ∨ opcode = 0x82 ∨ opcode = 0x89 ∨ opcode = 0xC2 ∨ opcode = 0xE2 then some (nop_immediate B c) else
  if opcode = 0xA9 then some (lda_immediate B c) else
  if opcode = 0xA5 then some (lda_zero_page B c) else
  if opcode = 0xB5 then some (lda_zeropage_x B c) else
  if opcode = 0xAD then some (lda_absolute B c) else
  if opcode = 0xBD then some (lda_absolute_x B c) else
  if opcode = 0xB9 then some (lda_absolute_y B c) else
  if opcode = 0xA1 then some (lda_indirect_x B c) else
  if opcode = 0xB1 then some (lda_indirect_y B c) else
  if opcode = 0xA2 then some (ldx_immediate B c) else
  if opcode = 0xAE then some (ldx_absolute B c) else
  if opcode = 0xBE then some (ldx_absolute_y B c) else
  if opcode = 0xA6 then some (ldx_zeropage B c) else
  if opcode = 0xB6 then some (ldx_zeropage_y B c) else
  if opcode = 0xA0 then some (ldy_immediate B c) else
  if opcode = 0xAC then some (ldy_absolute B c) else
  if opcode = 0xBC then some (ldy_absolute_x B c) else
  if opcode = 0xA4 then some (ldy_zeropage B c) else
  if opcode = 0xB4 then some (ldy_zeropage_x B c) else
  if opcode = 0xAF then some (lax_absolute B c) else
  if opcode = 0xBF then some (lax_absolute_y B c) else
  if opcode = 0xA7 then some (lax_zeropage B c) else
  if opcode = 0xB7 then some (lax_zeropage_y B c) else
  if opcode = 0xA3 then some (lax_indirect_x B c) else
  if opcode = 0xB3 then some (lax_indirect_y B c) else
  if opcode = 0x85 then some (sta_zero_page B c) else
  if opcode = 0x95 then some (sta_zeropage_x B c) else
  if opcode = 0x8D then some (sta_absolute B c) else
  if opcode = 0x9D then some (sta_absolute_x B c) else
  if opcode = 0x99 then some (sta_absolute_y B c) else
  if opcode = 0x81 then some (sta_indirect_x B c) else
  if opcode = 0x91 then some (sta_indirect_y B c) else
  if opcode = 0x86 then some (stx_zero_page B c) else
  if opcode = 0x96 then some (stx_zeropage_y B c) else
  if opcode = 0x8E then some (stx_absolute B c) else
  if opcode = 0x84 then some (sty_zeropage B c) else
  if opcode = 0x94 then some (sty_zeropage_x B c) else
  if opcode = 0x8C then some (sty_absolute B c) else
  if opcode = 0x8F then some (sax_absolute B c) else
  if opcode = 0x87 then some (sax_zeropage B c) else
  if opcode = 0x97 then some (sax_zeropage_y B c) else
  if opcode = 0x83 then some (sax_indirect_x B c) else
  if opcode = 0x4C then some (jmp_absolute B c) else
  if opcode = 0x6C then some (jmp_indirect B c) else
  if opcode = 0x29 then some (and_immediate B c) else
  if opcode = 0x25 then some (and_zeropage B c) else
  if opcode = 0x35 then some (and_zeropage_x B c) else
  if opcode = 0x2D then some (and_absolute B c) else
  if opcode = 0x3D then some (and_absolute_x B c) else
  if opcode = 0x39 then some (and_absolute_y B c) else
  if opcode = 0x21 then some (and_indirect_x B c) else
  if opcode = 0x31 then some (and_indirect_y B c) else
  if opcode = 0x09 then some (ora_immediate B c) else
  if opcode = 0x0D then some (ora_absolute B c) else
  if opcode = 0x1D then some (ora_absolute_x B c) else
  if opcode = 0x19 then some (ora_absolute_y B c) else
  if opcode = 0x01 then some (ora_indirect_x B c) else
  if opcode = 0x11 then some (ora_indirect_y B c) else
  if opcode = 0x05 then some (ora_zeropage B c) else
  if opcode = 0x15 then some (ora_zeropage_x B c) else
  if opcode = 0x49 then some (eor_immediate B c) else
  if opcode = 0x45 then some (eor_zeropage B c) else
  if opcode = 0x55 then some (eor_zeropage_x B c) else
  if opcode = 0x4D then some (eor_absolute B c) else
  if opcode = 0x5D then some (eor_absolute_x B c) else
  if opcode = 0x59 then some (eor_absolute_y B c) else
  if opcode = 0x41 then some (eor_indirect_x B c) else
  if opcode = 0x51 then some (eor_indirect_y B c) else
  if opcode = 0x69 then some (adc_immediate B c) else
  if opcode = 0x6D then some (adc_absolute B c) else
  if opcode = 0x7D then some (adc_absolute_x B c) else
  if opcode = 0x79 then some (adc_absolute_y B c) else
  if opcode = 0x65 then some (adc_zeropage B c) else
  if opcode = 0x75 then some (adc_zeropage_x B c) else
  if opcode = 0x61 then some (adc_indirect_x B c) else
  if opcode = 0x71 then some (adc_indirect_y B c) else
  if opcode = 0xEB ∨ opcode = 0xE9 then some (sbc_immediate B c) else
  if opcode = 0xED then some (sbc_absolute B c) else
  if opcode = 0xFD then some (sbc_absolute_x B c) else
  if opcode = 0xF9 then some (sbc_absolute_y B c) else
  if opcode = 0xE5 then some (sbc_zeropage B c) else
  if opcode = 0xF5 then some (sbc_zeropage_x B c) else
  if opcode = 0xE1 then some (sbc_indirect_x B c) else
  if opcode = 0xF1 then some (sbc_indirect_y B c) else
  if opcode = 0xE8 then some (inx c) else
  if opcode = 0xE6 then some (inc_zeropage B c) else
  if opcode = 0xF6 then some (inc_zeropage_x B c) else
  if opcode = 0xEE then some (inc_absolute B c) else
  if opcode = 0xFE then some (inc_absolute_x B c) else
  if opcode = 0xC8 then some (iny c) else
  if opcode = 0xEF then some (isc_absolute B c) else
  if opcode = 0xFF then some (isc_absolute_x B c) else
  if opcode = 0xFB then some (isc_absolute_y B c) else
  if opcode = 0xE7 then some (isc_zeropage B c) else
  if opcode = 0xF7 then some (isc_zeropage_x B c) else
  if opcode = 0xE3 then some (isc_indirect_x B c) else
  if opcode = 0xF3 then some (isc_indirect_y B c) else
  if opcode = 0x88 then some (dey c) else
  if opcode = 0xCA then some (dex c) else
  if opcode = 0xCE then some (dec_absolute B c) else
  if opcode = 0xDE then some (dec_absolute_x B c) else
  if opcode = 0xC6 then some (dec_zeropage B c) else
  if opcode = 0xD6 then some (dec_zeropage_x B c) else
  if opcode = 0xC9 then some (cmp_immediate B c) else
  if opcode = 0xCD then some (cmp_absolute B c) else
  if opcode = 0xDD then some (cmp_absolute_x B c) else
  if opcode = 0xD9 then some (cmp_absolute_y B c) else
  if opcode = 0xC5 then some (cmp_zeropage B c) else
  if opcode = 0xD5 then some (cmp_zeropage_x B c) else
  if opcode = 0xC1 then some (cmp_indirect_x B c) else
  if opcode = 0xD1 then some (cmp_indirect_y B c) else
  if opcode = 0xCF then some (dcp_absolute B c) else
  if opcode = 0xDF then some (dcp_absolute_x B c) else
  if opcode = 0xDB then some (dcp_absolute_y B c) else
  if opcode = 0xC7 then some (dcp_zeropage B c) else
  if opcode = 0xD7 then some (dcp_zeropage_x B c) else
  if opcode = 0xC3 then some (dcp_indirect_x B c) else
  if opcode = 0xD3 then some (dcp_indirect_y B c) else
  if opcode = 0xC0 then some (cpy_immediate B c) else
  if opcode = 0xCC then some (cpy_absolute B c) else
  if opcode = 0xC4 then some (cpy_zeropage B c) else
  if opcode = 0xE0 then some (cpx_immediate B c) else
  if opcode = 0xEC then some (cpx_absolute B c) else
  if opcode = 0xE4 then some (cpx_zeropage B c) else
  if opcode = 0xF8 then some (sed c) else
  if opcode = 0xF0 then some (beq B c) else
  if opcode = 0xD0 then some (bne B c) else
  if opcode = 0xB0 then some (bcs B c) else
  if opcode = 0x90 then some (bcc B c) else
  if opcode = 0x70 then some (bvs B c) else
  if opcode = 0x50 then some (bvc B c) else
  if opcode = 0x10 then some (bpl B c) else
  if opcode = 0x30 then some (bmi B c) else
  if opcode = 0x20 then some (jsr B c) else
  if opcode = 0x60 then some (rts B c) else
  if opcode = 0x40 then some (rti B c) else
  if opcode = 0x48 then some (pha B c) else
  if opcode = 0x08 then some (php B c) else
  if opcode = 0x28 then some (plp B c) else
  if opcode = 0x68 then some (pla B c) else
  if opcode = 0x00 then some (brk B c) else
  if opcode = 0x78 then some (sei c) else
  if opcode = 0x58 then some (cli c) else
  if opcode = 0x98 then some (tya c) else
  if opcode = 0x8A then some (txa c) else
  if opcode = 0xAA then some (tax c) else
  if opcode = 0xA8 then some (tay c) else
  if opcode = 0xBA then some (tsx c) else
  if opcode = 0x9A then some (txs c) else
  if opcode = 0x38 then some (sec c) else
  if opcode = 0x18 then some (clc c) else
  if opcode = 0xD8 then some (cld c) else
  if opcode = 0xB8 then some (clv c) else
  if opcode = 0x4A then some (lsr_accumulator c) else
  if opcode = 0x46 then some (lsr_zeropage B c) else
  if opcode = 0x56 then some (lsr_zeropage_x B c) else
  if opcode = 0x4E then some (lsr_absolute B c) else
  if opcode = 0x5E then some (lsr_absolute_x B c) else
  if opcode = 0x4F then some (sre_absolute B c) else
  if opcode = 0x5F then some (sre_absolute_x B c) else
  if opcode = 0x5B then some (sre_absolute_y B c) else
  if opcode = 0x47 then some (sre_zeropage B c) else
  if opcode = 0x57 then some (sre_zeropage_x B c) else
  if opcode = 0x43 then some (sre_indirect_x B c) else
  if opcode = 0x53 then some (sre_indirect_y B c) else
  if opcode = 0x0A then some (asl_accumulator c) else
  if opcode = 0x0E then some (asl_absolute B c) else
  if opcode = 0x1E then some (asl_absolute_x B c) else
  if opcode = 0x06 then some (asl_zeropage B c) else
  if opcode = 0x16 then some (asl_zeropage_x B c) else
  if opcode = 0x0F then some (slo_absolute B c) else
  if opcode = 0x1F then some (slo_absolute_x B c) else
  if opcode = 0x1B then some (slo_absolute_y B c) else
  if opcode = 0x07 then some (slo_zeropage B c) else
  if opcode = 0x17 then some (slo_zeropage_x B c) else
  if opcode = 0x03 then some (slo_indirect_x B c) else
  if opcode = 0x13 then some (slo_indirect_y B c) else
  if opcode = 0x2F then some (rla_absolute B c) else
  if opcode = 0x3F then some (rla_absolute_x B c) else
  if opcode = 0x3B then some (rla_absolute_y B c) else
  if opcode = 0x27 then some (rla_zeropage B c) else
  if opcode = 0x37 then some (rla_zeropage_x B c) else
  if opcode = 0x23 then some (rla_indirect_x B c) else
  if opcode = 0x33 then some (rla_indirect_y B c) else
  if opcode = 0x6A then some (ror_accumulator c) else
  if opcode = 0x6E then some (ror_absolute B c) else
  if opcode = 0x7E then some (ror_absolute_x B c) else
  if opcode = 0x66 then some (ror_zeropage B c) else
  if opcode = 0x76 then some (ror_zeropage_x B c) else
  if opcode = 0x6F then some (rra_absolute B c) else
  if opcode = 0x7F then some (rra_absolute_x B c) else
  if opcode = 0x7B then some (rra_absolute_y B c) else
  if opcode = 0x67 then some (rra_zeropage B c) else
  if opcode = 0x77 then some (rra_zeropage_x B c) else
  if opcode = 0x63 then some (rra_indirect_x B c) else
  if opcode = 0x73 then some (rra_indirect_y B c) else
  if opcode = 0x2A then some (rol_accumulator c) else
  if opcode = 0x2E then some (rol_absolute B c) else
  if opcode = 0x3E then some (rol_absolute_x B c) else
  if opcode = 0x26 then some (rol_zeropage B c) else
  if opcode = 0x36 then some (rol_zeropage_x B c) else
  if opcode = 0x24 then some (bit_zeropage B c) else
  if opcode = 0x2C then some (bit_absolute B c) else
  none

/-- The NMI-polling prologue of CPU::step: poll the bus NMI line and service the
interrupt when it is asserted.  Only the NMI line is polled — step has no IRQ path. -/
def step_poll_nmi (B : BusIf σ) (c : CPU σ) : CPU σ :=
  let pn := B.poll_nmi c.bus
  let c : CPU σ := { c with bus := pn.2 }
  if pn.1 then nmi B c else c

/-- CPU::step — skip when halted; poll the NMI line (and service it); fetch the
opcode; execute; tick the bus with the instruction's cycle delta.  The `trace`
call in the source only prints and is omitted.  `none` propagates the panic of an
unimplemented opcode. -/
def step (B : BusIf σ) (c : CPU σ) : Option (CPU σ) :=
  if c.halted then some c
  else
    let c := step_poll_nmi B c
    let f := fetch_byte B c
    let opcode := f.1
    let c := f.2
    let prev_cycles := c.cycles
    match execute_opcode B opcode c with
    | none => none
    | some c => some { c with bus := B.tick c.bus (c.cycles - prev_cycles) }

end CPU

/-- The twelve JAM opcodes of the dispatch table. -/
def jamOpcodes : List Nat :=
  [0x02, 0x12, 0x22, 0x32, 0x42, 0x52, 0x62, 0x72, 0x92, 0xB2, 0xD2, 0xF2]

/-- CPU::step instantiated at the one Bus implementation, NesBus. -/
def stepNes (c : CPU NesBus) : Option (CPU NesBus) := CPU.step NesBusIf c

/-- Repeated CPU reads of $4016 ("read $4016 n times"): the list of returned bytes
and the final bus state. -/
def read4016_list (s : NesBus) : Nat → List Nat × NesBus
  | 0 => ([], s)
  | n + 1 =>
    let q := s.read 0x4016
    let rest := read4016_list q.2 n
    (q.1 :: rest.1, rest.2)

/-! ## Concrete fixtures

Small concrete machine states used by counterexamples and witnesses: an NROM
cartridge whose PRG ROM is filled with $EA (NOP), and CPU states pointing at
particular tiny programs in RAM. -/

/-- 32 KiB PRG ROM filled with $EA. -/
def romNop : ByteVec := { len := 32768, data := fun _ => 0xEA }

/-- 8 KiB CHR RAM, zero-filled. -/
def chrZero : ByteVec := { len := 8192, data := fun _ => 0 }

/-- NROM cartridge over romNop/chrZero, horizontal mirroring. -/
def cartNop : Cart :=
  .m0 { prg_rom := romNop, chr_rom := chrZero, mirroring := .Horizontal }

/-- NES bus over cartNop whose RAM is filled with $EA (NOP). -/
def busW : NesBus := { NesBus.new cartNop with ram := fun _ => 0xEA }

/-- CPU about to execute NOP at $0000 (P = I|U... here I set, cycles 7 as after reset). -/
def cpuNop : CPU NesBus :=
  { a := 0, x := 0, y := 0, sp := 0xFD, pc := 0, status := 0x24, cycles := 7,
    bus := busW, halted := false }

/-- CPU about to execute the JAM opcode $02 at $0000. -/
def cpuJam : CPU NesBus :=
  { cpuNop with bus := { busW with ram := fun a => if a = 0 then 0x02 else 0xEA } }

/-- CPU with the I flag clear and the APU frame-IRQ flag asserted (status bit 6),
about to execute NOP — the state in which an IRQ should be serviced. -/
def cpuIrq : CPU NesBus :=
  { cpuNop with status := 0x20,
                bus := { busW with apu := { APU.new with status := 0x40 } } }

/-- RAM image for the DMA fixture: the program `STA $4014` at $0000, $77 at $0200. -/
def ramDma : Nat → Nat := fun a =>
  if a = 0 then 0x8D else if a = 1 then 0x14 else if a = 2 then 0x40
  else if a = 512 then 0x77 else 0

/-- CPU about to execute `STA $4014` (OAM DMA of page $02) with A = 2; RAM holds the
3-byte program and $77 at $0200; the cycle counter (8) is even. -/
def cpuDma : CPU NesBus :=
  { cpuNop with a := 2, cycles := 8, bus := { busW with ram := ramDma } }

/-- PPU whose VRAM address is $2000 and whose first nametable byte is $AB. -/
def ppuNt : PPU :=
  { PPU.new with addr := 0x2000, nametable := fun i => if i = 0 then 0xAB else 0 }

/-- Pulse channel with a pending envelope restart. -/
def pulseEnv : Pulse := { Pulse.default with envelope_start := true }

/-- APU (4-step mode) whose frame counter has just reached 29829 (the value
APU::tick's per-cycle loop matches on after incrementing), with a pending pulse-1
envelope restart. -/
def apu29829 : APU := { APU.new with frame_cycle := 29829, pulse1 := pulseEnv }

/-- APU (4-step mode) whose frame counter has just reached 7457, with a pending
pulse-1 envelope restart. -/
def apu7457 : APU := { APU.new with frame_cycle := 7457, pulse1 := pulseEnv }

/-- MMC1 mapper in its power-on state over the NOP PRG ROM. -/
def m1W : Mapper1 := Mapper1.new romNop

/-- NES bus whose controller reports buttons $A5 (A, Select, Down, Right). -/
def busPad : NesBus :=
  { NesBus.new cartNop with controller := { state := 0xA5, shift := 0 } }

/-- PPU whose VRAM address is $3F14 (a palette mirror address). -/
def ppuPal : PPU := { PPU.new with addr := 0x3F14 }

/-! ## Cycle-accounting lemmas

None of the fetch/read/write/stack/addressing helpers touch the cycle counter; the
only cycle changes are the explicit `cycles += k` sites of the handlers. -/

namespace CPU

variable {σ : Type}

/-- Projection of `.cycles` through an `if` on CPU states. -/
@[simp] theorem cycles_ite (p : Prop) [Decidable p] (a b : CPU σ) :
    (if p then a else b).cycles = if p then a.cycles else b.cycles := by split <;> rfl

/-- fetch_byte leaves the cycle counter unchanged. -/
@[simp] theorem fetch_byte_cycles (B : BusIf σ) (c : CPU σ) :
    (fetch_byte B c).2.cycles = c.cycles := rfl

/-- fetch_word leaves the cycle counter unchanged. -/
@[simp] theorem fetch_word_cycles (B : BusIf σ) (c : CPU σ) :
    (fetch_word B c).2.cycles = c.cycles := rfl

/-- bus_read leaves the cycle counter unchanged. -/
@[simp] theorem bus_read_cycles (B : BusIf σ) (c : CPU σ) (addr : Nat) :
    (bus_read B c addr).2.cycles = c.cycles := rfl

/-- bus_write leaves the cycle counter unchanged. -/
@[simp] theorem bus_write_cycles (B : BusIf σ) (c : CPU σ) (addr v : Nat) :
    (bus_write B c addr v).cycles = c.cycles := rfl

/-- push leaves the cycle counter unchanged. -/
@[simp] theorem push_cycles (B : BusIf σ) (c : CPU σ) (v : Nat) :
    (push B c v).cycles = c.cycles := rfl

/-- pop leaves the cycle counter unchanged. -/
@[simp] theorem pop_cycles (B : BusIf σ) (c : CPU σ) :
    (pop B c).2.cycles = c.cycles := rfl

/-- Indirect,X resolution leaves the cycle counter unchanged. -/
@[simp] theorem ind_x_addr_cycles (B : BusIf σ) (c : CPU σ) :
    (ind_x_addr B c).2.cycles = c.cycles := rfl

/-- Indirect,Y resolution leaves the cycle counter unchanged. -/
@[simp] theorem ind_y_addr_cycles (B : BusIf σ) (c : CPU σ) :
    (ind_y_addr B c).2.cycles = c.cycles := rfl

/-- Z/N flag update leaves the cycle counter unchanged. -/
@[simp] theorem update_zero_and_negative_flags_cycles (c : CPU σ) (v : Nat) :
    (update_zero_and_negative_flags c v).cycles = c.cycles := by
  simp [update_zero_and_negative_flags]

/-- The ADC block leaves the cycle counter unchanged. -/
@[simp] theorem adc_core_cycles (c : CPU σ) (v : Nat) :
    (adc_core c v).cycles = c.cycles := by
  simp [adc_core]

/-- The SBC block leaves the cycle counter unchanged. -/
@[simp] theorem sbc_core_cycles (c : CPU σ) (v : Nat) :
    (sbc_core c v).cycles = c.cycles := by
  simp [sbc_core]

/-- The CMP block leaves the cycle counter unchanged. -/
@[simp] theorem cmp_core_cycles (c : CPU σ) (reg v : Nat) :
    (cmp_core c reg v).cycles = c.cycles := by
  simp [cmp_core]

/-- The BIT block leaves the cycle counter unchanged. -/
@[simp] theorem bit_core_cycles (c : CPU σ) (v : Nat) :
    (bit_core c v).cycles = c.cycles := by
  simp [bit_core]

/-- The LSR block leaves the cycle counter unchanged. -/
@[simp] theorem lsr_core_cycles (c : CPU σ) (v : Nat) :
    (lsr_core c v).2.cycles = c.cycles := by
  simp [lsr_core]

/-- The ASL block leaves the cycle counter unchanged. -/
@[simp] theorem asl_core_cycles (c : CPU σ) (v : Nat) :
    (asl_core c v).2.cycles = c.cycles := by
  simp [asl_core]

/-- The ROL block leaves the cycle counter unchanged. -/
@[simp] theorem rol_core_cycles (c : CPU σ) (v : Nat) :
    (rol_core c v).2.cycles = c.cycles := by
  simp [rol_core]

/-- The ROR block leaves the cycle counter unchanged. -/
@[simp] theorem ror_core_cycles (c : CPU σ) (v : Nat) :
    (ror_core c v).2.cycles = c.cycles := by
  simp [ror_core]

/-- The RRA rotate block leaves the cycle counter unchanged. -/
@[simp] theorem rra_core_cycles (c : CPU σ) (v : Nat) :
    (rra_core c v).2.cycles = c.cycles := by
  simp [rra_core]

/-- The page-cross penalty adds 0 or 1 cycles. -/
@[simp] theorem page_cross_extra_cycles (c : CPU σ) (b f : Nat) :
    (page_cross_extra c b f).cycles
      = if b &&& 0xFF00 ≠ f &&& 0xFF00 then c.cycles + 1 else c.cycles := by
  simp [page_cross_extra]

/-- A branch instruction costs 2, 3 or 4 cycles — always at least 2. -/
theorem branch_cycles_ge (B : BusIf σ) (c : CPU σ) (cond : Bool) :
    c.cycles + 2 ≤ (branch B c cond).cycles := by
  simp [branch]
  repeat' split
  all_goals omega

end CPU

/-! ## Per-opcode dispatch equations and cycle bounds -/

/-- Dispatch equation of execute_opcode at opcode $00. -/
theorem exec_eq_x00 {σ : Type} (B : BusIf σ) (c : CPU σ) :
    CPU.execute_opcode B 0x00 c = some (CPU.brk B c) := rfl

/-- Dispatch equation of execute_opcode at opcode $01. -/
theorem exec_eq_x01 {σ : Type} (B : BusIf σ) (c : CPU σ) :
    CPU.execute_opcode B 0x01 c = some (CPU.ora_indirect_x B c) := rfl

/-- Dispatch equation of execute_opcode at opcode $02. -/
theorem exec_eq_x02 {σ : Type} (B : BusIf σ) (c : CPU σ) :
    CPU.execute_opcode B 0x02 c = some (CPU.jam c) := rfl

/-- Dispatch equation of execute_opcode at opcode $03. -/
theorem exec_eq_x03 {σ : Type} (B : BusIf σ) (c : CPU σ) :
    CPU.execute_opcode B 0x03 c = some (CPU.slo_indirect_x B c) := rfl

/-- Dispatch equation of execute_opcode at opcode $04. -/
theorem exec_eq_x04 {σ : Type} (B : BusIf σ) (c : CPU σ) :
    CPU.execute_opcode B 0x04 c = some (CPU.nop_zeropage B c) := rfl

/-- Dispatch equation of execute_opcode at opcode $05. -/
theorem exec_eq_x05 {σ : Type} (B : BusIf σ) (c : CPU σ) :
    CPU.execute_opcode B 0x05 c = some (CPU.ora_zeropage B c) := rfl

/-- Dispatch equation of execute_opcode at opcode $06. -/
theorem exec_eq_x06 {σ : Type} (B : BusIf σ) (c : CPU σ) :
    CPU.execute_opcode B 0x06 c = some (CPU.asl_zeropage B c) := rfl

/-- Dispatch equation of execute_opcode at opcode $07. -/
theorem exec_eq_x07 {σ : Type} (B : BusIf σ) (c : CPU σ) :
    CPU.execute_opcode B 0x07 c = some (CPU.slo_zeropage B c) := rfl

/-- Dispatch equation of execute_opcode at opcode $08. -/
theorem exec_eq_x08 {σ : Type} (B : BusIf σ) (c : CPU σ) :
    CPU.execute_opcode B 0x08 c = some (CPU.php B c) := rfl

/-- Dispatch equation of execute_opcode at opcode $09. -/
theorem exec_eq_x09 {σ : Type} (B : BusIf σ) (c : CPU σ) :
    CPU.execute_opcode B 0x09 c = some (CPU.ora_immediate B c) := rfl

/-- Dispatch equation of execute_opcode at opcode $0A. -/
theorem exec_eq_x0A {σ : Type} (B : BusIf σ) (c : CPU σ) :
    CPU.execute_opcode B 0x0A c = some (CPU.asl_accumulator c) := rfl

/-- Dispatch equation of execute_opcode at opcode $0B. -/
theorem exec_eq_x0B {σ : Type} (B : BusIf σ) (c : CPU σ) :
    CPU.execute_opcode B 0x0B c = none := rfl

/-- Dispatch equation of execute_opcode at opcode $0C. -/
theorem exec_eq_x0C {σ : Type} (B : BusIf σ) (c : CPU σ) :
    CPU.execute_opcode B 0x0C c = some (CPU.nop_absolute B c) := rfl

/-- Dispatch equation of execute_opcode at opcode $0D. -/
theorem exec_eq_x0D {σ : Type} (B : BusIf σ) (c : CPU σ) :
    CPU.execute_opcode B 0x0D c = some (CPU.ora_absolute B c) := rfl

/-- Dispatch equation of execute_opcode at opcode $0E. -/
theorem exec_eq_x0E {σ : Type} (B : BusIf σ) (c : CPU σ) :
    CPU.execute_opcode B 0x0E c = some (CPU.asl_absolute B c) := rfl

/-- Dispatch equation of execute_opcode at opcode $0F. -/
theorem exec_eq_x0F {σ : Type} (B : BusIf σ) (c : CPU σ) :
    CPU.execute_opcode B 0x0F c = some (CPU.slo_absolute B c) := rfl

/-- Dispatch equation of execute_opcode at opcode $10. -/
theorem exec_eq_x10 {σ : Type} (B : BusIf σ) (c : CPU σ) :
    CPU.execute_opcode B 0x10 c = some (CPU.bpl B c) := rfl

/-- Dispatch equation of execute_opcode at opcode $11. -/
theorem exec_eq_x11 {σ : Type} (B : BusIf σ) (c : CPU σ) :
    CPU.execute_opcode B 0x11 c = some (CPU.ora_indirect_y B c) := rfl

/-- Dispatch equation of execute_opcode at opcode $12. -/
theorem exec_eq_x12 {σ : Type} (B : BusIf σ) (c : CPU σ) :
    CPU.execute_opcode B 0x12 c = some (CPU.jam c) := rfl

/-- Dispatch equation of execute_opcode at opcode $13. -/
theorem exec_eq_x13 {σ : Type} (B : BusIf σ) (c : CPU σ) :
    CPU.execute_opcode B 0x13 c = some (CPU.slo_indirect_y B c) := rfl

/-- Dispatch equation of execute_opcode at opcode $14. -/
theorem exec_eq_x14 {σ : Type} (B : BusIf σ) (c : CPU σ) :
    CPU.execute_opcode B 0x14 c = some (CPU.nop_zeropage_x B c) := rfl

/-- Dispatch equation of execute_opcode at opcode $15. -/
theorem exec_eq_x15 {σ : Type} (B : BusIf σ) (c : CPU σ) :
    CPU.execute_opcode B 0x15 c = some (CPU.ora_zeropage_x B c) := rfl

/-- Dispatch equation of execute_opcode at opcode $16. -/
theorem exec_eq_x16 {σ : Type} (B : BusIf σ) (c : CPU σ) :
    CPU.execute_opcode B 0x16 c = some (CPU.asl_zeropage_x B c) := rfl

/-- Dispatch equation of execute_opcode at opcode $17. -/
theorem exec_eq_x17 {σ : Type} (B : BusIf σ) (c : CPU σ) :
    CPU.execute_opcode B 0x17 c = some (CPU.slo_zeropage_x B c) := rfl

/-- Dispatch equation of execute_opcode at opcode $18. -/
theorem exec_eq_x18 {σ : Type} (B : BusIf σ) (c : CPU σ) :
    CPU.execute_opcode B 0x18 c = some (CPU.clc c) := rfl

/-- Dispatch equation of execute_opcode at opcode $19. -/
theorem exec_eq_x19 {σ : Type} (B : BusIf σ) (c : CPU σ) :
    CPU.execute_opcode B 0x19 c = some (CPU.ora_absolute_y B c) := rfl

/-- Dispatch equation of execute_opcode at opcode $1A. -/
theorem exec_eq_x1A {σ : Type} (B : BusIf σ) (c : CPU σ) :
    CPU.execute_opcode B 0x1A c = some (CPU.nop_implied c) := rfl

/-- Dispatch equation of execute_opcode at opcode $1B. -/
theorem exec_eq_x1B {σ : Type} (B : BusIf σ) (c : CPU σ) :
    CPU.execute_opcode B 0x1B c = some (CPU.slo_absolute_y B c) := rfl

/-- Dispatch equation of execute_opcode at opcode $1C. -/
theorem exec_eq_x1C {σ : Type} (B : BusIf σ) (c : CPU σ) :
    CPU.execute_opcode B 0x1C c = some (CPU.nop_absolute_x B c) := rfl

/-- Dispatch equation of execute_opcode at opcode $1D. -/
theorem exec_eq_x1D {σ : Type} (B : BusIf σ) (c : CPU σ) :
    CPU.execute_opcode B 0x1D c = some (CPU.ora_absolute_x B c) := rfl

/-- Dispatch equation of execute_opcode at opcode $1E. -/
theorem exec_eq_x1E {σ : Type} (B : BusIf σ) (c : CPU σ) :
    CPU.execute_opcode B 0x1E c = some (CPU.asl_absolute_x B c) := rfl

/-- Dispatch equation of execute_opcode at opcode $1F. -/
theorem exec_eq_x1F {σ : Type} (B : BusIf σ) (c : CPU σ) :
    CPU.execute_opcode B 0x1F c = some (CPU.slo_absolute_x B c) := rfl

/-- Dispatch equation of execute_opcode at opcode $20. -/
theorem exec_eq_x20 {σ : Type} (B : BusIf σ) (c : CPU σ) :
    CPU.execute_opcode B 0x20 c = some (CPU.jsr B c) := rfl

/-- Dispatch equation of execute_opcode at opcode $21. -/
theorem exec_eq_x21 {σ : Type} (B : BusIf σ) (c : CPU σ) :
    CPU.execute_opcode B 0x21 c = some (CPU.and_indirect_x B c) := rfl

/-- Dispatch equation of execute_opcode at opcode $22. -/
theorem exec_eq_x22 {σ : Type} (B : BusIf σ) (c : CPU σ) :
    CPU.execute_opcode B 0x22 c = some (CPU.jam c) := rfl

/-- Dispatch equation of execute_opcode at opcode $23. -/
theorem exec_eq_x23 {σ : Type} (B : BusIf σ) (c : CPU σ) :
    CPU.execute_opcode B 0x23 c = some (CPU.rla_indirect_x B c) := rfl

/-- Dispatch equation of execute_opcode at opcode $24. -/
theorem exec_eq_x24 {σ : Type} (B : BusIf σ) (c : CPU σ) :
    CPU.execute_opcode B 0x24 c = some (CPU.bit_zeropage B c) := rfl

/-- Dispatch equation of execute_opcode at opcode $25. -/
theorem exec_eq_x25 {σ : Type} (B : BusIf σ) (c : CPU σ) :
    CPU.execute_opcode B 0x25 c = some (CPU.and_zeropage B c) := rfl

/-- Dispatch equation of execute_opcode at opcode $26. -/
theorem exec_eq_x26 {σ : Type} (B : BusIf σ) (c : CPU σ) :
    CPU.execute_opcode B 0x26 c = some (CPU.rol_zeropage B c) := rfl

/-- Dispatch equation of execute_opcode at opcode $27. -/
theorem exec_eq_x27 {σ : Type} (B : BusIf σ) (c : CPU σ) :
    CPU.execute_opcode B 0x27 c = some (CPU.rla_zeropage B c) := rfl

/-- Dispatch equation of execute_opcode at opcode $28. -/
theorem exec_eq_x28 {σ : Type} (B : BusIf σ) (c : CPU σ) :
    CPU.execute_opcode B 0x28 c = some (CPU.plp B c) := rfl

/-- Dispatch equation of execute_opcode at opcode $29. -/
theorem exec_eq_x29 {σ : Type} (B : BusIf σ) (c : CPU σ) :
    CPU.execute_opcode B 0x29 c = some (CPU.and_immediate B c) := rfl

/-- Dispatch equation of execute_opcode at opcode $2A. -/
theorem exec_eq_x2A {σ : Type} (B : BusIf σ) (c : CPU σ) :
    CPU.execute_opcode B 0x2A c = some (CPU.rol_accumulator c) := rfl

/-- Dispatch equation of execute_opcode at opcode $2B. -/
theorem exec_eq_x2B {σ : Type} (B : BusIf σ) (c : CPU σ) :
    CPU.execute_opcode B 0x2B c = none := rfl

/-- Dispatch equation of execute_opcode at opcode $2C. -/
theorem exec_eq_x2C {σ : Type} (B : BusIf σ) (c : CPU σ) :
    CPU.execute_opcode B 0x2C c = some (CPU.bit_absolute B c) := rfl

/-- Dispatch equation of execute_opcode at opcode $2D. -/
theorem exec_eq_x2D {σ : Type} (B : BusIf σ) (c : CPU σ) :
    CPU.execute_opcode B 0x2D c = some (CPU.and_absolute B c) := rfl

/-- Dispatch equation of execute_opcode at opcode $2E. -/
theorem exec_eq_x2E {σ : Type} (B : BusIf σ) (c : CPU σ) :
    CPU.execute_opcode B 0x2E c = some (CPU.rol_absolute B c) := rfl

/-- Dispatch equation of execute_opcode at opcode $2F. -/
theorem exec_eq_x2F {σ : Type} (B : BusIf σ) (c : CPU σ) :
    CPU.execute_opcode B 0x2F c = some (CPU.rla_absolute B c) := rfl

/-- Dispatch equation of execute_opcode at opcode $30. -/
theorem exec_eq_x30 {σ : Type} (B : BusIf σ) (c : CPU σ) :
    CPU.execute_opcode B 0x30 c = some (CPU.bmi B c) := rfl

/-- Dispatch equation of execute_opcode at opcode $31. -/
theorem exec_eq_x31 {σ : Type} (B : BusIf σ) (c : CPU σ) :
    CPU.execute_opcode B 0x31 c = some (CPU.and_indirect_y B c) := rfl

/-- Dispatch equation of execute_opcode at opcode $32. -/
theorem exec_eq_x32 {σ : Type} (B : BusIf σ) (c : CPU σ) :
    CPU.execute_opcode B 0x32 c = some (CPU.jam c) := rfl

/-- Dispatch equation of execute_opcode at opcode $33. -/
theorem exec_eq_x33 {σ : Type} (B : BusIf σ) (c : CPU σ) :
    CPU.execute_opcode B 0x33 c = some (CPU.rla_indirect_y B c) := rfl

/-- Dispatch equation of execute_opcode at opcode $34. -/
theorem exec_eq_x34 {σ : Type} (B : BusIf σ) (c : CPU σ) :
    CPU.execute_opcode B 0x34 c = some (CPU.nop_zeropage_x B c) := rfl

/-- Dispatch equation of execute_opcode at opcode $35. -/
theorem exec_eq_x35 {σ : Type} (B : BusIf σ) (c : CPU σ) :
    CPU.execute_opcode B 0x35 c = some (CPU.and_zeropage_x B c) := rfl

/-- Dispatch equation of execute_opcode at opcode $36. -/
theorem exec_eq_x36 {σ : Type} (B : BusIf σ) (c : CPU σ) :
    CPU.execute_opcode B 0x36 c = some (CPU.rol_zeropage_x B c) := rfl

/-- Dispatch equation of execute_opcode at opcode $37. -/
theorem exec_eq_x37 {σ : Type} (B : BusIf σ) (c : CPU σ) :
    CPU.execute_opcode B 0x37 c = some (CPU.rla_zeropage_x B c) := rfl

/-- Dispatch equation of execute_opcode at opcode $38. -/
theorem exec_eq_x38 {σ : Type} (B : BusIf σ) (c : CPU σ) :
    CPU.execute_opcode B 0x38 c = some (CPU.sec c) := rfl

/-- Dispatch equation of execute_opcode at opcode $39. -/
theorem exec_eq_x39 {σ : Type} (B : BusIf σ) (c : CPU σ) :
    CPU.execute_opcode B 0x39 c = some (CPU.and_absolute_y B c) := rfl

/-- Dispatch equation of execute_opcode at opcode $3A. -/
theorem exec_eq_x3A {σ : Type} (B : BusIf σ) (c : CPU σ) :
    CPU.execute_opcode B 0x3A c = some (CPU.nop_implied c) := rfl

/-- Dispatch equation of execute_opcode at opcode $3B. -/
theorem exec_eq_x3B {σ : Type} (B : BusIf σ) (c : CPU σ) :
    CPU.execute_opcode B 0x3B c = some (CPU.rla_absolute_y B c) := rfl

/-- Dispatch equation of execute_opcode at opcode $3C. -/
theorem exec_eq_x3C {σ : Type} (B : BusIf σ) (c : CPU σ) :
    CPU.execute_opcode B 0x3C c = some (CPU.nop_absolute_x B c) := rfl

/-- Dispatch equation of execute_opcode at opcode $3D. -/
theorem exec_eq_x3D {σ : Type} (B : BusIf σ) (c : CPU σ) :
    CPU.execute_opcode B 0x3D c = some (CPU.and_absolute_x B c) := rfl

/-- Dispatch equation of execute_opcode at opcode $3E. -/
theorem exec_eq_x3E {σ : Type} (B : BusIf σ) (c : CPU σ) :
    CPU.execute_opcode B 0x3E c = some (CPU.rol_absolute_x B c) := rfl

/-- Dispatch equation of execute_opcode at opcode $3F. -/
theorem exec_eq_x3F {σ : Type} (B : BusIf σ) (c : CPU σ) :
    CPU.execute_opcode B 0x3F c = some (CPU.rla_absolute_x B c) := rfl

/-- Dispatch equation of execute_opcode at opcode $40. -/
theorem exec_eq_x40 {σ : Type} (B : BusIf σ) (c : CPU σ) :
    CPU.execute_opcode B 0x40 c = some (CPU.rti B c) := rfl

/-- Dispatch equation of execute_opcode at opcode $41. -/
theorem exec_eq_x41 {σ : Type} (B : BusIf σ) (c : CPU σ) :
    CPU.execute_opcode B 0x41 c = some (CPU.eor_indirect_x B c) := rfl

/-- Dispatch equation of execute_opcode at opcode $42. -/
theorem exec_eq_x42 {σ : Type} (B : BusIf σ) (c : CPU σ) :
    CPU.execute_opcode B 0x42 c = some (CPU.jam c) := rfl

/-- Dispatch equation of execute_opcode at opcode $43. -/
theorem exec_eq_x43 {σ : Type} (B : BusIf σ) (c : CPU σ) :
    CPU.execute_opcode B 0x43 c = some (CPU.sre_indirect_x B c) := rfl

/-- Dispatch equation of execute_opcode at opcode $44. -/
theorem exec_eq_x44 {σ : Type} (B : BusIf σ) (c : CPU σ) :
    CPU.execute_opcode B 0x44 c = some (CPU.nop_zeropage B c) := rfl

/-- Dispatch equation of execute_opcode at opcode $45. -/
theorem exec_eq_x45 {σ : Type} (B : BusIf σ) (c : CPU σ) :
    CPU.execute_opcode B 0x45 c = some (CPU.eor_zeropage B c) := rfl

/-- Dispatch equation of execute_opcode at opcode $46. -/
theorem exec_eq_x46 {σ : Type} (B : BusIf σ) (c : CPU σ) :
    CPU.execute_opcode B 0x46 c = some (CPU.lsr_zeropage B c) := rfl

/-- Dispatch equation of execute_opcode at opcode $47. -/
theorem exec_eq_x47 {σ : Type} (B : BusIf σ) (c : CPU σ) :
    CPU.execute_opcode B 0x47 c = some (CPU.sre_zeropage B c) := rfl

/-- Dispatch equation of execute_opcode at opcode $48. -/
theorem exec_eq_x48 {σ : Type} (B : BusIf σ) (c : CPU σ) :
    CPU.execute_opcode B 0x48 c = some (CPU.pha B c) := rfl

/-- Dispatch equation of execute_opcode at opcode $49. -/
theorem exec_eq_x49 {σ : Type} (B : BusIf σ) (c : CPU σ) :
    CPU.execute_opcode B 0x49 c = some (CPU.eor_immediate B c) := rfl

/-- Dispatch equation of execute_opcode at opcode $4A. -/
theorem exec_eq_x4A {σ : Type} (B : BusIf σ) (c : CPU σ) :
    CPU.execute_opcode B 0x4A c = some (CPU.lsr_accumulator c) := rfl

/-- Dispatch equation of execute_opcode at opcode $4B. -/
theorem exec_eq_x4B {σ : Type} (B : BusIf σ) (c : CPU σ) :
    CPU.execute_opcode B 0x4B c = none := rfl

/-- Dispatch equation of execute_opcode at opcode $4C. -/
theorem exec_eq_x4C {σ : Type} (B : BusIf σ) (c : CPU σ) :
    CPU.execute_opcode B 0x4C c = some (CPU.jmp_absolute B c) := rfl

/-- Dispatch equation of execute_opcode at opcode $4D. -/
theorem exec_eq_x4D {σ : Type} (B : BusIf σ) (c : CPU σ) :
    CPU.execute_opcode B 0x4D c = some (CPU.eor_absolute B c) := rfl

/-- Dispatch equation of execute_opcode at opcode $4E. -/
theorem exec_eq_x4E {σ : Type} (B : BusIf σ) (c : CPU σ) :
    CPU.execute_opcode B 0x4E c = some (CPU.lsr_absolute B c) := rfl

/-- Dispatch equation of execute_opcode at opcode $4F. -/
theorem exec_eq_x4F {σ : Type} (B : BusIf σ) (c : CPU σ) :
    CPU.execute_opcode B 0x4F c = some (CPU.sre_absolute B c) := rfl

/-- Dispatch equation of execute_opcode at opcode $50. -/
theorem exec_eq_x50 {σ : Type} (B : BusIf σ) (c : CPU σ) :
    CPU.execute_opcode B 0x50 c = some (CPU.bvc B c) := rfl

/-- Dispatch equation of execute_opcode at opcode $51. -/
theorem exec_eq_x51 {σ : Type} (B : BusIf σ) (c : CPU σ) :
    CPU.execute_opcode B 0x51 c = some (CPU.eor_indirect_y B c) := rfl

/-- Dispatch equation of execute_opcode at opcode $52. -/
theorem exec_eq_x52 {σ : Type} (B : BusIf σ) (c : CPU σ) :
    CPU.execute_opcode B 0x52 c = some (CPU.jam c) := rfl

/-- Dispatch equation of execute_opcode at opcode $53. -/
theorem exec_eq_x53 {σ : Type} (B : BusIf σ) (c : CPU σ) :
    CPU.execute_opcode B 0x53 c = some (CPU.sre_indirect_y B c) := rfl

/-- Dispatch equation of execute_opcode at opcode $54. -/
theorem exec_eq_x54 {σ : Type} (B : BusIf σ) (c : CPU σ) :
    CPU.execute_opcode B 0x54 c = some (CPU.nop_zeropage_x B c) := rfl

/-- Dispatch equation of execute_opcode at opcode $55. -/
theorem exec_eq_x55 {σ : Type} (B : BusIf σ) (c : CPU σ) :
    CPU.execute_opcode B 0x55 c = some (CPU.eor_zeropage_x B c) := rfl

/-- Dispatch equation of execute_opcode at opcode $56. -/
theorem exec_eq_x56 {σ : Type} (B : BusIf σ) (c : CPU σ) :
    CPU.execute_opcode B 0x56 c = some (CPU.lsr_zeropage_x B c) := rfl

/-- Dispatch equation of execute_opcode at opcode $57. -/
theorem exec_eq_x57 {σ : Type} (B : BusIf σ) (c : CPU σ) :
    CPU.execute_opcode B 0x57 c = some (CPU.sre_zeropage_x B c) := rfl

/-- Dispatch equation of execute_opcode at opcode $58. -/
theorem exec_eq_x58 {σ : Type} (B : BusIf σ) (c : CPU σ) :
    CPU.execute_opcode B 0x58 c = some (CPU.cli c) := rfl

/-- Dispatch equation of execute_opcode at opcode $59. -/
theorem exec_eq_x59 {σ : Type} (B : BusIf σ) (c : CPU σ) :
    CPU.execute_opcode B 0x59 c = some (CPU.eor_absolute_y B c) := rfl

/-- Dispatch equation of execute_opcode at opcode $5A. -/
theorem exec_eq_x5A {σ : Type} (B : BusIf σ) (c : CPU σ) :
    CPU.execute_opcode B 0x5A c = some (CPU.nop_implied c) := rfl

/-- Dispatch equation of execute_opcode at opcode $5B. -/
theorem exec_eq_x5B {σ : Type} (B : BusIf σ) (c : CPU σ) :
    CPU.execute_opcode B 0x5B c = some (CPU.sre_absolute_y B c) := rfl

/-- Dispatch equation of execute_opcode at opcode $5C. -/
theorem exec_eq_x5C {σ : Type} (B : BusIf σ) (c : CPU σ) :
    CPU.execute_opcode B 0x5C c = some (CPU.nop_absolute_x B c) := rfl

/-- Dispatch equation of execute_opcode at opcode $5D. -/
theorem exec_eq_x5D {σ : Type} (B : BusIf σ) (c : CPU σ) :
    CPU.execute_opcode B 0x5D c = some (CPU.eor_absolute_x B c) := rfl

/-- Dispatch equation of execute_opcode at opcode $5E. -/
theorem exec_eq_x5E {σ : Type} (B : BusIf σ) (c : CPU σ) :
    CPU.execute_opcode B 0x5E c = some (CPU.lsr_absolute_x B c) := rfl

/-- Dispatch equation of execute_opcode at opcode $5F. -/
theorem exec_eq_x5F {σ : Type} (B : BusIf σ) (c : CPU σ) :
    CPU.execute_opcode B 0x5F c = some (CPU.sre_absolute_x B c) := rfl

/-- Dispatch equation of execute_opcode at opcode $60. -/
theorem exec_eq_x60 {σ : Type} (B : BusIf σ) (c : CPU σ) :
    CPU.execute_opcode B 0x60 c = some (CPU.rts B c) := rfl

/-- Dispatch equation of execute_opcode at opcode $61. -/
theorem exec_eq_x61 {σ : Type} (B : BusIf σ) (c : CPU σ) :
    CPU.execute_opcode B 0x61 c = some (CPU.adc_indirect_x B c) := rfl

/-- Dispatch equation of execute_opcode at opcode $62. -/
theorem exec_eq_x62 {σ : Type} (B : BusIf σ) (c : CPU σ) :
    CPU.execute_opcode B 0x62 c = some (CPU.jam c) := rfl

/-- Dispatch equation of execute_opcode at opcode $63. -/
theorem exec_eq_x63 {σ : Type} (B : BusIf σ) (c : CPU σ) :
    CPU.execute_opcode B 0x63 c = some (CPU.rra_indirect_x B c) := rfl

/-- Dispatch equation of execute_opcode at opcode $64. -/
theorem exec_eq_x64 {σ : Type} (B : BusIf σ) (c : CPU σ) :
    CPU.execute_opcode B 0x64 c = some (CPU.nop_zeropage B c) := rfl

/-- Dispatch equation of execute_opcode at opcode $65. -/
theorem exec_eq_x65 {σ : Type} (B : BusIf σ) (c : CPU σ) :
    CPU.execute_opcode B 0x65 c = some (CPU.adc_zeropage B c) := rfl

/-- Dispatch equation of execute_opcode at opcode $66. -/
theorem exec_eq_x66 {σ : Type} (B : BusIf σ) (c : CPU σ) :
    CPU.execute_opcode B 0x66 c = some (CPU.ror_zeropage B c) := rfl

/-- Dispatch equation of execute_opcode at opcode $67. -/
theorem exec_eq_x67 {σ : Type} (B : BusIf σ) (c : CPU σ) :
    CPU.execute_opcode B 0x67 c = some (CPU.rra_zeropage B c) := rfl

/-- Dispatch equation of execute_opcode at opcode $68. -/
theorem exec_eq_x68 {σ : Type} (B : BusIf σ) (c : CPU σ) :
    CPU.execute_opcode B 0x68 c = some (CPU.pla B c) := rfl

/-- Dispatch equation of execute_opcode at opcode $69. -/
theorem exec_eq_x69 {σ : Type} (B : BusIf σ) (c : CPU σ) :
    CPU.execute_opcode B 0x69 c = some (CPU.adc_immediate B c) := rfl

/-- Dispatch equation of execute_opcode at opcode $6A. -/
theorem exec_eq_x6A {σ : Type} (B : BusIf σ) (c : CPU σ) :
    CPU.execute_opcode B 0x6A c = some (CPU.ror_accumulator c) := rfl

/-- Dispatch equation of execute_opcode at opcode $6B. -/
theorem exec_eq_x6B {σ : Type} (B : BusIf σ) (c : CPU σ) :
    CPU.execute_opcode B 0x6B c = none := rfl

/-- Dispatch equation of execute_opcode at opcode $6C. -/
theorem exec_eq_x6C {σ : Type} (B : BusIf σ) (c : CPU σ) :
    CPU.execute_opcode B 0x6C c = some (CPU.jmp_indirect B c) := rfl

/-- Dispatch equation of execute_opcode at opcode $6D. -/
theorem exec_eq_x6D {σ : Type} (B : BusIf σ) (c : CPU σ) :
    CPU.execute_opcode B 0x6D c = some (CPU.adc_absolute B c) := rfl

/-- Dispatch equation of execute_opcode at opcode $6E. -/
theorem exec_eq_x6E {σ : Type} (B : BusIf σ) (c : CPU σ) :
    CPU.execute_opcode B 0x6E c = some (CPU.ror_absolute B c) := rfl

/-- Dispatch equation of execute_opcode at opcode $6F. -/
theorem exec_eq_x6F {σ : Type} (B : BusIf σ) (c : CPU σ) :
    CPU.execute_opcode B 0x6F c = some (CPU.rra_absolute B c) := rfl

/-- Dispatch equation of execute_opcode at opcode $70. -/
theorem exec_eq_x70 {σ : Type} (B : BusIf σ) (c : CPU σ) :
    CPU.execute_opcode B 0x70 c = some (CPU.bvs B c) := rfl

/-- Dispatch equation of execute_opcode at opcode $71. -/
theorem exec_eq_x71 {σ : Type} (B : BusIf σ) (c : CPU σ) :
    CPU.execute_opcode B 0x71 c = some (CPU.adc_indirect_y B c) := rfl

/-- Dispatch equation of execute_opcode at opcode $72. -/
theorem exec_eq_x72 {σ : Type} (B : BusIf σ) (c : CPU σ) :
    CPU.execute_opcode B 0x72 c = some (CPU.jam c) := rfl

/-- Dispatch equation of execute_opcode at opcode $73. -/
theorem exec_eq_x73 {σ : Type} (B : BusIf σ) (c : CPU σ) :
    CPU.execute_opcode B 0x73 c = some (CPU.rra_indirect_y B c) := rfl

/-- Dispatch equation of execute_opcode at opcode $74. -/
theorem exec_eq_x74 {σ : Type} (B : BusIf σ) (c : CPU σ) :
    CPU.execute_opcode B 0x74 c = some (CPU.nop_zeropage_x B c) := rfl

/-- Dispatch equation of execute_opcode at opcode $75. -/
theorem exec_eq_x75 {σ : Type} (B : BusIf σ) (c : CPU σ) :
    CPU.execute_opcode B 0x75 c = some (CPU.adc_zeropage_x B c) := rfl

/-- Dispatch equation of execute_opcode at opcode $76. -/
theorem exec_eq_x76 {σ : Type} (B : BusIf σ) (c : CPU σ) :
    CPU.execute_opcode B 0x76 c = some (CPU.ror_zeropage_x B c) := rfl

/-- Dispatch equation of execute_opcode at opcode $77. -/
theorem exec_eq_x77 {σ : Type} (B : BusIf σ) (c : CPU σ) :
    CPU.execute_opcode B 0x77 c = some (CPU.rra_zeropage_x B c) := rfl

/-- Dispatch equation of execute_opcode at opcode $78. -/
theorem exec_eq_x78 {σ : Type} (B : BusIf σ) (c : CPU σ) :
    CPU.execute_opcode B 0x78 c = some (CPU.sei c) := rfl

/-- Dispatch equation of execute_opcode at opcode $79. -/
theorem exec_eq_x79 {σ : Type} (B : BusIf σ) (c : CPU σ) :
    CPU.execute_opcode B 0x79 c = some (CPU.adc_absolute_y B c) := rfl

/-- Dispatch equation of execute_opcode at opcode $7A. -/
theorem exec_eq_x7A {σ : Type} (B : BusIf σ) (c : CPU σ) :
    CPU.execute_opcode B 0x7A c = some (CPU.nop_implied c) := rfl

/-- Dispatch equation of execute_opcode at opcode $7B. -/
theorem exec_eq_x7B {σ : Type} (B : BusIf σ) (c : CPU σ) :
    CPU.execute_opcode B 0x7B c = some (CPU.rra_absolute_y B c) := rfl

/-- Dispatch equation of execute_opcode at opcode $7C. -/
theorem exec_eq_x7C {σ : Type} (B : BusIf σ) (c : CPU σ) :
    CPU.execute_opcode B 0x7C c = some (CPU.nop_absolute_x B c) := rfl

/-- Dispatch equation of execute_opcode at opcode $7D. -/
theorem exec_eq_x7D {σ : Type} (B : BusIf σ) (c : CPU σ) :
    CPU.execute_opcode B 0x7D c = some (CPU.adc_absolute_x B c) := rfl

/-- Dispatch equation of execute_opcode at opcode $7E. -/
theorem exec_eq_x7E {σ : Type} (B : BusIf σ) (c : CPU σ) :
    CPU.execute_opcode B 0x7E c = some (CPU.ror_absolute_x B c) := rfl

/-- Dispatch equation of execute_opcode at opcode $7F. -/
theorem exec_eq_x7F {σ : Type} (B : BusIf σ) (c : CPU σ) :
    CPU.execute_opcode B 0x7F c = some (CPU.rra_absolute_x B c) := rfl

/-- Dispatch equation of execute_opcode at opcode $80. -/
theorem exec_eq_x80 {σ : Type} (B : BusIf σ) (c : CPU σ) :
    CPU.execute_opcode B 0x80 c = some (CPU.nop_immediate B c) := rfl

/-- Dispatch equation of execute_opcode at opcode $81. -/
theorem exec_eq_x81 {σ : Type} (B : BusIf σ) (c : CPU σ) :
    CPU.execute_opcode B 0x81 c = some (CPU.sta_indirect_x B c) := rfl

/-- Dispatch equation of execute_opcode at opcode $82. -/
theorem exec_eq_x82 {σ : Type} (B : BusIf σ) (c : CPU σ) :
    CPU.execute_opcode B 0x82 c = some (CPU.nop_immediate B c) := rfl

/-- Dispatch equation of execute_opcode at opcode $83. -/
theorem exec_eq_x83 {σ : Type} (B : BusIf σ) (c : CPU σ) :
    CPU.execute_opcode B 0x83 c = some (CPU.sax_indirect_x B c) := rfl

/-- Dispatch equation of execute_opcode at opcode $84. -/
theorem exec_eq_x84 {σ : Type} (B : BusIf σ) (c : CPU σ) :
    CPU.execute_opcode B 0x84 c = some (CPU.sty_zeropage B c) := rfl

/-- Dispatch equation of execute_opcode at opcode $85. -/
theorem exec_eq_x85 {σ : Type} (B : BusIf σ) (c : CPU σ) :
    CPU.execute_opcode B 0x85 c = some (CPU.sta_zero_page B c) := rfl

/-- Dispatch equation of execute_opcode at opcode $86. -/
theorem exec_eq_x86 {σ : Type} (B : BusIf σ) (c : CPU σ) :
    CPU.execute_opcode B 0x86 c = some (CPU.stx_zero_page B c) := rfl

/-- Dispatch equation of execute_opcode at opcode $87. -/
theorem exec_eq_x87 {σ : Type} (B : BusIf σ) (c : CPU σ) :
    CPU.execute_opcode B 0x87 c = some (CPU.sax_zeropage B c) := rfl

/-- Dispatch equation of execute_opcode at opcode $88. -/
theorem exec_eq_x88 {σ : Type} (B : BusIf σ) (c : CPU σ) :
    CPU.execute_opcode B 0x88 c = some (CPU.dey c) := rfl

/-- Dispatch equation of execute_opcode at opcode $89. -/
theorem exec_eq_x89 {σ : Type} (B : BusIf σ) (c : CPU σ) :
    CPU.execute_opcode B 0x89 c = some (CPU.nop_immediate B c) := rfl

/-- Dispatch equation of execute_opcode at opcode $8A. -/
theorem exec_eq_x8A {σ : Type} (B : BusIf σ) (c : CPU σ) :
    CPU.execute_opcode B 0x8A c = some (CPU.txa c) := rfl

/-- Dispatch equation of execute_opcode at opcode $8B. -/
theorem exec_eq_x8B {σ : Type} (B : BusIf σ) (c : CPU σ) :
    CPU.execute_opcode B 0x8B c = none := rfl

/-- Dispatch equation of execute_opcode at opcode $8C. -/
theorem exec_eq_x8C {σ : Type} (B : BusIf σ) (c : CPU σ) :
    CPU.execute_opcode B 0x8C c = some (CPU.sty_absolute B c) := rfl

/-- Dispatch equation of execute_opcode at opcode $8D. -/
theorem exec_eq_x8D {σ : Type} (B : BusIf σ) (c : CPU σ) :
    CPU.execute_opcode B 0x8D c = some (CPU.sta_absolute B c) := rfl

/-- Dispatch equation of execute_opcode at opcode $8E. -/
theorem exec_eq_x8E {σ : Type} (B : BusIf σ) (c : CPU σ) :
    CPU.execute_opcode B 0x8E c = some (CPU.stx_absolute B c) := rfl

/-- Dispatch equation of execute_opcode at opcode $8F. -/
theorem exec_eq_x8F {σ : Type} (B : BusIf σ) (c : CPU σ) :
    CPU.execute_opcode B 0x8F c = some (CPU.sax_absolute B c) := rfl

/-- Dispatch equation of execute_opcode at opcode $90. -/
theorem exec_eq_x90 {σ : Type} (B : BusIf σ) (c : CPU σ) :
    CPU.execute_opcode B 0x90 c = some (CPU.bcc B c) := rfl

/-- Dispatch equation of execute_opcode at opcode $91. -/
theorem exec_eq_x91 {σ : Type} (B : BusIf σ) (c : CPU σ) :
    CPU.execute_opcode B 0x91 c = some (CPU.sta_indirect_y B c) := rfl

/-- Dispatch equation of execute_opcode at opcode $92. -/
theorem exec_eq_x92 {σ : Type} (B : BusIf σ) (c : CPU σ) :
    CPU.execute_opcode B 0x92 c = some (CPU.jam c) := rfl

/-- Dispatch equation of execute_opcode at opcode $93. -/
theorem exec_eq_x93 {σ : Type} (B : BusIf σ) (c : CPU σ) :
    CPU.execute_opcode B 0x93 c = none := rfl

/-- Dispatch equation of execute_opcode at opcode $94. -/
theorem exec_eq_x94 {σ : Type} (B : BusIf σ) (c : CPU σ) :
    CPU.execute_opcode B 0x94 c = some (CPU.sty_zeropage_x B c) := rfl

/-- Dispatch equation of execute_opcode at opcode $95. -/
theorem exec_eq_x95 {σ : Type} (B : BusIf σ) (c : CPU σ) :
    CPU.execute_opcode B 0x95 c = some (CPU.sta_zeropage_x B c) := rfl

/-- Dispatch equation of execute_opcode at opcode $96. -/
theorem exec_eq_x96 {σ : Type} (B : BusIf σ) (c : CPU σ) :
    CPU.execute_opcode B 0x96 c = some (CPU.stx_zeropage_y B c) := rfl

/-- Dispatch equation of execute_opcode at opcode $97. -/
theorem exec_eq_x97 {σ : Type} (B : BusIf σ) (c : CPU σ) :
    CPU.execute_opcode B 0x97 c = some (CPU.sax_zeropage_y B c) := rfl

/-- Dispatch equation of execute_opcode at opcode $98. -/
theorem exec_eq_x98 {σ : Type} (B : BusIf σ) (c : CPU σ) :
    CPU.execute_opcode B 0x98 c = some (CPU.tya c) := rfl

/-- Dispatch equation of execute_opcode at opcode $99. -/
theorem exec_eq_x99 {σ : Type} (B : BusIf σ) (c : CPU σ) :
    CPU.execute_opcode B 0x99 c = some (CPU.sta_absolute_y B c) := rfl

/-- Dispatch equation of execute_opcode at opcode $9A. -/
theorem exec_eq_x9A {σ : Type} (B : BusIf σ) (c : CPU σ) :
    CPU.execute_opcode B 0x9A c = some (CPU.txs c) := rfl

/-- Dispatch equation of execute_opcode at opcode $9B. -/
theorem exec_eq_x9B {σ : Type} (B : BusIf σ) (c : CPU σ) :
    CPU.execute_opcode B 0x9B c = none := rfl

/-- Dispatch equation of execute_opcode at opcode $9C. -/
theorem exec_eq_x9C {σ : Type} (B : BusIf σ) (c : CPU σ) :
    CPU.execute_opcode B 0x9C c = none := rfl

/-- Dispatch equation of execute_opcode at opcode $9D. -/
theorem exec_eq_x9D {σ : Type} (B : BusIf σ) (c : CPU σ) :
    CPU.execute_opcode B 0x9D c = some (CPU.sta_absolute_x B c) := rfl

/-- Dispatch equation of execute_opcode at opcode $9E. -/
theorem exec_eq_x9E {σ : Type} (B : BusIf σ) (c : CPU σ) :
    CPU.execute_opcode B 0x9E c = none := rfl

/-- Dispatch equation of execute_opcode at opcode $9F. -/
theorem exec_eq_x9F {σ : Type} (B : BusIf σ) (c : CPU σ) :
    CPU.execute_opcode B 0x9F c = none := rfl

/-- Dispatch equation of execute_opcode at opcode $A0. -/
theorem exec_eq_xA0 {σ : Type} (B : BusIf σ) (c : CPU σ) :
    CPU.execute_opcode B 0xA0 c = some (CPU.ldy_immediate B c) := rfl

/-- Dispatch equation of execute_opcode at opcode $A1. -/
theorem exec_eq_xA1 {σ : Type} (B : BusIf σ) (c : CPU σ) :
    CPU.execute_opcode B 0xA1 c = some (CPU.lda_indirect_x B c) := rfl

/-- Dispatch equation of execute_opcode at opcode $A2. -/
theorem exec_eq_xA2 {σ : Type} (B : BusIf σ) (c : CPU σ) :
    CPU.execute_opcode B 0xA2 c = some (CPU.ldx_immediate B c) := rfl

/-- Dispatch equation of execute_opcode at opcode $A3. -/
theorem exec_eq_xA3 {σ : Type} (B : BusIf σ) (c : CPU σ) :
    CPU.execute_opcode B 0xA3 c = some (CPU.lax_indirect_x B c) := rfl

/-- Dispatch equation of execute_opcode at opcode $A4. -/
theorem exec_eq_xA4 {σ : Type} (B : BusIf σ) (c : CPU σ) :
    CPU.execute_opcode B 0xA4 c = some (CPU.ldy_zeropage B c) := rfl

/-- Dispatch equation of execute_opcode at opcode $A5. -/
theorem exec_eq_xA5 {σ : Type} (B : BusIf σ) (c : CPU σ) :
    CPU.execute_opcode B 0xA5 c = some (CPU.lda_zero_page B c) := rfl

/-- Dispatch equation of execute_opcode at opcode $A6. -/
theorem exec_eq_xA6 {σ : Type} (B : BusIf σ) (c : CPU σ) :
    CPU.execute_opcode B 0xA6 c = some (CPU.ldx_zeropage B c) := rfl

/-- Dispatch equation of execute_opcode at opcode $A7. -/
theorem exec_eq_xA7 {σ : Type} (B : BusIf σ) (c : CPU σ) :
    CPU.execute_opcode B 0xA7 c = some (CPU.lax_zeropage B c) := rfl

/-- Dispatch equation of execute_opcode at opcode $A8. -/
theorem exec_eq_xA8 {σ : Type} (B : BusIf σ) (c : CPU σ) :
    CPU.execute_opcode B 0xA8 c = some (CPU.tay c) := rfl

/-- Dispatch equation of execute_opcode at opcode $A9. -/
theorem exec_eq_xA9 {σ : Type} (B : BusIf σ) (c : CPU σ) :
    CPU.execute_opcode B 0xA9 c = some (CPU.lda_immediate B c) := rfl

/-- Dispatch equation of execute_opcode at opcode $AA. -/
theorem exec_eq_xAA {σ : Type} (B : BusIf σ) (c : CPU σ) :
    CPU.execute_opcode B 0xAA c = some (CPU.tax c) := rfl

/-- Dispatch equation of execute_opcode at opcode $AB. -/
theorem exec_eq_xAB {σ : Type} (B : BusIf σ) (c : CPU σ) :
    CPU.execute_opcode B 0xAB c = none := rfl

/-- Dispatch equation of execute_opcode at opcode $AC. -/
theorem exec_eq_xAC {σ : Type} (B : BusIf σ) (c : CPU σ) :
    CPU.execute_opcode B 0xAC c = some (CPU.ldy_absolute B c) := rfl

/-- Dispatch equation of execute_opcode at opcode $AD. -/
theorem exec_eq_xAD {σ : Type} (B : BusIf σ) (c : CPU σ) :
    CPU.execute_opcode B 0xAD c = some (CPU.lda_absolute B c) := rfl

/-- Dispatch equation of execute_opcode at opcode $AE. -/
theorem exec_eq_xAE {σ : Type} (B : BusIf σ) (c : CPU σ) :
    CPU.execute_opcode B 0xAE c = some (CPU.ldx_absolute B c) := rfl

/-- Dispatch equation of execute_opcode at opcode $AF. -/
theorem exec_eq_xAF {σ : Type} (B : BusIf σ) (c : CPU σ) :
    CPU.execute_opcode B 0xAF c = some (CPU.lax_absolute B c) := rfl

/-- Dispatch equation of execute_opcode at opcode $B0. -/
theorem exec_eq_xB0 {σ : Type} (B : BusIf σ) (c : CPU σ) :
    CPU.execute_opcode B 0xB0 c = some (CPU.bcs B c) := rfl

/-- Dispatch equation of execute_opcode at opcode $B1. -/
theorem exec_eq_xB1 {σ : Type} (B : BusIf σ) (c : CPU σ) :
    CPU.execute_opcode B 0xB1 c = some (CPU.lda_indirect_y B c) := rfl

/-- Dispatch equation of execute_opcode at opcode $B2. -/
theorem exec_eq_xB2 {σ : Type} (B : BusIf σ) (c : CPU σ) :
    CPU.execute_opcode B 0xB2 c = some (CPU.jam c) := rfl

/-- Dispatch equation of execute_opcode at opcode $B3. -/
theorem exec_eq_xB3 {σ : Type} (B : BusIf σ) (c : CPU σ) :
    CPU.execute_opcode B 0xB3 c = some (CPU.lax_indirect_y B c) := rfl

/-- Dispatch equation of execute_opcode at opcode $B4. -/
theorem exec_eq_xB4 {σ : Type} (B : BusIf σ) (c : CPU σ) :
    CPU.execute_opcode B 0xB4 c = some (CPU.ldy_zeropage_x B c) := rfl

/-- Dispatch equation of execute_opcode at opcode $B5. -/
theorem exec_eq_xB5 {σ : Type} (B : BusIf σ) (c : CPU σ) :
    CPU.execute_opcode B 0xB5 c = some (CPU.lda_zeropage_x B c) := rfl

/-- Dispatch equation of execute_opcode at opcode $B6. -/
theorem exec_eq_xB6 {σ : Type} (B : BusIf σ) (c : CPU σ) :
    CPU.execute_opcode B 0xB6 c = some (CPU.ldx_zeropage_y B c) := rfl

/-- Dispatch equation of execute_opcode at opcode $B7. -/
theorem exec_eq_xB7 {σ : Type} (B : BusIf σ) (c : CPU σ) :
    CPU.execute_opcode B 0xB7 c = some (CPU.lax_zeropage_y B c) := rfl

/-- Dispatch equation of execute_opcode at opcode $B8. -/
theorem exec_eq_xB8 {σ : Type} (B : BusIf σ) (c : CPU σ) :
    CPU.execute_opcode B 0xB8 c = some (CPU.clv c) := rfl

/-- Dispatch equation of execute_opcode at opcode $B9. -/
theorem exec_eq_xB9 {σ : Type} (B : BusIf σ) (c : CPU σ) :
    CPU.execute_opcode B 0xB9 c = some (CPU.lda_absolute_y B c) := rfl

/-- Dispatch equation of execute_opcode at opcode $BA. -/
theorem exec_eq_xBA {σ : Type} (B : BusIf σ) (c : CPU σ) :
    CPU.execute_opcode B 0xBA c = some (CPU.tsx c) := rfl

/-- Dispatch equation of execute_opcode at opcode $BB. -/
theorem exec_eq_xBB {σ : Type} (B : BusIf σ) (c : CPU σ) :
    CPU.execute_opcode B 0xBB c = none := rfl

/-- Dispatch equation of execute_opcode at opcode $BC. -/
theorem exec_eq_xBC {σ : Type} (B : BusIf σ) (c : CPU σ) :
    CPU.execute_opcode B 0xBC c = some (CPU.ldy_absolute_x B c) := rfl

/-- Dispatch equation of execute_opcode at opcode $BD. -/
theorem exec_eq_xBD {σ : Type} (B : BusIf σ) (c : CPU σ) :
    CPU.execute_opcode B 0xBD c = some (CPU.lda_absolute_x B c) := rfl

/-- Dispatch equation of execute_opcode at opcode $BE. -/
theorem exec_eq_xBE {σ : Type} (B : BusIf σ) (c : CPU σ) :
    CPU.execute_opcode B 0xBE c = some (CPU.ldx_absolute_y B c) := rfl

/-- Dispatch equation of execute_opcode at opcode $BF. -/
theorem exec_eq_xBF {σ : Type} (B : BusIf σ) (c : CPU σ) :
    CPU.execute_opcode B 0xBF c = some (CPU.lax_absolute_y B c) := rfl

/-- Dispatch equation of execute_opcode at opcode $C0. -/
theorem exec_eq_xC0 {σ : Type} (B : BusIf σ) (c : CPU σ) :
    CPU.execute_opcode B 0xC0 c = some (CPU.cpy_immediate B c) := rfl

/-- Dispatch equation of execute_opcode at opcode $C1. -/
theorem exec_eq_xC1 {σ : Type} (B : BusIf σ) (c : CPU σ) :
    CPU.execute_opcode B 0xC1 c = some (CPU.cmp_indirect_x B c) := rfl

/-- Dispatch equation of execute_opcode at opcode $C2. -/
theorem exec_eq_xC2 {σ : Type} (B : BusIf σ) (c : CPU σ) :
    CPU.execute_opcode B 0xC2 c = some (CPU.nop_immediate B c) := rfl

/-- Dispatch equation of execute_opcode at opcode $C3. -/
theorem exec_eq_xC3 {σ : Type} (B : BusIf σ) (c : CPU σ) :
    CPU.execute_opcode B 0xC3 c = some (CPU.dcp_indirect_x B c) := rfl

/-- Dispatch equation of execute_opcode at opcode $C4. -/
theorem exec_eq_xC4 {σ : Type} (B : BusIf σ) (c : CPU σ) :
    CPU.execute_opcode B 0xC4 c = some (CPU.cpy_zeropage B c) := rfl

/-- Dispatch equation of execute_opcode at opcode $C5. -/
theorem exec_eq_xC5 {σ : Type} (B : BusIf σ) (c : CPU σ) :
    CPU.execute_opcode B 0xC5 c = some (CPU.cmp_zeropage B c) := rfl

/-- Dispatch equation of execute_opcode at opcode $C6. -/
theorem exec_eq_xC6 {σ : Type} (B : BusIf σ) (c : CPU σ) :
    CPU.execute_opcode B 0xC6 c = some (CPU.dec_zeropage B c) := rfl

/-- Dispatch equation of execute_opcode at opcode $C7. -/
theorem exec_eq_xC7 {σ : Type} (B : BusIf σ) (c : CPU σ) :
    CPU.execute_opcode B 0xC7 c = some (CPU.dcp_zeropage B c) := rfl

/-- Dispatch equation of execute_opcode at opcode $C8. -/
theorem exec_eq_xC8 {σ : Type} (B : BusIf σ) (c : CPU σ) :
    CPU.execute_opcode B 0xC8 c = some (CPU.iny c) := rfl

/-- Dispatch equation of execute_opcode at opcode $C9. -/
theorem exec_eq_xC9 {σ : Type} (B : BusIf σ) (c : CPU σ) :
    CPU.execute_opcode B 0xC9 c = some (CPU.cmp_immediate B c) := rfl

/-- Dispatch equation of execute_opcode at opcode $CA. -/
theorem exec_eq_xCA {σ : Type} (B : BusIf σ) (c : CPU σ) :
    CPU.execute_opcode B 0xCA c = some (CPU.dex c) := rfl

/-- Dispatch equation of execute_opcode at opcode $CB. -/
theorem exec_eq_xCB {σ : Type} (B : BusIf σ) (c : CPU σ) :
    CPU.execute_opcode B 0xCB c = none := rfl

/-- Dispatch equation of execute_opcode at opcode $CC. -/
theorem exec_eq_xCC {σ : Type} (B : BusIf σ) (c : CPU σ) :
    CPU.execute_opcode B 0xCC c = some (CPU.cpy_absolute B c) := rfl

/-- Dispatch equation of execute_opcode at opcode $CD. -/
theorem exec_eq_xCD {σ : Type} (B : BusIf σ) (c : CPU σ) :
    CPU.execute_opcode B 0xCD c = some (CPU.cmp_absolute B c) := rfl

/-- Dispatch equation of execute_opcode at opcode $CE. -/
theorem exec_eq_xCE {σ : Type} (B : BusIf σ) (c : CPU σ) :
    CPU.execute_opcode B 0xCE c = some (CPU.dec_absolute B c) := rfl

/-- Dispatch equation of execute_opcode at opcode $CF. -/
theorem exec_eq_xCF {σ : Type} (B : BusIf σ) (c : CPU σ) :
    CPU.execute_opcode B 0xCF c = some (CPU.dcp_absolute B c) := rfl

/-- Dispatch equation of execute_opcode at opcode $D0. -/
theorem exec_eq_xD0 {σ : Type} (B : BusIf σ) (c : CPU σ) :
    CPU.execute_opcode B 0xD0 c = some (CPU.bne B c) := rfl

/-- Dispatch equation of execute_opcode at opcode $D1. -/
theorem exec_eq_xD1 {σ : Type} (B : BusIf σ) (c : CPU σ) :
    CPU.execute_opcode B 0xD1 c = some (CPU.cmp_indirect_y B c) := rfl

/-- Dispatch equation of execute_opcode at opcode $D2. -/
theorem exec_eq_xD2 {σ : Type} (B : BusIf σ) (c : CPU σ) :
    CPU.execute_opcode B 0xD2 c = some (CPU.jam c) := rfl

/-- Dispatch equation of execute_opcode at opcode $D3. -/
theorem exec_eq_xD3 {σ : Type} (B : BusIf σ) (c : CPU σ) :
    CPU.execute_opcode B 0xD3 c = some (CPU.dcp_indirect_y B c) := rfl

/-- Dispatch equation of execute_opcode at opcode $D4. -/
theorem exec_eq_xD4 {σ : Type} (B : BusIf σ) (c : CPU σ) :
    CPU.execute_opcode B 0xD4 c = some (CPU.nop_zeropage_x B c) := rfl

/-- Dispatch equation of execute_opcode at opcode $D5. -/
theorem exec_eq_xD5 {σ : Type} (B : BusIf σ) (c : CPU σ) :
    CPU.execute_opcode B 0xD5 c = some (CPU.cmp_zeropage_x B c) := rfl

/-- Dispatch equation of execute_opcode at opcode $D6. -/
theorem exec_eq_xD6 {σ : Type} (B : BusIf σ) (c : CPU σ) :
    CPU.execute_opcode B 0xD6 c = some (CPU.dec_zeropage_x B c) := rfl

/-- Dispatch equation of execute_opcode at opcode $D7. -/
theorem exec_eq_xD7 {σ : Type} (B : BusIf σ) (c : CPU σ) :
    CPU.execute_opcode B 0xD7 c = some (CPU.dcp_zeropage_x B c) := rfl

/-- Dispatch equation of execute_opcode at opcode $D8. -/
theorem exec_eq_xD8 {σ : Type} (B : BusIf σ) (c : CPU σ) :
    CPU.execute_opcode B 0xD8 c = some (CPU.cld c) := rfl

/-- Dispatch equation of execute_opcode at opcode $D9. -/
theorem exec_eq_xD9 {σ : Type} (B : BusIf σ) (c : CPU σ) :
    CPU.execute_opcode B 0xD9 c = some (CPU.cmp_absolute_y B c) := rfl

/-- Dispatch equation of execute_opcode at opcode $DA. -/
theorem exec_eq_xDA {σ : Type} (B : BusIf σ) (c : CPU σ) :
    CPU.execute_opcode B 0xDA c = some (CPU.nop_implied c) := rfl

/-- Dispatch equation of execute_opcode at opcode $DB. -/
theorem exec_eq_xDB {σ : Type} (B : BusIf σ) (c : CPU σ) :
    CPU.execute_opcode B 0xDB c = some (CPU.dcp_absolute_y B c) := rfl

/-- Dispatch equation of execute_opcode at opcode $DC. -/
theorem exec_eq_xDC {σ : Type} (B : BusIf σ) (c : CPU σ) :
    CPU.execute_opcode B 0xDC c = some (CPU.nop_absolute_x B c) := rfl

/-- Dispatch equation of execute_opcode at opcode $DD. -/
theorem exec_eq_xDD {σ : Type} (B : BusIf σ) (c : CPU σ) :
    CPU.execute_opcode B 0xDD c = some (CPU.cmp_absolute_x B c) := rfl

/-- Dispatch equation of execute_opcode at opcode $DE. -/
theorem exec_eq_xDE {σ : Type} (B : BusIf σ) (c : CPU σ) :
    CPU.execute_opcode B 0xDE c = some (CPU.dec_absolute_x B c) := rfl

/-- Dispatch equation of execute_opcode at opcode $DF. -/
theorem exec_eq_xDF {σ : Type} (B : BusIf σ) (c : CPU σ) :
    CPU.execute_opcode B 0xDF c = some (CPU.dcp_absolute_x B c) := rfl

/-- Dispatch equation of execute_opcode at opcode $E0. -/
theorem exec_eq_xE0 {σ : Type} (B : BusIf σ) (c : CPU σ) :
    CPU.execute_opcode B 0xE0 c = some (CPU.cpx_immediate B c) := rfl

/-- Dispatch equation of execute_opcode at opcode $E1. -/
theorem exec_eq_xE1 {σ : Type} (B : BusIf σ) (c : CPU σ) :
    CPU.execute_opcode B 0xE1 c = some (CPU.sbc_indirect_x B c) := rfl

/-- Dispatch equation of execute_opcode at opcode $E2. -/
theorem exec_eq_xE2 {σ : Type} (B : BusIf σ) (c : CPU σ) :
    CPU.execute_opcode B 0xE2 c = some (CPU.nop_immediate B c) := rfl

/-- Dispatch equation of execute_opcode at opcode $E3. -/
theorem exec_eq_xE3 {σ : Type} (B : BusIf σ) (c : CPU σ) :
    CPU.execute_opcode B 0xE3 c = some (CPU.isc_indirect_x B c) := rfl

/-- Dispatch equation of execute_opcode at opcode $E4. -/
theorem exec_eq_xE4 {σ : Type} (B : BusIf σ) (c : CPU σ) :
    CPU.execute_opcode B 0xE4 c = some (CPU.cpx_zeropage B c) := rfl

/-- Dispatch equation of execute_opcode at opcode $E5. -/
theorem exec_eq_xE5 {σ : Type} (B : BusIf σ) (c : CPU σ) :
    CPU.execute_opcode B 0xE5 c = some (CPU.sbc_zeropage B c) := rfl

/-- Dispatch equation of execute_opcode at opcode $E6. -/
theorem exec_eq_xE6 {σ : Type} (B : BusIf σ) (c : CPU σ) :
    CPU.execute_opcode B 0xE6 c = some (CPU.inc_zeropage B c) := rfl

/-- Dispatch equation of execute_opcode at opcode $E7. -/
theorem exec_eq_xE7 {σ : Type} (B : BusIf σ) (c : CPU σ) :
    CPU.execute_opcode B 0xE7 c = some (CPU.isc_zeropage B c) := rfl

/-- Dispatch equation of execute_opcode at opcode $E8. -/
theorem exec_eq_xE8 {σ : Type} (B : BusIf σ) (c : CPU σ) :
    CPU.execute_opcode B 0xE8 c = some (CPU.inx c) := rfl

/-- Dispatch equation of execute_opcode at opcode $E9. -/
theorem exec_eq_xE9 {σ : Type} (B : BusIf σ) (c : CPU σ) :
    CPU.execute_opcode B 0xE9 c = some (CPU.sbc_immediate B c) := rfl

/-- Dispatch equation of execute_opcode at opcode $EA. -/
theorem exec_eq_xEA {σ : Type} (B : BusIf σ) (c : CPU σ) :
    CPU.execute_opcode B 0xEA c = some (CPU.nop c) := rfl

/-- Dispatch equation of execute_opcode at opcode $EB. -/
theorem exec_eq_xEB {σ : Type} (B : BusIf σ) (c : CPU σ) :
    CPU.execute_opcode B 0xEB c = some (CPU.sbc_immediate B c) := rfl

/-- Dispatch equation of execute_opcode at opcode $EC. -/
theorem exec_eq_xEC {σ : Type} (B : BusIf σ) (c : CPU σ) :
    CPU.execute_opcode B 0xEC c = some (CPU.cpx_absolute B c) := rfl

/-- Dispatch equation of execute_opcode at opcode $ED. -/
theorem exec_eq_xED {σ : Type} (B : BusIf σ) (c : CPU σ) :
    CPU.execute_opcode B 0xED c = some (CPU.sbc_absolute B c) := rfl

/-- Dispatch equation of execute_opcode at opcode $EE. -/
theorem exec_eq_xEE {σ : Type} (B : BusIf σ) (c : CPU σ) :
    CPU.execute_opcode B 0xEE c = some (CPU.inc_absolute B c) := rfl

/-- Dispatch equation of execute_opcode at opcode $EF. -/
theorem exec_eq_xEF {σ : Type} (B : BusIf σ) (c : CPU σ) :
    CPU.execute_opcode B 0xEF c = some (CPU.isc_absolute B c) := rfl

/-- Dispatch equation of execute_opcode at opcode $F0. -/
theorem exec_eq_xF0 {σ : Type} (B : BusIf σ) (c : CPU σ) :
    CPU.execute_opcode B 0xF0 c = some (CPU.beq B c) := rfl

/-- Dispatch equation of execute_opcode at opcode $F1. -/
theorem exec_eq_xF1 {σ : Type} (B : BusIf σ) (c : CPU σ) :
    CPU.execute_opcode B 0xF1 c = some (CPU.sbc_indirect_y B c) := rfl

/-- Dispatch equation of execute_opcode at opcode $F2. -/
theorem exec_eq_xF2 {σ : Type} (B : BusIf σ) (c : CPU σ) :
    CPU.execute_opcode B 0xF2 c = some (CPU.jam c) := rfl

/-- Dispatch equation of execute_opcode at opcode $F3. -/
theorem exec_eq_xF3 {σ : Type} (B : BusIf σ) (c : CPU σ) :
    CPU.execute_opcode B 0xF3 c = some (CPU.isc_indirect_y B c) := rfl

/-- Dispatch equation of execute_opcode at opcode $F4. -/
theorem exec_eq_xF4 {σ : Type} (B : BusIf σ) (c : CPU σ) :
    CPU.execute_opcode B 0xF4 c = some (CPU.nop_zeropage_x B c) := rfl

/-- Dispatch equation of execute_opcode at opcode $F5. -/
theorem exec_eq_xF5 {σ : Type} (B : BusIf σ) (c : CPU σ) :
    CPU.execute_opcode B 0xF5 c = some (CPU.sbc_zeropage_x B c) := rfl

/-- Dispatch equation of execute_opcode at opcode $F6. -/
theorem exec_eq_xF6 {σ : Type} (B : BusIf σ) (c : CPU σ) :
    CPU.execute_opcode B 0xF6 c = some (CPU.inc_zeropage_x B c) := rfl

/-- Dispatch equation of execute_opcode at opcode $F7. -/
theorem exec_eq_xF7 {σ : Type} (B : BusIf σ) (c : CPU σ) :
    CPU.execute_opcode B 0xF7 c = some (CPU.isc_zeropage_x B c) := rfl

/-- Dispatch equation of execute_opcode at opcode $F8. -/
theorem exec_eq_xF8 {σ : Type} (B : BusIf σ) (c : CPU σ) :
    CPU.execute_opcode B 0xF8 c = some (CPU.sed c) := rfl

/-- Dispatch equation of execute_opcode at opcode $F9. -/
theorem exec_eq_xF9 {σ : Type} (B : BusIf σ) (c : CPU σ) :
    CPU.execute_opcode B 0xF9 c = some (CPU.sbc_absolute_y B c) := rfl

/-- Dispatch equation of execute_opcode at opcode $FA. -/
theorem exec_eq_xFA {σ : Type} (B : BusIf σ) (c : CPU σ) :
    CPU.execute_opcode B 0xFA c = some (CPU.nop_implied c) := rfl

/-- Dispatch equation of execute_opcode at opcode $FB. -/
theorem exec_eq_xFB {σ : Type} (B : BusIf σ) (c : CPU σ) :
    CPU.execute_opcode B 0xFB c = some (CPU.isc_absolute_y B c) := rfl

/-- Dispatch equation of execute_opcode at opcode $FC. -/
theorem exec_eq_xFC {σ : Type} (B : BusIf σ) (c : CPU σ) :
    CPU.execute_opcode B 0xFC c = some (CPU.nop_absolute_x B c) := rfl

/-- Dispatch equation of execute_opcode at opcode $FD. -/
theorem exec_eq_xFD {σ : Type} (B : BusIf σ) (c : CPU σ) :
    CPU.execute_opcode B 0xFD c = some (CPU.sbc_absolute_x B c) := rfl

/-- Dispatch equation of execute_opcode at opcode $FE. -/
theorem exec_eq_xFE {σ : Type} (B : BusIf σ) (c : CPU σ) :
    CPU.execute_opcode B 0xFE c = some (CPU.inc_absolute_x B c) := rfl

/-- Dispatch equation of execute_opcode at opcode $FF. -/
theorem exec_eq_xFF {σ : Type} (B : BusIf σ) (c : CPU σ) :
    CPU.execute_opcode B 0xFF c = some (CPU.isc_absolute_x B c) := rfl

/-- The brk handler strictly increases the cycle counter. -/
theorem cyc_brk {σ : Type} (B : BusIf σ) (c : CPU σ) : c.cycles < (CPU.brk B c).cycles := by
  simp only [CPU.brk, CPU.cycles_ite, CPU.fetch_byte_cycles, CPU.fetch_word_cycles, CPU.bus_read_cycles, CPU.bus_write_cycles, CPU.push_cycles, CPU.pop_cycles, CPU.ind_x_addr_cycles, CPU.ind_y_addr_cycles, CPU.update_zero_and_negative_flags_cycles, CPU.adc_core_cycles, CPU.sbc_core_cycles, CPU.cmp_core_cycles, CPU.bit_core_cycles, CPU.lsr_core_cycles, CPU.asl_core_cycles, CPU.rol_core_cycles, CPU.ror_core_cycles, CPU.rra_core_cycles, CPU.page_cross_extra_cycles]
  all_goals ((repeat' split) <;> omega)

/-- The ora_indirect_x handler strictly increases the cycle counter. -/
theorem cyc_ora_indirect_x {σ : Type} (B : BusIf σ) (c : CPU σ) : c.cycles < (CPU.ora_indirect_x B c).cycles := by
  simp only [CPU.ora_indirect_x, CPU.cycles_ite, CPU.fetch_byte_cycles, CPU.fetch_word_cycles, CPU.bus_read_cycles, CPU.bus_write_cycles, CPU.push_cycles, CPU.pop_cycles, CPU.ind_x_addr_cycles, CPU.ind_y_addr_cycles, CPU.update_zero_and_negative_flags_cycles, CPU.adc_core_cycles, CPU.sbc_core_cycles, CPU.cmp_core_cycles, CPU.bit_core_cycles, CPU.lsr_core_cycles, CPU.asl_core_cycles, CPU.rol_core_cycles, CPU.ror_core_cycles, CPU.rra_core_cycles, CPU.page_cross_extra_cycles]
  all_goals ((repeat' split) <;> omega)

/-- The slo_indirect_x handler strictly increases the cycle counter. -/
theorem cyc_slo_indirect_x {σ : Type} (B : BusIf σ) (c : CPU σ) : c.cycles < (CPU.slo_indirect_x B c).cycles := by
  simp only [CPU.slo_indirect_x, CPU.cycles_ite, CPU.fetch_byte_cycles, CPU.fetch_word_cycles, CPU.bus_read_cycles, CPU.bus_write_cycles, CPU.push_cycles, CPU.pop_cycles, CPU.ind_x_addr_cycles, CPU.ind_y_addr_cycles, CPU.update_zero_and_negative_flags_cycles, CPU.adc_core_cycles, CPU.sbc_core_cycles, CPU.cmp_core_cycles, CPU.bit_core_cycles, CPU.lsr_core_cycles, CPU.asl_core_cycles, CPU.rol_core_cycles, CPU.ror_core_cycles, CPU.rra_core_cycles, CPU.page_cross_extra_cycles]
  all_goals ((repeat' split) <;> omega)

/-- The nop_zeropage handler strictly increases the cycle counter. -/
theorem cyc_nop_zeropage {σ : Type} (B : BusIf σ) (c : CPU σ) : c.cycles < (CPU.nop_zeropage B c).cycles := by
  simp only [CPU.nop_zeropage, CPU.cycles_ite, CPU.fetch_byte_cycles, CPU.fetch_word_cycles, CPU.bus_read_cycles, CPU.bus_write_cycles, CPU.push_cycles, CPU.pop_cycles, CPU.ind_x_addr_cycles, CPU.ind_y_addr_cycles, CPU.update_zero_and_negative_flags_cycles, CPU.adc_core_cycles, CPU.sbc_core_cycles, CPU.cmp_core_cycles, CPU.bit_core_cycles, CPU.lsr_core_cycles, CPU.asl_core_cycles, CPU.rol_core_cycles, CPU.ror_core_cycles, CPU.rra_core_cycles, CPU.page_cross_extra_cycles]
  all_goals ((repeat' split) <;> omega)

/-- The ora_zeropage handler strictly increases the cycle counter. -/
theorem cyc_ora_zeropage {σ : Type} (B : BusIf σ) (c : CPU σ) : c.cycles < (CPU.ora_zeropage B c).cycles := by
  simp only [CPU.ora_zeropage, CPU.cycles_ite, CPU.fetch_byte_cycles, CPU.fetch_word_cycles, CPU.bus_read_cycles, CPU.bus_write_cycles, CPU.push_cycles, CPU.pop_cycles, CPU.ind_x_addr_cycles, CPU.ind_y_addr_cycles, CPU.update_zero_and_negative_flags_cycles, CPU.adc_core_cycles, CPU.sbc_core_cycles, CPU.cmp_core_cycles, CPU.bit_core_cycles, CPU.lsr_core_cycles, CPU.asl_core_cycles, CPU.rol_core_cycles, CPU.ror_core_cycles, CPU.rra_core_cycles, CPU.page_cross_extra_cycles]
  all_goals ((repeat' split) <;> omega)

/-- The asl_zeropage handler strictly increases the cycle counter. -/
theorem cyc_asl_zeropage {σ : Type} (B : BusIf σ) (c : CPU σ) : c.cycles < (CPU.asl_zeropage B c).cycles := by
  simp only [CPU.asl_zeropage, CPU.cycles_ite, CPU.fetch_byte_cycles, CPU.fetch_word_cycles, CPU.bus_read_cycles, CPU.bus_write_cycles, CPU.push_cycles, CPU.pop_cycles, CPU.ind_x_addr_cycles, CPU.ind_y_addr_cycles, CPU.update_zero_and_negative_flags_cycles, CPU.adc_core_cycles, CPU.sbc_core_cycles, CPU.cmp_core_cycles, CPU.bit_core_cycles, CPU.lsr_core_cycles, CPU.asl_core_cycles, CPU.rol_core_cycles, CPU.ror_core_cycles, CPU.rra_core_cycles, CPU.page_cross_extra_cycles]
  all_goals ((repeat' split) <;> omega)

/-- The slo_zeropage handler strictly increases the cycle counter. -/
theorem cyc_slo_zeropage {σ : Type} (B : BusIf σ) (c : CPU σ) : c.cycles < (CPU.slo_zeropage B c).cycles := by
  simp only [CPU.slo_zeropage, CPU.cycles_ite, CPU.fetch_byte_cycles, CPU.fetch_word_cycles, CPU.bus_read_cycles, CPU.bus_write_cycles, CPU.push_cycles, CPU.pop_cycles, CPU.ind_x_addr_cycles, CPU.ind_y_addr_cycles, CPU.update_zero_and_negative_flags_cycles, CPU.adc_core_cycles, CPU.sbc_core_cycles, CPU.cmp_core_cycles, CPU.bit_core_cycles, CPU.lsr_core_cycles, CPU.asl_core_cycles, CPU.rol_core_cycles, CPU.ror_core_cycles, CPU.rra_core_cycles, CPU.page_cross_extra_cycles]
  all_goals ((repeat' split) <;> omega)

/-- The php handler strictly increases the cycle counter. -/
theorem cyc_php {σ : Type} (B : BusIf σ) (c : CPU σ) : c.cycles < (CPU.php B c).cycles := by
  simp only [CPU.php, CPU.cycles_ite, CPU.fetch_byte_cycles, CPU.fetch_word_cycles, CPU.bus_read_cycles, CPU.bus_write_cycles, CPU.push_cycles, CPU.pop_cycles, CPU.ind_x_addr_cycles, CPU.ind_y_addr_cycles, CPU.update_zero_and_negative_flags_cycles, CPU.adc_core_cycles, CPU.sbc_core_cycles, CPU.cmp_core_cycles, CPU.bit_core_cycles, CPU.lsr_core_cycles, CPU.asl_core_cycles, CPU.rol_core_cycles, CPU.ror_core_cycles, CPU.rra_core_cycles, CPU.page_cross_extra_cycles]
  all_goals ((repeat' split) <;> omega)

/-- The ora_immediate handler strictly increases the cycle counter. -/
theorem cyc_ora_immediate {σ : Type} (B : BusIf σ) (c : CPU σ) : c.cycles < (CPU.ora_immediate B c).cycles := by
  simp only [CPU.ora_immediate, CPU.cycles_ite, CPU.fetch_byte_cycles, CPU.fetch_word_cycles, CPU.bus_read_cycles, CPU.bus_write_cycles, CPU.push_cycles, CPU.pop_cycles, CPU.ind_x_addr_cycles, CPU.ind_y_addr_cycles, CPU.update_zero_and_negative_flags_cycles, CPU.adc_core_cycles, CPU.sbc_core_cycles, CPU.cmp_core_cycles, CPU.bit_core_cycles, CPU.lsr_core_cycles, CPU.asl_core_cycles, CPU.rol_core_cycles, CPU.ror_core_cycles, CPU.rra_core_cycles, CPU.page_cross_extra_cycles]
  all_goals ((repeat' split) <;> omega)

/-- The asl_accumulator handler strictly increases the cycle counter. -/
theorem cyc_asl_accumulator {σ : Type} (c : CPU σ) : c.cycles < (CPU.asl_accumulator c).cycles := by
  simp only [CPU.asl_accumulator, CPU.cycles_ite, CPU.fetch_byte_cycles, CPU.fetch_word_cycles, CPU.bus_read_cycles, CPU.bus_write_cycles, CPU.push_cycles, CPU.pop_cycles, CPU.ind_x_addr_cycles, CPU.ind_y_addr_cycles, CPU.update_zero_and_negative_flags_cycles, CPU.adc_core_cycles, CPU.sbc_core_cycles, CPU.cmp_core_cycles, CPU.bit_core_cycles, CPU.lsr_core_cycles, CPU.asl_core_cycles, CPU.rol_core_cycles, CPU.ror_core_cycles, CPU.rra_core_cycles, CPU.page_cross_extra_cycles]
  all_goals ((repeat' split) <;> omega)

/-- The nop_absolute handler strictly increases the cycle counter. -/
theorem cyc_nop_absolute {σ : Type} (B : BusIf σ) (c : CPU σ) : c.cycles < (CPU.nop_absolute B c).cycles := by
  simp only [CPU.nop_absolute, CPU.cycles_ite, CPU.fetch_byte_cycles, CPU.fetch_word_cycles, CPU.bus_read_cycles, CPU.bus_write_cycles, CPU.push_cycles, CPU.pop_cycles, CPU.ind_x_addr_cycles, CPU.ind_y_addr_cycles, CPU.update_zero_and_negative_flags_cycles, CPU.adc_core_cycles, CPU.sbc_core_cycles, CPU.cmp_core_cycles, CPU.bit_core_cycles, CPU.lsr_core_cycles, CPU.asl_core_cycles, CPU.rol_core_cycles, CPU.ror_core_cycles, CPU.rra_core_cycles, CPU.page_cross_extra_cycles]
  all_goals ((repeat' split) <;> omega)

/-- The ora_absolute handler strictly increases the cycle counter. -/
theorem cyc_ora_absolute {σ : Type} (B : BusIf σ) (c : CPU σ) : c.cycles < (CPU.ora_absolute B c).cycles := by
  simp only [CPU.ora_absolute, CPU.cycles_ite, CPU.fetch_byte_cycles, CPU.fetch_word_cycles, CPU.bus_read_cycles, CPU.bus_write_cycles, CPU.push_cycles, CPU.pop_cycles, CPU.ind_x_addr_cycles, CPU.ind_y_addr_cycles, CPU.update_zero_and_negative_flags_cycles, CPU.adc_core_cycles, CPU.sbc_core_cycles, CPU.cmp_core_cycles, CPU.bit_core_cycles, CPU.lsr_core_cycles, CPU.asl_core_cycles, CPU.rol_core_cycles, CPU.ror_core_cycles, CPU.rra_core_cycles, CPU.page_cross_extra_cycles]
  all_goals ((repeat' split) <;> omega)

/-- The asl_absolute handler strictly increases the cycle counter. -/
theorem cyc_asl_absolute {σ : Type} (B : BusIf σ) (c : CPU σ) : c.cycles < (CPU.asl_absolute B c).cycles := by
  simp only [CPU.asl_absolute, CPU.cycles_ite, CPU.fetch_byte_cycles, CPU.fetch_word_cycles, CPU.bus_read_cycles, CPU.bus_write_cycles, CPU.push_cycles, CPU.pop_cycles, CPU.ind_x_addr_cycles, CPU.ind_y_addr_cycles, CPU.update_zero_and_negative_flags_cycles, CPU.adc_core_cycles, CPU.sbc_core_cycles, CPU.cmp_core_cycles, CPU.bit_core_cycles, CPU.lsr_core_cycles, CPU.asl_core_cycles, CPU.rol_core_cycles, CPU.ror_core_cycles, CPU.rra_core_cycles, CPU.page_cross_extra_cycles]
  all_goals ((repeat' split) <;> omega)

/-- The slo_absolute handler strictly increases the cycle counter. -/
theorem cyc_slo_absolute {σ : Type} (B : BusIf σ) (c : CPU σ) : c.cycles < (CPU.slo_absolute B c).cycles := by
  simp only [CPU.slo_absolute, CPU.cycles_ite, CPU.fetch_byte_cycles, CPU.fetch_word_cycles, CPU.bus_read_cycles, CPU.bus_write_cycles, CPU.push_cycles, CPU.pop_cycles, CPU.ind_x_addr_cycles, CPU.ind_y_addr_cycles, CPU.update_zero_and_negative_flags_cycles, CPU.adc_core_cycles, CPU.sbc_core_cycles, CPU.cmp_core_cycles, CPU.bit_core_cycles, CPU.lsr_core_cycles, CPU.asl_core_cycles, CPU.rol_core_cycles, CPU.ror_core_cycles, CPU.rra_core_cycles, CPU.page_cross_extra_cycles]
  all_goals ((repeat' split) <;> omega)

/-- The bpl handler strictly increases the cycle counter. -/
theorem cyc_bpl {σ : Type} (B : BusIf σ) (c : CPU σ) : c.cycles < (CPU.bpl B c).cycles := by
  simp only [CPU.bpl]
  exact lt_of_lt_of_le (by omega) (CPU.branch_cycles_ge B c _)

/-- The ora_indirect_y handler strictly increases the cycle counter. -/
theorem cyc_ora_indirect_y {σ : Type} (B : BusIf σ) (c : CPU σ) : c.cycles < (CPU.ora_indirect_y B c).cycles := by
  simp only [CPU.ora_indirect_y, CPU.cycles_ite, CPU.fetch_byte_cycles, CPU.fetch_word_cycles, CPU.bus_read_cycles, CPU.bus_write_cycles, CPU.push_cycles, CPU.pop_cycles, CPU.ind_x_addr_cycles, CPU.ind_y_addr_cycles, CPU.update_zero_and_negative_flags_cycles, CPU.adc_core_cycles, CPU.sbc_core_cycles, CPU.cmp_core_cycles, CPU.bit_core_cycles, CPU.lsr_core_cycles, CPU.asl_core_cycles, CPU.rol_core_cycles, CPU.ror_core_cycles, CPU.rra_core_cycles, CPU.page_cross_extra_cycles]
  all_goals ((repeat' split) <;> omega)

/-- The slo_indirect_y handler strictly increases the cycle counter. -/
theorem cyc_slo_indirect_y {σ : Type} (B : BusIf σ) (c : CPU σ) : c.cycles < (CPU.slo_indirect_y B c).cycles := by
  simp only [CPU.slo_indirect_y, CPU.cycles_ite, CPU.fetch_byte_cycles, CPU.fetch_word_cycles, CPU.bus_read_cycles, CPU.bus_write_cycles, CPU.push_cycles, CPU.pop_cycles, CPU.ind_x_addr_cycles, CPU.ind_y_addr_cycles, CPU.update_zero_and_negative_flags_cycles, CPU.adc_core_cycles, CPU.sbc_core_cycles, CPU.cmp_core_cycles, CPU.bit_core_cycles, CPU.lsr_core_cycles, CPU.asl_core_cycles, CPU.rol_core_cycles, CPU.ror_core_cycles, CPU.rra_core_cycles, CPU.page_cross_extra_cycles]
  all_goals ((repeat' split) <;> omega)

/-- The nop_zeropage_x handler strictly increases the cycle counter. -/
theorem cyc_nop_zeropage_x {σ : Type} (B : BusIf σ) (c : CPU σ) : c.cycles < (CPU.nop_zeropage_x B c).cycles := by
  simp only [CPU.nop_zeropage_x, CPU.cycles_ite, CPU.fetch_byte_cycles, CPU.fetch_word_cycles, CPU.bus_read_cycles, CPU.bus_write_cycles, CPU.push_cycles, CPU.pop_cycles, CPU.ind_x_addr_cycles, CPU.ind_y_addr_cycles, CPU.update_zero_and_negative_flags_cycles, CPU.adc_core_cycles, CPU.sbc_core_cycles, CPU.cmp_core_cycles, CPU.bit_core_cycles, CPU.lsr_core_cycles, CPU.asl_core_cycles, CPU.rol_core_cycles, CPU.ror_core_cycles, CPU.rra_core_cycles, CPU.page_cross_extra_cycles]
  all_goals ((repeat' split) <;> omega)

/-- The ora_zeropage_x handler strictly increases the cycle counter. -/
theorem cyc_ora_zeropage_x {σ : Type} (B : BusIf σ) (c : CPU σ) : c.cycles < (CPU.ora_zeropage_x B c).cycles := by
  simp only [CPU.ora_zeropage_x, CPU.cycles_ite, CPU.fetch_byte_cycles, CPU.fetch_word_cycles, CPU.bus_read_cycles, CPU.bus_write_cycles, CPU.push_cycles, CPU.pop_cycles, CPU.ind_x_addr_cycles, CPU.ind_y_addr_cycles, CPU.update_zero_and_negative_flags_cycles, CPU.adc_core_cycles, CPU.sbc_core_cycles, CPU.cmp_core_cycles, CPU.bit_core_cycles, CPU.lsr_core_cycles, CPU.asl_core_cycles, CPU.rol_core_cycles, CPU.ror_core_cycles, CPU.rra_core_cycles, CPU.page_cross_extra_cycles]
  all_goals ((repeat' split) <;> omega)

/-- The asl_zeropage_x handler strictly increases the cycle counter. -/
theorem cyc_asl_zeropage_x {σ : Type} (B : BusIf σ) (c : CPU σ) : c.cycles < (CPU.asl_zeropage_x B c).cycles := by
  simp only [CPU.asl_zeropage_x, CPU.cycles_ite, CPU.fetch_byte_cycles, CPU.fetch_word_cycles, CPU.bus_read_cycles, CPU.bus_write_cycles, CPU.push_cycles, CPU.pop_cycles, CPU.ind_x_addr_cycles, CPU.ind_y_addr_cycles, CPU.update_zero_and_negative_flags_cycles, CPU.adc_core_cycles, CPU.sbc_core_cycles, CPU.cmp_core_cycles, CPU.bit_core_cycles, CPU.lsr_core_cycles, CPU.asl_core_cycles, CPU.rol_core_cycles, CPU.ror_core_cycles, CPU.rra_core_cycles, CPU.page_cross_extra_cycles]
  all_goals ((repeat' split) <;> omega)

/-- The slo_zeropage_x handler strictly increases the cycle counter. -/
theorem cyc_slo_zeropage_x {σ : Type} (B : BusIf σ) (c : CPU σ) : c.cycles < (CPU.slo_zeropage_x B c).cycles := by
  simp only [CPU.slo_zeropage_x, CPU.cycles_ite, CPU.fetch_byte_cycles, CPU.fetch_word_cycles, CPU.bus_read_cycles, CPU.bus_write_cycles, CPU.push_cycles, CPU.pop_cycles, CPU.ind_x_addr_cycles, CPU.ind_y_addr_cycles, CPU.update_zero_and_negative_flags_cycles, CPU.adc_core_cycles, CPU.sbc_core_cycles, CPU.cmp_core_cycles, CPU.bit_core_cycles, CPU.lsr_core_cycles, CPU.asl_core_cycles, CPU.rol_core_cycles, CPU.ror_core_cycles, CPU.rra_core_cycles, CPU.page_cross_extra_cycles]
  all_goals ((repeat' split) <;> omega)

/-- The clc handler strictly increases the cycle counter. -/
theorem cyc_clc {σ : Type} (c : CPU σ) : c.cycles < (CPU.clc c).cycles := by
  simp only [CPU.clc, CPU.cycles_ite, CPU.fetch_byte_cycles, CPU.fetch_word_cycles, CPU.bus_read_cycles, CPU.bus_write_cycles, CPU.push_cycles, CPU.pop_cycles, CPU.ind_x_addr_cycles, CPU.ind_y_addr_cycles, CPU.update_zero_and_negative_flags_cycles, CPU.adc_core_cycles, CPU.sbc_core_cycles, CPU.cmp_core_cycles, CPU.bit_core_cycles, CPU.lsr_core_cycles, CPU.asl_core_cycles, CPU.rol_core_cycles, CPU.ror_core_cycles, CPU.rra_core_cycles, CPU.page_cross_extra_cycles]
  all_goals ((repeat' split) <;> omega)

/-- The ora_absolute_y handler strictly increases the cycle counter. -/
theorem cyc_ora_absolute_y {σ : Type} (B : BusIf σ) (c : CPU σ) : c.cycles < (CPU.ora_absolute_y B c).cycles := by
  simp only [CPU.ora_absolute_y, CPU.cycles_ite, CPU.fetch_byte_cycles, CPU.fetch_word_cycles, CPU.bus_read_cycles, CPU.bus_write_cycles, CPU.push_cycles, CPU.pop_cycles, CPU.ind_x_addr_cycles, CPU.ind_y_addr_cycles, CPU.update_zero_and_negative_flags_cycles, CPU.adc_core_cycles, CPU.sbc_core_cycles, CPU.cmp_core_cycles, CPU.bit_core_cycles, CPU.lsr_core_cycles, CPU.asl_core_cycles, CPU.rol_core_cycles, CPU.ror_core_cycles, CPU.rra_core_cycles, CPU.page_cross_extra_cycles]
  all_goals ((repeat' split) <;> omega)

/-- The nop_implied handler strictly increases the cycle counter. -/
theorem cyc_nop_implied {σ : Type} (c : CPU σ) : c.cycles < (CPU.nop_implied c).cycles := by
  simp only [CPU.nop_implied, CPU.cycles_ite, CPU.fetch_byte_cycles, CPU.fetch_word_cycles, CPU.bus_read_cycles, CPU.bus_write_cycles, CPU.push_cycles, CPU.pop_cycles, CPU.ind_x_addr_cycles, CPU.ind_y_addr_cycles, CPU.update_zero_and_negative_flags_cycles, CPU.adc_core_cycles, CPU.sbc_core_cycles, CPU.cmp_core_cycles, CPU.bit_core_cycles, CPU.lsr_core_cycles, CPU.asl_core_cycles, CPU.rol_core_cycles, CPU.ror_core_cycles, CPU.rra_core_cycles, CPU.page_cross_extra_cycles]
  all_goals ((repeat' split) <;> omega)

/-- The slo_absolute_y handler strictly increases the cycle counter. -/
theorem cyc_slo_absolute_y {σ : Type} (B : BusIf σ) (c : CPU σ) : c.cycles < (CPU.slo_absolute_y B c).cycles := by
  simp only [CPU.slo_absolute_y, CPU.cycles_ite, CPU.fetch_byte_cycles, CPU.fetch_word_cycles, CPU.bus_read_cycles, CPU.bus_write_cycles, CPU.push_cycles, CPU.pop_cycles, CPU.ind_x_addr_cycles, CPU.ind_y_addr_cycles, CPU.update_zero_and_negative_flags_cycles, CPU.adc_core_cycles, CPU.sbc_core_cycles, CPU.cmp_core_cycles, CPU.bit_core_cycles, CPU.lsr_core_cycles, CPU.asl_core_cycles, CPU.rol_core_cycles, CPU.ror_core_cycles, CPU.rra_core_cycles, CPU.page_cross_extra_cycles]
  all_goals ((repeat' split) <;> omega)

/-- The nop_absolute_x handler strictly increases the cycle counter. -/
theorem cyc_nop_absolute_x {σ : Type} (B : BusIf σ) (c : CPU σ) : c.cycles < (CPU.nop_absolute_x B c).cycles := by
  simp only [CPU.nop_absolute_x, CPU.cycles_ite, CPU.fetch_byte_cycles, CPU.fetch_word_cycles, CPU.bus_read_cycles, CPU.bus_write_cycles, CPU.push_cycles, CPU.pop_cycles, CPU.ind_x_addr_cycles, CPU.ind_y_addr_cycles, CPU.update_zero_and_negative_flags_cycles, CPU.adc_core_cycles, CPU.sbc_core_cycles, CPU.cmp_core_cycles, CPU.bit_core_cycles, CPU.lsr_core_cycles, CPU.asl_core_cycles, CPU.rol_core_cycles, CPU.ror_core_cycles, CPU.rra_core_cycles, CPU.page_cross_extra_cycles]
  all_goals ((repeat' split) <;> omega)

/-- The ora_absolute_x handler strictly increases the cycle counter. -/
theorem cyc_ora_absolute_x {σ : Type} (B : BusIf σ) (c : CPU σ) : c.cycles < (CPU.ora_absolute_x B c).cycles := by
  simp only [CPU.ora_absolute_x, CPU.cycles_ite, CPU.fetch_byte_cycles, CPU.fetch_word_cycles, CPU.bus_read_cycles, CPU.bus_write_cycles, CPU.push_cycles, CPU.pop_cycles, CPU.ind_x_addr_cycles, CPU.ind_y_addr_cycles, CPU.update_zero_and_negative_flags_cycles, CPU.adc_core_cycles, CPU.sbc_core_cycles, CPU.cmp_core_cycles, CPU.bit_core_cycles, CPU.lsr_core_cycles, CPU.asl_core_cycles, CPU.rol_core_cycles, CPU.ror_core_cycles, CPU.rra_core_cycles, CPU.page_cross_extra_cycles]
  all_goals ((repeat' split) <;> omega)

/-- The asl_absolute_x handler strictly increases the cycle counter. -/
theorem cyc_asl_absolute_x {σ : Type} (B : BusIf σ) (c : CPU σ) : c.cycles < (CPU.asl_absolute_x B c).cycles := by
  simp only [CPU.asl_absolute_x, CPU.cycles_ite, CPU.fetch_byte_cycles, CPU.fetch_word_cycles, CPU.bus_read_cycles, CPU.bus_write_cycles, CPU.push_cycles, CPU.pop_cycles, CPU.ind_x_addr_cycles, CPU.ind_y_addr_cycles, CPU.update_zero_and_negative_flags_cycles, CPU.adc_core_cycles, CPU.sbc_core_cycles, CPU.cmp_core_cycles, CPU.bit_core_cycles, CPU.lsr_core_cycles, CPU.asl_core_cycles, CPU.rol_core_cycles, CPU.ror_core_cycles, CPU.rra_core_cycles, CPU.page_cross_extra_cycles]
  all_goals ((repeat' split) <;> omega)

/-- The slo_absolute_x handler strictly increases the cycle counter. -/
theorem cyc_slo_absolute_x {σ : Type} (B : BusIf σ) (c : CPU σ) : c.cycles < (CPU.slo_absolute_x B c).cycles := by
  simp only [CPU.slo_absolute_x, CPU.cycles_ite, CPU.fetch_byte_cycles, CPU.fetch_word_cycles, CPU.bus_read_cycles, CPU.bus_write_cycles, CPU.push_cycles, CPU.pop_cycles, CPU.ind_x_addr_cycles, CPU.ind_y_addr_cycles, CPU.update_zero_and_negative_flags_cycles, CPU.adc_core_cycles, CPU.sbc_core_cycles, CPU.cmp_core_cycles, CPU.bit_core_cycles, CPU.lsr_core_cycles, CPU.asl_core_cycles, CPU.rol_core_cycles, CPU.ror_core_cycles, CPU.rra_core_cycles, CPU.page_cross_extra_cycles]
  all_goals ((repeat' split) <;> omega)

/-- The jsr handler strictly increases the cycle counter. -/
theorem cyc_jsr {σ : Type} (B : BusIf σ) (c : CPU σ) : c.cycles < (CPU.jsr B c).cycles := by
  simp only [CPU.jsr, CPU.cycles_ite, CPU.fetch_byte_cycles, CPU.fetch_word_cycles, CPU.bus_read_cycles, CPU.bus_write_cycles, CPU.push_cycles, CPU.pop_cycles, CPU.ind_x_addr_cycles, CPU.ind_y_addr_cycles, CPU.update_zero_and_negative_flags_cycles, CPU.adc_core_cycles, CPU.sbc_core_cycles, CPU.cmp_core_cycles, CPU.bit_core_cycles, CPU.lsr_core_cycles, CPU.asl_core_cycles, CPU.rol_core_cycles, CPU.ror_core_cycles, CPU.rra_core_cycles, CPU.page_cross_extra_cycles]
  all_goals ((repeat' split) <;> omega)

/-- The and_indirect_x handler strictly increases the cycle counter. -/
theorem cyc_and_indirect_x {σ : Type} (B : BusIf σ) (c : CPU σ) : c.cycles < (CPU.and_indirect_x B c).cycles := by
  simp only [CPU.and_indirect_x, CPU.cycles_ite, CPU.fetch_byte_cycles, CPU.fetch_word_cycles, CPU.bus_read_cycles, CPU.bus_write_cycles, CPU.push_cycles, CPU.pop_cycles, CPU.ind_x_addr_cycles, CPU.ind_y_addr_cycles, CPU.update_zero_and_negative_flags_cycles, CPU.adc_core_cycles, CPU.sbc_core_cycles, CPU.cmp_core_cycles, CPU.bit_core_cycles, CPU.lsr_core_cycles, CPU.asl_core_cycles, CPU.rol_core_cycles, CPU.ror_core_cycles, CPU.rra_core_cycles, CPU.page_cross_extra_cycles]
  all_goals ((repeat' split) <;> omega)

/-- The rla_indirect_x handler strictly increases the cycle counter. -/
theorem cyc_rla_indirect_x {σ : Type} (B : BusIf σ) (c : CPU σ) : c.cycles < (CPU.rla_indirect_x B c).cycles := by
  simp only [CPU.rla_indirect_x, CPU.cycles_ite, CPU.fetch_byte_cycles, CPU.fetch_word_cycles, CPU.bus_read_cycles, CPU.bus_write_cycles, CPU.push_cycles, CPU.pop_cycles, CPU.ind_x_addr_cycles, CPU.ind_y_addr_cycles, CPU.update_zero_and_negative_flags_cycles, CPU.adc_core_cycles, CPU.sbc_core_cycles, CPU.cmp_core_cycles, CPU.bit_core_cycles, CPU.lsr_core_cycles, CPU.asl_core_cycles, CPU.rol_core_cycles, CPU.ror_core_cycles, CPU.rra_core_cycles, CPU.page_cross_extra_cycles]
  all_goals ((repeat' split) <;> omega)

/-- The bit_zeropage handler strictly increases the cycle counter. -/
theorem cyc_bit_zeropage {σ : Type} (B : BusIf σ) (c : CPU σ) : c.cycles < (CPU.bit_zeropage B c).cycles := by
  simp only [CPU.bit_zeropage, CPU.cycles_ite, CPU.fetch_byte_cycles, CPU.fetch_word_cycles, CPU.bus_read_cycles, CPU.bus_write_cycles, CPU.push_cycles, CPU.pop_cycles, CPU.ind_x_addr_cycles, CPU.ind_y_addr_cycles, CPU.update_zero_and_negative_flags_cycles, CPU.adc_core_cycles, CPU.sbc_core_cycles, CPU.cmp_core_cycles, CPU.bit_core_cycles, CPU.lsr_core_cycles, CPU.asl_core_cycles, CPU.rol_core_cycles, CPU.ror_core_cycles, CPU.rra_core_cycles, CPU.page_cross_extra_cycles]
  all_goals ((repeat' split) <;> omega)

/-- The and_zeropage handler strictly increases the cycle counter. -/
theorem cyc_and_zeropage {σ : Type} (B : BusIf σ) (c : CPU σ) : c.cycles < (CPU.and_zeropage B c).cycles := by
  simp only [CPU.and_zeropage, CPU.cycles_ite, CPU.fetch_byte_cycles, CPU.fetch_word_cycles, CPU.bus_read_cycles, CPU.bus_write_cycles, CPU.push_cycles, CPU.pop_cycles, CPU.ind_x_addr_cycles, CPU.ind_y_addr_cycles, CPU.update_zero_and_negative_flags_cycles, CPU.adc_core_cycles, CPU.sbc_core_cycles, CPU.cmp_core_cycles, CPU.bit_core_cycles, CPU.lsr_core_cycles, CPU.asl_core_cycles, CPU.rol_core_cycles, CPU.ror_core_cycles, CPU.rra_core_cycles, CPU.page_cross_extra_cycles]
  all_goals ((repeat' split) <;> omega)

/-- The rol_zeropage handler strictly increases the cycle counter. -/
theorem cyc_rol_zeropage {σ : Type} (B : BusIf σ) (c : CPU σ) : c.cycles < (CPU.rol_zeropage B c).cycles := by
  simp only [CPU.rol_zeropage, CPU.cycles_ite, CPU.fetch_byte_cycles, CPU.fetch_word_cycles, CPU.bus_read_cycles, CPU.bus_write_cycles, CPU.push_cycles, CPU.pop_cycles, CPU.ind_x_addr_cycles, CPU.ind_y_addr_cycles, CPU.update_zero_and_negative_flags_cycles, CPU.adc_core_cycles, CPU.sbc_core_cycles, CPU.cmp_core_cycles, CPU.bit_core_cycles, CPU.lsr_core_cycles, CPU.asl_core_cycles, CPU.rol_core_cycles, CPU.ror_core_cycles, CPU.rra_core_cycles, CPU.page_cross_extra_cycles]
  all_goals ((repeat' split) <;> omega)

/-- The rla_zeropage handler strictly increases the cycle counter. -/
theorem cyc_rla_zeropage {σ : Type} (B : BusIf σ) (c : CPU σ) : c.cycles < (CPU.rla_zeropage B c).cycles := by
  simp only [CPU.rla_zeropage, CPU.cycles_ite, CPU.fetch_byte_cycles, CPU.fetch_word_cycles, CPU.bus_read_cycles, CPU.bus_write_cycles, CPU.push_cycles, CPU.pop_cycles, CPU.ind_x_addr_cycles, CPU.ind_y_addr_cycles, CPU.update_zero_and_negative_flags_cycles, CPU.adc_core_cycles, CPU.sbc_core_cycles, CPU.cmp_core_cycles, CPU.bit_core_cycles, CPU.lsr_core_cycles, CPU.asl_core_cycles, CPU.rol_core_cycles, CPU.ror_core_cycles, CPU.rra_core_cycles, CPU.page_cross_extra_cycles]
  all_goals ((repeat' split) <;> omega)

/-- The plp handler strictly increases the cycle counter. -/
theorem cyc_plp {σ : Type} (B : BusIf σ) (c : CPU σ) : c.cycles < (CPU.plp B c).cycles := by
  simp only [CPU.plp, CPU.cycles_ite, CPU.fetch_byte_cycles, CPU.fetch_word_cycles, CPU.bus_read_cycles, CPU.bus_write_cycles, CPU.push_cycles, CPU.pop_cycles, CPU.ind_x_addr_cycles, CPU.ind_y_addr_cycles, CPU.update_zero_and_negative_flags_cycles, CPU.adc_core_cycles, CPU.sbc_core_cycles, CPU.cmp_core_cycles, CPU.bit_core_cycles, CPU.lsr_core_cycles, CPU.asl_core_cycles, CPU.rol_core_cycles, CPU.ror_core_cycles, CPU.rra_core_cycles, CPU.page_cross_extra_cycles]
  all_goals ((repeat' split) <;> omega)

/-- The and_immediate handler strictly increases the cycle counter. -/
theorem cyc_and_immediate {σ : Type} (B : BusIf σ) (c : CPU σ) : c.cycles < (CPU.and_immediate B c).cycles := by
  simp only [CPU.and_immediate, CPU.cycles_ite, CPU.fetch_byte_cycles, CPU.fetch_word_cycles, CPU.bus_read_cycles, CPU.bus_write_cycles, CPU.push_cycles, CPU.pop_cycles, CPU.ind_x_addr_cycles, CPU.ind_y_addr_cycles, CPU.update_zero_and_negative_flags_cycles, CPU.adc_core_cycles, CPU.sbc_core_cycles, CPU.cmp_core_cycles, CPU.bit_core_cycles, CPU.lsr_core_cycles, CPU.asl_core_cycles, CPU.rol_core_cycles, CPU.ror_core_cycles, CPU.rra_core_cycles, CPU.page_cross_extra_cycles]
  all_goals ((repeat' split) <;> omega)

/-- The rol_accumulator handler strictly increases the cycle counter. -/
theorem cyc_rol_accumulator {σ : Type} (c : CPU σ) : c.cycles < (CPU.rol_accumulator c).cycles := by
  simp only [CPU.rol_accumulator, CPU.cycles_ite, CPU.fetch_byte_cycles, CPU.fetch_word_cycles, CPU.bus_read_cycles, CPU.bus_write_cycles, CPU.push_cycles, CPU.pop_cycles, CPU.ind_x_addr_cycles, CPU.ind_y_addr_cycles, CPU.update_zero_and_negative_flags_cycles, CPU.adc_core_cycles, CPU.sbc_core_cycles, CPU.cmp_core_cycles, CPU.bit_core_cycles, CPU.lsr_core_cycles, CPU.asl_core_cycles, CPU.rol_core_cycles, CPU.ror_core_cycles, CPU.rra_core_cycles, CPU.page_cross_extra_cycles]
  all_goals ((repeat' split) <;> omega)

/-- The bit_absolute handler strictly increases the cycle counter. -/
theorem cyc_bit_absolute {σ : Type} (B : BusIf σ) (c : CPU σ) : c.cycles < (CPU.bit_absolute B c).cycles := by
  simp only [CPU.bit_absolute, CPU.cycles_ite, CPU.fetch_byte_cycles, CPU.fetch_word_cycles, CPU.bus_read_cycles, CPU.bus_write_cycles, CPU.push_cycles, CPU.pop_cycles, CPU.ind_x_addr_cycles, CPU.ind_y_addr_cycles, CPU.update_zero_and_negative_flags_cycles, CPU.adc_core_cycles, CPU.sbc_core_cycles, CPU.cmp_core_cycles, CPU.bit_core_cycles, CPU.lsr_core_cycles, CPU.asl_core_cycles, CPU.rol_core_cycles, CPU.ror_core_cycles, CPU.rra_core_cycles, CPU.page_cross_extra_cycles]
  all_goals ((repeat' split) <;> omega)

/-- The and_absolute handler strictly increases the cycle counter. -/
theorem cyc_and_absolute {σ : Type} (B : BusIf σ) (c : CPU σ) : c.cycles < (CPU.and_absolute B c).cycles := by
  simp only [CPU.and_absolute, CPU.cycles_ite, CPU.fetch_byte_cycles, CPU.fetch_word_cycles, CPU.bus_read_cycles, CPU.bus_write_cycles, CPU.push_cycles, CPU.pop_cycles, CPU.ind_x_addr_cycles, CPU.ind_y_addr_cycles, CPU.update_zero_and_negative_flags_cycles, CPU.adc_core_cycles, CPU.sbc_core_cycles, CPU.cmp_core_cycles, CPU.bit_core_cycles, CPU.lsr_core_cycles, CPU.asl_core_cycles, CPU.rol_core_cycles, CPU.ror_core_cycles, CPU.rra_core_cycles, CPU.page_cross_extra_cycles]
  all_goals ((repeat' split) <;> omega)

/-- The rol_absolute handler strictly increases the cycle counter. -/
theorem cyc_rol_absolute {σ : Type} (B : BusIf σ) (c : CPU σ) : c.cycles < (CPU.rol_absolute B c).cycles := by
  simp only [CPU.rol_absolute, CPU.cycles_ite, CPU.fetch_byte_cycles, CPU.fetch_word_cycles, CPU.bus_read_cycles, CPU.bus_write_cycles, CPU.push_cycles, CPU.pop_cycles, CPU.ind_x_addr_cycles, CPU.ind_y_addr_cycles, CPU.update_zero_and_negative_flags_cycles, CPU.adc_core_cycles, CPU.sbc_core_cycles, CPU.cmp_core_cycles, CPU.bit_core_cycles, CPU.lsr_core_cycles, CPU.asl_core_cycles, CPU.rol_core_cycles, CPU.ror_core_cycles, CPU.rra_core_cycles, CPU.page_cross_extra_cycles]
  all_goals ((repeat' split) <;> omega)

/-- The rla_absolute handler strictly increases the cycle counter. -/
theorem cyc_rla_absolute {σ : Type} (B : BusIf σ) (c : CPU σ) : c.cycles < (CPU.rla_absolute B c).cycles := by
  simp only [CPU.rla_absolute, CPU.cycles_ite, CPU.fetch_byte_cycles, CPU.fetch_word_cycles, CPU.bus_read_cycles, CPU.bus_write_cycles, CPU.push_cycles, CPU.pop_cycles, CPU.ind_x_addr_cycles, CPU.ind_y_addr_cycles, CPU.update_zero_and_negative_flags_cycles, CPU.adc_core_cycles, CPU.sbc_core_cycles, CPU.cmp_core_cycles, CPU.bit_core_cycles, CPU.lsr_core_cycles, CPU.asl_core_cycles, CPU.rol_core_cycles, CPU.ror_core_cycles, CPU.rra_core_cycles, CPU.page_cross_extra_cycles]
  all_goals ((repeat' split) <;> omega)

/-- The bmi handler strictly increases the cycle counter. -/
theorem cyc_bmi {σ : Type} (B : BusIf σ) (c : CPU σ) : c.cycles < (CPU.bmi B c).cycles := by
  simp only [CPU.bmi]
  exact lt_of_lt_of_le (by omega) (CPU.branch_cycles_ge B c _)

/-- The and_indirect_y handler strictly increases the cycle counter. -/
theorem cyc_and_indirect_y {σ : Type} (B : BusIf σ) (c : CPU σ) : c.cycles < (CPU.and_indirect_y B c).cycles := by
  simp only [CPU.and_indirect_y, CPU.cycles_ite, CPU.fetch_byte_cycles, CPU.fetch_word_cycles, CPU.bus_read_cycles, CPU.bus_write_cycles, CPU.push_cycles, CPU.pop_cycles, CPU.ind_x_addr_cycles, CPU.ind_y_addr_cycles, CPU.update_zero_and_negative_flags_cycles, CPU.adc_core_cycles, CPU.sbc_core_cycles, CPU.cmp_core_cycles, CPU.bit_core_cycles, CPU.lsr_core_cycles, CPU.asl_core_cycles, CPU.rol_core_cycles, CPU.ror_core_cycles, CPU.rra_core_cycles, CPU.page_cross_extra_cycles]
  all_goals ((repeat' split) <;> omega)

/-- The rla_indirect_y handler strictly increases the cycle counter. -/
theorem cyc_rla_indirect_y {σ : Type} (B : BusIf σ) (c : CPU σ) : c.cycles < (CPU.rla_indirect_y B c).cycles := by
  simp only [CPU.rla_indirect_y, CPU.cycles_ite, CPU.fetch_byte_cycles, CPU.fetch_word_cycles, CPU.bus_read_cycles, CPU.bus_write_cycles, CPU.push_cycles, CPU.pop_cycles, CPU.ind_x_addr_cycles, CPU.ind_y_addr_cycles, CPU.update_zero_and_negative_flags_cycles, CPU.adc_core_cycles, CPU.sbc_core_cycles, CPU.cmp_core_cycles, CPU.bit_core_cycles, CPU.lsr_core_cycles, CPU.asl_core_cycles, CPU.rol_core_cycles, CPU.ror_core_cycles, CPU.rra_core_cycles, CPU.page_cross_extra_cycles]
  all_goals ((repeat' split) <;> omega)

/-- The and_zeropage_x handler strictly increases the cycle counter. -/
theorem cyc_and_zeropage_x {σ : Type} (B : BusIf σ) (c : CPU σ) : c.cycles < (CPU.and_zeropage_x B c).cycles := by
  simp only [CPU.and_zeropage_x, CPU.cycles_ite, CPU.fetch_byte_cycles, CPU.fetch_word_cycles, CPU.bus_read_cycles, CPU.bus_write_cycles, CPU.push_cycles, CPU.pop_cycles, CPU.ind_x_addr_cycles, CPU.ind_y_addr_cycles, CPU.update_zero_and_negative_flags_cycles, CPU.adc_core_cycles, CPU.sbc_core_cycles, CPU.cmp_core_cycles, CPU.bit_core_cycles, CPU.lsr_core_cycles, CPU.asl_core_cycles, CPU.rol_core_cycles, CPU.ror_core_cycles, CPU.rra_core_cycles, CPU.page_cross_extra_cycles]
  all_goals ((repeat' split) <;> omega)

/-- The rol_zeropage_x handler strictly increases the cycle counter. -/
theorem cyc_rol_zeropage_x {σ : Type} (B : BusIf σ) (c : CPU σ) : c.cycles < (CPU.rol_zeropage_x B c).cycles := by
  simp only [CPU.rol_zeropage_x, CPU.cycles_ite, CPU.fetch_byte_cycles, CPU.fetch_word_cycles, CPU.bus_read_cycles, CPU.bus_write_cycles, CPU.push_cycles, CPU.pop_cycles, CPU.ind_x_addr_cycles, CPU.ind_y_addr_cycles, CPU.update_zero_and_negative_flags_cycles, CPU.adc_core_cycles, CPU.sbc_core_cycles, CPU.cmp_core_cycles, CPU.bit_core_cycles, CPU.lsr_core_cycles, CPU.asl_core_cycles, CPU.rol_core_cycles, CPU.ror_core_cycles, CPU.rra_core_cycles, CPU.page_cross_extra_cycles]
  all_goals ((repeat' split) <;> omega)

/-- The rla_zeropage_x handler strictly increases the cycle counter. -/
theorem cyc_rla_zeropage_x {σ : Type} (B : BusIf σ) (c : CPU σ) : c.cycles < (CPU.rla_zeropage_x B c).cycles := by
  simp only [CPU.rla_zeropage_x, CPU.cycles_ite, CPU.fetch_byte_cycles, CPU.fetch_word_cycles, CPU.bus_read_cycles, CPU.bus_write_cycles, CPU.push_cycles, CPU.pop_cycles, CPU.ind_x_addr_cycles, CPU.ind_y_addr_cycles, CPU.update_zero_and_negative_flags_cycles, CPU.adc_core_cycles, CPU.sbc_core_cycles, CPU.cmp_core_cycles, CPU.bit_core_cycles, CPU.lsr_core_cycles, CPU.asl_core_cycles, CPU.rol_core_cycles, CPU.ror_core_cycles, CPU.rra_core_cycles, CPU.page_cross_extra_cycles]
  all_goals ((repeat' split) <;> omega)

/-- The sec handler strictly increases the cycle counter. -/
theorem cyc_sec {σ : Type} (c : CPU σ) : c.cycles < (CPU.sec c).cycles := by
  simp only [CPU.sec, CPU.cycles_ite, CPU.fetch_byte_cycles, CPU.fetch_word_cycles, CPU.bus_read_cycles, CPU.bus_write_cycles, CPU.push_cycles, CPU.pop_cycles, CPU.ind_x_addr_cycles, CPU.ind_y_addr_cycles, CPU.update_zero_and_negative_flags_cycles, CPU.adc_core_cycles, CPU.sbc_core_cycles, CPU.cmp_core_cycles, CPU.bit_core_cycles, CPU.lsr_core_cycles, CPU.asl_core_cycles, CPU.rol_core_cycles, CPU.ror_core_cycles, CPU.rra_core_cycles, CPU.page_cross_extra_cycles]
  all_goals ((repeat' split) <;> omega)

/-- The and_absolute_y handler strictly increases the cycle counter. -/
theorem cyc_and_absolute_y {σ : Type} (B : BusIf σ) (c : CPU σ) : c.cycles < (CPU.and_absolute_y B c).cycles := by
  simp only [CPU.and_absolute_y, CPU.cycles_ite, CPU.fetch_byte_cycles, CPU.fetch_word_cycles, CPU.bus_read_cycles, CPU.bus_write_cycles, CPU.push_cycles, CPU.pop_cycles, CPU.ind_x_addr_cycles, CPU.ind_y_addr_cycles, CPU.update_zero_and_negative_flags_cycles, CPU.adc_core_cycles, CPU.sbc_core_cycles, CPU.cmp_core_cycles, CPU.bit_core_cycles, CPU.lsr_core_cycles, CPU.asl_core_cycles, CPU.rol_core_cycles, CPU.ror_core_cycles, CPU.rra_core_cycles, CPU.page_cross_extra_cycles]
  all_goals ((repeat' split) <;> omega)

/-- The rla_absolute_y handler strictly increases the cycle counter. -/
theorem cyc_rla_absolute_y {σ : Type} (B : BusIf σ) (c : CPU σ) : c.cycles < (CPU.rla_absolute_y B c).cycles := by
  simp only [CPU.rla_absolute_y, CPU.cycles_ite, CPU.fetch_byte_cycles, CPU.fetch_word_cycles, CPU.bus_read_cycles, CPU.bus_write_cycles, CPU.push_cycles, CPU.pop_cycles, CPU.ind_x_addr_cycles, CPU.ind_y_addr_cycles, CPU.update_zero_and_negative_flags_cycles, CPU.adc_core_cycles, CPU.sbc_core_cycles, CPU.cmp_core_cycles, CPU.bit_core_cycles, CPU.lsr_core_cycles, CPU.asl_core_cycles, CPU.rol_core_cycles, CPU.ror_core_cycles, CPU.rra_core_cycles, CPU.page_cross_extra_cycles]
  all_goals ((repeat' split) <;> omega)

/-- The and_absolute_x handler strictly increases the cycle counter. -/
theorem cyc_and_absolute_x {σ : Type} (B : BusIf σ) (c : CPU σ) : c.cycles < (CPU.and_absolute_x B c).cycles := by
  simp only [CPU.and_absolute_x, CPU.cycles_ite, CPU.fetch_byte_cycles, CPU.fetch_word_cycles, CPU.bus_read_cycles, CPU.bus_write_cycles, CPU.push_cycles, CPU.pop_cycles, CPU.ind_x_addr_cycles, CPU.ind_y_addr_cycles, CPU.update_zero_and_negative_flags_cycles, CPU.adc_core_cycles, CPU.sbc_core_cycles, CPU.cmp_core_cycles, CPU.bit_core_cycles, CPU.lsr_core_cycles, CPU.asl_core_cycles, CPU.rol_core_cycles, CPU.ror_core_cycles, CPU.rra_core_cycles, CPU.page_cross_extra_cycles]
  all_goals ((repeat' split) <;> omega)

/-- The rol_absolute_x handler strictly increases the cycle counter. -/
theorem cyc_rol_absolute_x {σ : Type} (B : BusIf σ) (c : CPU σ) : c.cycles < (CPU.rol_absolute_x B c).cycles := by
  simp only [CPU.rol_absolute_x, CPU.cycles_ite, CPU.fetch_byte_cycles, CPU.fetch_word_cycles, CPU.bus_read_cycles, CPU.bus_write_cycles, CPU.push_cycles, CPU.pop_cycles, CPU.ind_x_addr_cycles, CPU.ind_y_addr_cycles, CPU.update_zero_and_negative_flags_cycles, CPU.adc_core_cycles, CPU.sbc_core_cycles, CPU.cmp_core_cycles, CPU.bit_core_cycles, CPU.lsr_core_cycles, CPU.asl_core_cycles, CPU.rol_core_cycles, CPU.ror_core_cycles, CPU.rra_core_cycles, CPU.page_cross_extra_cycles]
  all_goals ((repeat' split) <;> omega)

/-- The rla_absolute_x handler strictly increases the cycle counter. -/
theorem cyc_rla_absolute_x {σ : Type} (B : BusIf σ) (c : CPU σ) : c.cycles < (CPU.rla_absolute_x B c).cycles := by
  simp only [CPU.rla_absolute_x, CPU.cycles_ite, CPU.fetch_byte_cycles, CPU.fetch_word_cycles, CPU.bus_read_cycles, CPU.bus_write_cycles, CPU.push_cycles, CPU.pop_cycles, CPU.ind_x_addr_cycles, CPU.ind_y_addr_cycles, CPU.update_zero_and_negative_flags_cycles, CPU.adc_core_cycles, CPU.sbc_core_cycles, CPU.cmp_core_cycles, CPU.bit_core_cycles, CPU.lsr_core_cycles, CPU.asl_core_cycles, CPU.rol_core_cycles, CPU.ror_core_cycles, CPU.rra_core_cycles, CPU.page_cross_extra_cycles]
  all_goals ((repeat' split) <;> omega)

/-- The rti handler strictly increases the cycle counter. -/
theorem cyc_rti {σ : Type} (B : BusIf σ) (c : CPU σ) : c.cycles < (CPU.rti B c).cycles := by
  simp only [CPU.rti, CPU.cycles_ite, CPU.fetch_byte_cycles, CPU.fetch_word_cycles, CPU.bus_read_cycles, CPU.bus_write_cycles, CPU.push_cycles, CPU.pop_cycles, CPU.ind_x_addr_cycles, CPU.ind_y_addr_cycles, CPU.update_zero_and_negative_flags_cycles, CPU.adc_core_cycles, CPU.sbc_core_cycles, CPU.cmp_core_cycles, CPU.bit_core_cycles, CPU.lsr_core_cycles, CPU.asl_core_cycles, CPU.rol_core_cycles, CPU.ror_core_cycles, CPU.rra_core_cycles, CPU.page_cross_extra_cycles]
  all_goals ((repeat' split) <;> omega)

/-- The eor_indirect_x handler strictly increases the cycle counter. -/
theorem cyc_eor_indirect_x {σ : Type} (B : BusIf σ) (c : CPU σ) : c.cycles < (CPU.eor_indirect_x B c).cycles := by
  simp only [CPU.eor_indirect_x, CPU.cycles_ite, CPU.fetch_byte_cycles, CPU.fetch_word_cycles, CPU.bus_read_cycles, CPU.bus_write_cycles, CPU.push_cycles, CPU.pop_cycles, CPU.ind_x_addr_cycles, CPU.ind_y_addr_cycles, CPU.update_zero_and_negative_flags_cycles, CPU.adc_core_cycles, CPU.sbc_core_cycles, CPU.cmp_core_cycles, CPU.bit_core_cycles, CPU.lsr_core_cycles, CPU.asl_core_cycles, CPU.rol_core_cycles, CPU.ror_core_cycles, CPU.rra_core_cycles, CPU.page_cross_extra_cycles]
  all_goals ((repeat' split) <;> omega)

/-- The sre_indirect_x handler strictly increases the cycle counter. -/
theorem cyc_sre_indirect_x {σ : Type} (B : BusIf σ) (c : CPU σ) : c.cycles < (CPU.sre_indirect_x B c).cycles := by
  simp only [CPU.sre_indirect_x, CPU.cycles_ite, CPU.fetch_byte_cycles, CPU.fetch_word_cycles, CPU.bus_read_cycles, CPU.bus_write_cycles, CPU.push_cycles, CPU.pop_cycles, CPU.ind_x_addr_cycles, CPU.ind_y_addr_cycles, CPU.update_zero_and_negative_flags_cycles, CPU.adc_core_cycles, CPU.sbc_core_cycles, CPU.cmp_core_cycles, CPU.bit_core_cycles, CPU.lsr_core_cycles, CPU.asl_core_cycles, CPU.rol_core_cycles, CPU.ror_core_cycles, CPU.rra_core_cycles, CPU.page_cross_extra_cycles]
  all_goals ((repeat' split) <;> omega)

/-- The eor_zeropage handler strictly increases the cycle counter. -/
theorem cyc_eor_zeropage {σ : Type} (B : BusIf σ) (c : CPU σ) : c.cycles < (CPU.eor_zeropage B c).cycles := by
  simp only [CPU.eor_zeropage, CPU.cycles_ite, CPU.fetch_byte_cycles, CPU.fetch_word_cycles, CPU.bus_read_cycles, CPU.bus_write_cycles, CPU.push_cycles, CPU.pop_cycles, CPU.ind_x_addr_cycles, CPU.ind_y_addr_cycles, CPU.update_zero_and_negative_flags_cycles, CPU.adc_core_cycles, CPU.sbc_core_cycles, CPU.cmp_core_cycles, CPU.bit_core_cycles, CPU.lsr_core_cycles, CPU.asl_core_cycles, CPU.rol_core_cycles, CPU.ror_core_cycles, CPU.rra_core_cycles, CPU.page_cross_extra_cycles]
  all_goals ((repeat' split) <;> omega)

/-- The lsr_zeropage handler strictly increases the cycle counter. -/
theorem cyc_lsr_zeropage {σ : Type} (B : BusIf σ) (c : CPU σ) : c.cycles < (CPU.lsr_zeropage B c).cycles := by
  simp only [CPU.lsr_zeropage, CPU.cycles_ite, CPU.fetch_byte_cycles, CPU.fetch_word_cycles, CPU.bus_read_cycles, CPU.bus_write_cycles, CPU.push_cycles, CPU.pop_cycles, CPU.ind_x_addr_cycles, CPU.ind_y_addr_cycles, CPU.update_zero_and_negative_flags_cycles, CPU.adc_core_cycles, CPU.sbc_core_cycles, CPU.cmp_core_cycles, CPU.bit_core_cycles, CPU.lsr_core_cycles, CPU.asl_core_cycles, CPU.rol_core_cycles, CPU.ror_core_cycles, CPU.rra_core_cycles, CPU.page_cross_extra_cycles]
  all_goals ((repeat' split) <;> omega)

/-- The sre_zeropage handler strictly increases the cycle counter. -/
theorem cyc_sre_zeropage {σ : Type} (B : BusIf σ) (c : CPU σ) : c.cycles < (CPU.sre_zeropage B c).cycles := by
  simp only [CPU.sre_zeropage, CPU.cycles_ite, CPU.fetch_byte_cycles, CPU.fetch_word_cycles, CPU.bus_read_cycles, CPU.bus_write_cycles, CPU.push_cycles, CPU.pop_cycles, CPU.ind_x_addr_cycles, CPU.ind_y_addr_cycles, CPU.update_zero_and_negative_flags_cycles, CPU.adc_core_cycles, CPU.sbc_core_cycles, CPU.cmp_core_cycles, CPU.bit_core_cycles, CPU.lsr_core_cycles, CPU.asl_core_cycles, CPU.rol_core_cycles, CPU.ror_core_cycles, CPU.rra_core_cycles, CPU.page_cross_extra_cycles]
  all_goals ((repeat' split) <;> omega)

/-- The pha handler strictly increases the cycle counter. -/
theorem cyc_pha {σ : Type} (B : BusIf σ) (c : CPU σ) : c.cycles < (CPU.pha B c).cycles := by
  simp only [CPU.pha, CPU.cycles_ite, CPU.fetch_byte_cycles, CPU.fetch_word_cycles, CPU.bus_read_cycles, CPU.bus_write_cycles, CPU.push_cycles, CPU.pop_cycles, CPU.ind_x_addr_cycles, CPU.ind_y_addr_cycles, CPU.update_zero_and_negative_flags_cycles, CPU.adc_core_cycles, CPU.sbc_core_cycles, CPU.cmp_core_cycles, CPU.bit_core_cycles, CPU.lsr_core_cycles, CPU.asl_core_cycles, CPU.rol_core_cycles, CPU.ror_core_cycles, CPU.rra_core_cycles, CPU.page_cross_extra_cycles]
  all_goals ((repeat' split) <;> omega)

/-- The eor_immediate handler strictly increases the cycle counter. -/
theorem cyc_eor_immediate {σ : Type} (B : BusIf σ) (c : CPU σ) : c.cycles < (CPU.eor_immediate B c).cycles := by
  simp only [CPU.eor_immediate, CPU.cycles_ite, CPU.fetch_byte_cycles, CPU.fetch_word_cycles, CPU.bus_read_cycles, CPU.bus_write_cycles, CPU.push_cycles, CPU.pop_cycles, CPU.ind_x_addr_cycles, CPU.ind_y_addr_cycles, CPU.update_zero_and_negative_flags_cycles, CPU.adc_core_cycles, CPU.sbc_core_cycles, CPU.cmp_core_cycles, CPU.bit_core_cycles, CPU.lsr_core_cycles, CPU.asl_core_cycles, CPU.rol_core_cycles, CPU.ror_core_cycles, CPU.rra_core_cycles, CPU.page_cross_extra_cycles]
  all_goals ((repeat' split) <;> omega)

/-- The lsr_accumulator handler strictly increases the cycle counter. -/
theorem cyc_lsr_accumulator {σ : Type} (c : CPU σ) : c.cycles < (CPU.lsr_accumulator c).cycles := by
  simp only [CPU.lsr_accumulator, CPU.cycles_ite, CPU.fetch_byte_cycles, CPU.fetch_word_cycles, CPU.bus_read_cycles, CPU.bus_write_cycles, CPU.push_cycles, CPU.pop_cycles, CPU.ind_x_addr_cycles, CPU.ind_y_addr_cycles, CPU.update_zero_and_negative_flags_cycles, CPU.adc_core_cycles, CPU.sbc_core_cycles, CPU.cmp_core_cycles, CPU.bit_core_cycles, CPU.lsr_core_cycles, CPU.asl_core_cycles, CPU.rol_core_cycles, CPU.ror_core_cycles, CPU.rra_core_cycles, CPU.page_cross_extra_cycles]
  all_goals ((repeat' split) <;> omega)

/-- The jmp_absolute handler strictly increases the cycle counter. -/
theorem cyc_jmp_absolute {σ : Type} (B : BusIf σ) (c : CPU σ) : c.cycles < (CPU.jmp_absolute B c).cycles := by
  simp only [CPU.jmp_absolute, CPU.cycles_ite, CPU.fetch_byte_cycles, CPU.fetch_word_cycles, CPU.bus_read_cycles, CPU.bus_write_cycles, CPU.push_cycles, CPU.pop_cycles, CPU.ind_x_addr_cycles, CPU.ind_y_addr_cycles, CPU.update_zero_and_negative_flags_cycles, CPU.adc_core_cycles, CPU.sbc_core_cycles, CPU.cmp_core_cycles, CPU.bit_core_cycles, CPU.lsr_core_cycles, CPU.asl_core_cycles, CPU.rol_core_cycles, CPU.ror_core_cycles, CPU.rra_core_cycles, CPU.page_cross_extra_cycles]
  all_goals ((repeat' split) <;> omega)

/-- The eor_absolute handler strictly increases the cycle counter. -/
theorem cyc_eor_absolute {σ : Type} (B : BusIf σ) (c : CPU σ) : c.cycles < (CPU.eor_absolute B c).cycles := by
  simp only [CPU.eor_absolute, CPU.cycles_ite, CPU.fetch_byte_cycles, CPU.fetch_word_cycles, CPU.bus_read_cycles, CPU.bus_write_cycles, CPU.push_cycles, CPU.pop_cycles, CPU.ind_x_addr_cycles, CPU.ind_y_addr_cycles, CPU.update_zero_and_negative_flags_cycles, CPU.adc_core_cycles, CPU.sbc_core_cycles, CPU.cmp_core_cycles, CPU.bit_core_cycles, CPU.lsr_core_cycles, CPU.asl_core_cycles, CPU.rol_core_cycles, CPU.ror_core_cycles, CPU.rra_core_cycles, CPU.page_cross_extra_cycles]
  all_goals ((repeat' split) <;> omega)

/-- The lsr_absolute handler strictly increases the cycle counter. -/
theorem cyc_lsr_absolute {σ : Type} (B : BusIf σ) (c : CPU σ) : c.cycles < (CPU.lsr_absolute B c).cycles := by
  simp only [CPU.lsr_absolute, CPU.cycles_ite, CPU.fetch_byte_cycles, CPU.fetch_word_cycles, CPU.bus_read_cycles, CPU.bus_write_cycles, CPU.push_cycles, CPU.pop_cycles, CPU.ind_x_addr_cycles, CPU.ind_y_addr_cycles, CPU.update_zero_and_negative_flags_cycles, CPU.adc_core_cycles, CPU.sbc_core_cycles, CPU.cmp_core_cycles, CPU.bit_core_cycles, CPU.lsr_core_cycles, CPU.asl_core_cycles, CPU.rol_core_cycles, CPU.ror_core_cycles, CPU.rra_core_cycles, CPU.page_cross_extra_cycles]
  all_goals ((repeat' split) <;> omega)

/-- The sre_absolute handler strictly increases the cycle counter. -/
theorem cyc_sre_absolute {σ : Type} (B : BusIf σ) (c : CPU σ) : c.cycles < (CPU.sre_absolute B c).cycles := by
  simp only [CPU.sre_absolute, CPU.cycles_ite, CPU.fetch_byte_cycles, CPU.fetch_word_cycles, CPU.bus_read_cycles, CPU.bus_write_cycles, CPU.push_cycles, CPU.pop_cycles, CPU.ind_x_addr_cycles, CPU.ind_y_addr_cycles, CPU.update_zero_and_negative_flags_cycles, CPU.adc_core_cycles, CPU.sbc_core_cycles, CPU.cmp_core_cycles, CPU.bit_core_cycles, CPU.lsr_core_cycles, CPU.asl_core_cycles, CPU.rol_core_cycles, CPU.ror_core_cycles, CPU.rra_core_cycles, CPU.page_cross_extra_cycles]
  all_goals ((repeat' split) <;> omega)

/-- The bvc handler strictly increases the cycle counter. -/
theorem cyc_bvc {σ : Type} (B : BusIf σ) (c : CPU σ) : c.cycles < (CPU.bvc B c).cycles := by
  simp only [CPU.bvc]
  exact lt_of_lt_of_le (by omega) (CPU.branch_cycles_ge B c _)

/-- The eor_indirect_y handler strictly increases the cycle counter. -/
theorem cyc_eor_indirect_y {σ : Type} (B : BusIf σ) (c : CPU σ) : c.cycles < (CPU.eor_indirect_y B c).cycles := by
  simp only [CPU.eor_indirect_y, CPU.cycles_ite, CPU.fetch_byte_cycles, CPU.fetch_word_cycles, CPU.bus_read_cycles, CPU.bus_write_cycles, CPU.push_cycles, CPU.pop_cycles, CPU.ind_x_addr_cycles, CPU.ind_y_addr_cycles, CPU.update_zero_and_negative_flags_cycles, CPU.adc_core_cycles, CPU.sbc_core_cycles, CPU.cmp_core_cycles, CPU.bit_core_cycles, CPU.lsr_core_cycles, CPU.asl_core_cycles, CPU.rol_core_cycles, CPU.ror_core_cycles, CPU.rra_core_cycles, CPU.page_cross_extra_cycles]
  all_goals ((repeat' split) <;> omega)

/-- The sre_indirect_y handler strictly increases the cycle counter. -/
theorem cyc_sre_indirect_y {σ : Type} (B : BusIf σ) (c : CPU σ) : c.cycles < (CPU.sre_indirect_y B c).cycles := by
  simp only [CPU.sre_indirect_y, CPU.cycles_ite, CPU.fetch_byte_cycles, CPU.fetch_word_cycles, CPU.bus_read_cycles, CPU.bus_write_cycles, CPU.push_cycles, CPU.pop_cycles, CPU.ind_x_addr_cycles, CPU.ind_y_addr_cycles, CPU.update_zero_and_negative_flags_cycles, CPU.adc_core_cycles, CPU.sbc_core_cycles, CPU.cmp_core_cycles, CPU.bit_core_cycles, CPU.lsr_core_cycles, CPU.asl_core_cycles, CPU.rol_core_cycles, CPU.ror_core_cycles, CPU.rra_core_cycles, CPU.page_cross_extra_cycles]
  all_goals ((repeat' split) <;> omega)

/-- The eor_zeropage_x handler strictly increases the cycle counter. -/
theorem cyc_eor_zeropage_x {σ : Type} (B : BusIf σ) (c : CPU σ) : c.cycles < (CPU.eor_zeropage_x B c).cycles := by
  simp only [CPU.eor_zeropage_x, CPU.cycles_ite, CPU.fetch_byte_cycles, CPU.fetch_word_cycles, CPU.bus_read_cycles, CPU.bus_write_cycles, CPU.push_cycles, CPU.pop_cycles, CPU.ind_x_addr_cycles, CPU.ind_y_addr_cycles, CPU.update_zero_and_negative_flags_cycles, CPU.adc_core_cycles, CPU.sbc_core_cycles, CPU.cmp_core_cycles, CPU.bit_core_cycles, CPU.lsr_core_cycles, CPU.asl_core_cycles, CPU.rol_core_cycles, CPU.ror_core_cycles, CPU.rra_core_cycles, CPU.page_cross_extra_cycles]
  all_goals ((repeat' split) <;> omega)

/-- The lsr_zeropage_x handler strictly increases the cycle counter. -/
theorem cyc_lsr_zeropage_x {σ : Type} (B : BusIf σ) (c : CPU σ) : c.cycles < (CPU.lsr_zeropage_x B c).cycles := by
  simp only [CPU.lsr_zeropage_x, CPU.cycles_ite, CPU.fetch_byte_cycles, CPU.fetch_word_cycles, CPU.bus_read_cycles, CPU.bus_write_cycles, CPU.push_cycles, CPU.pop_cycles, CPU.ind_x_addr_cycles, CPU.ind_y_addr_cycles, CPU.update_zero_and_negative_flags_cycles, CPU.adc_core_cycles, CPU.sbc_core_cycles, CPU.cmp_core_cycles, CPU.bit_core_cycles, CPU.lsr_core_cycles, CPU.asl_core_cycles, CPU.rol_core_cycles, CPU.ror_core_cycles, CPU.rra_core_cycles, CPU.page_cross_extra_cycles]
  all_goals ((repeat' split) <;> omega)

/-- The sre_zeropage_x handler strictly increases the cycle counter. -/
theorem cyc_sre_zeropage_x {σ : Type} (B : BusIf σ) (c : CPU σ) : c.cycles < (CPU.sre_zeropage_x B c).cycles := by
  simp only [CPU.sre_zeropage_x, CPU.cycles_ite, CPU.fetch_byte_cycles, CPU.fetch_word_cycles, CPU.bus_read_cycles, CPU.bus_write_cycles, CPU.push_cycles, CPU.pop_cycles, CPU.ind_x_addr_cycles, CPU.ind_y_addr_cycles, CPU.update_zero_and_negative_flags_cycles, CPU.adc_core_cycles, CPU.sbc_core_cycles, CPU.cmp_core_cycles, CPU.bit_core_cycles, CPU.lsr_core_cycles, CPU.asl_core_cycles, CPU.rol_core_cycles, CPU.ror_core_cycles, CPU.rra_core_cycles, CPU.page_cross_extra_cycles]
  all_goals ((repeat' split) <;> omega)

/-- The cli handler strictly increases the cycle counter. -/
theorem cyc_cli {σ : Type} (c : CPU σ) : c.cycles < (CPU.cli c).cycles := by
  simp only [CPU.cli, CPU.cycles_ite, CPU.fetch_byte_cycles, CPU.fetch_word_cycles, CPU.bus_read_cycles, CPU.bus_write_cycles, CPU.push_cycles, CPU.pop_cycles, CPU.ind_x_addr_cycles, CPU.ind_y_addr_cycles, CPU.update_zero_and_negative_flags_cycles, CPU.adc_core_cycles, CPU.sbc_core_cycles, CPU.cmp_core_cycles, CPU.bit_core_cycles, CPU.lsr_core_cycles, CPU.asl_core_cycles, CPU.rol_core_cycles, CPU.ror_core_cycles, CPU.rra_core_cycles, CPU.page_cross_extra_cycles]
  all_goals ((repeat' split) <;> omega)

/-- The eor_absolute_y handler strictly increases the cycle counter. -/
theorem cyc_eor_absolute_y {σ : Type} (B : BusIf σ) (c : CPU σ) : c.cycles < (CPU.eor_absolute_y B c).cycles := by
  simp only [CPU.eor_absolute_y, CPU.cycles_ite, CPU.fetch_byte_cycles, CPU.fetch_word_cycles, CPU.bus_read_cycles, CPU.bus_write_cycles, CPU.push_cycles, CPU.pop_cycles, CPU.ind_x_addr_cycles, CPU.ind_y_addr_cycles, CPU.update_zero_and_negative_flags_cycles, CPU.adc_core_cycles, CPU.sbc_core_cycles, CPU.cmp_core_cycles, CPU.bit_core_cycles, CPU.lsr_core_cycles, CPU.asl_core_cycles, CPU.rol_core_cycles, CPU.ror_core_cycles, CPU.rra_core_cycles, CPU.page_cross_extra_cycles]
  all_goals ((repeat' split) <;> omega)

/-- The sre_absolute_y handler strictly increases the cycle counter. -/
theorem cyc_sre_absolute_y {σ : Type} (B : BusIf σ) (c : CPU σ) : c.cycles < (CPU.sre_absolute_y B c).cycles := by
  simp only [CPU.sre_absolute_y, CPU.cycles_ite, CPU.fetch_byte_cycles, CPU.fetch_word_cycles, CPU.bus_read_cycles, CPU.bus_write_cycles, CPU.push_cycles, CPU.pop_cycles, CPU.ind_x_addr_cycles, CPU.ind_y_addr_cycles, CPU.update_zero_and_negative_flags_cycles, CPU.adc_core_cycles, CPU.sbc_core_cycles, CPU.cmp_core_cycles, CPU.bit_core_cycles, CPU.lsr_core_cycles, CPU.asl_core_cycles, CPU.rol_core_cycles, CPU.ror_core_cycles, CPU.rra_core_cycles, CPU.page_cross_extra_cycles]
  all_goals ((repeat' split) <;> omega)

/-- The eor_absolute_x handler strictly increases the cycle counter. -/
theorem cyc_eor_absolute_x {σ : Type} (B : BusIf σ) (c : CPU σ) : c.cycles < (CPU.eor_absolute_x B c).cycles := by
  simp only [CPU.eor_absolute_x, CPU.cycles_ite, CPU.fetch_byte_cycles, CPU.fetch_word_cycles, CPU.bus_read_cycles, CPU.bus_write_cycles, CPU.push_cycles, CPU.pop_cycles, CPU.ind_x_addr_cycles, CPU.ind_y_addr_cycles, CPU.update_zero_and_negative_flags_cycles, CPU.adc_core_cycles, CPU.sbc_core_cycles, CPU.cmp_core_cycles, CPU.bit_core_cycles, CPU.lsr_core_cycles, CPU.asl_core_cycles, CPU.rol_core_cycles, CPU.ror_core_cycles, CPU.rra_core_cycles, CPU.page_cross_extra_cycles]
  all_goals ((repeat' split) <;> omega)

/-- The lsr_absolute_x handler strictly increases the cycle counter. -/
theorem cyc_lsr_absolute_x {σ : Type} (B : BusIf σ) (c : CPU σ) : c.cycles < (CPU.lsr_absolute_x B c).cycles := by
  simp only [CPU.lsr_absolute_x, CPU.cycles_ite, CPU.fetch_byte_cycles, CPU.fetch_word_cycles, CPU.bus_read_cycles, CPU.bus_write_cycles, CPU.push_cycles, CPU.pop_cycles, CPU.ind_x_addr_cycles, CPU.ind_y_addr_cycles, CPU.update_zero_and_negative_flags_cycles, CPU.adc_core_cycles, CPU.sbc_core_cycles, CPU.cmp_core_cycles, CPU.bit_core_cycles, CPU.lsr_core_cycles, CPU.asl_core_cycles, CPU.rol_core_cycles, CPU.ror_core_cycles, CPU.rra_core_cycles, CPU.page_cross_extra_cycles]
  all_goals ((repeat' split) <;> omega)

/-- The sre_absolute_x handler strictly increases the cycle counter. -/
theorem cyc_sre_absolute_x {σ : Type} (B : BusIf σ) (c : CPU σ) : c.cycles < (CPU.sre_absolute_x B c).cycles := by
  simp only [CPU.sre_absolute_x, CPU.cycles_ite, CPU.fetch_byte_cycles, CPU.fetch_word_cycles, CPU.bus_read_cycles, CPU.bus_write_cycles, CPU.push_cycles, CPU.pop_cycles, CPU.ind_x_addr_cycles, CPU.ind_y_addr_cycles, CPU.update_zero_and_negative_flags_cycles, CPU.adc_core_cycles, CPU.sbc_core_cycles, CPU.cmp_core_cycles, CPU.bit_core_cycles, CPU.lsr_core_cycles, CPU.asl_core_cycles, CPU.rol_core_cycles, CPU.ror_core_cycles, CPU.rra_core_cycles, CPU.page_cross_extra_cycles]
  all_goals ((repeat' split) <;> omega)

/-- The rts handler strictly increases the cycle counter. -/
theorem cyc_rts {σ : Type} (B : BusIf σ) (c : CPU σ) : c.cycles < (CPU.rts B c).cycles := by
  simp only [CPU.rts, CPU.cycles_ite, CPU.fetch_byte_cycles, CPU.fetch_word_cycles, CPU.bus_read_cycles, CPU.bus_write_cycles, CPU.push_cycles, CPU.pop_cycles, CPU.ind_x_addr_cycles, CPU.ind_y_addr_cycles, CPU.update_zero_and_negative_flags_cycles, CPU.adc_core_cycles, CPU.sbc_core_cycles, CPU.cmp_core_cycles, CPU.bit_core_cycles, CPU.lsr_core_cycles, CPU.asl_core_cycles, CPU.rol_core_cycles, CPU.ror_core_cycles, CPU.rra_core_cycles, CPU.page_cross_extra_cycles]
  all_goals ((repeat' split) <;> omega)

/-- The adc_indirect_x handler strictly increases the cycle counter. -/
theorem cyc_adc_indirect_x {σ : Type} (B : BusIf σ) (c : CPU σ) : c.cycles < (CPU.adc_indirect_x B c).cycles := by
  simp only [CPU.adc_indirect_x, CPU.cycles_ite, CPU.fetch_byte_cycles, CPU.fetch_word_cycles, CPU.bus_read_cycles, CPU.bus_write_cycles, CPU.push_cycles, CPU.pop_cycles, CPU.ind_x_addr_cycles, CPU.ind_y_addr_cycles, CPU.update_zero_and_negative_flags_cycles, CPU.adc_core_cycles, CPU.sbc_core_cycles, CPU.cmp_core_cycles, CPU.bit_core_cycles, CPU.lsr_core_cycles, CPU.asl_core_cycles, CPU.rol_core_cycles, CPU.ror_core_cycles, CPU.rra_core_cycles, CPU.page_cross_extra_cycles]
  all_goals ((repeat' split) <;> omega)

/-- The rra_indirect_x handler strictly increases the cycle counter. -/
theorem cyc_rra_indirect_x {σ : Type} (B : BusIf σ) (c : CPU σ) : c.cycles < (CPU.rra_indirect_x B c).cycles := by
  simp only [CPU.rra_indirect_x, CPU.cycles_ite, CPU.fetch_byte_cycles, CPU.fetch_word_cycles, CPU.bus_read_cycles, CPU.bus_write_cycles, CPU.push_cycles, CPU.pop_cycles, CPU.ind_x_addr_cycles, CPU.ind_y_addr_cycles, CPU.update_zero_and_negative_flags_cycles, CPU.adc_core_cycles, CPU.sbc_core_cycles, CPU.cmp_core_cycles, CPU.bit_core_cycles, CPU.lsr_core_cycles, CPU.asl_core_cycles, CPU.rol_core_cycles, CPU.ror_core_cycles, CPU.rra_core_cycles, CPU.page_cross_extra_cycles]
  all_goals ((repeat' split) <;> omega)

/-- The adc_zeropage handler strictly increases the cycle counter. -/
theorem cyc_adc_zeropage {σ : Type} (B : BusIf σ) (c : CPU σ) : c.cycles < (CPU.adc_zeropage B c).cycles := by
  simp only [CPU.adc_zeropage, CPU.cycles_ite, CPU.fetch_byte_cycles, CPU.fetch_word_cycles, CPU.bus_read_cycles, CPU.bus_write_cycles, CPU.push_cycles, CPU.pop_cycles, CPU.ind_x_addr_cycles, CPU.ind_y_addr_cycles, CPU.update_zero_and_negative_flags_cycles, CPU.adc_core_cycles, CPU.sbc_core_cycles, CPU.cmp_core_cycles, CPU.bit_core_cycles, CPU.lsr_core_cycles, CPU.asl_core_cycles, CPU.rol_core_cycles, CPU.ror_core_cycles, CPU.rra_core_cycles, CPU.page_cross_extra_cycles]
  all_goals ((repeat' split) <;> omega)

/-- The ror_zeropage handler strictly increases the cycle counter. -/
theorem cyc_ror_zeropage {σ : Type} (B : BusIf σ) (c : CPU σ) : c.cycles < (CPU.ror_zeropage B c).cycles := by
  simp only [CPU.ror_zeropage, CPU.cycles_ite, CPU.fetch_byte_cycles, CPU.fetch_word_cycles, CPU.bus_read_cycles, CPU.bus_write_cycles, CPU.push_cycles, CPU.pop_cycles, CPU.ind_x_addr_cycles, CPU.ind_y_addr_cycles, CPU.update_zero_and_negative_flags_cycles, CPU.adc_core_cycles, CPU.sbc_core_cycles, CPU.cmp_core_cycles, CPU.bit_core_cycles, CPU.lsr_core_cycles, CPU.asl_core_cycles, CPU.rol_core_cycles, CPU.ror_core_cycles, CPU.rra_core_cycles, CPU.page_cross_extra_cycles]
  all_goals ((repeat' split) <;> omega)

/-- The rra_zeropage handler strictly increases the cycle counter. -/
theorem cyc_rra_zeropage {σ : Type} (B : BusIf σ) (c : CPU σ) : c.cycles < (CPU.rra_zeropage B c).cycles := by
  simp only [CPU.rra_zeropage, CPU.cycles_ite, CPU.fetch_byte_cycles, CPU.fetch_word_cycles, CPU.bus_read_cycles, CPU.bus_write_cycles, CPU.push_cycles, CPU.pop_cycles, CPU.ind_x_addr_cycles, CPU.ind_y_addr_cycles, CPU.update_zero_and_negative_flags_cycles, CPU.adc_core_cycles, CPU.sbc_core_cycles, CPU.cmp_core_cycles, CPU.bit_core_cycles, CPU.lsr_core_cycles, CPU.asl_core_cycles, CPU.rol_core_cycles, CPU.ror_core_cycles, CPU.rra_core_cycles, CPU.page_cross_extra_cycles]
  all_goals ((repeat' split) <;> omega)

/-- The pla handler strictly increases the cycle counter. -/
theorem cyc_pla {σ : Type} (B : BusIf σ) (c : CPU σ) : c.cycles < (CPU.pla B c).cycles := by
  simp only [CPU.pla, CPU.cycles_ite, CPU.fetch_byte_cycles, CPU.fetch_word_cycles, CPU.bus_read_cycles, CPU.bus_write_cycles, CPU.push_cycles, CPU.pop_cycles, CPU.ind_x_addr_cycles, CPU.ind_y_addr_cycles, CPU.update_zero_and_negative_flags_cycles, CPU.adc_core_cycles, CPU.sbc_core_cycles, CPU.cmp_core_cycles, CPU.bit_core_cycles, CPU.lsr_core_cycles, CPU.asl_core_cycles, CPU.rol_core_cycles, CPU.ror_core_cycles, CPU.rra_core_cycles, CPU.page_cross_extra_cycles]
  all_goals ((repeat' split) <;> omega)

/-- The adc_immediate handler strictly increases the cycle counter. -/
theorem cyc_adc_immediate {σ : Type} (B : BusIf σ) (c : CPU σ) : c.cycles < (CPU.adc_immediate B c).cycles := by
  simp only [CPU.adc_immediate, CPU.cycles_ite, CPU.fetch_byte_cycles, CPU.fetch_word_cycles, CPU.bus_read_cycles, CPU.bus_write_cycles, CPU.push_cycles, CPU.pop_cycles, CPU.ind_x_addr_cycles, CPU.ind_y_addr_cycles, CPU.update_zero_and_negative_flags_cycles, CPU.adc_core_cycles, CPU.sbc_core_cycles, CPU.cmp_core_cycles, CPU.bit_core_cycles, CPU.lsr_core_cycles, CPU.asl_core_cycles, CPU.rol_core_cycles, CPU.ror_core_cycles, CPU.rra_core_cycles, CPU.page_cross_extra_cycles]
  all_goals ((repeat' split) <;> omega)

/-- The ror_accumulator handler strictly increases the cycle counter. -/
theorem cyc_ror_accumulator {σ : Type} (c : CPU σ) : c.cycles < (CPU.ror_accumulator c).cycles := by
  simp only [CPU.ror_accumulator, CPU.cycles_ite, CPU.fetch_byte_cycles, CPU.fetch_word_cycles, CPU.bus_read_cycles, CPU.bus_write_cycles, CPU.push_cycles, CPU.pop_cycles, CPU.ind_x_addr_cycles, CPU.ind_y_addr_cycles, CPU.update_zero_and_negative_flags_cycles, CPU.adc_core_cycles, CPU.sbc_core_cycles, CPU.cmp_core_cycles, CPU.bit_core_cycles, CPU.lsr_core_cycles, CPU.asl_core_cycles, CPU.rol_core_cycles, CPU.ror_core_cycles, CPU.rra_core_cycles, CPU.page_cross_extra_cycles]
  all_goals ((repeat' split) <;> omega)

/-- The jmp_indirect handler strictly increases the cycle counter. -/
theorem cyc_jmp_indirect {σ : Type} (B : BusIf σ) (c : CPU σ) : c.cycles < (CPU.jmp_indirect B c).cycles := by
  simp only [CPU.jmp_indirect, CPU.cycles_ite, CPU.fetch_byte_cycles, CPU.fetch_word_cycles, CPU.bus_read_cycles, CPU.bus_write_cycles, CPU.push_cycles, CPU.pop_cycles, CPU.ind_x_addr_cycles, CPU.ind_y_addr_cycles, CPU.update_zero_and_negative_flags_cycles, CPU.adc_core_cycles, CPU.sbc_core_cycles, CPU.cmp_core_cycles, CPU.bit_core_cycles, CPU.lsr_core_cycles, CPU.asl_core_cycles, CPU.rol_core_cycles, CPU.ror_core_cycles, CPU.rra_core_cycles, CPU.page_cross_extra_cycles]
  all_goals ((repeat' split) <;> omega)

/-- The adc_absolute handler strictly increases the cycle counter. -/
theorem cyc_adc_absolute {σ : Type} (B : BusIf σ) (c : CPU σ) : c.cycles < (CPU.adc_absolute B c).cycles := by
  simp only [CPU.adc_absolute, CPU.cycles_ite, CPU.fetch_byte_cycles, CPU.fetch_word_cycles, CPU.bus_read_cycles, CPU.bus_write_cycles, CPU.push_cycles, CPU.pop_cycles, CPU.ind_x_addr_cycles, CPU.ind_y_addr_cycles, CPU.update_zero_and_negative_flags_cycles, CPU.adc_core_cycles, CPU.sbc_core_cycles, CPU.cmp_core_cycles, CPU.bit_core_cycles, CPU.lsr_core_cycles, CPU.asl_core_cycles, CPU.rol_core_cycles, CPU.ror_core_cycles, CPU.rra_core_cycles, CPU.page_cross_extra_cycles]
  all_goals ((repeat' split) <;> omega)

/-- The ror_absolute handler strictly increases the cycle counter. -/
theorem cyc_ror_absolute {σ : Type} (B : BusIf σ) (c : CPU σ) : c.cycles < (CPU.ror_absolute B c).cycles := by
  simp only [CPU.ror_absolute, CPU.cycles_ite, CPU.fetch_byte_cycles, CPU.fetch_word_cycles, CPU.bus_read_cycles, CPU.bus_write_cycles, CPU.push_cycles, CPU.pop_cycles, CPU.ind_x_addr_cycles, CPU.ind_y_addr_cycles, CPU.update_zero_and_negative_flags_cycles, CPU.adc_core_cycles, CPU.sbc_core_cycles, CPU.cmp_core_cycles, CPU.bit_core_cycles, CPU.lsr_core_cycles, CPU.asl_core_cycles, CPU.rol_core_cycles, CPU.ror_core_cycles, CPU.rra_core_cycles, CPU.page_cross_extra_cycles]
  all_goals ((repeat' split) <;> omega)

/-- The rra_absolute handler strictly increases the cycle counter. -/
theorem cyc_rra_absolute {σ : Type} (B : BusIf σ) (c : CPU σ) : c.cycles < (CPU.rra_absolute B c).cycles := by
  simp only [CPU.rra_absolute, CPU.cycles_ite, CPU.fetch_byte_cycles, CPU.fetch_word_cycles, CPU.bus_read_cycles, CPU.bus_write_cycles, CPU.push_cycles, CPU.pop_cycles, CPU.ind_x_addr_cycles, CPU.ind_y_addr_cycles, CPU.update_zero_and_negative_flags_cycles, CPU.adc_core_cycles, CPU.sbc_core_cycles, CPU.cmp_core_cycles, CPU.bit_core_cycles, CPU.lsr_core_cycles, CPU.asl_core_cycles, CPU.rol_core_cycles, CPU.ror_core_cycles, CPU.rra_core_cycles, CPU.page_cross_extra_cycles]
  all_goals ((repeat' split) <;> omega)

/-- The bvs handler strictly increases the cycle counter. -/
theorem cyc_bvs {σ : Type} (B : BusIf σ) (c : CPU σ) : c.cycles < (CPU.bvs B c).cycles := by
  simp only [CPU.bvs]
  exact lt_of_lt_of_le (by omega) (CPU.branch_cycles_ge B c _)

/-- The adc_indirect_y handler strictly increases the cycle counter. -/
theorem cyc_adc_indirect_y {σ : Type} (B : BusIf σ) (c : CPU σ) : c.cycles < (CPU.adc_indirect_y B c).cycles := by
  simp only [CPU.adc_indirect_y, CPU.cycles_ite, CPU.fetch_byte_cycles, CPU.fetch_word_cycles, CPU.bus_read_cycles, CPU.bus_write_cycles, CPU.push_cycles, CPU.pop_cycles, CPU.ind_x_addr_cycles, CPU.ind_y_addr_cycles, CPU.update_zero_and_negative_flags_cycles, CPU.adc_core_cycles, CPU.sbc_core_cycles, CPU.cmp_core_cycles, CPU.bit_core_cycles, CPU.lsr_core_cycles, CPU.asl_core_cycles, CPU.rol_core_cycles, CPU.ror_core_cycles, CPU.rra_core_cycles, CPU.page_cross_extra_cycles]
  all_goals ((repeat' split) <;> omega)

/-- The rra_indirect_y handler strictly increases the cycle counter. -/
theorem cyc_rra_indirect_y {σ : Type} (B : BusIf σ) (c : CPU σ) : c.cycles < (CPU.rra_indirect_y B c).cycles := by
  simp only [CPU.rra_indirect_y, CPU.cycles_ite, CPU.fetch_byte_cycles, CPU.fetch_word_cycles, CPU.bus_read_cycles, CPU.bus_write_cycles, CPU.push_cycles, CPU.pop_cycles, CPU.ind_x_addr_cycles, CPU.ind_y_addr_cycles, CPU.update_zero_and_negative_flags_cycles, CPU.adc_core_cycles, CPU.sbc_core_cycles, CPU.cmp_core_cycles, CPU.bit_core_cycles, CPU.lsr_core_cycles, CPU.asl_core_cycles, CPU.rol_core_cycles, CPU.ror_core_cycles, CPU.rra_core_cycles, CPU.page_cross_extra_cycles]
  all_goals ((repeat' split) <;> omega)

/-- The adc_zeropage_x handler strictly increases the cycle counter. -/
theorem cyc_adc_zeropage_x {σ : Type} (B : BusIf σ) (c : CPU σ) : c.cycles < (CPU.adc_zeropage_x B c).cycles := by
  simp only [CPU.adc_zeropage_x, CPU.cycles_ite, CPU.fetch_byte_cycles, CPU.fetch_word_cycles, CPU.bus_read_cycles, CPU.bus_write_cycles, CPU.push_cycles, CPU.pop_cycles, CPU.ind_x_addr_cycles, CPU.ind_y_addr_cycles, CPU.update_zero_and_negative_flags_cycles, CPU.adc_core_cycles, CPU.sbc_core_cycles, CPU.cmp_core_cycles, CPU.bit_core_cycles, CPU.lsr_core_cycles, CPU.asl_core_cycles, CPU.rol_core_cycles, CPU.ror_core_cycles, CPU.rra_core_cycles, CPU.page_cross_extra_cycles]
  all_goals ((repeat' split) <;> omega)

/-- The ror_zeropage_x handler strictly increases the cycle counter. -/
theorem cyc_ror_zeropage_x {σ : Type} (B : BusIf σ) (c : CPU σ) : c.cycles < (CPU.ror_zeropage_x B c).cycles := by
  simp only [CPU.ror_zeropage_x, CPU.cycles_ite, CPU.fetch_byte_cycles, CPU.fetch_word_cycles, CPU.bus_read_cycles, CPU.bus_write_cycles, CPU.push_cycles, CPU.pop_cycles, CPU.ind_x_addr_cycles, CPU.ind_y_addr_cycles, CPU.update_zero_and_negative_flags_cycles, CPU.adc_core_cycles, CPU.sbc_core_cycles, CPU.cmp_core_cycles, CPU.bit_core_cycles, CPU.lsr_core_cycles, CPU.asl_core_cycles, CPU.rol_core_cycles, CPU.ror_core_cycles, CPU.rra_core_cycles, CPU.page_cross_extra_cycles]
  all_goals ((repeat' split) <;> omega)

/-- The rra_zeropage_x handler strictly increases the cycle counter. -/
theorem cyc_rra_zeropage_x {σ : Type} (B : BusIf σ) (c : CPU σ) : c.cycles < (CPU.rra_zeropage_x B c).cycles := by
  simp only [CPU.rra_zeropage_x, CPU.cycles_ite, CPU.fetch_byte_cycles, CPU.fetch_word_cycles, CPU.bus_read_cycles, CPU.bus_write_cycles, CPU.push_cycles, CPU.pop_cycles, CPU.ind_x_addr_cycles, CPU.ind_y_addr_cycles, CPU.update_zero_and_negative_flags_cycles, CPU.adc_core_cycles, CPU.sbc_core_cycles, CPU.cmp_core_cycles, CPU.bit_core_cycles, CPU.lsr_core_cycles, CPU.asl_core_cycles, CPU.rol_core_cycles, CPU.ror_core_cycles, CPU.rra_core_cycles, CPU.page_cross_extra_cycles]
  all_goals ((repeat' split) <;> omega)

/-- The sei handler strictly increases the cycle counter. -/
theorem cyc_sei {σ : Type} (c : CPU σ) : c.cycles < (CPU.sei c).cycles := by
  simp only [CPU.sei, CPU.cycles_ite, CPU.fetch_byte_cycles, CPU.fetch_word_cycles, CPU.bus_read_cycles, CPU.bus_write_cycles, CPU.push_cycles, CPU.pop_cycles, CPU.ind_x_addr_cycles, CPU.ind_y_addr_cycles, CPU.update_zero_and_negative_flags_cycles, CPU.adc_core_cycles, CPU.sbc_core_cycles, CPU.cmp_core_cycles, CPU.bit_core_cycles, CPU.lsr_core_cycles, CPU.asl_core_cycles, CPU.rol_core_cycles, CPU.ror_core_cycles, CPU.rra_core_cycles, CPU.page_cross_extra_cycles]
  all_goals ((repeat' split) <;> omega)

/-- The adc_absolute_y handler strictly increases the cycle counter. -/
theorem cyc_adc_absolute_y {σ : Type} (B : BusIf σ) (c : CPU σ) : c.cycles < (CPU.adc_absolute_y B c).cycles := by
  simp only [CPU.adc_absolute_y, CPU.cycles_ite, CPU.fetch_byte_cycles, CPU.fetch_word_cycles, CPU.bus_read_cycles, CPU.bus_write_cycles, CPU.push_cycles, CPU.pop_cycles, CPU.ind_x_addr_cycles, CPU.ind_y_addr_cycles, CPU.update_zero_and_negative_flags_cycles, CPU.adc_core_cycles, CPU.sbc_core_cycles, CPU.cmp_core_cycles, CPU.bit_core_cycles, CPU.lsr_core_cycles, CPU.asl_core_cycles, CPU.rol_core_cycles, CPU.ror_core_cycles, CPU.rra_core_cycles, CPU.page_cross_extra_cycles]
  all_goals ((repeat' split) <;> omega)

/-- The rra_absolute_y handler strictly increases the cycle counter. -/
theorem cyc_rra_absolute_y {σ : Type} (B : BusIf σ) (c : CPU σ) : c.cycles < (CPU.rra_absolute_y B c).cycles := by
  simp only [CPU.rra_absolute_y, CPU.cycles_ite, CPU.fetch_byte_cycles, CPU.fetch_word_cycles, CPU.bus_read_cycles, CPU.bus_write_cycles, CPU.push_cycles, CPU.pop_cycles, CPU.ind_x_addr_cycles, CPU.ind_y_addr_cycles, CPU.update_zero_and_negative_flags_cycles, CPU.adc_core_cycles, CPU.sbc_core_cycles, CPU.cmp_core_cycles, CPU.bit_core_cycles, CPU.lsr_core_cycles, CPU.asl_core_cycles, CPU.rol_core_cycles, CPU.ror_core_cycles, CPU.rra_core_cycles, CPU.page_cross_extra_cycles]
  all_goals ((repeat' split) <;> omega)

/-- The adc_absolute_x handler strictly increases the cycle counter. -/
theorem cyc_adc_absolute_x {σ : Type} (B : BusIf σ) (c : CPU σ) : c.cycles < (CPU.adc_absolute_x B c).cycles := by
  simp only [CPU.adc_absolute_x, CPU.cycles_ite, CPU.fetch_byte_cycles, CPU.fetch_word_cycles, CPU.bus_read_cycles, CPU.bus_write_cycles, CPU.push_cycles, CPU.pop_cycles, CPU.ind_x_addr_cycles, CPU.ind_y_addr_cycles, CPU.update_zero_and_negative_flags_cycles, CPU.adc_core_cycles, CPU.sbc_core_cycles, CPU.cmp_core_cycles, CPU.bit_core_cycles, CPU.lsr_core_cycles, CPU.asl_core_cycles, CPU.rol_core_cycles, CPU.ror_core_cycles, CPU.rra_core_cycles, CPU.page_cross_extra_cycles]
  all_goals ((repeat' split) <;> omega)

/-- The ror_absolute_x handler strictly increases the cycle counter. -/
theorem cyc_ror_absolute_x {σ : Type} (B : BusIf σ) (c : CPU σ) : c.cycles < (CPU.ror_absolute_x B c).cycles := by
  simp only [CPU.ror_absolute_x, CPU.cycles_ite, CPU.fetch_byte_cycles, CPU.fetch_word_cycles, CPU.bus_read_cycles, CPU.bus_write_cycles, CPU.push_cycles, CPU.pop_cycles, CPU.ind_x_addr_cycles, CPU.ind_y_addr_cycles, CPU.update_zero_and_negative_flags_cycles, CPU.adc_core_cycles, CPU.sbc_core_cycles, CPU.cmp_core_cycles, CPU.bit_core_cycles, CPU.lsr_core_cycles, CPU.asl_core_cycles, CPU.rol_core_cycles, CPU.ror_core_cycles, CPU.rra_core_cycles, CPU.page_cross_extra_cycles]
  all_goals ((repeat' split) <;> omega)

/-- The rra_absolute_x handler strictly increases the cycle counter. -/
theorem cyc_rra_absolute_x {σ : Type} (B : BusIf σ) (c : CPU σ) : c.cycles < (CPU.rra_absolute_x B c).cycles := by
  simp only [CPU.rra_absolute_x, CPU.cycles_ite, CPU.fetch_byte_cycles, CPU.fetch_word_cycles, CPU.bus_read_cycles, CPU.bus_write_cycles, CPU.push_cycles, CPU.pop_cycles, CPU.ind_x_addr_cycles, CPU.ind_y_addr_cycles, CPU.update_zero_and_negative_flags_cycles, CPU.adc_core_cycles, CPU.sbc_core_cycles, CPU.cmp_core_cycles, CPU.bit_core_cycles, CPU.lsr_core_cycles, CPU.asl_core_cycles, CPU.rol_core_cycles, CPU.ror_core_cycles, CPU.rra_core_cycles, CPU.page_cross_extra_cycles]
  all_goals ((repeat' split) <;> omega)

/-- The nop_immediate handler strictly increases the cycle counter. -/
theorem cyc_nop_immediate {σ : Type} (B : BusIf σ) (c : CPU σ) : c.cycles < (CPU.nop_immediate B c).cycles := by
  simp only [CPU.nop_immediate, CPU.cycles_ite, CPU.fetch_byte_cycles, CPU.fetch_word_cycles, CPU.bus_read_cycles, CPU.bus_write_cycles, CPU.push_cycles, CPU.pop_cycles, CPU.ind_x_addr_cycles, CPU.ind_y_addr_cycles, CPU.update_zero_and_negative_flags_cycles, CPU.adc_core_cycles, CPU.sbc_core_cycles, CPU.cmp_core_cycles, CPU.bit_core_cycles, CPU.lsr_core_cycles, CPU.asl_core_cycles, CPU.rol_core_cycles, CPU.ror_core_cycles, CPU.rra_core_cycles, CPU.page_cross_extra_cycles]
  all_goals ((repeat' split) <;> omega)

/-- The sta_indirect_x handler strictly increases the cycle counter. -/
theorem cyc_sta_indirect_x {σ : Type} (B : BusIf σ) (c : CPU σ) : c.cycles < (CPU.sta_indirect_x B c).cycles := by
  simp only [CPU.sta_indirect_x, CPU.cycles_ite, CPU.fetch_byte_cycles, CPU.fetch_word_cycles, CPU.bus_read_cycles, CPU.bus_write_cycles, CPU.push_cycles, CPU.pop_cycles, CPU.ind_x_addr_cycles, CPU.ind_y_addr_cycles, CPU.update_zero_and_negative_flags_cycles, CPU.adc_core_cycles, CPU.sbc_core_cycles, CPU.cmp_core_cycles, CPU.bit_core_cycles, CPU.lsr_core_cycles, CPU.asl_core_cycles, CPU.rol_core_cycles, CPU.ror_core_cycles, CPU.rra_core_cycles, CPU.page_cross_extra_cycles]
  all_goals ((repeat' split) <;> omega)

/-- The sax_indirect_x handler strictly increases the cycle counter. -/
theorem cyc_sax_indirect_x {σ : Type} (B : BusIf σ) (c : CPU σ) : c.cycles < (CPU.sax_indirect_x B c).cycles := by
  simp only [CPU.sax_indirect_x, CPU.cycles_ite, CPU.fetch_byte_cycles, CPU.fetch_word_cycles, CPU.bus_read_cycles, CPU.bus_write_cycles, CPU.push_cycles, CPU.pop_cycles, CPU.ind_x_addr_cycles, CPU.ind_y_addr_cycles, CPU.update_zero_and_negative_flags_cycles, CPU.adc_core_cycles, CPU.sbc_core_cycles, CPU.cmp_core_cycles, CPU.bit_core_cycles, CPU.lsr_core_cycles, CPU.asl_core_cycles, CPU.rol_core_cycles, CPU.ror_core_cycles, CPU.rra_core_cycles, CPU.page_cross_extra_cycles]
  all_goals ((repeat' split) <;> omega)

/-- The sty_zeropage handler strictly increases the cycle counter. -/
theorem cyc_sty_zeropage {σ : Type} (B : BusIf σ) (c : CPU σ) : c.cycles < (CPU.sty_zeropage B c).cycles := by
  simp only [CPU.sty_zeropage, CPU.cycles_ite, CPU.fetch_byte_cycles, CPU.fetch_word_cycles, CPU.bus_read_cycles, CPU.bus_write_cycles, CPU.push_cycles, CPU.pop_cycles, CPU.ind_x_addr_cycles, CPU.ind_y_addr_cycles, CPU.update_zero_and_negative_flags_cycles, CPU.adc_core_cycles, CPU.sbc_core_cycles, CPU.cmp_core_cycles, CPU.bit_core_cycles, CPU.lsr_core_cycles, CPU.asl_core_cycles, CPU.rol_core_cycles, CPU.ror_core_cycles, CPU.rra_core_cycles, CPU.page_cross_extra_cycles]
  all_goals ((repeat' split) <;> omega)

/-- The sta_zero_page handler strictly increases the cycle counter. -/
theorem cyc_sta_zero_page {σ : Type} (B : BusIf σ) (c : CPU σ) : c.cycles < (CPU.sta_zero_page B c).cycles := by
  simp only [CPU.sta_zero_page, CPU.cycles_ite, CPU.fetch_byte_cycles, CPU.fetch_word_cycles, CPU.bus_read_cycles, CPU.bus_write_cycles, CPU.push_cycles, CPU.pop_cycles, CPU.ind_x_addr_cycles, CPU.ind_y_addr_cycles, CPU.update_zero_and_negative_flags_cycles, CPU.adc_core_cycles, CPU.sbc_core_cycles, CPU.cmp_core_cycles, CPU.bit_core_cycles, CPU.lsr_core_cycles, CPU.asl_core_cycles, CPU.rol_core_cycles, CPU.ror_core_cycles, CPU.rra_core_cycles, CPU.page_cross_extra_cycles]
  all_goals ((repeat' split) <;> omega)

/-- The stx_zero_page handler strictly increases the cycle counter. -/
theorem cyc_stx_zero_page {σ : Type} (B : BusIf σ) (c : CPU σ) : c.cycles < (CPU.stx_zero_page B c).cycles := by
  simp only [CPU.stx_zero_page, CPU.cycles_ite, CPU.fetch_byte_cycles, CPU.fetch_word_cycles, CPU.bus_read_cycles, CPU.bus_write_cycles, CPU.push_cycles, CPU.pop_cycles, CPU.ind_x_addr_cycles, CPU.ind_y_addr_cycles, CPU.update_zero_and_negative_flags_cycles, CPU.adc_core_cycles, CPU.sbc_core_cycles, CPU.cmp_core_cycles, CPU.bit_core_cycles, CPU.lsr_core_cycles, CPU.asl_core_cycles, CPU.rol_core_cycles, CPU.ror_core_cycles, CPU.rra_core_cycles, CPU.page_cross_extra_cycles]
  all_goals ((repeat' split) <;> omega)

/-- The sax_zeropage handler strictly increases the cycle counter. -/
theorem cyc_sax_zeropage {σ : Type} (B : BusIf σ) (c : CPU σ) : c.cycles < (CPU.sax_zeropage B c).cycles := by
  simp only [CPU.sax_zeropage, CPU.cycles_ite, CPU.fetch_byte_cycles, CPU.fetch_word_cycles, CPU.bus_read_cycles, CPU.bus_write_cycles, CPU.push_cycles, CPU.pop_cycles, CPU.ind_x_addr_cycles, CPU.ind_y_addr_cycles, CPU.update_zero_and_negative_flags_cycles, CPU.adc_core_cycles, CPU.sbc_core_cycles, CPU.cmp_core_cycles, CPU.bit_core_cycles, CPU.lsr_core_cycles, CPU.asl_core_cycles, CPU.rol_core_cycles, CPU.ror_core_cycles, CPU.rra_core_cycles, CPU.page_cross_extra_cycles]
  all_goals ((repeat' split) <;> omega)

/-- The dey handler strictly increases the cycle counter. -/
theorem cyc_dey {σ : Type} (c : CPU σ) : c.cycles < (CPU.dey c).cycles := by
  simp only [CPU.dey, CPU.cycles_ite, CPU.fetch_byte_cycles, CPU.fetch_word_cycles, CPU.bus_read_cycles, CPU.bus_write_cycles, CPU.push_cycles, CPU.pop_cycles, CPU.ind_x_addr_cycles, CPU.ind_y_addr_cycles, CPU.update_zero_and_negative_flags_cycles, CPU.adc_core_cycles, CPU.sbc_core_cycles, CPU.cmp_core_cycles, CPU.bit_core_cycles, CPU.lsr_core_cycles, CPU.asl_core_cycles, CPU.rol_core_cycles, CPU.ror_core_cycles, CPU.rra_core_cycles, CPU.page_cross_extra_cycles]
  all_goals ((repeat' split) <;> omega)

/-- The txa handler strictly increases the cycle counter. -/
theorem cyc_txa {σ : Type} (c : CPU σ) : c.cycles < (CPU.txa c).cycles := by
  simp only [CPU.txa, CPU.cycles_ite, CPU.fetch_byte_cycles, CPU.fetch_word_cycles, CPU.bus_read_cycles, CPU.bus_write_cycles, CPU.push_cycles, CPU.pop_cycles, CPU.ind_x_addr_cycles, CPU.ind_y_addr_cycles, CPU.update_zero_and_negative_flags_cycles, CPU.adc_core_cycles, CPU.sbc_core_cycles, CPU.cmp_core_cycles, CPU.bit_core_cycles, CPU.lsr_core_cycles, CPU.asl_core_cycles, CPU.rol_core_cycles, CPU.ror_core_cycles, CPU.rra_core_cycles, CPU.page_cross_extra_cycles]
  all_goals ((repeat' split) <;> omega)

/-- The sty_absolute handler strictly increases the cycle counter. -/
theorem cyc_sty_absolute {σ : Type} (B : BusIf σ) (c : CPU σ) : c.cycles < (CPU.sty_absolute B c).cycles := by
  simp only [CPU.sty_absolute, CPU.cycles_ite, CPU.fetch_byte_cycles, CPU.fetch_word_cycles, CPU.bus_read_cycles, CPU.bus_write_cycles, CPU.push_cycles, CPU.pop_cycles, CPU.ind_x_addr_cycles, CPU.ind_y_addr_cycles, CPU.update_zero_and_negative_flags_cycles, CPU.adc_core_cycles, CPU.sbc_core_cycles, CPU.cmp_core_cycles, CPU.bit_core_cycles, CPU.lsr_core_cycles, CPU.asl_core_cycles, CPU.rol_core_cycles, CPU.ror_core_cycles, CPU.rra_core_cycles, CPU.page_cross_extra_cycles]
  all_goals ((repeat' split) <;> omega)

/-- The sta_absolute handler strictly increases the cycle counter. -/
theorem cyc_sta_absolute {σ : Type} (B : BusIf σ) (c : CPU σ) : c.cycles < (CPU.sta_absolute B c).cycles := by
  simp only [CPU.sta_absolute, CPU.cycles_ite, CPU.fetch_byte_cycles, CPU.fetch_word_cycles, CPU.bus_read_cycles, CPU.bus_write_cycles, CPU.push_cycles, CPU.pop_cycles, CPU.ind_x_addr_cycles, CPU.ind_y_addr_cycles, CPU.update_zero_and_negative_flags_cycles, CPU.adc_core_cycles, CPU.sbc_core_cycles, CPU.cmp_core_cycles, CPU.bit_core_cycles, CPU.lsr_core_cycles, CPU.asl_core_cycles, CPU.rol_core_cycles, CPU.ror_core_cycles, CPU.rra_core_cycles, CPU.page_cross_extra_cycles]
  all_goals ((repeat' split) <;> omega)

/-- The stx_absolute handler strictly increases the cycle counter. -/
theorem cyc_stx_absolute {σ : Type} (B : BusIf σ) (c : CPU σ) : c.cycles < (CPU.stx_absolute B c).cycles := by
  simp only [CPU.stx_absolute, CPU.cycles_ite, CPU.fetch_byte_cycles, CPU.fetch_word_cycles, CPU.bus_read_cycles, CPU.bus_write_cycles, CPU.push_cycles, CPU.pop_cycles, CPU.ind_x_addr_cycles, CPU.ind_y_addr_cycles, CPU.update_zero_and_negative_flags_cycles, CPU.adc_core_cycles, CPU.sbc_core_cycles, CPU.cmp_core_cycles, CPU.bit_core_cycles, CPU.lsr_core_cycles, CPU.asl_core_cycles, CPU.rol_core_cycles, CPU.ror_core_cycles, CPU.rra_core_cycles, CPU.page_cross_extra_cycles]
  all_goals ((repeat' split) <;> omega)

/-- The sax_absolute handler strictly increases the cycle counter. -/
theorem cyc_sax_absolute {σ : Type} (B : BusIf σ) (c : CPU σ) : c.cycles < (CPU.sax_absolute B c).cycles := by
  simp only [CPU.sax_absolute, CPU.cycles_ite, CPU.fetch_byte_cycles, CPU.fetch_word_cycles, CPU.bus_read_cycles, CPU.bus_write_cycles, CPU.push_cycles, CPU.pop_cycles, CPU.ind_x_addr_cycles, CPU.ind_y_addr_cycles, CPU.update_zero_and_negative_flags_cycles, CPU.adc_core_cycles, CPU.sbc_core_cycles, CPU.cmp_core_cycles, CPU.bit_core_cycles, CPU.lsr_core_cycles, CPU.asl_core_cycles, CPU.rol_core_cycles, CPU.ror_core_cycles, CPU.rra_core_cycles, CPU.page_cross_extra_cycles]
  all_goals ((repeat' split) <;> omega)

/-- The bcc handler strictly increases the cycle counter. -/
theorem cyc_bcc {σ : Type} (B : BusIf σ) (c : CPU σ) : c.cycles < (CPU.bcc B c).cycles := by
  simp only [CPU.bcc]
  exact lt_of_lt_of_le (by omega) (CPU.branch_cycles_ge B c _)

/-- The sta_indirect_y handler strictly increases the cycle counter. -/
theorem cyc_sta_indirect_y {σ : Type} (B : BusIf σ) (c : CPU σ) : c.cycles < (CPU.sta_indirect_y B c).cycles := by
  simp only [CPU.sta_indirect_y, CPU.cycles_ite, CPU.fetch_byte_cycles, CPU.fetch_word_cycles, CPU.bus_read_cycles, CPU.bus_write_cycles, CPU.push_cycles, CPU.pop_cycles, CPU.ind_x_addr_cycles, CPU.ind_y_addr_cycles, CPU.update_zero_and_negative_flags_cycles, CPU.adc_core_cycles, CPU.sbc_core_cycles, CPU.cmp_core_cycles, CPU.bit_core_cycles, CPU.lsr_core_cycles, CPU.asl_core_cycles, CPU.rol_core_cycles, CPU.ror_core_cycles, CPU.rra_core_cycles, CPU.page_cross_extra_cycles]
  all_goals ((repeat' split) <;> omega)

/-- The sty_zeropage_x handler strictly increases the cycle counter. -/
theorem cyc_sty_zeropage_x {σ : Type} (B : BusIf σ) (c : CPU σ) : c.cycles < (CPU.sty_zeropage_x B c).cycles := by
  simp only [CPU.sty_zeropage_x, CPU.cycles_ite, CPU.fetch_byte_cycles, CPU.fetch_word_cycles, CPU.bus_read_cycles, CPU.bus_write_cycles, CPU.push_cycles, CPU.pop_cycles, CPU.ind_x_addr_cycles, CPU.ind_y_addr_cycles, CPU.update_zero_and_negative_flags_cycles, CPU.adc_core_cycles, CPU.sbc_core_cycles, CPU.cmp_core_cycles, CPU.bit_core_cycles, CPU.lsr_core_cycles, CPU.asl_core_cycles, CPU.rol_core_cycles, CPU.ror_core_cycles, CPU.rra_core_cycles, CPU.page_cross_extra_cycles]
  all_goals ((repeat' split) <;> omega)

/-- The sta_zeropage_x handler strictly increases the cycle counter. -/
theorem cyc_sta_zeropage_x {σ : Type} (B : BusIf σ) (c : CPU σ) : c.cycles < (CPU.sta_zeropage_x B c).cycles := by
  simp only [CPU.sta_zeropage_x, CPU.cycles_ite, CPU.fetch_byte_cycles, CPU.fetch_word_cycles, CPU.bus_read_cycles, CPU.bus_write_cycles, CPU.push_cycles, CPU.pop_cycles, CPU.ind_x_addr_cycles, CPU.ind_y_addr_cycles, CPU.update_zero_and_negative_flags_cycles, CPU.adc_core_cycles, CPU.sbc_core_cycles, CPU.cmp_core_cycles, CPU.bit_core_cycles, CPU.lsr_core_cycles, CPU.asl_core_cycles, CPU.rol_core_cycles, CPU.ror_core_cycles, CPU.rra_core_cycles, CPU.page_cross_extra_cycles]
  all_goals ((repeat' split) <;> omega)

/-- The stx_zeropage_y handler strictly increases the cycle counter. -/
theorem cyc_stx_zeropage_y {σ : Type} (B : BusIf σ) (c : CPU σ) : c.cycles < (CPU.stx_zeropage_y B c).cycles := by
  simp only [CPU.stx_zeropage_y, CPU.cycles_ite, CPU.fetch_byte_cycles, CPU.fetch_word_cycles, CPU.bus_read_cycles, CPU.bus_write_cycles, CPU.push_cycles, CPU.pop_cycles, CPU.ind_x_addr_cycles, CPU.ind_y_addr_cycles, CPU.update_zero_and_negative_flags_cycles, CPU.adc_core_cycles, CPU.sbc_core_cycles, CPU.cmp_core_cycles, CPU.bit_core_cycles, CPU.lsr_core_cycles, CPU.asl_core_cycles, CPU.rol_core_cycles, CPU.ror_core_cycles, CPU.rra_core_cycles, CPU.page_cross_extra_cycles]
  all_goals ((repeat' split) <;> omega)

/-- The sax_zeropage_y handler strictly increases the cycle counter. -/
theorem cyc_sax_zeropage_y {σ : Type} (B : BusIf σ) (c : CPU σ) : c.cycles < (CPU.sax_zeropage_y B c).cycles := by
  simp only [CPU.sax_zeropage_y, CPU.cycles_ite, CPU.fetch_byte_cycles, CPU.fetch_word_cycles, CPU.bus_read_cycles, CPU.bus_write_cycles, CPU.push_cycles, CPU.pop_cycles, CPU.ind_x_addr_cycles, CPU.ind_y_addr_cycles, CPU.update_zero_and_negative_flags_cycles, CPU.adc_core_cycles, CPU.sbc_core_cycles, CPU.cmp_core_cycles, CPU.bit_core_cycles, CPU.lsr_core_cycles, CPU.asl_core_cycles, CPU.rol_core_cycles, CPU.ror_core_cycles, CPU.rra_core_cycles, CPU.page_cross_extra_cycles]
  all_goals ((repeat' split) <;> omega)

/-- The tya handler strictly increases the cycle counter. -/
theorem cyc_tya {σ : Type} (c : CPU σ) : c.cycles < (CPU.tya c).cycles := by
  simp only [CPU.tya, CPU.cycles_ite, CPU.fetch_byte_cycles, CPU.fetch_word_cycles, CPU.bus_read_cycles, CPU.bus_write_cycles, CPU.push_cycles, CPU.pop_cycles, CPU.ind_x_addr_cycles, CPU.ind_y_addr_cycles, CPU.update_zero_and_negative_flags_cycles, CPU.adc_core_cycles, CPU.sbc_core_cycles, CPU.cmp_core_cycles, CPU.bit_core_cycles, CPU.lsr_core_cycles, CPU.asl_core_cycles, CPU.rol_core_cycles, CPU.ror_core_cycles, CPU.rra_core_cycles, CPU.page_cross_extra_cycles]
  all_goals ((repeat' split) <;> omega)

/-- The sta_absolute_y handler strictly increases the cycle counter. -/
theorem cyc_sta_absolute_y {σ : Type} (B : BusIf σ) (c : CPU σ) : c.cycles < (CPU.sta_absolute_y B c).cycles := by
  simp only [CPU.sta_absolute_y, CPU.cycles_ite, CPU.fetch_byte_cycles, CPU.fetch_word_cycles, CPU.bus_read_cycles, CPU.bus_write_cycles, CPU.push_cycles, CPU.pop_cycles, CPU.ind_x_addr_cycles, CPU.ind_y_addr_cycles, CPU.update_zero_and_negative_flags_cycles, CPU.adc_core_cycles, CPU.sbc_core_cycles, CPU.cmp_core_cycles, CPU.bit_core_cycles, CPU.lsr_core_cycles, CPU.asl_core_cycles, CPU.rol_core_cycles, CPU.ror_core_cycles, CPU.rra_core_cycles, CPU.page_cross_extra_cycles]
  all_goals ((repeat' split) <;> omega)

/-- The txs handler strictly increases the cycle counter. -/
theorem cyc_txs {σ : Type} (c : CPU σ) : c.cycles < (CPU.txs c).cycles := by
  simp only [CPU.txs, CPU.cycles_ite, CPU.fetch_byte_cycles, CPU.fetch_word_cycles, CPU.bus_read_cycles, CPU.bus_write_cycles, CPU.push_cycles, CPU.pop_cycles, CPU.ind_x_addr_cycles, CPU.ind_y_addr_cycles, CPU.update_zero_and_negative_flags_cycles, CPU.adc_core_cycles, CPU.sbc_core_cycles, CPU.cmp_core_cycles, CPU.bit_core_cycles, CPU.lsr_core_cycles, CPU.asl_core_cycles, CPU.rol_core_cycles, CPU.ror_core_cycles, CPU.rra_core_cycles, CPU.page_cross_extra_cycles]
  all_goals ((repeat' split) <;> omega)

/-- The sta_absolute_x handler strictly increases the cycle counter. -/
theorem cyc_sta_absolute_x {σ : Type} (B : BusIf σ) (c : CPU σ) : c.cycles < (CPU.sta_absolute_x B c).cycles := by
  simp only [CPU.sta_absolute_x, CPU.cycles_ite, CPU.fetch_byte_cycles, CPU.fetch_word_cycles, CPU.bus_read_cycles, CPU.bus_write_cycles, CPU.push_cycles, CPU.pop_cycles, CPU.ind_x_addr_cycles, CPU.ind_y_addr_cycles, CPU.update_zero_and_negative_flags_cycles, CPU.adc_core_cycles, CPU.sbc_core_cycles, CPU.cmp_core_cycles, CPU.bit_core_cycles, CPU.lsr_core_cycles, CPU.asl_core_cycles, CPU.rol_core_cycles, CPU.ror_core_cycles, CPU.rra_core_cycles, CPU.page_cross_extra_cycles]
  all_goals ((repeat' split) <;> omega)

/-- The ldy_immediate handler strictly increases the cycle counter. -/
theorem cyc_ldy_immediate {σ : Type} (B : BusIf σ) (c : CPU σ) : c.cycles < (CPU.ldy_immediate B c).cycles := by
  simp only [CPU.ldy_immediate, CPU.cycles_ite, CPU.fetch_byte_cycles, CPU.fetch_word_cycles, CPU.bus_read_cycles, CPU.bus_write_cycles, CPU.push_cycles, CPU.pop_cycles, CPU.ind_x_addr_cycles, CPU.ind_y_addr_cycles, CPU.update_zero_and_negative_flags_cycles, CPU.adc_core_cycles, CPU.sbc_core_cycles, CPU.cmp_core_cycles, CPU.bit_core_cycles, CPU.lsr_core_cycles, CPU.asl_core_cycles, CPU.rol_core_cycles, CPU.ror_core_cycles, CPU.rra_core_cycles, CPU.page_cross_extra_cycles]
  all_goals ((repeat' split) <;> omega)

/-- The lda_indirect_x handler strictly increases the cycle counter. -/
theorem cyc_lda_indirect_x {σ : Type} (B : BusIf σ) (c : CPU σ) : c.cycles < (CPU.lda_indirect_x B c).cycles := by
  simp only [CPU.lda_indirect_x, CPU.cycles_ite, CPU.fetch_byte_cycles, CPU.fetch_word_cycles, CPU.bus_read_cycles, CPU.bus_write_cycles, CPU.push_cycles, CPU.pop_cycles, CPU.ind_x_addr_cycles, CPU.ind_y_addr_cycles, CPU.update_zero_and_negative_flags_cycles, CPU.adc_core_cycles, CPU.sbc_core_cycles, CPU.cmp_core_cycles, CPU.bit_core_cycles, CPU.lsr_core_cycles, CPU.asl_core_cycles, CPU.rol_core_cycles, CPU.ror_core_cycles, CPU.rra_core_cycles, CPU.page_cross_extra_cycles]
  all_goals ((repeat' split) <;> omega)

/-- The ldx_immediate handler strictly increases the cycle counter. -/
theorem cyc_ldx_immediate {σ : Type} (B : BusIf σ) (c : CPU σ) : c.cycles < (CPU.ldx_immediate B c).cycles := by
  simp only [CPU.ldx_immediate, CPU.cycles_ite, CPU.fetch_byte_cycles, CPU.fetch_word_cycles, CPU.bus_read_cycles, CPU.bus_write_cycles, CPU.push_cycles, CPU.pop_cycles, CPU.ind_x_addr_cycles, CPU.ind_y_addr_cycles, CPU.update_zero_and_negative_flags_cycles, CPU.adc_core_cycles, CPU.sbc_core_cycles, CPU.cmp_core_cycles, CPU.bit_core_cycles, CPU.lsr_core_cycles, CPU.asl_core_cycles, CPU.rol_core_cycles, CPU.ror_core_cycles, CPU.rra_core_cycles, CPU.page_cross_extra_cycles]
  all_goals ((repeat' split) <;> omega)

/-- The lax_indirect_x handler strictly increases the cycle counter. -/
theorem cyc_lax_indirect_x {σ : Type} (B : BusIf σ) (c : CPU σ) : c.cycles < (CPU.lax_indirect_x B c).cycles := by
  simp only [CPU.lax_indirect_x, CPU.cycles_ite, CPU.fetch_byte_cycles, CPU.fetch_word_cycles, CPU.bus_read_cycles, CPU.bus_write_cycles, CPU.push_cycles, CPU.pop_cycles, CPU.ind_x_addr_cycles, CPU.ind_y_addr_cycles, CPU.update_zero_and_negative_flags_cycles, CPU.adc_core_cycles, CPU.sbc_core_cycles, CPU.cmp_core_cycles, CPU.bit_core_cycles, CPU.lsr_core_cycles, CPU.asl_core_cycles, CPU.rol_core_cycles, CPU.ror_core_cycles, CPU.rra_core_cycles, CPU.page_cross_extra_cycles]
  all_goals ((repeat' split) <;> omega)

/-- The ldy_zeropage handler strictly increases the cycle counter. -/
theorem cyc_ldy_zeropage {σ : Type} (B : BusIf σ) (c : CPU σ) : c.cycles < (CPU.ldy_zeropage B c).cycles := by
  simp only [CPU.ldy_zeropage, CPU.cycles_ite, CPU.fetch_byte_cycles, CPU.fetch_word_cycles, CPU.bus_read_cycles, CPU.bus_write_cycles, CPU.push_cycles, CPU.pop_cycles, CPU.ind_x_addr_cycles, CPU.ind_y_addr_cycles, CPU.update_zero_and_negative_flags_cycles, CPU.adc_core_cycles, CPU.sbc_core_cycles, CPU.cmp_core_cycles, CPU.bit_core_cycles, CPU.lsr_core_cycles, CPU.asl_core_cycles, CPU.rol_core_cycles, CPU.ror_core_cycles, CPU.rra_core_cycles, CPU.page_cross_extra_cycles]
  all_goals ((repeat' split) <;> omega)

/-- The lda_zero_page handler strictly increases the cycle counter. -/
theorem cyc_lda_zero_page {σ : Type} (B : BusIf σ) (c : CPU σ) : c.cycles < (CPU.lda_zero_page B c).cycles := by
  simp only [CPU.lda_zero_page, CPU.cycles_ite, CPU.fetch_byte_cycles, CPU.fetch_word_cycles, CPU.bus_read_cycles, CPU.bus_write_cycles, CPU.push_cycles, CPU.pop_cycles, CPU.ind_x_addr_cycles, CPU.ind_y_addr_cycles, CPU.update_zero_and_negative_flags_cycles, CPU.adc_core_cycles, CPU.sbc_core_cycles, CPU.cmp_core_cycles, CPU.bit_core_cycles, CPU.lsr_core_cycles, CPU.asl_core_cycles, CPU.rol_core_cycles, CPU.ror_core_cycles, CPU.rra_core_cycles, CPU.page_cross_extra_cycles]
  all_goals ((repeat' split) <;> omega)

/-- The ldx_zeropage handler strictly increases the cycle counter. -/
theorem cyc_ldx_zeropage {σ : Type} (B : BusIf σ) (c : CPU σ) : c.cycles < (CPU.ldx_zeropage B c).cycles := by
  simp only [CPU.ldx_zeropage, CPU.cycles_ite, CPU.fetch_byte_cycles, CPU.fetch_word_cycles, CPU.bus_read_cycles, CPU.bus_write_cycles, CPU.push_cycles, CPU.pop_cycles, CPU.ind_x_addr_cycles, CPU.ind_y_addr_cycles, CPU.update_zero_and_negative_flags_cycles, CPU.adc_core_cycles, CPU.sbc_core_cycles, CPU.cmp_core_cycles, CPU.bit_core_cycles, CPU.lsr_core_cycles, CPU.asl_core_cycles, CPU.rol_core_cycles, CPU.ror_core_cycles, CPU.rra_core_cycles, CPU.page_cross_extra_cycles]
  all_goals ((repeat' split) <;> omega)

/-- The lax_zeropage handler strictly increases the cycle counter. -/
theorem cyc_lax_zeropage {σ : Type} (B : BusIf σ) (c : CPU σ) : c.cycles < (CPU.lax_zeropage B c).cycles := by
  simp only [CPU.lax_zeropage, CPU.cycles_ite, CPU.fetch_byte_cycles, CPU.fetch_word_cycles, CPU.bus_read_cycles, CPU.bus_write_cycles, CPU.push_cycles, CPU.pop_cycles, CPU.ind_x_addr_cycles, CPU.ind_y_addr_cycles, CPU.update_zero_and_negative_flags_cycles, CPU.adc_core_cycles, CPU.sbc_core_cycles, CPU.cmp_core_cycles, CPU.bit_core_cycles, CPU.lsr_core_cycles, CPU.asl_core_cycles, CPU.rol_core_cycles, CPU.ror_core_cycles, CPU.rra_core_cycles, CPU.page_cross_extra_cycles]
  all_goals ((repeat' split) <;> omega)

/-- The tay handler strictly increases the cycle counter. -/
theorem cyc_tay {σ : Type} (c : CPU σ) : c.cycles < (CPU.tay c).cycles := by
  simp only [CPU.tay, CPU.cycles_ite, CPU.fetch_byte_cycles, CPU.fetch_word_cycles, CPU.bus_read_cycles, CPU.bus_write_cycles, CPU.push_cycles, CPU.pop_cycles, CPU.ind_x_addr_cycles, CPU.ind_y_addr_cycles, CPU.update_zero_and_negative_flags_cycles, CPU.adc_core_cycles, CPU.sbc_core_cycles, CPU.cmp_core_cycles, CPU.bit_core_cycles, CPU.lsr_core_cycles, CPU.asl_core_cycles, CPU.rol_core_cycles, CPU.ror_core_cycles, CPU.rra_core_cycles, CPU.page_cross_extra_cycles]
  all_goals ((repeat' split) <;> omega)

/-- The lda_immediate handler strictly increases the cycle counter. -/
theorem cyc_lda_immediate {σ : Type} (B : BusIf σ) (c : CPU σ) : c.cycles < (CPU.lda_immediate B c).cycles := by
  simp only [CPU.lda_immediate, CPU.cycles_ite, CPU.fetch_byte_cycles, CPU.fetch_word_cycles, CPU.bus_read_cycles, CPU.bus_write_cycles, CPU.push_cycles, CPU.pop_cycles, CPU.ind_x_addr_cycles, CPU.ind_y_addr_cycles, CPU.update_zero_and_negative_flags_cycles, CPU.adc_core_cycles, CPU.sbc_core_cycles, CPU.cmp_core_cycles, CPU.bit_core_cycles, CPU.lsr_core_cycles, CPU.asl_core_cycles, CPU.rol_core_cycles, CPU.ror_core_cycles, CPU.rra_core_cycles, CPU.page_cross_extra_cycles]
  all_goals ((repeat' split) <;> omega)

/-- The tax handler strictly increases the cycle counter. -/
theorem cyc_tax {σ : Type} (c : CPU σ) : c.cycles < (CPU.tax c).cycles := by
  simp only [CPU.tax, CPU.cycles_ite, CPU.fetch_byte_cycles, CPU.fetch_word_cycles, CPU.bus_read_cycles, CPU.bus_write_cycles, CPU.push_cycles, CPU.pop_cycles, CPU.ind_x_addr_cycles, CPU.ind_y_addr_cycles, CPU.update_zero_and_negative_flags_cycles, CPU.adc_core_cycles, CPU.sbc_core_cycles, CPU.cmp_core_cycles, CPU.bit_core_cycles, CPU.lsr_core_cycles, CPU.asl_core_cycles, CPU.rol_core_cycles, CPU.ror_core_cycles, CPU.rra_core_cycles, CPU.page_cross_extra_cycles]
  all_goals ((repeat' split) <;> omega)

/-- The ldy_absolute handler strictly increases the cycle counter. -/
theorem cyc_ldy_absolute {σ : Type} (B : BusIf σ) (c : CPU σ) : c.cycles < (CPU.ldy_absolute B c).cycles := by
  simp only [CPU.ldy_absolute, CPU.cycles_ite, CPU.fetch_byte_cycles, CPU.fetch_word_cycles, CPU.bus_read_cycles, CPU.bus_write_cycles, CPU.push_cycles, CPU.pop_cycles, CPU.ind_x_addr_cycles, CPU.ind_y_addr_cycles, CPU.update_zero_and_negative_flags_cycles, CPU.adc_core_cycles, CPU.sbc_core_cycles, CPU.cmp_core_cycles, CPU.bit_core_cycles, CPU.lsr_core_cycles, CPU.asl_core_cycles, CPU.rol_core_cycles, CPU.ror_core_cycles, CPU.rra_core_cycles, CPU.page_cross_extra_cycles]
  all_goals ((repeat' split) <;> omega)

/-- The lda_absolute handler strictly increases the cycle counter. -/
theorem cyc_lda_absolute {σ : Type} (B : BusIf σ) (c : CPU σ) : c.cycles < (CPU.lda_absolute B c).cycles := by
  simp only [CPU.lda_absolute, CPU.cycles_ite, CPU.fetch_byte_cycles, CPU.fetch_word_cycles, CPU.bus_read_cycles, CPU.bus_write_cycles, CPU.push_cycles, CPU.pop_cycles, CPU.ind_x_addr_cycles, CPU.ind_y_addr_cycles, CPU.update_zero_and_negative_flags_cycles, CPU.adc_core_cycles, CPU.sbc_core_cycles, CPU.cmp_core_cycles, CPU.bit_core_cycles, CPU.lsr_core_cycles, CPU.asl_core_cycles, CPU.rol_core_cycles, CPU.ror_core_cycles, CPU.rra_core_cycles, CPU.page_cross_extra_cycles]
  all_goals ((repeat' split) <;> omega)

/-- The ldx_absolute handler strictly increases the cycle counter. -/
theorem cyc_ldx_absolute {σ : Type} (B : BusIf σ) (c : CPU σ) : c.cycles < (CPU.ldx_absolute B c).cycles := by
  simp only [CPU.ldx_absolute, CPU.cycles_ite, CPU.fetch_byte_cycles, CPU.fetch_word_cycles, CPU.bus_read_cycles, CPU.bus_write_cycles, CPU.push_cycles, CPU.pop_cycles, CPU.ind_x_addr_cycles, CPU.ind_y_addr_cycles, CPU.update_zero_and_negative_flags_cycles, CPU.adc_core_cycles, CPU.sbc_core_cycles, CPU.cmp_core_cycles, CPU.bit_core_cycles, CPU.lsr_core_cycles, CPU.asl_core_cycles, CPU.rol_core_cycles, CPU.ror_core_cycles, CPU.rra_core_cycles, CPU.page_cross_extra_cycles]
  all_goals ((repeat' split) <;> omega)

/-- The lax_absolute handler strictly increases the cycle counter. -/
theorem cyc_lax_absolute {σ : Type} (B : BusIf σ) (c : CPU σ) : c.cycles < (CPU.lax_absolute B c).cycles := by
  simp only [CPU.lax_absolute, CPU.cycles_ite, CPU.fetch_byte_cycles, CPU.fetch_word_cycles, CPU.bus_read_cycles, CPU.bus_write_cycles, CPU.push_cycles, CPU.pop_cycles, CPU.ind_x_addr_cycles, CPU.ind_y_addr_cycles, CPU.update_zero_and_negative_flags_cycles, CPU.adc_core_cycles, CPU.sbc_core_cycles, CPU.cmp_core_cycles, CPU.bit_core_cycles, CPU.lsr_core_cycles, CPU.asl_core_cycles, CPU.rol_core_cycles, CPU.ror_core_cycles, CPU.rra_core_cycles, CPU.page_cross_extra_cycles]
  all_goals ((repeat' split) <;> omega)

/-- The bcs handler strictly increases the cycle counter. -/
theorem cyc_bcs {σ : Type} (B : BusIf σ) (c : CPU σ) : c.cycles < (CPU.bcs B c).cycles := by
  simp only [CPU.bcs]
  exact lt_of_lt_of_le (by omega) (CPU.branch_cycles_ge B c _)

/-- The lda_indirect_y handler strictly increases the cycle counter. -/
theorem cyc_lda_indirect_y {σ : Type} (B : BusIf σ) (c : CPU σ) : c.cycles < (CPU.lda_indirect_y B c).cycles := by
  simp only [CPU.lda_indirect_y, CPU.cycles_ite, CPU.fetch_byte_cycles, CPU.fetch_word_cycles, CPU.bus_read_cycles, CPU.bus_write_cycles, CPU.push_cycles, CPU.pop_cycles, CPU.ind_x_addr_cycles, CPU.ind_y_addr_cycles, CPU.update_zero_and_negative_flags_cycles, CPU.adc_core_cycles, CPU.sbc_core_cycles, CPU.cmp_core_cycles, CPU.bit_core_cycles, CPU.lsr_core_cycles, CPU.asl_core_cycles, CPU.rol_core_cycles, CPU.ror_core_cycles, CPU.rra_core_cycles, CPU.page_cross_extra_cycles]
  all_goals ((repeat' split) <;> omega)

/-- The lax_indirect_y handler strictly increases the cycle counter. -/
theorem cyc_lax_indirect_y {σ : Type} (B : BusIf σ) (c : CPU σ) : c.cycles < (CPU.lax_indirect_y B c).cycles := by
  simp only [CPU.lax_indirect_y, CPU.cycles_ite, CPU.fetch_byte_cycles, CPU.fetch_word_cycles, CPU.bus_read_cycles, CPU.bus_write_cycles, CPU.push_cycles, CPU.pop_cycles, CPU.ind_x_addr_cycles, CPU.ind_y_addr_cycles, CPU.update_zero_and_negative_flags_cycles, CPU.adc_core_cycles, CPU.sbc_core_cycles, CPU.cmp_core_cycles, CPU.bit_core_cycles, CPU.lsr_core_cycles, CPU.asl_core_cycles, CPU.rol_core_cycles, CPU.ror_core_cycles, CPU.rra_core_cycles, CPU.page_cross_extra_cycles]
  all_goals ((repeat' split) <;> omega)

/-- The ldy_zeropage_x handler strictly increases the cycle counter. -/
theorem cyc_ldy_zeropage_x {σ : Type} (B : BusIf σ) (c : CPU σ) : c.cycles < (CPU.ldy_zeropage_x B c).cycles := by
  simp only [CPU.ldy_zeropage_x, CPU.cycles_ite, CPU.fetch_byte_cycles, CPU.fetch_word_cycles, CPU.bus_read_cycles, CPU.bus_write_cycles, CPU.push_cycles, CPU.pop_cycles, CPU.ind_x_addr_cycles, CPU.ind_y_addr_cycles, CPU.update_zero_and_negative_flags_cycles, CPU.adc_core_cycles, CPU.sbc_core_cycles, CPU.cmp_core_cycles, CPU.bit_core_cycles, CPU.lsr_core_cycles, CPU.asl_core_cycles, CPU.rol_core_cycles, CPU.ror_core_cycles, CPU.rra_core_cycles, CPU.page_cross_extra_cycles]
  all_goals ((repeat' split) <;> omega)

/-- The lda_zeropage_x handler strictly increases the cycle counter. -/
theorem cyc_lda_zeropage_x {σ : Type} (B : BusIf σ) (c : CPU σ) : c.cycles < (CPU.lda_zeropage_x B c).cycles := by
  simp only [CPU.lda_zeropage_x, CPU.cycles_ite, CPU.fetch_byte_cycles, CPU.fetch_word_cycles, CPU.bus_read_cycles, CPU.bus_write_cycles, CPU.push_cycles, CPU.pop_cycles, CPU.ind_x_addr_cycles, CPU.ind_y_addr_cycles, CPU.update_zero_and_negative_flags_cycles, CPU.adc_core_cycles, CPU.sbc_core_cycles, CPU.cmp_core_cycles, CPU.bit_core_cycles, CPU.lsr_core_cycles, CPU.asl_core_cycles, CPU.rol_core_cycles, CPU.ror_core_cycles, CPU.rra_core_cycles, CPU.page_cross_extra_cycles]
  all_goals ((repeat' split) <;> omega)

/-- The ldx_zeropage_y handler strictly increases the cycle counter. -/
theorem cyc_ldx_zeropage_y {σ : Type} (B : BusIf σ) (c : CPU σ) : c.cycles < (CPU.ldx_zeropage_y B c).cycles := by
  simp only [CPU.ldx_zeropage_y, CPU.cycles_ite, CPU.fetch_byte_cycles, CPU.fetch_word_cycles, CPU.bus_read_cycles, CPU.bus_write_cycles, CPU.push_cycles, CPU.pop_cycles, CPU.ind_x_addr_cycles, CPU.ind_y_addr_cycles, CPU.update_zero_and_negative_flags_cycles, CPU.adc_core_cycles, CPU.sbc_core_cycles, CPU.cmp_core_cycles, CPU.bit_core_cycles, CPU.lsr_core_cycles, CPU.asl_core_cycles, CPU.rol_core_cycles, CPU.ror_core_cycles, CPU.rra_core_cycles, CPU.page_cross_extra_cycles]
  all_goals ((repeat' split) <;> omega)

/-- The lax_zeropage_y handler strictly increases the cycle counter. -/
theorem cyc_lax_zeropage_y {σ : Type} (B : BusIf σ) (c : CPU σ) : c.cycles < (CPU.lax_zeropage_y B c).cycles := by
  simp only [CPU.lax_zeropage_y, CPU.cycles_ite, CPU.fetch_byte_cycles, CPU.fetch_word_cycles, CPU.bus_read_cycles, CPU.bus_write_cycles, CPU.push_cycles, CPU.pop_cycles, CPU.ind_x_addr_cycles, CPU.ind_y_addr_cycles, CPU.update_zero_and_negative_flags_cycles, CPU.adc_core_cycles, CPU.sbc_core_cycles, CPU.cmp_core_cycles, CPU.bit_core_cycles, CPU.lsr_core_cycles, CPU.asl_core_cycles, CPU.rol_core_cycles, CPU.ror_core_cycles, CPU.rra_core_cycles, CPU.page_cross_extra_cycles]
  all_goals ((repeat' split) <;> omega)

/-- The clv handler strictly increases the cycle counter. -/
theorem cyc_clv {σ : Type} (c : CPU σ) : c.cycles < (CPU.clv c).cycles := by
  simp only [CPU.clv, CPU.cycles_ite, CPU.fetch_byte_cycles, CPU.fetch_word_cycles, CPU.bus_read_cycles, CPU.bus_write_cycles, CPU.push_cycles, CPU.pop_cycles, CPU.ind_x_addr_cycles, CPU.ind_y_addr_cycles, CPU.update_zero_and_negative_flags_cycles, CPU.adc_core_cycles, CPU.sbc_core_cycles, CPU.cmp_core_cycles, CPU.bit_core_cycles, CPU.lsr_core_cycles, CPU.asl_core_cycles, CPU.rol_core_cycles, CPU.ror_core_cycles, CPU.rra_core_cycles, CPU.page_cross_extra_cycles]
  all_goals ((repeat' split) <;> omega)

/-- The lda_absolute_y handler strictly increases the cycle counter. -/
theorem cyc_lda_absolute_y {σ : Type} (B : BusIf σ) (c : CPU σ) : c.cycles < (CPU.lda_absolute_y B c).cycles := by
  simp only [CPU.lda_absolute_y, CPU.cycles_ite, CPU.fetch_byte_cycles, CPU.fetch_word_cycles, CPU.bus_read_cycles, CPU.bus_write_cycles, CPU.push_cycles, CPU.pop_cycles, CPU.ind_x_addr_cycles, CPU.ind_y_addr_cycles, CPU.update_zero_and_negative_flags_cycles, CPU.adc_core_cycles, CPU.sbc_core_cycles, CPU.cmp_core_cycles, CPU.bit_core_cycles, CPU.lsr_core_cycles, CPU.asl_core_cycles, CPU.rol_core_cycles, CPU.ror_core_cycles, CPU.rra_core_cycles, CPU.page_cross_extra_cycles]
  all_goals ((repeat' split) <;> omega)

/-- The tsx handler strictly increases the cycle counter. -/
theorem cyc_tsx {σ : Type} (c : CPU σ) : c.cycles < (CPU.tsx c).cycles := by
  simp only [CPU.tsx, CPU.cycles_ite, CPU.fetch_byte_cycles, CPU.fetch_word_cycles, CPU.bus_read_cycles, CPU.bus_write_cycles, CPU.push_cycles, CPU.pop_cycles, CPU.ind_x_addr_cycles, CPU.ind_y_addr_cycles, CPU.update_zero_and_negative_flags_cycles, CPU.adc_core_cycles, CPU.sbc_core_cycles, CPU.cmp_core_cycles, CPU.bit_core_cycles, CPU.lsr_core_cycles, CPU.asl_core_cycles, CPU.rol_core_cycles, CPU.ror_core_cycles, CPU.rra_core_cycles, CPU.page_cross_extra_cycles]
  all_goals ((repeat' split) <;> omega)

/-- The ldy_absolute_x handler strictly increases the cycle counter. -/
theorem cyc_ldy_absolute_x {σ : Type} (B : BusIf σ) (c : CPU σ) : c.cycles < (CPU.ldy_absolute_x B c).cycles := by
  simp only [CPU.ldy_absolute_x, CPU.cycles_ite, CPU.fetch_byte_cycles, CPU.fetch_word_cycles, CPU.bus_read_cycles, CPU.bus_write_cycles, CPU.push_cycles, CPU.pop_cycles, CPU.ind_x_addr_cycles, CPU.ind_y_addr_cycles, CPU.update_zero_and_negative_flags_cycles, CPU.adc_core_cycles, CPU.sbc_core_cycles, CPU.cmp_core_cycles, CPU.bit_core_cycles, CPU.lsr_core_cycles, CPU.asl_core_cycles, CPU.rol_core_cycles, CPU.ror_core_cycles, CPU.rra_core_cycles, CPU.page_cross_extra_cycles]
  all_goals ((repeat' split) <;> omega)

/-- The lda_absolute_x handler strictly increases the cycle counter. -/
theorem cyc_lda_absolute_x {σ : Type} (B : BusIf σ) (c : CPU σ) : c.cycles < (CPU.lda_absolute_x B c).cycles := by
  simp only [CPU.lda_absolute_x, CPU.cycles_ite, CPU.fetch_byte_cycles, CPU.fetch_word_cycles, CPU.bus_read_cycles, CPU.bus_write_cycles, CPU.push_cycles, CPU.pop_cycles, CPU.ind_x_addr_cycles, CPU.ind_y_addr_cycles, CPU.update_zero_and_negative_flags_cycles, CPU.adc_core_cycles, CPU.sbc_core_cycles, CPU.cmp_core_cycles, CPU.bit_core_cycles, CPU.lsr_core_cycles, CPU.asl_core_cycles, CPU.rol_core_cycles, CPU.ror_core_cycles, CPU.rra_core_cycles, CPU.page_cross_extra_cycles]
  all_goals ((repeat' split) <;> omega)

/-- The ldx_absolute_y handler strictly increases the cycle counter. -/
theorem cyc_ldx_absolute_y {σ : Type} (B : BusIf σ) (c : CPU σ) : c.cycles < (CPU.ldx_absolute_y B c).cycles := by
  simp only [CPU.ldx_absolute_y, CPU.cycles_ite, CPU.fetch_byte_cycles, CPU.fetch_word_cycles, CPU.bus_read_cycles, CPU.bus_write_cycles, CPU.push_cycles, CPU.pop_cycles, CPU.ind_x_addr_cycles, CPU.ind_y_addr_cycles, CPU.update_zero_and_negative_flags_cycles, CPU.adc_core_cycles, CPU.sbc_core_cycles, CPU.cmp_core_cycles, CPU.bit_core_cycles, CPU.lsr_core_cycles, CPU.asl_core_cycles, CPU.rol_core_cycles, CPU.ror_core_cycles, CPU.rra_core_cycles, CPU.page_cross_extra_cycles]
  all_goals ((repeat' split) <;> omega)

/-- The lax_absolute_y handler strictly increases the cycle counter. -/
theorem cyc_lax_absolute_y {σ : Type} (B : BusIf σ) (c : CPU σ) : c.cycles < (CPU.lax_absolute_y B c).cycles := by
  simp only [CPU.lax_absolute_y, CPU.cycles_ite, CPU.fetch_byte_cycles, CPU.fetch_word_cycles, CPU.bus_read_cycles, CPU.bus_write_cycles, CPU.push_cycles, CPU.pop_cycles, CPU.ind_x_addr_cycles, CPU.ind_y_addr_cycles, CPU.update_zero_and_negative_flags_cycles, CPU.adc_core_cycles, CPU.sbc_core_cycles, CPU.cmp_core_cycles, CPU.bit_core_cycles, CPU.lsr_core_cycles, CPU.asl_core_cycles, CPU.rol_core_cycles, CPU.ror_core_cycles, CPU.rra_core_cycles, CPU.page_cross_extra_cycles]
  all_goals ((repeat' split) <;> omega)

/-- The cpy_immediate handler strictly increases the cycle counter. -/
theorem cyc_cpy_immediate {σ : Type} (B : BusIf σ) (c : CPU σ) : c.cycles < (CPU.cpy_immediate B c).cycles := by
  simp only [CPU.cpy_immediate, CPU.cycles_ite, CPU.fetch_byte_cycles, CPU.fetch_word_cycles, CPU.bus_read_cycles, CPU.bus_write_cycles, CPU.push_cycles, CPU.pop_cycles, CPU.ind_x_addr_cycles, CPU.ind_y_addr_cycles, CPU.update_zero_and_negative_flags_cycles, CPU.adc_core_cycles, CPU.sbc_core_cycles, CPU.cmp_core_cycles, CPU.bit_core_cycles, CPU.lsr_core_cycles, CPU.asl_core_cycles, CPU.rol_core_cycles, CPU.ror_core_cycles, CPU.rra_core_cycles, CPU.page_cross_extra_cycles]
  all_goals ((repeat' split) <;> omega)

/-- The cmp_indirect_x handler strictly increases the cycle counter. -/
theorem cyc_cmp_indirect_x {σ : Type} (B : BusIf σ) (c : CPU σ) : c.cycles < (CPU.cmp_indirect_x B c).cycles := by
  simp only [CPU.cmp_indirect_x, CPU.cycles_ite, CPU.fetch_byte_cycles, CPU.fetch_word_cycles, CPU.bus_read_cycles, CPU.bus_write_cycles, CPU.push_cycles, CPU.pop_cycles, CPU.ind_x_addr_cycles, CPU.ind_y_addr_cycles, CPU.update_zero_and_negative_flags_cycles, CPU.adc_core_cycles, CPU.sbc_core_cycles, CPU.cmp_core_cycles, CPU.bit_core_cycles, CPU.lsr_core_cycles, CPU.asl_core_cycles, CPU.rol_core_cycles, CPU.ror_core_cycles, CPU.rra_core_cycles, CPU.page_cross_extra_cycles]
  all_goals ((repeat' split) <;> omega)

/-- The dcp_indirect_x handler strictly increases the cycle counter. -/
theorem cyc_dcp_indirect_x {σ : Type} (B : BusIf σ) (c : CPU σ) : c.cycles < (CPU.dcp_indirect_x B c).cycles := by
  simp only [CPU.dcp_indirect_x, CPU.cycles_ite, CPU.fetch_byte_cycles, CPU.fetch_word_cycles, CPU.bus_read_cycles, CPU.bus_write_cycles, CPU.push_cycles, CPU.pop_cycles, CPU.ind_x_addr_cycles, CPU.ind_y_addr_cycles, CPU.update_zero_and_negative_flags_cycles, CPU.adc_core_cycles, CPU.sbc_core_cycles, CPU.cmp_core_cycles, CPU.bit_core_cycles, CPU.lsr_core_cycles, CPU.asl_core_cycles, CPU.rol_core_cycles, CPU.ror_core_cycles, CPU.rra_core_cycles, CPU.page_cross_extra_cycles]
  all_goals ((repeat' split) <;> omega)

/-- The cpy_zeropage handler strictly increases the cycle counter. -/
theorem cyc_cpy_zeropage {σ : Type} (B : BusIf σ) (c : CPU σ) : c.cycles < (CPU.cpy_zeropage B c).cycles := by
  simp only [CPU.cpy_zeropage, CPU.cycles_ite, CPU.fetch_byte_cycles, CPU.fetch_word_cycles, CPU.bus_read_cycles, CPU.bus_write_cycles, CPU.push_cycles, CPU.pop_cycles, CPU.ind_x_addr_cycles, CPU.ind_y_addr_cycles, CPU.update_zero_and_negative_flags_cycles, CPU.adc_core_cycles, CPU.sbc_core_cycles, CPU.cmp_core_cycles, CPU.bit_core_cycles, CPU.lsr_core_cycles, CPU.asl_core_cycles, CPU.rol_core_cycles, CPU.ror_core_cycles, CPU.rra_core_cycles, CPU.page_cross_extra_cycles]
  all_goals ((repeat' split) <;> omega)

/-- The cmp_zeropage handler strictly increases the cycle counter. -/
theorem cyc_cmp_zeropage {σ : Type} (B : BusIf σ) (c : CPU σ) : c.cycles < (CPU.cmp_zeropage B c).cycles := by
  simp only [CPU.cmp_zeropage, CPU.cycles_ite, CPU.fetch_byte_cycles, CPU.fetch_word_cycles, CPU.bus_read_cycles, CPU.bus_write_cycles, CPU.push_cycles, CPU.pop_cycles, CPU.ind_x_addr_cycles, CPU.ind_y_addr_cycles, CPU.update_zero_and_negative_flags_cycles, CPU.adc_core_cycles, CPU.sbc_core_cycles, CPU.cmp_core_cycles, CPU.bit_core_cycles, CPU.lsr_core_cycles, CPU.asl_core_cycles, CPU.rol_core_cycles, CPU.ror_core_cycles, CPU.rra_core_cycles, CPU.page_cross_extra_cycles]
  all_goals ((repeat' split) <;> omega)

/-- The dec_zeropage handler strictly increases the cycle counter. -/
theorem cyc_dec_zeropage {σ : Type} (B : BusIf σ) (c : CPU σ) : c.cycles < (CPU.dec_zeropage B c).cycles := by
  simp only [CPU.dec_zeropage, CPU.cycles_ite, CPU.fetch_byte_cycles, CPU.fetch_word_cycles, CPU.bus_read_cycles, CPU.bus_write_cycles, CPU.push_cycles, CPU.pop_cycles, CPU.ind_x_addr_cycles, CPU.ind_y_addr_cycles, CPU.update_zero_and_negative_flags_cycles, CPU.adc_core_cycles, CPU.sbc_core_cycles, CPU.cmp_core_cycles, CPU.bit_core_cycles, CPU.lsr_core_cycles, CPU.asl_core_cycles, CPU.rol_core_cycles, CPU.ror_core_cycles, CPU.rra_core_cycles, CPU.page_cross_extra_cycles]
  all_goals ((repeat' split) <;> omega)

/-- The dcp_zeropage handler strictly increases the cycle counter. -/
theorem cyc_dcp_zeropage {σ : Type} (B : BusIf σ) (c : CPU σ) : c.cycles < (CPU.dcp_zeropage B c).cycles := by
  simp only [CPU.dcp_zeropage, CPU.cycles_ite, CPU.fetch_byte_cycles, CPU.fetch_word_cycles, CPU.bus_read_cycles, CPU.bus_write_cycles, CPU.push_cycles, CPU.pop_cycles, CPU.ind_x_addr_cycles, CPU.ind_y_addr_cycles, CPU.update_zero_and_negative_flags_cycles, CPU.adc_core_cycles, CPU.sbc_core_cycles, CPU.cmp_core_cycles, CPU.bit_core_cycles, CPU.lsr_core_cycles, CPU.asl_core_cycles, CPU.rol_core_cycles, CPU.ror_core_cycles, CPU.rra_core_cycles, CPU.page_cross_extra_cycles]
  all_goals ((repeat' split) <;> omega)

/-- The iny handler strictly increases the cycle counter. -/
theorem cyc_iny {σ : Type} (c : CPU σ) : c.cycles < (CPU.iny c).cycles := by
  simp only [CPU.iny, CPU.cycles_ite, CPU.fetch_byte_cycles, CPU.fetch_word_cycles, CPU.bus_read_cycles, CPU.bus_write_cycles, CPU.push_cycles, CPU.pop_cycles, CPU.ind_x_addr_cycles, CPU.ind_y_addr_cycles, CPU.update_zero_and_negative_flags_cycles, CPU.adc_core_cycles, CPU.sbc_core_cycles, CPU.cmp_core_cycles, CPU.bit_core_cycles, CPU.lsr_core_cycles, CPU.asl_core_cycles, CPU.rol_core_cycles, CPU.ror_core_cycles, CPU.rra_core_cycles, CPU.page_cross_extra_cycles]
  all_goals ((repeat' split) <;> omega)

/-- The cmp_immediate handler strictly increases the cycle counter. -/
theorem cyc_cmp_immediate {σ : Type} (B : BusIf σ) (c : CPU σ) : c.cycles < (CPU.cmp_immediate B c).cycles := by
  simp only [CPU.cmp_immediate, CPU.cycles_ite, CPU.fetch_byte_cycles, CPU.fetch_word_cycles, CPU.bus_read_cycles, CPU.bus_write_cycles, CPU.push_cycles, CPU.pop_cycles, CPU.ind_x_addr_cycles, CPU.ind_y_addr_cycles, CPU.update_zero_and_negative_flags_cycles, CPU.adc_core_cycles, CPU.sbc_core_cycles, CPU.cmp_core_cycles, CPU.bit_core_cycles, CPU.lsr_core_cycles, CPU.asl_core_cycles, CPU.rol_core_cycles, CPU.ror_core_cycles, CPU.rra_core_cycles, CPU.page_cross_extra_cycles]
  all_goals ((repeat' split) <;> omega)

/-- The dex handler strictly increases the cycle counter. -/
theorem cyc_dex {σ : Type} (c : CPU σ) : c.cycles < (CPU.dex c).cycles := by
  simp only [CPU.dex, CPU.cycles_ite, CPU.fetch_byte_cycles, CPU.fetch_word_cycles, CPU.bus_read_cycles, CPU.bus_write_cycles, CPU.push_cycles, CPU.pop_cycles, CPU.ind_x_addr_cycles, CPU.ind_y_addr_cycles, CPU.update_zero_and_negative_flags_cycles, CPU.adc_core_cycles, CPU.sbc_core_cycles, CPU.cmp_core_cycles, CPU.bit_core_cycles, CPU.lsr_core_cycles, CPU.asl_core_cycles, CPU.rol_core_cycles, CPU.ror_core_cycles, CPU.rra_core_cycles, CPU.page_cross_extra_cycles]
  all_goals ((repeat' split) <;> omega)

/-- The cpy_absolute handler strictly increases the cycle counter. -/
theorem cyc_cpy_absolute {σ : Type} (B : BusIf σ) (c : CPU σ) : c.cycles < (CPU.cpy_absolute B c).cycles := by
  simp only [CPU.cpy_absolute, CPU.cycles_ite, CPU.fetch_byte_cycles, CPU.fetch_word_cycles, CPU.bus_read_cycles, CPU.bus_write_cycles, CPU.push_cycles, CPU.pop_cycles, CPU.ind_x_addr_cycles, CPU.ind_y_addr_cycles, CPU.update_zero_and_negative_flags_cycles, CPU.adc_core_cycles, CPU.sbc_core_cycles, CPU.cmp_core_cycles, CPU.bit_core_cycles, CPU.lsr_core_cycles, CPU.asl_core_cycles, CPU.rol_core_cycles, CPU.ror_core_cycles, CPU.rra_core_cycles, CPU.page_cross_extra_cycles]
  all_goals ((repeat' split) <;> omega)

/-- The cmp_absolute handler strictly increases the cycle counter. -/
theorem cyc_cmp_absolute {σ : Type} (B : BusIf σ) (c : CPU σ) : c.cycles < (CPU.cmp_absolute B c).cycles := by
  simp only [CPU.cmp_absolute, CPU.cycles_ite, CPU.fetch_byte_cycles, CPU.fetch_word_cycles, CPU.bus_read_cycles, CPU.bus_write_cycles, CPU.push_cycles, CPU.pop_cycles, CPU.ind_x_addr_cycles, CPU.ind_y_addr_cycles, CPU.update_zero_and_negative_flags_cycles, CPU.adc_core_cycles, CPU.sbc_core_cycles, CPU.cmp_core_cycles, CPU.bit_core_cycles, CPU.lsr_core_cycles, CPU.asl_core_cycles, CPU.rol_core_cycles, CPU.ror_core_cycles, CPU.rra_core_cycles, CPU.page_cross_extra_cycles]
  all_goals ((repeat' split) <;> omega)

/-- The dec_absolute handler strictly increases the cycle counter. -/
theorem cyc_dec_absolute {σ : Type} (B : BusIf σ) (c : CPU σ) : c.cycles < (CPU.dec_absolute B c).cycles := by
  simp only [CPU.dec_absolute, CPU.cycles_ite, CPU.fetch_byte_cycles, CPU.fetch_word_cycles, CPU.bus_read_cycles, CPU.bus_write_cycles, CPU.push_cycles, CPU.pop_cycles, CPU.ind_x_addr_cycles, CPU.ind_y_addr_cycles, CPU.update_zero_and_negative_flags_cycles, CPU.adc_core_cycles, CPU.sbc_core_cycles, CPU.cmp_core_cycles, CPU.bit_core_cycles, CPU.lsr_core_cycles, CPU.asl_core_cycles, CPU.rol_core_cycles, CPU.ror_core_cycles, CPU.rra_core_cycles, CPU.page_cross_extra_cycles]
  all_goals ((repeat' split) <;> omega)

/-- The dcp_absolute handler strictly increases the cycle counter. -/
theorem cyc_dcp_absolute {σ : Type} (B : BusIf σ) (c : CPU σ) : c.cycles < (CPU.dcp_absolute B c).cycles := by
  simp only [CPU.dcp_absolute, CPU.cycles_ite, CPU.fetch_byte_cycles, CPU.fetch_word_cycles, CPU.bus_read_cycles, CPU.bus_write_cycles, CPU.push_cycles, CPU.pop_cycles, CPU.ind_x_addr_cycles, CPU.ind_y_addr_cycles, CPU.update_zero_and_negative_flags_cycles, CPU.adc_core_cycles, CPU.sbc_core_cycles, CPU.cmp_core_cycles, CPU.bit_core_cycles, CPU.lsr_core_cycles, CPU.asl_core_cycles, CPU.rol_core_cycles, CPU.ror_core_cycles, CPU.rra_core_cycles, CPU.page_cross_extra_cycles]
  all_goals ((repeat' split) <;> omega)

/-- The bne handler strictly increases the cycle counter. -/
theorem cyc_bne {σ : Type} (B : BusIf σ) (c : CPU σ) : c.cycles < (CPU.bne B c).cycles := by
  simp only [CPU.bne]
  exact lt_of_lt_of_le (by omega) (CPU.branch_cycles_ge B c _)

/-- The cmp_indirect_y handler strictly increases the cycle counter. -/
theorem cyc_cmp_indirect_y {σ : Type} (B : BusIf σ) (c : CPU σ) : c.cycles < (CPU.cmp_indirect_y B c).cycles := by
  simp only [CPU.cmp_indirect_y, CPU.cycles_ite, CPU.fetch_byte_cycles, CPU.fetch_word_cycles, CPU.bus_read_cycles, CPU.bus_write_cycles, CPU.push_cycles, CPU.pop_cycles, CPU.ind_x_addr_cycles, CPU.ind_y_addr_cycles, CPU.update_zero_and_negative_flags_cycles, CPU.adc_core_cycles, CPU.sbc_core_cycles, CPU.cmp_core_cycles, CPU.bit_core_cycles, CPU.lsr_core_cycles, CPU.asl_core_cycles, CPU.rol_core_cycles, CPU.ror_core_cycles, CPU.rra_core_cycles, CPU.page_cross_extra_cycles]
  all_goals ((repeat' split) <;> omega)

/-- The dcp_indirect_y handler strictly increases the cycle counter. -/
theorem cyc_dcp_indirect_y {σ : Type} (B : BusIf σ) (c : CPU σ) : c.cycles < (CPU.dcp_indirect_y B c).cycles := by
  simp only [CPU.dcp_indirect_y, CPU.cycles_ite, CPU.fetch_byte_cycles, CPU.fetch_word_cycles, CPU.bus_read_cycles, CPU.bus_write_cycles, CPU.push_cycles, CPU.pop_cycles, CPU.ind_x_addr_cycles, CPU.ind_y_addr_cycles, CPU.update_zero_and_negative_flags_cycles, CPU.adc_core_cycles, CPU.sbc_core_cycles, CPU.cmp_core_cycles, CPU.bit_core_cycles, CPU.lsr_core_cycles, CPU.asl_core_cycles, CPU.rol_core_cycles, CPU.ror_core_cycles, CPU.rra_core_cycles, CPU.page_cross_extra_cycles]
  all_goals ((repeat' split) <;> omega)

/-- The cmp_zeropage_x handler strictly increases the cycle counter. -/
theorem cyc_cmp_zeropage_x {σ : Type} (B : BusIf σ) (c : CPU σ) : c.cycles < (CPU.cmp_zeropage_x B c).cycles := by
  simp only [CPU.cmp_zeropage_x, CPU.cycles_ite, CPU.fetch_byte_cycles, CPU.fetch_word_cycles, CPU.bus_read_cycles, CPU.bus_write_cycles, CPU.push_cycles, CPU.pop_cycles, CPU.ind_x_addr_cycles, CPU.ind_y_addr_cycles, CPU.update_zero_and_negative_flags_cycles, CPU.adc_core_cycles, CPU.sbc_core_cycles, CPU.cmp_core_cycles, CPU.bit_core_cycles, CPU.lsr_core_cycles, CPU.asl_core_cycles, CPU.rol_core_cycles, CPU.ror_core_cycles, CPU.rra_core_cycles, CPU.page_cross_extra_cycles]
  all_goals ((repeat' split) <;> omega)

/-- The dec_zeropage_x handler strictly increases the cycle counter. -/
theorem cyc_dec_zeropage_x {σ : Type} (B : BusIf σ) (c : CPU σ) : c.cycles < (CPU.dec_zeropage_x B c).cycles := by
  simp only [CPU.dec_zeropage_x, CPU.cycles_ite, CPU.fetch_byte_cycles, CPU.fetch_word_cycles, CPU.bus_read_cycles, CPU.bus_write_cycles, CPU.push_cycles, CPU.pop_cycles, CPU.ind_x_addr_cycles, CPU.ind_y_addr_cycles, CPU.update_zero_and_negative_flags_cycles, CPU.adc_core_cycles, CPU.sbc_core_cycles, CPU.cmp_core_cycles, CPU.bit_core_cycles, CPU.lsr_core_cycles, CPU.asl_core_cycles, CPU.rol_core_cycles, CPU.ror_core_cycles, CPU.rra_core_cycles, CPU.page_cross_extra_cycles]
  all_goals ((repeat' split) <;> omega)

/-- The dcp_zeropage_x handler strictly increases the cycle counter. -/
theorem cyc_dcp_zeropage_x {σ : Type} (B : BusIf σ) (c : CPU σ) : c.cycles < (CPU.dcp_zeropage_x B c).cycles := by
  simp only [CPU.dcp_zeropage_x, CPU.cycles_ite, CPU.fetch_byte_cycles, CPU.fetch_word_cycles, CPU.bus_read_cycles, CPU.bus_write_cycles, CPU.push_cycles, CPU.pop_cycles, CPU.ind_x_addr_cycles, CPU.ind_y_addr_cycles, CPU.update_zero_and_negative_flags_cycles, CPU.adc_core_cycles, CPU.sbc_core_cycles, CPU.cmp_core_cycles, CPU.bit_core_cycles, CPU.lsr_core_cycles, CPU.asl_core_cycles, CPU.rol_core_cycles, CPU.ror_core_cycles, CPU.rra_core_cycles, CPU.page_cross_extra_cycles]
  all_goals ((repeat' split) <;> omega)

/-- The cld handler strictly increases the cycle counter. -/
theorem cyc_cld {σ : Type} (c : CPU σ) : c.cycles < (CPU.cld c).cycles := by
  simp only [CPU.cld, CPU.cycles_ite, CPU.fetch_byte_cycles, CPU.fetch_word_cycles, CPU.bus_read_cycles, CPU.bus_write_cycles, CPU.push_cycles, CPU.pop_cycles, CPU.ind_x_addr_cycles, CPU.ind_y_addr_cycles, CPU.update_zero_and_negative_flags_cycles, CPU.adc_core_cycles, CPU.sbc_core_cycles, CPU.cmp_core_cycles, CPU.bit_core_cycles, CPU.lsr_core_cycles, CPU.asl_core_cycles, CPU.rol_core_cycles, CPU.ror_core_cycles, CPU.rra_core_cycles, CPU.page_cross_extra_cycles]
  all_goals ((repeat' split) <;> omega)

/-- The cmp_absolute_y handler strictly increases the cycle counter. -/
theorem cyc_cmp_absolute_y {σ : Type} (B : BusIf σ) (c : CPU σ) : c.cycles < (CPU.cmp_absolute_y B c).cycles := by
  simp only [CPU.cmp_absolute_y, CPU.cycles_ite, CPU.fetch_byte_cycles, CPU.fetch_word_cycles, CPU.bus_read_cycles, CPU.bus_write_cycles, CPU.push_cycles, CPU.pop_cycles, CPU.ind_x_addr_cycles, CPU.ind_y_addr_cycles, CPU.update_zero_and_negative_flags_cycles, CPU.adc_core_cycles, CPU.sbc_core_cycles, CPU.cmp_core_cycles, CPU.bit_core_cycles, CPU.lsr_core_cycles, CPU.asl_core_cycles, CPU.rol_core_cycles, CPU.ror_core_cycles, CPU.rra_core_cycles, CPU.page_cross_extra_cycles]
  all_goals ((repeat' split) <;> omega)

/-- The dcp_absolute_y handler strictly increases the cycle counter. -/
theorem cyc_dcp_absolute_y {σ : Type} (B : BusIf σ) (c : CPU σ) : c.cycles < (CPU.dcp_absolute_y B c).cycles := by
  simp only [CPU.dcp_absolute_y, CPU.cycles_ite, CPU.fetch_byte_cycles, CPU.fetch_word_cycles, CPU.bus_read_cycles, CPU.bus_write_cycles, CPU.push_cycles, CPU.pop_cycles, CPU.ind_x_addr_cycles, CPU.ind_y_addr_cycles, CPU.update_zero_and_negative_flags_cycles, CPU.adc_core_cycles, CPU.sbc_core_cycles, CPU.cmp_core_cycles, CPU.bit_core_cycles, CPU.lsr_core_cycles, CPU.asl_core_cycles, CPU.rol_core_cycles, CPU.ror_core_cycles, CPU.rra_core_cycles, CPU.page_cross_extra_cycles]
  all_goals ((repeat' split) <;> omega)

/-- The cmp_absolute_x handler strictly increases the cycle counter. -/
theorem cyc_cmp_absolute_x {σ : Type} (B : BusIf σ) (c : CPU σ) : c.cycles < (CPU.cmp_absolute_x B c).cycles := by
  simp only [CPU.cmp_absolute_x, CPU.cycles_ite, CPU.fetch_byte_cycles, CPU.fetch_word_cycles, CPU.bus_read_cycles, CPU.bus_write_cycles, CPU.push_cycles, CPU.pop_cycles, CPU.ind_x_addr_cycles, CPU.ind_y_addr_cycles, CPU.update_zero_and_negative_flags_cycles, CPU.adc_core_cycles, CPU.sbc_core_cycles, CPU.cmp_core_cycles, CPU.bit_core_cycles, CPU.lsr_core_cycles, CPU.asl_core_cycles, CPU.rol_core_cycles, CPU.ror_core_cycles, CPU.rra_core_cycles, CPU.page_cross_extra_cycles]
  all_goals ((repeat' split) <;> omega)

/-- The dec_absolute_x handler strictly increases the cycle counter. -/
theorem cyc_dec_absolute_x {σ : Type} (B : BusIf σ) (c : CPU σ) : c.cycles < (CPU.dec_absolute_x B c).cycles := by
  simp only [CPU.dec_absolute_x, CPU.cycles_ite, CPU.fetch_byte_cycles, CPU.fetch_word_cycles, CPU.bus_read_cycles, CPU.bus_write_cycles, CPU.push_cycles, CPU.pop_cycles, CPU.ind_x_addr_cycles, CPU.ind_y_addr_cycles, CPU.update_zero_and_negative_flags_cycles, CPU.adc_core_cycles, CPU.sbc_core_cycles, CPU.cmp_core_cycles, CPU.bit_core_cycles, CPU.lsr_core_cycles, CPU.asl_core_cycles, CPU.rol_core_cycles, CPU.ror_core_cycles, CPU.rra_core_cycles, CPU.page_cross_extra_cycles]
  all_goals ((repeat' split) <;> omega)

/-- The dcp_absolute_x handler strictly increases the cycle counter. -/
theorem cyc_dcp_absolute_x {σ : Type} (B : BusIf σ) (c : CPU σ) : c.cycles < (CPU.dcp_absolute_x B c).cycles := by
  simp only [CPU.dcp_absolute_x, CPU.cycles_ite, CPU.fetch_byte_cycles, CPU.fetch_word_cycles, CPU.bus_read_cycles, CPU.bus_write_cycles, CPU.push_cycles, CPU.pop_cycles, CPU.ind_x_addr_cycles, CPU.ind_y_addr_cycles, CPU.update_zero_and_negative_flags_cycles, CPU.adc_core_cycles, CPU.sbc_core_cycles, CPU.cmp_core_cycles, CPU.bit_core_cycles, CPU.lsr_core_cycles, CPU.asl_core_cycles, CPU.rol_core_cycles, CPU.ror_core_cycles, CPU.rra_core_cycles, CPU.page_cross_extra_cycles]
  all_goals ((repeat' split) <;> omega)

/-- The cpx_immediate handler strictly increases the cycle counter. -/
theorem cyc_cpx_immediate {σ : Type} (B : BusIf σ) (c : CPU σ) : c.cycles < (CPU.cpx_immediate B c).cycles := by
  simp only [CPU.cpx_immediate, CPU.cycles_ite, CPU.fetch_byte_cycles, CPU.fetch_word_cycles, CPU.bus_read_cycles, CPU.bus_write_cycles, CPU.push_cycles, CPU.pop_cycles, CPU.ind_x_addr_cycles, CPU.ind_y_addr_cycles, CPU.update_zero_and_negative_flags_cycles, CPU.adc_core_cycles, CPU.sbc_core_cycles, CPU.cmp_core_cycles, CPU.bit_core_cycles, CPU.lsr_core_cycles, CPU.asl_core_cycles, CPU.rol_core_cycles, CPU.ror_core_cycles, CPU.rra_core_cycles, CPU.page_cross_extra_cycles]
  all_goals ((repeat' split) <;> omega)

/-- The sbc_indirect_x handler strictly increases the cycle counter. -/
theorem cyc_sbc_indirect_x {σ : Type} (B : BusIf σ) (c : CPU σ) : c.cycles < (CPU.sbc_indirect_x B c).cycles := by
  simp only [CPU.sbc_indirect_x, CPU.cycles_ite, CPU.fetch_byte_cycles, CPU.fetch_word_cycles, CPU.bus_read_cycles, CPU.bus_write_cycles, CPU.push_cycles, CPU.pop_cycles, CPU.ind_x_addr_cycles, CPU.ind_y_addr_cycles, CPU.update_zero_and_negative_flags_cycles, CPU.adc_core_cycles, CPU.sbc_core_cycles, CPU.cmp_core_cycles, CPU.bit_core_cycles, CPU.lsr_core_cycles, CPU.asl_core_cycles, CPU.rol_core_cycles, CPU.ror_core_cycles, CPU.rra_core_cycles, CPU.page_cross_extra_cycles]
  all_goals ((repeat' split) <;> omega)

/-- The isc_indirect_x handler strictly increases the cycle counter. -/
theorem cyc_isc_indirect_x {σ : Type} (B : BusIf σ) (c : CPU σ) : c.cycles < (CPU.isc_indirect_x B c).cycles := by
  simp only [CPU.isc_indirect_x, CPU.cycles_ite, CPU.fetch_byte_cycles, CPU.fetch_word_cycles, CPU.bus_read_cycles, CPU.bus_write_cycles, CPU.push_cycles, CPU.pop_cycles, CPU.ind_x_addr_cycles, CPU.ind_y_addr_cycles, CPU.update_zero_and_negative_flags_cycles, CPU.adc_core_cycles, CPU.sbc_core_cycles, CPU.cmp_core_cycles, CPU.bit_core_cycles, CPU.lsr_core_cycles, CPU.asl_core_cycles, CPU.rol_core_cycles, CPU.ror_core_cycles, CPU.rra_core_cycles, CPU.page_cross_extra_cycles]
  all_goals ((repeat' split) <;> omega)

/-- The cpx_zeropage handler strictly increases the cycle counter. -/
theorem cyc_cpx_zeropage {σ : Type} (B : BusIf σ) (c : CPU σ) : c.cycles < (CPU.cpx_zeropage B c).cycles := by
  simp only [CPU.cpx_zeropage, CPU.cycles_ite, CPU.fetch_byte_cycles, CPU.fetch_word_cycles, CPU.bus_read_cycles, CPU.bus_write_cycles, CPU.push_cycles, CPU.pop_cycles, CPU.ind_x_addr_cycles, CPU.ind_y_addr_cycles, CPU.update_zero_and_negative_flags_cycles, CPU.adc_core_cycles, CPU.sbc_core_cycles, CPU.cmp_core_cycles, CPU.bit_core_cycles, CPU.lsr_core_cycles, CPU.asl_core_cycles, CPU.rol_core_cycles, CPU.ror_core_cycles, CPU.rra_core_cycles, CPU.page_cross_extra_cycles]
  all_goals ((repeat' split) <;> omega)

/-- The sbc_zeropage handler strictly increases the cycle counter. -/
theorem cyc_sbc_zeropage {σ : Type} (B : BusIf σ) (c : CPU σ) : c.cycles < (CPU.sbc_zeropage B c).cycles := by
  simp only [CPU.sbc_zeropage, CPU.cycles_ite, CPU.fetch_byte_cycles, CPU.fetch_word_cycles, CPU.bus_read_cycles, CPU.bus_write_cycles, CPU.push_cycles, CPU.pop_cycles, CPU.ind_x_addr_cycles, CPU.ind_y_addr_cycles, CPU.update_zero_and_negative_flags_cycles, CPU.adc_core_cycles, CPU.sbc_core_cycles, CPU.cmp_core_cycles, CPU.bit_core_cycles, CPU.lsr_core_cycles, CPU.asl_core_cycles, CPU.rol_core_cycles, CPU.ror_core_cycles, CPU.rra_core_cycles, CPU.page_cross_extra_cycles]
  all_goals ((repeat' split) <;> omega)

/-- The inc_zeropage handler strictly increases the cycle counter. -/
theorem cyc_inc_zeropage {σ : Type} (B : BusIf σ) (c : CPU σ) : c.cycles < (CPU.inc_zeropage B c).cycles := by
  simp only [CPU.inc_zeropage, CPU.cycles_ite, CPU.fetch_byte_cycles, CPU.fetch_word_cycles, CPU.bus_read_cycles, CPU.bus_write_cycles, CPU.push_cycles, CPU.pop_cycles, CPU.ind_x_addr_cycles, CPU.ind_y_addr_cycles, CPU.update_zero_and_negative_flags_cycles, CPU.adc_core_cycles, CPU.sbc_core_cycles, CPU.cmp_core_cycles, CPU.bit_core_cycles, CPU.lsr_core_cycles, CPU.asl_core_cycles, CPU.rol_core_cycles, CPU.ror_core_cycles, CPU.rra_core_cycles, CPU.page_cross_extra_cycles]
  all_goals ((repeat' split) <;> omega)

/-- The isc_zeropage handler strictly increases the cycle counter. -/
theorem cyc_isc_zeropage {σ : Type} (B : BusIf σ) (c : CPU σ) : c.cycles < (CPU.isc_zeropage B c).cycles := by
  simp only [CPU.isc_zeropage, CPU.cycles_ite, CPU.fetch_byte_cycles, CPU.fetch_word_cycles, CPU.bus_read_cycles, CPU.bus_write_cycles, CPU.push_cycles, CPU.pop_cycles, CPU.ind_x_addr_cycles, CPU.ind_y_addr_cycles, CPU.update_zero_and_negative_flags_cycles, CPU.adc_core_cycles, CPU.sbc_core_cycles, CPU.cmp_core_cycles, CPU.bit_core_cycles, CPU.lsr_core_cycles, CPU.asl_core_cycles, CPU.rol_core_cycles, CPU.ror_core_cycles, CPU.rra_core_cycles, CPU.page_cross_extra_cycles]
  all_goals ((repeat' split) <;> omega)

/-- The inx handler strictly increases the cycle counter. -/
theorem cyc_inx {σ : Type} (c : CPU σ) : c.cycles < (CPU.inx c).cycles := by
  simp only [CPU.inx, CPU.cycles_ite, CPU.fetch_byte_cycles, CPU.fetch_word_cycles, CPU.bus_read_cycles, CPU.bus_write_cycles, CPU.push_cycles, CPU.pop_cycles, CPU.ind_x_addr_cycles, CPU.ind_y_addr_cycles, CPU.update_zero_and_negative_flags_cycles, CPU.adc_core_cycles, CPU.sbc_core_cycles, CPU.cmp_core_cycles, CPU.bit_core_cycles, CPU.lsr_core_cycles, CPU.asl_core_cycles, CPU.rol_core_cycles, CPU.ror_core_cycles, CPU.rra_core_cycles, CPU.page_cross_extra_cycles]
  all_goals ((repeat' split) <;> omega)

/-- The sbc_immediate handler strictly increases the cycle counter. -/
theorem cyc_sbc_immediate {σ : Type} (B : BusIf σ) (c : CPU σ) : c.cycles < (CPU.sbc_immediate B c).cycles := by
  simp only [CPU.sbc_immediate, CPU.cycles_ite, CPU.fetch_byte_cycles, CPU.fetch_word_cycles, CPU.bus_read_cycles, CPU.bus_write_cycles, CPU.push_cycles, CPU.pop_cycles, CPU.ind_x_addr_cycles, CPU.ind_y_addr_cycles, CPU.update_zero_and_negative_flags_cycles, CPU.adc_core_cycles, CPU.sbc_core_cycles, CPU.cmp_core_cycles, CPU.bit_core_cycles, CPU.lsr_core_cycles, CPU.asl_core_cycles, CPU.rol_core_cycles, CPU.ror_core_cycles, CPU.rra_core_cycles, CPU.page_cross_extra_cycles]
  all_goals ((repeat' split) <;> omega)

/-- The nop handler strictly increases the cycle counter. -/
theorem cyc_nop {σ : Type} (c : CPU σ) : c.cycles < (CPU.nop c).cycles := by
  simp only [CPU.nop, CPU.cycles_ite, CPU.fetch_byte_cycles, CPU.fetch_word_cycles, CPU.bus_read_cycles, CPU.bus_write_cycles, CPU.push_cycles, CPU.pop_cycles, CPU.ind_x_addr_cycles, CPU.ind_y_addr_cycles, CPU.update_zero_and_negative_flags_cycles, CPU.adc_core_cycles, CPU.sbc_core_cycles, CPU.cmp_core_cycles, CPU.bit_core_cycles, CPU.lsr_core_cycles, CPU.asl_core_cycles, CPU.rol_core_cycles, CPU.ror_core_cycles, CPU.rra_core_cycles, CPU.page_cross_extra_cycles]
  all_goals ((repeat' split) <;> omega)

/-- The cpx_absolute handler strictly increases the cycle counter. -/
theorem cyc_cpx_absolute {σ : Type} (B : BusIf σ) (c : CPU σ) : c.cycles < (CPU.cpx_absolute B c).cycles := by
  simp only [CPU.cpx_absolute, CPU.cycles_ite, CPU.fetch_byte_cycles, CPU.fetch_word_cycles, CPU.bus_read_cycles, CPU.bus_write_cycles, CPU.push_cycles, CPU.pop_cycles, CPU.ind_x_addr_cycles, CPU.ind_y_addr_cycles, CPU.update_zero_and_negative_flags_cycles, CPU.adc_core_cycles, CPU.sbc_core_cycles, CPU.cmp_core_cycles, CPU.bit_core_cycles, CPU.lsr_core_cycles, CPU.asl_core_cycles, CPU.rol_core_cycles, CPU.ror_core_cycles, CPU.rra_core_cycles, CPU.page_cross_extra_cycles]
  all_goals ((repeat' split) <;> omega)

/-- The sbc_absolute handler strictly increases the cycle counter. -/
theorem cyc_sbc_absolute {σ : Type} (B : BusIf σ) (c : CPU σ) : c.cycles < (CPU.sbc_absolute B c).cycles := by
  simp only [CPU.sbc_absolute, CPU.cycles_ite, CPU.fetch_byte_cycles, CPU.fetch_word_cycles, CPU.bus_read_cycles, CPU.bus_write_cycles, CPU.push_cycles, CPU.pop_cycles, CPU.ind_x_addr_cycles, CPU.ind_y_addr_cycles, CPU.update_zero_and_negative_flags_cycles, CPU.adc_core_cycles, CPU.sbc_core_cycles, CPU.cmp_core_cycles, CPU.bit_core_cycles, CPU.lsr_core_cycles, CPU.asl_core_cycles, CPU.rol_core_cycles, CPU.ror_core_cycles, CPU.rra_core_cycles, CPU.page_cross_extra_cycles]
  all_goals ((repeat' split) <;> omega)

/-- The inc_absolute handler strictly increases the cycle counter. -/
theorem cyc_inc_absolute {σ : Type} (B : BusIf σ) (c : CPU σ) : c.cycles < (CPU.inc_absolute B c).cycles := by
  simp only [CPU.inc_absolute, CPU.cycles_ite, CPU.fetch_byte_cycles, CPU.fetch_word_cycles, CPU.bus_read_cycles, CPU.bus_write_cycles, CPU.push_cycles, CPU.pop_cycles, CPU.ind_x_addr_cycles, CPU.ind_y_addr_cycles, CPU.update_zero_and_negative_flags_cycles, CPU.adc_core_cycles, CPU.sbc_core_cycles, CPU.cmp_core_cycles, CPU.bit_core_cycles, CPU.lsr_core_cycles, CPU.asl_core_cycles, CPU.rol_core_cycles, CPU.ror_core_cycles, CPU.rra_core_cycles, CPU.page_cross_extra_cycles]
  all_goals ((repeat' split) <;> omega)

/-- The isc_absolute handler strictly increases the cycle counter. -/
theorem cyc_isc_absolute {σ : Type} (B : BusIf σ) (c : CPU σ) : c.cycles < (CPU.isc_absolute B c).cycles := by
  simp only [CPU.isc_absolute, CPU.cycles_ite, CPU.fetch_byte_cycles, CPU.fetch_word_cycles, CPU.bus_read_cycles, CPU.bus_write_cycles, CPU.push_cycles, CPU.pop_cycles, CPU.ind_x_addr_cycles, CPU.ind_y_addr_cycles, CPU.update_zero_and_negative_flags_cycles, CPU.adc_core_cycles, CPU.sbc_core_cycles, CPU.cmp_core_cycles, CPU.bit_core_cycles, CPU.lsr_core_cycles, CPU.asl_core_cycles, CPU.rol_core_cycles, CPU.ror_core_cycles, CPU.rra_core_cycles, CPU.page_cross_extra_cycles]
  all_goals ((repeat' split) <;> omega)

/-- The beq handler strictly increases the cycle counter. -/
theorem cyc_beq {σ : Type} (B : BusIf σ) (c : CPU σ) : c.cycles < (CPU.beq B c).cycles := by
  simp only [CPU.beq]
  exact lt_of_lt_of_le (by omega) (CPU.branch_cycles_ge B c _)

/-- The sbc_indirect_y handler strictly increases the cycle counter. -/
theorem cyc_sbc_indirect_y {σ : Type} (B : BusIf σ) (c : CPU σ) : c.cycles < (CPU.sbc_indirect_y B c).cycles := by
  simp only [CPU.sbc_indirect_y, CPU.cycles_ite, CPU.fetch_byte_cycles, CPU.fetch_word_cycles, CPU.bus_read_cycles, CPU.bus_write_cycles, CPU.push_cycles, CPU.pop_cycles, CPU.ind_x_addr_cycles, CPU.ind_y_addr_cycles, CPU.update_zero_and_negative_flags_cycles, CPU.adc_core_cycles, CPU.sbc_core_cycles, CPU.cmp_core_cycles, CPU.bit_core_cycles, CPU.lsr_core_cycles, CPU.asl_core_cycles, CPU.rol_core_cycles, CPU.ror_core_cycles, CPU.rra_core_cycles, CPU.page_cross_extra_cycles]
  all_goals ((repeat' split) <;> omega)

/-- The isc_indirect_y handler strictly increases the cycle counter. -/
theorem cyc_isc_indirect_y {σ : Type} (B : BusIf σ) (c : CPU σ) : c.cycles < (CPU.isc_indirect_y B c).cycles := by
  simp only [CPU.isc_indirect_y, CPU.cycles_ite, CPU.fetch_byte_cycles, CPU.fetch_word_cycles, CPU.bus_read_cycles, CPU.bus_write_cycles, CPU.push_cycles, CPU.pop_cycles, CPU.ind_x_addr_cycles, CPU.ind_y_addr_cycles, CPU.update_zero_and_negative_flags_cycles, CPU.adc_core_cycles, CPU.sbc_core_cycles, CPU.cmp_core_cycles, CPU.bit_core_cycles, CPU.lsr_core_cycles, CPU.asl_core_cycles, CPU.rol_core_cycles, CPU.ror_core_cycles, CPU.rra_core_cycles, CPU.page_cross_extra_cycles]
  all_goals ((repeat' split) <;> omega)

/-- The sbc_zeropage_x handler strictly increases the cycle counter. -/
theorem cyc_sbc_zeropage_x {σ : Type} (B : BusIf σ) (c : CPU σ) : c.cycles < (CPU.sbc_zeropage_x B c).cycles := by
  simp only [CPU.sbc_zeropage_x, CPU.cycles_ite, CPU.fetch_byte_cycles, CPU.fetch_word_cycles, CPU.bus_read_cycles, CPU.bus_write_cycles, CPU.push_cycles, CPU.pop_cycles, CPU.ind_x_addr_cycles, CPU.ind_y_addr_cycles, CPU.update_zero_and_negative_flags_cycles, CPU.adc_core_cycles, CPU.sbc_core_cycles, CPU.cmp_core_cycles, CPU.bit_core_cycles, CPU.lsr_core_cycles, CPU.asl_core_cycles, CPU.rol_core_cycles, CPU.ror_core_cycles, CPU.rra_core_cycles, CPU.page_cross_extra_cycles]
  all_goals ((repeat' split) <;> omega)

/-- The inc_zeropage_x handler strictly increases the cycle counter. -/
theorem cyc_inc_zeropage_x {σ : Type} (B : BusIf σ) (c : CPU σ) : c.cycles < (CPU.inc_zeropage_x B c).cycles := by
  simp only [CPU.inc_zeropage_x, CPU.cycles_ite, CPU.fetch_byte_cycles, CPU.fetch_word_cycles, CPU.bus_read_cycles, CPU.bus_write_cycles, CPU.push_cycles, CPU.pop_cycles, CPU.ind_x_addr_cycles, CPU.ind_y_addr_cycles, CPU.update_zero_and_negative_flags_cycles, CPU.adc_core_cycles, CPU.sbc_core_cycles, CPU.cmp_core_cycles, CPU.bit_core_cycles, CPU.lsr_core_cycles, CPU.asl_core_cycles, CPU.rol_core_cycles, CPU.ror_core_cycles, CPU.rra_core_cycles, CPU.page_cross_extra_cycles]
  all_goals ((repeat' split) <;> omega)

/-- The isc_zeropage_x handler strictly increases the cycle counter. -/
theorem cyc_isc_zeropage_x {σ : Type} (B : BusIf σ) (c : CPU σ) : c.cycles < (CPU.isc_zeropage_x B c).cycles := by
  simp only [CPU.isc_zeropage_x, CPU.cycles_ite, CPU.fetch_byte_cycles, CPU.fetch_word_cycles, CPU.bus_read_cycles, CPU.bus_write_cycles, CPU.push_cycles, CPU.pop_cycles, CPU.ind_x_addr_cycles, CPU.ind_y_addr_cycles, CPU.update_zero_and_negative_flags_cycles, CPU.adc_core_cycles, CPU.sbc_core_cycles, CPU.cmp_core_cycles, CPU.bit_core_cycles, CPU.lsr_core_cycles, CPU.asl_core_cycles, CPU.rol_core_cycles, CPU.ror_core_cycles, CPU.rra_core_cycles, CPU.page_cross_extra_cycles]
  all_goals ((repeat' split) <;> omega)

/-- The sed handler strictly increases the cycle counter. -/
theorem cyc_sed {σ : Type} (c : CPU σ) : c.cycles < (CPU.sed c).cycles := by
  simp only [CPU.sed, CPU.cycles_ite, CPU.fetch_byte_cycles, CPU.fetch_word_cycles, CPU.bus_read_cycles, CPU.bus_write_cycles, CPU.push_cycles, CPU.pop_cycles, CPU.ind_x_addr_cycles, CPU.ind_y_addr_cycles, CPU.update_zero_and_negative_flags_cycles, CPU.adc_core_cycles, CPU.sbc_core_cycles, CPU.cmp_core_cycles, CPU.bit_core_cycles, CPU.lsr_core_cycles, CPU.asl_core_cycles, CPU.rol_core_cycles, CPU.ror_core_cycles, CPU.rra_core_cycles, CPU.page_cross_extra_cycles]
  all_goals ((repeat' split) <;> omega)

/-- The sbc_absolute_y handler strictly increases the cycle counter. -/
theorem cyc_sbc_absolute_y {σ : Type} (B : BusIf σ) (c : CPU σ) : c.cycles < (CPU.sbc_absolute_y B c).cycles := by
  simp only [CPU.sbc_absolute_y, CPU.cycles_ite, CPU.fetch_byte_cycles, CPU.fetch_word_cycles, CPU.bus_read_cycles, CPU.bus_write_cycles, CPU.push_cycles, CPU.pop_cycles, CPU.ind_x_addr_cycles, CPU.ind_y_addr_cycles, CPU.update_zero_and_negative_flags_cycles, CPU.adc_core_cycles, CPU.sbc_core_cycles, CPU.cmp_core_cycles, CPU.bit_core_cycles, CPU.lsr_core_cycles, CPU.asl_core_cycles, CPU.rol_core_cycles, CPU.ror_core_cycles, CPU.rra_core_cycles, CPU.page_cross_extra_cycles]
  all_goals ((repeat' split) <;> omega)

/-- The isc_absolute_y handler strictly increases the cycle counter. -/
theorem cyc_isc_absolute_y {σ : Type} (B : BusIf σ) (c : CPU σ) : c.cycles < (CPU.isc_absolute_y B c).cycles := by
  simp only [CPU.isc_absolute_y, CPU.cycles_ite, CPU.fetch_byte_cycles, CPU.fetch_word_cycles, CPU.bus_read_cycles, CPU.bus_write_cycles, CPU.push_cycles, CPU.pop_cycles, CPU.ind_x_addr_cycles, CPU.ind_y_addr_cycles, CPU.update_zero_and_negative_flags_cycles, CPU.adc_core_cycles, CPU.sbc_core_cycles, CPU.cmp_core_cycles, CPU.bit_core_cycles, CPU.lsr_core_cycles, CPU.asl_core_cycles, CPU.rol_core_cycles, CPU.ror_core_cycles, CPU.rra_core_cycles, CPU.page_cross_extra_cycles]
  all_goals ((repeat' split) <;> omega)

/-- The sbc_absolute_x handler strictly increases the cycle counter. -/
theorem cyc_sbc_absolute_x {σ : Type} (B : BusIf σ) (c : CPU σ) : c.cycles < (CPU.sbc_absolute_x B c).cycles := by
  simp only [CPU.sbc_absolute_x, CPU.cycles_ite, CPU.fetch_byte_cycles, CPU.fetch_word_cycles, CPU.bus_read_cycles, CPU.bus_write_cycles, CPU.push_cycles, CPU.pop_cycles, CPU.ind_x_addr_cycles, CPU.ind_y_addr_cycles, CPU.update_zero_and_negative_flags_cycles, CPU.adc_core_cycles, CPU.sbc_core_cycles, CPU.cmp_core_cycles, CPU.bit_core_cycles, CPU.lsr_core_cycles, CPU.asl_core_cycles, CPU.rol_core_cycles, CPU.ror_core_cycles, CPU.rra_core_cycles, CPU.page_cross_extra_cycles]
  all_goals ((repeat' split) <;> omega)

/-- The inc_absolute_x handler strictly increases the cycle counter. -/
theorem cyc_inc_absolute_x {σ : Type} (B : BusIf σ) (c : CPU σ) : c.cycles < (CPU.inc_absolute_x B c).cycles := by
  simp only [CPU.inc_absolute_x, CPU.cycles_ite, CPU.fetch_byte_cycles, CPU.fetch_word_cycles, CPU.bus_read_cycles, CPU.bus_write_cycles, CPU.push_cycles, CPU.pop_cycles, CPU.ind_x_addr_cycles, CPU.ind_y_addr_cycles, CPU.update_zero_and_negative_flags_cycles, CPU.adc_core_cycles, CPU.sbc_core_cycles, CPU.cmp_core_cycles, CPU.bit_core_cycles, CPU.lsr_core_cycles, CPU.asl_core_cycles, CPU.rol_core_cycles, CPU.ror_core_cycles, CPU.rra_core_cycles, CPU.page_cross_extra_cycles]
  all_goals ((repeat' split) <;> omega)

/-- The isc_absolute_x handler strictly increases the cycle counter. -/
theorem cyc_isc_absolute_x {σ : Type} (B : BusIf σ) (c : CPU σ) : c.cycles < (CPU.isc_absolute_x B c).cycles := by
  simp only [CPU.isc_absolute_x, CPU.cycles_ite, CPU.fetch_byte_cycles, CPU.fetch_word_cycles, CPU.bus_read_cycles, CPU.bus_write_cycles, CPU.push_cycles, CPU.pop_cycles, CPU.ind_x_addr_cycles, CPU.ind_y_addr_cycles, CPU.update_zero_and_negative_flags_cycles, CPU.adc_core_cycles, CPU.sbc_core_cycles, CPU.cmp_core_cycles, CPU.bit_core_cycles, CPU.lsr_core_cycles, CPU.asl_core_cycles, CPU.rol_core_cycles, CPU.ror_core_cycles, CPU.rra_core_cycles, CPU.page_cross_extra_cycles]
  all_goals ((repeat' split) <;> omega)

/-- Cycle strict increase for non-JAM opcodes $00–$0F. -/
theorem exec_cyc_0 {σ : Type} (B : BusIf σ) (op : Nat) (c c' : CPU σ)
    (hlo : 0x00 ≤ op) (hhi : op < 0x10)
    (hnj : op ∉ jamOpcodes) (h : CPU.execute_opcode B op c = some c') :
    c.cycles < c'.cycles := by
  interval_cases op
  · exact Option.some.inj ((exec_eq_x00 B c).symm.trans h) ▸ cyc_brk B c
  · exact Option.some.inj ((exec_eq_x01 B c).symm.trans h) ▸ cyc_ora_indirect_x B c
  · exact absurd (by decide) hnj
  · exact Option.some.inj ((exec_eq_x03 B c).symm.trans h) ▸ cyc_slo_indirect_x B c
  · exact Option.some.inj ((exec_eq_x04 B c).symm.trans h) ▸ cyc_nop_zeropage B c
  · exact Option.some.inj ((exec_eq_x05 B c).symm.trans h) ▸ cyc_ora_zeropage B c
  · exact Option.some.inj ((exec_eq_x06 B c).symm.trans h) ▸ cyc_asl_zeropage B c
  · exact Option.some.inj ((exec_eq_x07 B c).symm.trans h) ▸ cyc_slo_zeropage B c
  · exact Option.some.inj ((exec_eq_x08 B c).symm.trans h) ▸ cyc_php B c
  · exact Option.some.inj ((exec_eq_x09 B c).symm.trans h) ▸ cyc_ora_immediate B c
  · exact Option.some.inj ((exec_eq_x0A B c).symm.trans h) ▸ cyc_asl_accumulator c
  · exact Option.noConfusion ((exec_eq_x0B B c).symm.trans h)
  · exact Option.some.inj ((exec_eq_x0C B c).symm.trans h) ▸ cyc_nop_absolute B c
  · exact Option.some.inj ((exec_eq_x0D B c).symm.trans h) ▸ cyc_ora_absolute B c
  · exact Option.some.inj ((exec_eq_x0E B c).symm.trans h) ▸ cyc_asl_absolute B c
  · exact Option.some.inj ((exec_eq_x0F B c).symm.trans h) ▸ cyc_slo_absolute B c

/-- Cycle strict increase for non-JAM opcodes $10–$1F. -/
theorem exec_cyc_1 {σ : Type} (B : BusIf σ) (op : Nat) (c c' : CPU σ)
    (hlo : 0x10 ≤ op) (hhi : op < 0x20)
    (hnj : op ∉ jamOpcodes) (h : CPU.execute_opcode B op c = some c') :
    c.cycles < c'.cycles := by
  interval_cases op
  · exact Option.some.inj ((exec_eq_x10 B c).symm.trans h) ▸ cyc_bpl B c
  · exact Option.some.inj ((exec_eq_x11 B c).symm.trans h) ▸ cyc_ora_indirect_y B c
  · exact absurd (by decide) hnj
  · exact Option.some.inj ((exec_eq_x13 B c).symm.trans h) ▸ cyc_slo_indirect_y B c
  · exact Option.some.inj ((exec_eq_x14 B c).symm.trans h) ▸ cyc_nop_zeropage_x B c
  · exact Option.some.inj ((exec_eq_x15 B c).symm.trans h) ▸ cyc_ora_zeropage_x B c
  · exact Option.some.inj ((exec_eq_x16 B c).symm.trans h) ▸ cyc_asl_zeropage_x B c
  · exact Option.some.inj ((exec_eq_x17 B c).symm.trans h) ▸ cyc_slo_zeropage_x B c
  · exact Option.some.inj ((exec_eq_x18 B c).symm.trans h) ▸ cyc_clc c
  · exact Option.some.inj ((exec_eq_x19 B c).symm.trans h) ▸ cyc_ora_absolute_y B c
  · exact Option.some.inj ((exec_eq_x1A B c).symm.trans h) ▸ cyc_nop_implied c
  · exact Option.some.inj ((exec_eq_x1B B c).symm.trans h) ▸ cyc_slo_absolute_y B c
  · exact Option.some.inj ((exec_eq_x1C B c).symm.trans h) ▸ cyc_nop_absolute_x B c
  · exact Option.some.inj ((exec_eq_x1D B c).symm.trans h) ▸ cyc_ora_absolute_x B c
  · exact Option.some.inj ((exec_eq_x1E B c).symm.trans h) ▸ cyc_asl_absolute_x B c
  · exact Option.some.inj ((exec_eq_x1F B c).symm.trans h) ▸ cyc_slo_absolute_x B c

/-- Cycle strict increase for non-JAM opcodes $20–$2F. -/
theorem exec_cyc_2 {σ : Type} (B : BusIf σ) (op : Nat) (c c' : CPU σ)
    (hlo : 0x20 ≤ op) (hhi : op < 0x30)
    (hnj : op ∉ jamOpcodes) (h : CPU.execute_opcode B op c = some c') :
    c.cycles < c'.cycles := by
  interval_cases op
  · exact Option.some.inj ((exec_eq_x20 B c).symm.trans h) ▸ cyc_jsr B c
  · exact Option.some.inj ((exec_eq_x21 B c).symm.trans h) ▸ cyc_and_indirect_x B c
  · exact absurd (by decide) hnj
  · exact Option.some.inj ((exec_eq_x23 B c).symm.trans h) ▸ cyc_rla_indirect_x B c
  · exact Option.some.inj ((exec_eq_x24 B c).symm.trans h) ▸ cyc_bit_zeropage B c
  · exact Option.some.inj ((exec_eq_x25 B c).symm.trans h) ▸ cyc_and_zeropage B c
  · exact Option.some.inj ((exec_eq_x26 B c).symm.trans h) ▸ cyc_rol_zeropage B c
  · exact Option.some.inj ((exec_eq_x27 B c).symm.trans h) ▸ cyc_rla_zeropage B c
  · exact Option.some.inj ((exec_eq_x28 B c).symm.trans h) ▸ cyc_plp B c
  · exact Option.some.inj ((exec_eq_x29 B c).symm.trans h) ▸ cyc_and_immediate B c
  · exact Option.some.inj ((exec_eq_x2A B c).symm.trans h) ▸ cyc_rol_accumulator c
  · exact Option.noConfusion ((exec_eq_x2B B c).symm.trans h)
  · exact Option.some.inj ((exec_eq_x2C B c).symm.trans h) ▸ cyc_bit_absolute B c
  · exact Option.some.inj ((exec_eq_x2D B c).symm.trans h) ▸ cyc_and_absolute B c
  · exact Option.some.inj ((exec_eq_x2E B c).symm.trans h) ▸ cyc_rol_absolute B c
  · exact Option.some.inj ((exec_eq_x2F B c).symm.trans h) ▸ cyc_rla_absolute B c

/-- Cycle strict increase for non-JAM opcodes $30–$3F. -/
theorem exec_cyc_3 {σ : Type} (B : BusIf σ) (op : Nat) (c c' : CPU σ)
    (hlo : 0x30 ≤ op) (hhi : op < 0x40)
    (hnj : op ∉ jamOpcodes) (h : CPU.execute_opcode B op c = some c') :
    c.cycles < c'.cycles := by
  interval_cases op
  · exact Option.some.inj ((exec_eq_x30 B c).symm.trans h) ▸ cyc_bmi B c
  · exact Option.some.inj ((exec_eq_x31 B c).symm.trans h) ▸ cyc_and_indirect_y B c
  · exact absurd (by decide) hnj
  · exact Option.some.inj ((exec_eq_x33 B c).symm.trans h) ▸ cyc_rla_indirect_y B c
  · exact Option.some.inj ((exec_eq_x34 B c).symm.trans h) ▸ cyc_nop_zeropage_x B c
  · exact Option.some.inj ((exec_eq_x35 B c).symm.trans h) ▸ cyc_and_zeropage_x B c
  · exact Option.some.inj ((exec_eq_x36 B c).symm.trans h) ▸ cyc_rol_zeropage_x B c
  · exact Option.some.inj ((exec_eq_x37 B c).symm.trans h) ▸ cyc_rla_zeropage_x B c
  · exact Option.some.inj ((exec_eq_x38 B c).symm.trans h) ▸ cyc_sec c
  · exact Option.some.inj ((exec_eq_x39 B c).symm.trans h) ▸ cyc_and_absolute_y B c
  · exact Option.some.inj ((exec_eq_x3A B c).symm.trans h) ▸ cyc_nop_implied c
  · exact Option.some.inj ((exec_eq_x3B B c).symm.trans h) ▸ cyc_rla_absolute_y B c
  · exact Option.some.inj ((exec_eq_x3C B c).symm.trans h) ▸ cyc_nop_absolute_x B c
  · exact Option.some.inj ((exec_eq_x3D B c).symm.trans h) ▸ cyc_and_absolute_x B c
  · exact Option.some.inj ((exec_eq_x3E B c).symm.trans h) ▸ cyc_rol_absolute_x B c
  · exact Option.some.inj ((exec_eq_x3F B c).symm.trans h) ▸ cyc_rla_absolute_x B c

/-- Cycle strict increase for non-JAM opcodes $40–$4F. -/
theorem exec_cyc_4 {σ : Type} (B : BusIf σ) (op : Nat) (c c' : CPU σ)
    (hlo : 0x40 ≤ op) (hhi : op < 0x50)
    (hnj : op ∉ jamOpcodes) (h : CPU.execute_opcode B op c = some c') :
    c.cycles < c'.cycles := by
  interval_cases op
  · exact Option.some.inj ((exec_eq_x40 B c).symm.trans h) ▸ cyc_rti B c
  · exact Option.some.inj ((exec_eq_x41 B c).symm.trans h) ▸ cyc_eor_indirect_x B c
  · exact absurd (by decide) hnj
  · exact Option.some.inj ((exec_eq_x43 B c).symm.trans h) ▸ cyc_sre_indirect_x B c
  · exact Option.some.inj ((exec_eq_x44 B c).symm.trans h) ▸ cyc_nop_zeropage B c
  · exact Option.some.inj ((exec_eq_x45 B c).symm.trans h) ▸ cyc_eor_zeropage B c
  · exact Option.some.inj ((exec_eq_x46 B c).symm.trans h) ▸ cyc_lsr_zeropage B c
  · exact Option.some.inj ((exec_eq_x47 B c).symm.trans h) ▸ cyc_sre_zeropage B c
  · exact Option.some.inj ((exec_eq_x48 B c).symm.trans h) ▸ cyc_pha B c
  · exact Option.some.inj ((exec_eq_x49 B c).symm.trans h) ▸ cyc_eor_immediate B c
  · exact Option.some.inj ((exec_eq_x4A B c).symm.trans h) ▸ cyc_lsr_accumulator c
  · exact Option.noConfusion ((exec_eq_x4B B c).symm.trans h)
  · exact Option.some.inj ((exec_eq_x4C B c).symm.trans h) ▸ cyc_jmp_absolute B c
  · exact Option.some.inj ((exec_eq_x4D B c).symm.trans h) ▸ cyc_eor_absolute B c
  · exact Option.some.inj ((exec_eq_x4E B c).symm.trans h) ▸ cyc_lsr_absolute B c
  · exact Option.some.inj ((exec_eq_x4F B c).symm.trans h) ▸ cyc_sre_absolute B c

/-- Cycle strict increase for non-JAM opcodes $50–$5F. -/
theorem exec_cyc_5 {σ : Type} (B : BusIf σ) (op : Nat) (c c' : CPU σ)
    (hlo : 0x50 ≤ op) (hhi : op < 0x60)
    (hnj : op ∉ jamOpcodes) (h : CPU.execute_opcode B op c = some c') :
    c.cycles < c'.cycles := by
  interval_cases op
  · exact Option.some.inj ((exec_eq_x50 B c).symm.trans h) ▸ cyc_bvc B c
  · exact Option.some.inj ((exec_eq_x51 B c).symm.trans h) ▸ cyc_eor_indirect_y B c
  · exact absurd (by decide) hnj
  · exact Option.some.inj ((exec_eq_x53 B c).symm.trans h) ▸ cyc_sre_indirect_y B c
  · exact Option.some.inj ((exec_eq_x54 B c).symm.trans h) ▸ cyc_nop_zeropage_x B c
  · exact Option.some.inj ((exec_eq_x55 B c).symm.trans h) ▸ cyc_eor_zeropage_x B c
  · exact Option.some.inj ((exec_eq_x56 B c).symm.trans h) ▸ cyc_lsr_zeropage_x B c
  · exact Option.some.inj ((exec_eq_x57 B c).symm.trans h) ▸ cyc_sre_zeropage_x B c
  · exact Option.some.inj ((exec_eq_x58 B c).symm.trans h) ▸ cyc_cli c
  · exact Option.some.inj ((exec_eq_x59 B c).symm.trans h) ▸ cyc_eor_absolute_y B c
  · exact Option.some.inj ((exec_eq_x5A B c).symm.trans h) ▸ cyc_nop_implied c
  · exact Option.some.inj ((exec_eq_x5B B c).symm.trans h) ▸ cyc_sre_absolute_y B c
  · exact Option.some.inj ((exec_eq_x5C B c).symm.trans h) ▸ cyc_nop_absolute_x B c
  · exact Option.some.inj ((exec_eq_x5D B c).symm.trans h) ▸ cyc_eor_absolute_x B c
  · exact Option.some.inj ((exec_eq_x5E B c).symm.trans h) ▸ cyc_lsr_absolute_x B c
  · exact Option.some.inj ((exec_eq_x5F B c).symm.trans h) ▸ cyc_sre_absolute_x B c

/-- Cycle strict increase for non-JAM opcodes $60–$6F. -/
theorem exec_cyc_6 {σ : Type} (B : BusIf σ) (op : Nat) (c c' : CPU σ)
    (hlo : 0x60 ≤ op) (hhi : op < 0x70)
    (hnj : op ∉ jamOpcodes) (h : CPU.execute_opcode B op c = some c') :
    c.cycles < c'.cycles := by
  interval_cases op
  · exact Option.some.inj ((exec_eq_x60 B c).symm.trans h) ▸ cyc_rts B c
  · exact Option.some.inj ((exec_eq_x61 B c).symm.trans h) ▸ cyc_adc_indirect_x B c
  · exact absurd (by decide) hnj
  · exact Option.some.inj ((exec_eq_x63 B c).symm.trans h) ▸ cyc_rra_indirect_x B c
  · exact Option.some.inj ((exec_eq_x64 B c).symm.trans h) ▸ cyc_nop_zeropage B c
  · exact Option.some.inj ((exec_eq_x65 B c).symm.trans h) ▸ cyc_adc_zeropage B c
  · exact Option.some.inj ((exec_eq_x66 B c).symm.trans h) ▸ cyc_ror_zeropage B c
  · exact Option.some.inj ((exec_eq_x67 B c).symm.trans h) ▸ cyc_rra_zeropage B c
  · exact Option.some.inj ((exec_eq_x68 B c).symm.trans h) ▸ cyc_pla B c
  · exact Option.some.inj ((exec_eq_x69 B c).symm.trans h) ▸ cyc_adc_immediate B c
  · exact Option.some.inj ((exec_eq_x6A B c).symm.trans h) ▸ cyc_ror_accumulator c
  · exact Option.noConfusion ((exec_eq_x6B B c).symm.trans h)
  · exact Option.some.inj ((exec_eq_x6C B c).symm.trans h) ▸ cyc_jmp_indirect B c
  · exact Option.some.inj ((exec_eq_x6D B c).symm.trans h) ▸ cyc_adc_absolute B c
  · exact Option.some.inj ((exec_eq_x6E B c).symm.trans h) ▸ cyc_ror_absolute B c
  · exact Option.some.inj ((exec_eq_x6F B c).symm.trans h) ▸ cyc_rra_absolute B c

/-- Cycle strict increase for non-JAM opcodes $70–$7F. -/
theorem exec_cyc_7 {σ : Type} (B : BusIf σ) (op : Nat) (c c' : CPU σ)
    (hlo : 0x70 ≤ op) (hhi : op < 0x80)
    (hnj : op ∉ jamOpcodes) (h : CPU.execute_opcode B op c = some c') :
    c.cycles < c'.cycles := by
  interval_cases op
  · exact Option.some.inj ((exec_eq_x70 B c).symm.trans h) ▸ cyc_bvs B c
  · exact Option.some.inj ((exec_eq_x71 B c).symm.trans h) ▸ cyc_adc_indirect_y B c
  · exact absurd (by decide) hnj
  · exact Option.some.inj ((exec_eq_x73 B c).symm.trans h) ▸ cyc_rra_indirect_y B c
  · exact Option.some.inj ((exec_eq_x74 B c).symm.trans h) ▸ cyc_nop_zeropage_x B c
  · exact Option.some.inj ((exec_eq_x75 B c).symm.trans h) ▸ cyc_adc_zeropage_x B c
  · exact Option.some.inj ((exec_eq_x76 B c).symm.trans h) ▸ cyc_ror_zeropage_x B c
  · exact Option.some.inj ((exec_eq_x77 B c).symm.trans h) ▸ cyc_rra_zeropage_x B c
  · exact Option.some.inj ((exec_eq_x78 B c).symm.trans h) ▸ cyc_sei c
  · exact Option.some.inj ((exec_eq_x79 B c).symm.trans h) ▸ cyc_adc_absolute_y B c
  · exact Option.some.inj ((exec_eq_x7A B c).symm.trans h) ▸ cyc_nop_implied c
  · exact Option.some.inj ((exec_eq_x7B B c).symm.trans h) ▸ cyc_rra_absolute_y B c
  · exact Option.some.inj ((exec_eq_x7C B c).symm.trans h) ▸ cyc_nop_absolute_x B c
  · exact Option.some.inj ((exec_eq_x7D B c).symm.trans h) ▸ cyc_adc_absolute_x B c
  · exact Option.some.inj ((exec_eq_x7E B c).symm.trans h) ▸ cyc_ror_absolute_x B c
  · exact Option.some.inj ((exec_eq_x7F B c).symm.trans h) ▸ cyc_rra_absolute_x B c

/-- Cycle strict increase for non-JAM opcodes $80–$8F. -/
theorem exec_cyc_8 {σ : Type} (B : BusIf σ) (op : Nat) (c c' : CPU σ)
    (hlo : 0x80 ≤ op) (hhi : op < 0x90)
    (hnj : op ∉ jamOpcodes) (h : CPU.execute_opcode B op c = some c') :
    c.cycles < c'.cycles := by
  interval_cases op
  · exact Option.some.inj ((exec_eq_x80 B c).symm.trans h) ▸ cyc_nop_immediate B c
  · exact Option.some.inj ((exec_eq_x81 B c).symm.trans h) ▸ cyc_sta_indirect_x B c
  · exact Option.some.inj ((exec_eq_x82 B c).symm.trans h) ▸ cyc_nop_immediate B c
  · exact Option.some.inj ((exec_eq_x83 B c).symm.trans h) ▸ cyc_sax_indirect_x B c
  · exact Option.some.inj ((exec_eq_x84 B c).symm.trans h) ▸ cyc_sty_zeropage B c
  · exact Option.some.inj ((exec_eq_x85 B c).symm.trans h) ▸ cyc_sta_zero_page B c
  · exact Option.some.inj ((exec_eq_x86 B c).symm.trans h) ▸ cyc_stx_zero_page B c
  · exact Option.some.inj ((exec_eq_x87 B c).symm.trans h) ▸ cyc_sax_zeropage B c
  · exact Option.some.inj ((exec_eq_x88 B c).symm.trans h) ▸ cyc_dey c
  · exact Option.some.inj ((exec_eq_x89 B c).symm.trans h) ▸ cyc_nop_immediate B c
  · exact Option.some.inj ((exec_eq_x8A B c).symm.trans h) ▸ cyc_txa c
  · exact Option.noConfusion ((exec_eq_x8B B c).symm.trans h)
  · exact Option.some.inj ((exec_eq_x8C B c).symm.trans h) ▸ cyc_sty_absolute B c
  · exact Option.some.inj ((exec_eq_x8D B c).symm.trans h) ▸ cyc_sta_absolute B c
  · exact Option.some.inj ((exec_eq_x8E B c).symm.trans h) ▸ cyc_stx_absolute B c
  · exact Option.some.inj ((exec_eq_x8F B c).symm.trans h) ▸ cyc_sax_absolute B c

/-- Cycle strict increase for non-JAM opcodes $90–$9F. -/
theorem exec_cyc_9 {σ : Type} (B : BusIf σ) (op : Nat) (c c' : CPU σ)
    (hlo : 0x90 ≤ op) (hhi : op < 0xA0)
    (hnj : op ∉ jamOpcodes) (h : CPU.execute_opcode B op c = some c') :
    c.cycles < c'.cycles := by
  interval_cases op
  · exact Option.some.inj ((exec_eq_x90 B c).symm.trans h) ▸ cyc_bcc B c
  · exact Option.some.inj ((exec_eq_x91 B c).symm.trans h) ▸ cyc_sta_indirect_y B c
  · exact absurd (by decide) hnj
  · exact Option.noConfusion ((exec_eq_x93 B c).symm.trans h)
  · exact Option.some.inj ((exec_eq_x94 B c).symm.trans h) ▸ cyc_sty_zeropage_x B c
  · exact Option.some.inj ((exec_eq_x95 B c).symm.trans h) ▸ cyc_sta_zeropage_x B c
  · exact Option.some.inj ((exec_eq_x96 B c).symm.trans h) ▸ cyc_stx_zeropage_y B c
  · exact Option.some.inj ((exec_eq_x97 B c).symm.trans h) ▸ cyc_sax_zeropage_y B c
  · exact Option.some.inj ((exec_eq_x98 B c).symm.trans h) ▸ cyc_tya c
  · exact Option.some.inj ((exec_eq_x99 B c).symm.trans h) ▸ cyc_sta_absolute_y B c
  · exact Option.some.inj ((exec_eq_x9A B c).symm.trans h) ▸ cyc_txs c
  · exact Option.noConfusion ((exec_eq_x9B B c).symm.trans h)
  · exact Option.noConfusion ((exec_eq_x9C B c).symm.trans h)
  · exact Option.some.inj ((exec_eq_x9D B c).symm.trans h) ▸ cyc_sta_absolute_x B c
  · exact Option.noConfusion ((exec_eq_x9E B c).symm.trans h)
  · exact Option.noConfusion ((exec_eq_x9F B c).symm.trans h)

/-- Cycle strict increase for non-JAM opcodes $A0–$AF. -/
theorem exec_cyc_A {σ : Type} (B : BusIf σ) (op : Nat) (c c' : CPU σ)
    (hlo : 0xA0 ≤ op) (hhi : op < 0xB0)
    (hnj : op ∉ jamOpcodes) (h : CPU.execute_opcode B op c = some c') :
    c.cycles < c'.cycles := by
  interval_cases op
  · exact Option.some.inj ((exec_eq_xA0 B c).symm.trans h) ▸ cyc_ldy_immediate B c
  · exact Option.some.inj ((exec_eq_xA1 B c).symm.trans h) ▸ cyc_lda_indirect_x B c
  · exact Option.some.inj ((exec_eq_xA2 B c).symm.trans h) ▸ cyc_ldx_immediate B c
  · exact Option.some.inj ((exec_eq_xA3 B c).symm.trans h) ▸ cyc_lax_indirect_x B c
  · exact Option.some.inj ((exec_eq_xA4 B c).symm.trans h) ▸ cyc_ldy_zeropage B c
  · exact Option.some.inj ((exec_eq_xA5 B c).symm.trans h) ▸ cyc_lda_zero_page B c
  · exact Option.some.inj ((exec_eq_xA6 B c).symm.trans h) ▸ cyc_ldx_zeropage B c
  · exact Option.some.inj ((exec_eq_xA7 B c).symm.trans h) ▸ cyc_lax_zeropage B c
  · exact Option.some.inj ((exec_eq_xA8 B c).symm.trans h) ▸ cyc_tay c
  · exact Option.some.inj ((exec_eq_xA9 B c).symm.trans h) ▸ cyc_lda_immediate B c
  · exact Option.some.inj ((exec_eq_xAA B c).symm.trans h) ▸ cyc_tax c
  · exact Option.noConfusion ((exec_eq_xAB B c).symm.trans h)
  · exact Option.some.inj ((exec_eq_xAC B c).symm.trans h) ▸ cyc_ldy_absolute B c
  · exact Option.some.inj ((exec_eq_xAD B c).symm.trans h) ▸ cyc_lda_absolute B c
  · exact Option.some.inj ((exec_eq_xAE B c).symm.trans h) ▸ cyc_ldx_absolute B c
  · exact Option.some.inj ((exec_eq_xAF B c).symm.trans h) ▸ cyc_lax_absolute B c

/-- Cycle strict increase for non-JAM opcodes $B0–$BF. -/
theorem exec_cyc_B {σ : Type} (B : BusIf σ) (op : Nat) (c c' : CPU σ)
    (hlo : 0xB0 ≤ op) (hhi : op < 0xC0)
    (hnj : op ∉ jamOpcodes) (h : CPU.execute_opcode B op c = some c') :
    c.cycles < c'.cycles := by
  interval_cases op
  · exact Option.some.inj ((exec_eq_xB0 B c).symm.trans h) ▸ cyc_bcs B c
  · exact Option.some.inj ((exec_eq_xB1 B c).symm.trans h) ▸ cyc_lda_indirect_y B c
  · exact absurd (by decide) hnj
  · exact Option.some.inj ((exec_eq_xB3 B c).symm.trans h) ▸ cyc_lax_indirect_y B c
  · exact Option.some.inj ((exec_eq_xB4 B c).symm.trans h) ▸ cyc_ldy_zeropage_x B c
  · exact Option.some.inj ((exec_eq_xB5 B c).symm.trans h) ▸ cyc_lda_zeropage_x B c
  · exact Option.some.inj ((exec_eq_xB6 B c).symm.trans h) ▸ cyc_ldx_zeropage_y B c
  · exact Option.some.inj ((exec_eq_xB7 B c).symm.trans h) ▸ cyc_lax_zeropage_y B c
  · exact Option.some.inj ((exec_eq_xB8 B c).symm.trans h) ▸ cyc_clv c
  · exact Option.some.inj ((exec_eq_xB9 B c).symm.trans h) ▸ cyc_lda_absolute_y B c
  · exact Option.some.inj ((exec_eq_xBA B c).symm.trans h) ▸ cyc_tsx c
  · exact Option.noConfusion ((exec_eq_xBB B c).symm.trans h)
  · exact Option.some.inj ((exec_eq_xBC B c).symm.trans h) ▸ cyc_ldy_absolute_x B c
  · exact Option.some.inj ((exec_eq_xBD B c).symm.trans h) ▸ cyc_lda_absolute_x B c
  · exact Option.some.inj ((exec_eq_xBE B c).symm.trans h) ▸ cyc_ldx_absolute_y B c
  · exact Option.some.inj ((exec_eq_xBF B c).symm.trans h) ▸ cyc_lax_absolute_y B c

/-- Cycle strict increase for non-JAM opcodes $C0–$CF. -/
theorem exec_cyc_C {σ : Type} (B : BusIf σ) (op : Nat) (c c' : CPU σ)
    (hlo : 0xC0 ≤ op) (hhi : op < 0xD0)
    (hnj : op ∉ jamOpcodes) (h : CPU.execute_opcode B op c = some c') :
    c.cycles < c'.cycles := by
  interval_cases op
  · exact Option.some.inj ((exec_eq_xC0 B c).symm.trans h) ▸ cyc_cpy_immediate B c
  · exact Option.some.inj ((exec_eq_xC1 B c).symm.trans h) ▸ cyc_cmp_indirect_x B c
  · exact Option.some.inj ((exec_eq_xC2 B c).symm.trans h) ▸ cyc_nop_immediate B c
  · exact Option.some.inj ((exec_eq_xC3 B c).symm.trans h) ▸ cyc_dcp_indirect_x B c
  · exact Option.some.inj ((exec_eq_xC4 B c).symm.trans h) ▸ cyc_cpy_zeropage B c
  · exact Option.some.inj ((exec_eq_xC5 B c).symm.trans h) ▸ cyc_cmp_zeropage B c
  · exact Option.some.inj ((exec_eq_xC6 B c).symm.trans h) ▸ cyc_dec_zeropage B c
  · exact Option.some.inj ((exec_eq_xC7 B c).symm.trans h) ▸ cyc_dcp_zeropage B c
  · exact Option.some.inj ((exec_eq_xC8 B c).symm.trans h) ▸ cyc_iny c
  · exact Option.some.inj ((exec_eq_xC9 B c).symm.trans h) ▸ cyc_cmp_immediate B c
  · exact Option.some.inj ((exec_eq_xCA B c).symm.trans h) ▸ cyc_dex c
  · exact Option.noConfusion ((exec_eq_xCB B c).symm.trans h)
  · exact Option.some.inj ((exec_eq_xCC B c).symm.trans h) ▸ cyc_cpy_absolute B c
  · exact Option.some.inj ((exec_eq_xCD B c).symm.trans h) ▸ cyc_cmp_absolute B c
  · exact Option.some.inj ((exec_eq_xCE B c).symm.trans h) ▸ cyc_dec_absolute B c
  · exact Option.some.inj ((exec_eq_xCF B c).symm.trans h) ▸ cyc_dcp_absolute B c

/-- Cycle strict increase for non-JAM opcodes $D0–$DF. -/
theorem exec_cyc_D {σ : Type} (B : BusIf σ) (op : Nat) (c c' : CPU σ)
    (hlo : 0xD0 ≤ op) (hhi : op < 0xE0)
    (hnj : op ∉ jamOpcodes) (h : CPU.execute_opcode B op c = some c') :
    c.cycles < c'.cycles := by
  interval_cases op
  · exact Option.some.inj ((exec_eq_xD0 B c).symm.trans h) ▸ cyc_bne B c
  · exact Option.some.inj ((exec_eq_xD1 B c).symm.trans h) ▸ cyc_cmp_indirect_y B c
  · exact absurd (by decide) hnj
  · exact Option.some.inj ((exec_eq_xD3 B c).symm.trans h) ▸ cyc_dcp_indirect_y B c
  · exact Option.some.inj ((exec_eq_xD4 B c).symm.trans h) ▸ cyc_nop_zeropage_x B c
  · exact Option.some.inj ((exec_eq_xD5 B c).symm.trans h) ▸ cyc_cmp_zeropage_x B c
  · exact Option.some.inj ((exec_eq_xD6 B c).symm.trans h) ▸ cyc_dec_zeropage_x B c
  · exact Option.some.inj ((exec_eq_xD7 B c).symm.trans h) ▸ cyc_dcp_zeropage_x B c
  · exact Option.some.inj ((exec_eq_xD8 B c).symm.trans h) ▸ cyc_cld c
  · exact Option.some.inj ((exec_eq_xD9 B c).symm.trans h) ▸ cyc_cmp_absolute_y B c
  · exact Option.some.inj ((exec_eq_xDA B c).symm.trans h) ▸ cyc_nop_implied c
  · exact Option.some.inj ((exec_eq_xDB B c).symm.trans h) ▸ cyc_dcp_absolute_y B c
  · exact Option.some.inj ((exec_eq_xDC B c).symm.trans h) ▸ cyc_nop_absolute_x B c
  · exact Option.some.inj ((exec_eq_xDD B c).symm.trans h) ▸ cyc_cmp_absolute_x B c
  · exact Option.some.inj ((exec_eq_xDE B c).symm.trans h) ▸ cyc_dec_absolute_x B c
  · exact Option.some.inj ((exec_eq_xDF B c).symm.trans h) ▸ cyc_dcp_absolute_x B c

/-- Cycle strict increase for non-JAM opcodes $E0–$EF. -/
theorem exec_cyc_E {σ : Type} (B : BusIf σ) (op : Nat) (c c' : CPU σ)
    (hlo : 0xE0 ≤ op) (hhi : op < 0xF0)
    (hnj : op ∉ jamOpcodes) (h : CPU.execute_opcode B op c = some c') :
    c.cycles < c'.cycles := by
  interval_cases op
  · exact Option.some.inj ((exec_eq_xE0 B c).symm.trans h) ▸ cyc_cpx_immediate B c
  · exact Option.some.inj ((exec_eq_xE1 B c).symm.trans h) ▸ cyc_sbc_indirect_x B c
  · exact Option.some.inj ((exec_eq_xE2 B c).symm.trans h) ▸ cyc_nop_immediate B c
  · exact Option.some.inj ((exec_eq_xE3 B c).symm.trans h) ▸ cyc_isc_indirect_x B c
  · exact Option.some.inj ((exec_eq_xE4 B c).symm.trans h) ▸ cyc_cpx_zeropage B c
  · exact Option.some.inj ((exec_eq_xE5 B c).symm.trans h) ▸ cyc_sbc_zeropage B c
  · exact Option.some.inj ((exec_eq_xE6 B c).symm.trans h) ▸ cyc_inc_zeropage B c
  · exact Option.some.inj ((exec_eq_xE7 B c).symm.trans h) ▸ cyc_isc_zeropage B c
  · exact Option.some.inj ((exec_eq_xE8 B c).symm.trans h) ▸ cyc_inx c
  · exact Option.some.inj ((exec_eq_xE9 B c).symm.trans h) ▸ cyc_sbc_immediate B c
  · exact Option.some.inj ((exec_eq_xEA B c).symm.trans h) ▸ cyc_nop c
  · exact Option.some.inj ((exec_eq_xEB B c).symm.trans h) ▸ cyc_sbc_immediate B c
  · exact Option.some.inj ((exec_eq_xEC B c).symm.trans h) ▸ cyc_cpx_absolute B c
  · exact Option.some.inj ((exec_eq_xED B c).symm.trans h) ▸ cyc_sbc_absolute B c
  · exact Option.some.inj ((exec_eq_xEE B c).symm.trans h) ▸ cyc_inc_absolute B c
  · exact Option.some.inj ((exec_eq_xEF B c).symm.trans h) ▸ cyc_isc_absolute B c

/-- Cycle strict increase for non-JAM opcodes $F0–$FF. -/
theorem exec_cyc_F {σ : Type} (B : BusIf σ) (op : Nat) (c c' : CPU σ)
    (hlo : 0xF0 ≤ op) (hhi : op < 0x100)
    (hnj : op ∉ jamOpcodes) (h : CPU.execute_opcode B op c = some c') :
    c.cycles < c'.cycles := by
  interval_cases op
  · exact Option.some.inj ((exec_eq_xF0 B c).symm.trans h) ▸ cyc_beq B c
  · exact Option.some.inj ((exec_eq_xF1 B c).symm.trans h) ▸ cyc_sbc_indirect_y B c
  · exact absurd (by decide) hnj
  · exact Option.some.inj ((exec_eq_xF3 B c).symm.trans h) ▸ cyc_isc_indirect_y B c
  · exact Option.some.inj ((exec_eq_xF4 B c).symm.trans h) ▸ cyc_nop_zeropage_x B c
  · exact Option.some.inj ((exec_eq_xF5 B c).symm.trans h) ▸ cyc_sbc_zeropage_x B c
  · exact Option.some.inj ((exec_eq_xF6 B c).symm.trans h) ▸ cyc_inc_zeropage_x B c
  · exact Option.some.inj ((exec_eq_xF7 B c).symm.trans h) ▸ cyc_isc_zeropage_x B c
  · exact Option.some.inj ((exec_eq_xF8 B c).symm.trans h) ▸ cyc_sed c
  · exact Option.some.inj ((exec_eq_xF9 B c).symm.trans h) ▸ cyc_sbc_absolute_y B c
  · exact Option.some.inj ((exec_eq_xFA B c).symm.trans h) ▸ cyc_nop_implied c
  · exact Option.some.inj ((exec_eq_xFB B c).symm.trans h) ▸ cyc_isc_absolute_y B c
  · exact Option.some.inj ((exec_eq_xFC B c).symm.trans h) ▸ cyc_nop_absolute_x B c
  · exact Option.some.inj ((exec_eq_xFD B c).symm.trans h) ▸ cyc_sbc_absolute_x B c
  · exact Option.some.inj ((exec_eq_xFE B c).symm.trans h) ▸ cyc_inc_absolute_x B c
  · exact Option.some.inj ((exec_eq_xFF B c).symm.trans h) ▸ cyc_isc_absolute_x B c

/-- Every implemented non-JAM opcode executed by execute_opcode strictly increases
the CPU cycle counter (opcodes are u8 values, below 256). -/
theorem execute_opcode_cycles_lt {σ : Type} (B : BusIf σ) (op : Nat) (c c' : CPU σ)
    (hb : op < 256) (hnj : op ∉ jamOpcodes) (h : CPU.execute_opcode B op c = some c') :
    c.cycles < c'.cycles := by
  rcases Nat.lt_or_ge op 0x10 with hk1 | hk1
  · exact exec_cyc_0 B op c c' (by omega) hk1 hnj h
  rcases Nat.lt_or_ge op 0x20 with hk2 | hk2
  · exact exec_cyc_1 B op c c' hk1 hk2 hnj h
  rcases Nat.lt_or_ge op 0x30 with hk3 | hk3
  · exact exec_cyc_2 B op c c' hk2 hk3 hnj h
  rcases Nat.lt_or_ge op 0x40 with hk4 | hk4
  · exact exec_cyc_3 B op c c' hk3 hk4 hnj h
  rcases Nat.lt_or_ge op 0x50 with hk5 | hk5
  · exact exec_cyc_4 B op c c' hk4 hk5 hnj h
  rcases Nat.lt_or_ge op 0x60 with hk6 | hk6
  · exact exec_cyc_5 B op c c' hk5 hk6 hnj h
  rcases Nat.lt_or_ge op 0x70 with hk7 | hk7
  · exact exec_cyc_6 B op c c' hk6 hk7 hnj h
  rcases Nat.lt_or_ge op 0x80 with hk8 | hk8
  · exact exec_cyc_7 B op c c' hk7 hk8 hnj h
  rcases Nat.lt_or_ge op 0x90 with hk9 | hk9
  · exact exec_cyc_8 B op c c' hk8 hk9 hnj h
  rcases Nat.lt_or_ge op 0xA0 with hk10 | hk10
  · exact exec_cyc_9 B op c c' hk9 hk10 hnj h
  rcases Nat.lt_or_ge op 0xB0 with hk11 | hk11
  · exact exec_cyc_A B op c c' hk10 hk11 hnj h
  rcases Nat.lt_or_ge op 0xC0 with hk12 | hk12
  · exact exec_cyc_B B op c c' hk11 hk12 hnj h
  rcases Nat.lt_or_ge op 0xD0 with hk13 | hk13
  · exact exec_cyc_C B op c c' hk12 hk13 hnj h
  rcases Nat.lt_or_ge op 0xE0 with hk14 | hk14
  · exact exec_cyc_D B op c c' hk13 hk14 hnj h
  rcases Nat.lt_or_ge op 0xF0 with hk15 | hk15
  · exact exec_cyc_E B op c c' hk14 hk15 hnj h
  exact exec_cyc_F B op c c' hk15 hb hnj h

/-- Every JAM opcode halts the CPU and leaves the cycle counter unchanged. -/
theorem execute_opcode_jam {σ : Type} (B : BusIf σ) (op : Nat) (c : CPU σ)
    (hj : op ∈ jamOpcodes) :
    CPU.execute_opcode B op c = some (CPU.jam c)
      ∧ (CPU.jam c).cycles = c.cycles ∧ (CPU.jam c).halted = true := by
  fin_cases hj
  · exact ⟨exec_eq_x02 B c, rfl, rfl⟩
  · exact ⟨exec_eq_x12 B c, rfl, rfl⟩
  · exact ⟨exec_eq_x22 B c, rfl, rfl⟩
  · exact ⟨exec_eq_x32 B c, rfl, rfl⟩
  · exact ⟨exec_eq_x42 B c, rfl, rfl⟩
  · exact ⟨exec_eq_x52 B c, rfl, rfl⟩
  · exact ⟨exec_eq_x62 B c, rfl, rfl⟩
  · exact ⟨exec_eq_x72 B c, rfl, rfl⟩
  · exact ⟨exec_eq_x92 B c, rfl, rfl⟩
  · exact ⟨exec_eq_xB2 B c, rfl, rfl⟩
  · exact ⟨exec_eq_xD2 B c, rfl, rfl⟩
  · exact ⟨exec_eq_xF2 B c, rfl, rfl⟩

/-! ## Claim theorems -/

/-- C3: code bug — a PPUDATA ($2007) read with the VRAM address in $0000–$3EFF
returns the byte at that address immediately; the PPU state has no 1-byte read
buffer at all.  On a fresh PPU with addr = $2000 and nametable byte 0 = $AB, the
very first $2007 read already yields $AB (and increments the address), whereas a
buffered latch would have to return the stale buffer contents (0) first. -/
theorem C3_read_data_unbuffered :
    (PPU.read_data ppuNt cartNop).1 = 0xAB
      ∧ ((PPU.read_data ppuNt cartNop).2.1).addr = 0x2001 := by
  exact ⟨rfl, rfl⟩

/-- C4 counterexample: the claim maps $3F14 to the palette cell of $3F04, but
PPU::palette_index collapses $3F14 to cell 0 while $3F04 stays cell 4, so the two
addresses do not alias. -/
theorem C4_counterexample :
    PPU.palette_index 0x3F14 = 0 ∧ PPU.palette_index 0x3F04 = 4
      ∧ PPU.palette_index 0x3F14 ≠ PPU.palette_index 0x3F04 := by
  exact ⟨rfl, rfl, by decide⟩

/-- C4 (amended): every address in {$3F10, $3F14, $3F18, $3F1C} is collapsed by
PPU::palette_index to cell 0 — the cell of $3F00, not of A − $0010.  Consequently a
$2007 read at such an address returns palette cell 0, and a $2007 write at such an
address stores (data & $3F) into palette cell 0. -/
theorem C4_palette_mirrors (p : PPU) (cart : Cart) (data A : Nat)
    (hA : A = 0x3F10 ∨ A = 0x3F14 ∨ A = 0x3F18 ∨ A = 0x3F1C)
    (hp : p.addr = A) :
    PPU.palette_index A = PPU.palette_index 0x3F00
      ∧ (p.read_data cart).1 = p.palette 0
      ∧ ((p.write_data cart data).1).palette = setFn p.palette 0 (data &&& 0x3F) := by
  rcases hA with rfl | rfl | rfl | rfl
  · refine ⟨by decide, ?_, ?_⟩ <;>
      simp [PPU.read_data, PPU.write_data, hp,
        show (0x3F10 : Nat) &&& 0x3FFF = 0x3F10 from by decide,
        show PPU.palette_index 0x3F10 = 0 from by decide]
  · refine ⟨by decide, ?_, ?_⟩ <;>
      simp [PPU.read_data, PPU.write_data, hp,
        show (0x3F14 : Nat) &&& 0x3FFF = 0x3F14 from by decide,
        show PPU.palette_index 0x3F14 = 0 from by decide]
  · refine ⟨by decide, ?_, ?_⟩ <;>
      simp [PPU.read_data, PPU.write_data, hp,
        show (0x3F18 : Nat) &&& 0x3FFF = 0x3F18 from by decide,
        show PPU.palette_index 0x3F18 = 0 from by decide]
  · refine ⟨by decide, ?_, ?_⟩ <;>
      simp [PPU.read_data, PPU.write_data, hp,
        show (0x3F1C : Nat) &&& 0x3FFF = 0x3F1C from by decide,
        show PPU.palette_index 0x3F1C = 0 from by decide]

/-- C4 witness: the amended mirror fact evaluated at A = $3F14 on a concrete PPU. -/
theorem C4_palette_mirrors_witness :
    PPU.palette_index 0x3F14 = PPU.palette_index 0x3F00
      ∧ (ppuPal.read_data cartNop).1 = ppuPal.palette 0
      ∧ ((ppuPal.write_data cartNop 0x2A).1).palette
          = setFn ppuPal.palette 0 (0x2A &&& 0x3F) :=
  C4_palette_mirrors ppuPal cartNop 0x2A 0x3F14 (Or.inr (Or.inl rfl)) rfl

/-- C9: reading PPUSTATUS ($2002) returns the byte assembled from the pre-read
vblank, sprite-0-hit and sprite-overflow flags, and the resulting PPU state has the
vblank flag, the pending NMI line, both sprite flags and both write latches
cleared, everything else unchanged. -/
theorem C9_read_status (p : PPU) :
    (p.read_status).1 =
      ((if p.vblank then 0x80 else 0) ||| (if p.sprite_0_hit then 0x40 else 0)
        ||| (if p.sprite_overflow then 0x20 else 0))
      ∧ (p.read_status).2 =
        { p with vblank := false, nmi := false, sprite_0_hit := false,
                 sprite_overflow := false, addr_latch := false, scroll_latch := false } := by
  constructor
  · cases hv : p.vblank <;> cases h0 : p.sprite_0_hit <;> cases ho : p.sprite_overflow <;>
      simp [PPU.read_status, hv, h0, ho]
  · rfl

/-- C10: reading APU status ($4015) clears the frame-IRQ and DMC-IRQ flags (the
resulting status is the old one masked with $3F) and returns the pre-clear IRQ bits
(status & $C0) together with the four length-counter bits and the DMC-active
bit. -/
theorem C10_read_status_4015 (a : APU) :
    ((a.read_status).2).status = a.status &&& 0x3F
      ∧ (a.read_status).1 =
        ((((a.status &&& 0xC0)
          ||| (if a.pulse1.length_counter > 0 then 0x01 else 0))
          ||| (if a.pulse2.length_counter > 0 then 0x02 else 0))
          ||| (if a.triangle.length_counter > 0 then 0x04 else 0))
          ||| (if a.noise.length_counter > 0 then 0x08 else 0)
          ||| (if a.dmc.has_bytes_remaining then 0x10 else 0) := by
  constructor
  · rfl
  · simp only [APU.read_status]
    split_ifs <;> simp [Nat.or_zero]

/-- Reading $4016 returns `(shift & 1) | 0x40` and shifts the controller register
right by one; nothing else of the bus changes. -/
theorem nesBus_read_4016 (s : NesBus) :
    s.read 0x4016
      = (((s.controller.shift &&& 1) ||| 0x40),
         { s with controller := { s.controller with shift := s.controller.shift >>> 1 } }) := rfl

/-- C8: for every button mask m in the controller, the strobe sequence — write 1 to
$4016, write 0 to $4016, then eight reads of $4016 — returns the bytes
((m >>> i) & 1) | $40 for i = 0..7 (A, B, Select, Start, Up, Down, Left, Right in
order), each read shifting the register right once. -/
theorem C8_controller_strobe (s : NesBus) (m : Nat)
    (hm : s.controller.state = m) :
    (read4016_list ((s.write 0x4016 1).write 0x4016 0) 8).1
      = [((m >>> 0) &&& 1) ||| 0x40, ((m >>> 1) &&& 1) ||| 0x40,
         ((m >>> 2) &&& 1) ||| 0x40, ((m >>> 3) &&& 1) ||| 0x40,
         ((m >>> 4) &&& 1) ||| 0x40, ((m >>> 5) &&& 1) ||| 0x40,
         ((m >>> 6) &&& 1) ||| 0x40, ((m >>> 7) &&& 1) ||| 0x40]
      ∧ ((read4016_list ((s.write 0x4016 1).write 0x4016 0) 8).2).controller.shift
          = m >>> 8 := by
  subst hm
  exact ⟨rfl, rfl⟩

/-- C8 witness: the strobe sequence evaluated on a controller holding $A5. -/
theorem C8_controller_strobe_witness :
    (read4016_list ((busPad.write 0x4016 1).write 0x4016 0) 8).1
      = [0x41, 0x40, 0x41, 0x40, 0x40, 0x41, 0x40, 0x41]
      ∧ ((read4016_list ((busPad.write 0x4016 1).write 0x4016 0) 8).2).controller.shift
          = 0 := by
  have h := C8_controller_strobe busPad 0xA5 rfl
  simpa using h

/-- C7 counterexample: five writes of data 1 to $A000 latch nothing at all (the
mapper returns to its initial state — there is no CHR0 register), and five writes of
data 1 to $E000 set the PRG bank to $0F, not to the claimed 5-bit value $1F. -/
theorem C7_counterexample :
    (((((m1W.write 0xA000 1).write 0xA000 1).write 0xA000 1).write 0xA000 1).write 0xA000 1)
        = m1W
      ∧ (((((m1W.write 0xE000 1).write 0xE000 1).write 0xE000 1).write 0xE000 1).write
          0xE000 1).prg_bank = 0x0F := by
  exact ⟨rfl, rfl⟩

/-- A non-fifth MMC1 write with bit 7 clear only shifts the data bit into the
shift register (LSB first) and bumps the count. -/
theorem mapper1_write_shift (m : Mapper1) (addr data : Nat) (hd : data &&& 0x80 = 0)
    (hcnt : m.shift_count < 4) :
    m.write addr data
      = { m with shift_reg := (m.shift_reg >>> 1) ||| ((data &&& 1) <<< 4),
                 shift_count := m.shift_count + 1 } := by
  unfold Mapper1.write
  rw [if_neg (by omega)]
  simp only [Nat.add_lt_add_iff_right]
  rw [if_pos (by omega)]

/-- The fifth MMC1 write with bit 7 clear latches the completed shift register to
control or the PRG bank by the write address, then clears the register and count. -/
theorem mapper1_write_fifth (m : Mapper1) (addr data : Nat) (hd : data &&& 0x80 = 0)
    (hcnt : m.shift_count = 4) :
    m.write addr data
      = { m with
          shift_reg := 0, shift_count := 0,
          control := (if 0x8000 ≤ addr ∧ addr ≤ 0x9FFF
            then ((m.shift_reg >>> 1) ||| ((data &&& 1) <<< 4)) &&& 0x1F
            else m.control),
          prg_bank := (if 0xE000 ≤ addr ∧ addr ≤ 0xFFFF
            then ((m.shift_reg >>> 1) ||| ((data &&& 1) <<< 4)) &&& 0x0F
            else m.prg_bank) } := by
  unfold Mapper1.write
  rw [if_neg (by omega), hcnt]
  simp only [Nat.reduceAdd, Nat.reduceLT, if_false]
  split_ifs <;> first | rfl | (exfalso; omega)

/-- C7 (amended): starting from a cleared shift register, five MMC1 writes with bit
7 clear accumulate the five data bits LSB-first; after the fifth write the shift
register and count are cleared, and the accumulated value v is latched only when the
fifth address selects control ($8000–$9FFF, v & $1F) or the PRG bank ($E000–$FFFF,
v & $0F) — a fifth address in $A000–$DFFF latches nothing, as the CHR0/CHR1 arms are
absent from the source. -/
theorem C7_mmc1_latch (m : Mapper1) (a1 a2 a3 a4 a5 d1 d2 d3 d4 d5 : Nat)
    (hs : m.shift_reg = 0) (hc : m.shift_count = 0)
    (hd1 : d1 &&& 0x80 = 0) (hd2 : d2 &&& 0x80 = 0) (hd3 : d3 &&& 0x80 = 0)
    (hd4 : d4 &&& 0x80 = 0) (hd5 : d5 &&& 0x80 = 0) :
    ((((m.write a1 d1).write a2 d2).write a3 d3).write a4 d4).write a5 d5
      = { m with
          shift_reg := 0, shift_count := 0,
          control :=
            if 0x8000 ≤ a5 ∧ a5 ≤ 0x9FFF
            then (((((d1 &&& 1) ||| ((d2 &&& 1) <<< 1)) ||| ((d3 &&& 1) <<< 2))
                    ||| ((d4 &&& 1) <<< 3)) ||| ((d5 &&& 1) <<< 4)) &&& 0x1F
            else m.control,
          prg_bank :=
            if 0xE000 ≤ a5 ∧ a5 ≤ 0xFFFF
            then (((((d1 &&& 1) ||| ((d2 &&& 1) <<< 1)) ||| ((d3 &&& 1) <<< 2))
                    ||| ((d4 &&& 1) <<< 3)) ||| ((d5 &&& 1) <<< 4)) &&& 0x0F
            else m.prg_bank } := by
  have b1 : d1 &&& 1 = 0 ∨ d1 &&& 1 = 1 := by have : d1 &&& 1 ≤ 1 := Nat.and_le_right; omega
  have b2 : d2 &&& 1 = 0 ∨ d2 &&& 1 = 1 := by have : d2 &&& 1 ≤ 1 := Nat.and_le_right; omega
  have b3 : d3 &&& 1 = 0 ∨ d3 &&& 1 = 1 := by have : d3 &&& 1 ≤ 1 := Nat.and_le_right; omega
  have b4 : d4 &&& 1 = 0 ∨ d4 &&& 1 = 1 := by have : d4 &&& 1 ≤ 1 := Nat.and_le_right; omega
  have b5 : d5 &&& 1 = 0 ∨ d5 &&& 1 = 1 := by have : d5 &&& 1 ≤ 1 := Nat.and_le_right; omega
  have hv : ((((((((((0:Nat) >>> 1) ||| ((d1 &&& 1) <<< 4)) >>> 1) ||| ((d2 &&& 1) <<< 4))
        >>> 1) ||| ((d3 &&& 1) <<< 4)) >>> 1) ||| ((d4 &&& 1) <<< 4)) >>> 1)
        ||| ((d5 &&& 1) <<< 4)
      = ((((d1 &&& 1) ||| ((d2 &&& 1) <<< 1)) ||| ((d3 &&& 1) <<< 2))
          ||| ((d4 &&& 1) <<< 3)) ||| ((d5 &&& 1) <<< 4) := by
    rcases b1 with e1 | e1 <;> rcases b2 with e2 | e2 <;> rcases b3 with e3 | e3 <;>
      rcases b4 with e4 | e4 <;> rcases b5 with e5 | e5 <;>
      rw [e1, e2, e3, e4, e5] <;> decide
  rw [mapper1_write_shift m a1 d1 hd1 (by omega)]
  rw [mapper1_write_shift _ a2 d2 hd2 (by simp; omega)]
  rw [mapper1_write_shift _ a3 d3 hd3 (by simp; omega)]
  rw [mapper1_write_shift _ a4 d4 hd4 (by simp; omega)]
  rw [mapper1_write_fifth _ a5 d5 hd5 (by simp [hc])]
  simp only [Mapper1.mk.injEq]
  rw [hs, hv]
  simp

/-- C7 witness: the amended latch law evaluated at five writes of 1 to $E000 on a
power-on MMC1. -/
theorem C7_mmc1_latch_witness :
    ((((m1W.write 0xE000 1).write 0xE000 1).write 0xE000 1).write 0xE000 1).write 0xE000 1
      = { m1W with shift_reg := 0, shift_count := 0, control := 0x0C, prg_bank := 0x0F } := by
  have h := C7_mmc1_latch m1W 0xE000 0xE000 0xE000 0xE000 0xE000 1 1 1 1 1
    rfl rfl (by decide) (by decide) (by decide) (by decide) (by decide)
  simpa using h

/-- APU::clock_quarter_frame leaves the frame-counter cycle unchanged. -/
theorem APU.clock_quarter_frame_frame_cycle (a : APU) :
    (a.clock_quarter_frame).frame_cycle = a.frame_cycle := rfl

/-- APU::clock_half_frame leaves the frame-counter cycle unchanged. -/
theorem APU.clock_half_frame_frame_cycle (a : APU) :
    (a.clock_half_frame).frame_cycle = a.frame_cycle := rfl

/-- APU::clock_half_frame leaves the frame-IRQ-inhibit flag unchanged. -/
theorem APU.clock_half_frame_frame_irq_inhibit (a : APU) :
    (a.clock_half_frame).frame_irq_inhibit = a.frame_irq_inhibit := rfl

/-- C6 counterexample: at frame-counter value 29829 (the value APU::tick's per-cycle
loop matches on after incrementing), the sequencer sets the frame-IRQ flag and
clocks only a half frame — the pending pulse-1 envelope restart is still pending
afterwards, while an actual quarter-frame clock (last conjunct) would have consumed
it. -/
theorem C6_counterexample :
    (apu29829.frame_seq).pulse1.envelope_start = true
      ∧ (apu29829.frame_seq).status &&& 0x40 = 0x40
      ∧ (apu29829.frame_seq).frame_cycle = 29829
      ∧ (apu29829.clock_quarter_frame).pulse1.envelope_start = false := by
  exact ⟨rfl, rfl, rfl, rfl⟩

/-- C6 (amended): in 4-step mode the frame sequencer clocks a quarter frame alone at
cycles 7457 and 22371, a quarter frame then a half frame at 14913, and at 29829 only
a half frame plus the frame-IRQ flag (unless inhibited) — no quarter frame. -/
theorem C6_frame_counter (a : APU) (h4 : a.frame_4step = true) :
    (a.frame_cycle = 7457 → a.frame_seq = a.clock_quarter_frame)
      ∧ (a.frame_cycle = 14913 → a.frame_seq = (a.clock_quarter_frame).clock_half_frame)
      ∧ (a.frame_cycle = 22371 → a.frame_seq = a.clock_quarter_frame)
      ∧ (a.frame_cycle = 29829 →
          a.frame_seq
            = (if ¬a.frame_irq_inhibit
               then { a.clock_half_frame with status := (a.clock_half_frame).status ||| 0x40 }
               else a.clock_half_frame)) := by
  refine ⟨fun h => ?_, fun h => ?_, fun h => ?_, fun h => ?_⟩
  · simp [APU.frame_seq, h4, h, FRAME_4STEP_RESET, APU.clock_quarter_frame_frame_cycle]
  · simp [APU.frame_seq, h4, h, FRAME_4STEP_RESET, APU.clock_quarter_frame_frame_cycle,
      APU.clock_half_frame_frame_cycle]
  · simp [APU.frame_seq, h4, h, FRAME_4STEP_RESET, APU.clock_quarter_frame_frame_cycle]
  · by_cases hi : a.frame_irq_inhibit <;>
      simp [APU.frame_seq, h4, h, FRAME_4STEP_RESET, APU.clock_half_frame_frame_cycle,
        APU.clock_half_frame_frame_irq_inhibit, hi]

/-- C6 witness: the quarter-frame clock at cycle 7457, evaluated on a concrete
4-step APU. -/
theorem C6_frame_counter_witness :
    apu7457.frame_seq = apu7457.clock_quarter_frame :=
  (C6_frame_counter apu7457 rfl).1 rfl

/-- A left fold of a constant function over `List.range n` is an n-fold iterate:
the PPU-dot loop of Bus::tick. -/
theorem foldl_ppu_dot_iterate : ∀ (n : Nat) (s : NesBus),
    (List.range n).foldl (fun t _ => t.ppu_dot) s = NesBus.ppu_dot^[n] s := by
  intro n
  induction n with
  | zero => intro s; rfl
  | succ k ih =>
    intro s
    rw [List.range_succ, List.foldl_append, ih, List.foldl_cons, List.foldl_nil,
        Function.iterate_succ_apply']

/-- A left fold of a constant function over `List.range n` is an n-fold iterate:
the per-cycle loop of APU::tick. -/
theorem foldl_tick_one_iterate : ∀ (n : Nat) (a : APU),
    (List.range n).foldl (fun x _ => x.tick_one) a = APU.tick_one^[n] a := by
  intro n
  induction n with
  | zero => intro a; rfl
  | succ k ih =>
    intro a
    rw [List.range_succ, List.foldl_append, ih, List.foldl_cons, List.foldl_nil,
        Function.iterate_succ_apply']

/-- Bus::tick(N) is exactly N APU cycles followed by N*3 PPU dots. -/
theorem nesBus_tick_iterate (s : NesBus) (n : Nat) :
    NesBus.tick s n = NesBus.ppu_dot^[n * 3] { s with apu := APU.tick_one^[n] s.apu } := by
  simp only [NesBus.tick, APU.tick]
  rw [foldl_ppu_dot_iterate, foldl_tick_one_iterate]

/-- Reading back cell i of the OAM DMA fold: the fold writes g j at every index j. -/
theorem foldl_setFn_get : ∀ (n : Nat) (g : Nat → Nat) (oam : Nat → Nat) (i : Nat), i < n →
    ((List.range n).foldl (fun o j => setFn o j (g j)) oam) i = g i := by
  intro n
  induction n with
  | zero => intro g oam i hi; exact absurd hi (by omega)
  | succ k ih =>
    intro g oam i hi
    rw [List.range_succ, List.foldl_append, List.foldl_cons, List.foldl_nil]
    by_cases h : i = k
    · subst h; simp [setFn]
    · simp only [setFn]
      rw [if_neg h]
      exact ih g oam i (by omega)

/-- C5 counterexample: `STA $4014` with A = 2 from an even cycle count (8) completes
in 4 cycles — 12 ≠ 8 + 513 — yet the DMA has already happened: OAM byte 0 holds the
$77 that RAM page 2 held.  The CPU is never stalled for 513/514 cycles. -/
theorem C5_counterexample :
    (stepNes cpuDma).isSome = true
      ∧ ((stepNes cpuDma).getD cpuDma).cycles = 12
      ∧ ((stepNes cpuDma).getD cpuDma).pc = 3
      ∧ ((stepNes cpuDma).getD cpuDma).bus.ppu.oam 0 = 0x77 := by
  exact ⟨rfl, rfl, rfl, rfl⟩

/-- C5 (amended): a CPU write to $4014 performs the whole 256-byte OAM DMA
immediately inside Bus::write — OAM byte i becomes RAM[((page << 8) mod 2048 + i)
mod 2048] — and nothing else of the bus changes; no stall cycles are inserted. -/
theorem C5_oam_dma (s : NesBus) (page i : Nat) (hi : i < 256) :
    NesBus.write s 0x4014 page = { s with ppu := s.ppu.oam_dma s.ram page }
      ∧ (s.ppu.oam_dma s.ram page).oam i
          = s.ram ((u16 (page <<< 8) % 2048 + i) % 2048) := by
  refine ⟨rfl, ?_⟩
  simp only [PPU.oam_dma]
  exact foldl_setFn_get 256 _ _ i hi

/-- C5 witness: the DMA write evaluated at page 2, cell 0, on the DMA fixture bus. -/
theorem C5_oam_dma_witness :
    NesBus.write cpuDma.bus 0x4014 2
        = { cpuDma.bus with ppu := cpuDma.bus.ppu.oam_dma cpuDma.bus.ram 2 }
      ∧ (cpuDma.bus.ppu.oam_dma cpuDma.bus.ram 2).oam 0 = 0x77 := by
  have h := C5_oam_dma cpuDma.bus 2 0 (by omega)
  refine ⟨h.1, ?_⟩
  rw [h.2]
  rfl

/-- C2: code bug — CPU::step never polls an IRQ line: the Bus trait exposes only
poll_nmi, and CPU::irq is dead code.  With the APU frame-IRQ flag asserted (bit 6 of
the APU status) and the I flag clear, stepping executes the NOP at PC normally —
PC advances to 1, SP stays $FD, 2 cycles elapse, the status byte is untouched —
instead of pushing PC and P and vectoring through $FFFE/$FFFF as CPU::irq (last two
conjuncts) would. -/
theorem C2_no_irq_poll :
    cpuIrq.status &&& FLAG_INTERRUPT_DISABLE = 0
      ∧ cpuIrq.bus.apu.status &&& 0x40 = 0x40
      ∧ (stepNes cpuIrq).isSome = true
      ∧ ((stepNes cpuIrq).getD cpuIrq).pc = 1
      ∧ ((stepNes cpuIrq).getD cpuIrq).sp = 0xFD
      ∧ ((stepNes cpuIrq).getD cpuIrq).cycles = 9
      ∧ ((stepNes cpuIrq).getD cpuIrq).status = 0x20
      ∧ (CPU.irq NesBusIf cpuIrq).sp = 0xFA
      ∧ (CPU.irq NesBusIf cpuIrq).cycles = 14 := by
  exact ⟨rfl, rfl, rfl, rfl, rfl, rfl, rfl, rfl, rfl⟩

/-- C1 counterexample: stepping the JAM opcode $02 leaves the cycle counter exactly
where it was (the twelve JAM handlers add no cycles), so CPU cycles do not strictly
increase across every instruction. -/
theorem C1_counterexample :
    (stepNes cpuJam).isSome = true
      ∧ ((stepNes cpuJam).getD cpuJam).cycles = cpuJam.cycles
      ∧ ((stepNes cpuJam).getD cpuJam).halted = true := by
  exact ⟨rfl, rfl, rfl⟩

/-- CPU::step on a non-halted CPU, written without its lets: dispatch on the fetched
opcode after the NMI poll, then tick the bus with the cycle delta. -/
theorem CPU.step_not_halted {σ : Type} (B : BusIf σ) (c : CPU σ) (hh : c.halted = false) :
    CPU.step B c
      = match CPU.execute_opcode B (CPU.fetch_byte B (CPU.step_poll_nmi B c)).1
              (CPU.fetch_byte B (CPU.step_poll_nmi B c)).2 with
        | none => none
        | some c1 => some { c1 with bus := B.tick c1.bus (c1.cycles - (CPU.fetch_byte B (CPU.step_poll_nmi B c)).2.cycles) } := by
  unfold CPU.step
  rw [hh]
  rfl

/-- The NMI-poll prologue never decreases the cycle counter (NMI service adds 7). -/
theorem CPU.step_poll_nmi_cycles_ge {σ : Type} (B : BusIf σ) (c : CPU σ) :
    c.cycles ≤ (CPU.step_poll_nmi B c).cycles := by
  simp only [CPU.step_poll_nmi]
  split
  · simp [CPU.nmi]
  · simp

/-- C1 (amended): when a non-halted CPU steps successfully, the executed handler's
state ce is final except that the bus is ticked with exactly the instruction's cycle
delta (ce.cycles minus the post-poll, post-fetch count); Bus::tick(N) on the NES bus
is exactly N APU cycles and N*3 PPU dots; and the cycle counter strictly increases
whenever the fetched opcode is not one of the twelve JAM opcodes (which add no
cycles). -/
theorem C1_step_tick_cycles {σ : Type} (B : BusIf σ) (c c' : CPU σ)
    (hh : c.halted = false)
    (hb : (CPU.fetch_byte B (CPU.step_poll_nmi B c)).1 < 256)
    (hs : CPU.step B c = some c') :
    (∃ ce, CPU.execute_opcode B (CPU.fetch_byte B (CPU.step_poll_nmi B c)).1
             (CPU.fetch_byte B (CPU.step_poll_nmi B c)).2 = some ce
       ∧ c' = { ce with bus := B.tick ce.bus (ce.cycles - (CPU.fetch_byte B (CPU.step_poll_nmi B c)).2.cycles) }
       ∧ ((CPU.fetch_byte B (CPU.step_poll_nmi B c)).1 ∉ jamOpcodes →
            c.cycles < c'.cycles))
    ∧ (∀ (s : NesBus) (n : Nat),
         NesBus.tick s n
           = NesBus.ppu_dot^[n * 3] { s with apu := APU.tick_one^[n] s.apu }) := by
  refine ⟨?_, fun s n => nesBus_tick_iterate s n⟩
  rw [CPU.step_not_halted B c hh] at hs
  rcases hx : CPU.execute_opcode B (CPU.fetch_byte B (CPU.step_poll_nmi B c)).1
      (CPU.fetch_byte B (CPU.step_poll_nmi B c)).2 with _ | ce
  · rw [hx] at hs
    exact Option.noConfusion hs
  · rw [hx] at hs
    injection hs with hs
    refine ⟨ce, rfl, hs.symm, fun hnj => ?_⟩
    have h1 := execute_opcode_cycles_lt B _ _ _ hb hnj hx
    have h2 := CPU.step_poll_nmi_cycles_ge B c
    have h3 : c'.cycles = ce.cycles := by rw [← hs]
    simp only [CPU.fetch_byte_cycles] at h1
    omega

/-- C1 witness: a NOP step from the NOP fixture strictly increases the cycle
counter. -/
theorem C1_step_tick_cycles_witness :
    cpuNop.cycles < ((stepNes cpuNop).getD cpuNop).cycles := by
  have h := C1_step_tick_cycles NesBusIf cpuNop ((stepNes cpuNop).getD cpuNop) rfl
    (by decide) rfl
  obtain ⟨ce, hx, hc, hlt⟩ := h.1
  exact hlt (by decide)

end Elaris
